import Mathlib

/-!
# Headless EverQuest client: zone protocol driver and position codec

A shallow embedding of `hc/eq.cpp` and `hc/eq.h` (class `EverQuest`).

Conventions of the embedding.

* A packet is the list of its bytes. Unsigned machine integers are naturals
  reduced modulo `2 ^ w` where the source truncates; `int32_t` values are
  integers obtained from the 32-bit pattern by `toInt32`.
* A `float` is modelled by the rational number it denotes. Every float
  operation of the decoding path (`int -> float` of a value below `2 ^ 24`,
  division by `8.0f` or `4096.0f`, product with `360.0f` below `2 ^ 24`) is
  exact in binary32, so nothing is lost there. NaNs and infinities have no
  counterpart in the model. The rounding of inexact float operations is
  modelled where a comparison decides on the result, in `FixZ` (`f32Round`),
  and not elsewhere.
* Console output (`std::cout`, `DumpPacket`) and reads made only to feed it are
  left out; the debug level is the source default `s_debug_level = 0`.
* The zone session's outgoing queue is a list kept in the state:
  `QueuePacket` appends to it.
-/

namespace HC

/-! ## Packets and the wire codec -/

/-- A frame as a list of bytes (each entry is read modulo 256). -/
abbrev Packet := List Nat

/-- Modelled from the spec: `EQ::Net::Packet::Length` (declared in
`common/net/packet.h`, outside `hc/`): the number of bytes of the frame. -/
def Length (p : Packet) : Nat := p.length

/-- Modelled from the spec: `EQ::Net::Packet::GetUInt8`, the byte at an offset;
a read past the end of the frame fails. -/
def GetUInt8 (p : Packet) (off : Nat) : Option Nat :=
  match p[off]? with
  | some b => some (b % 256)
  | none => none

/-- Modelled from the spec: `EQ::Net::Packet::GetUInt16`, little-endian; a read
past the end of the frame fails. -/
def GetUInt16 (p : Packet) (off : Nat) : Option Nat :=
  match GetUInt8 p off, GetUInt8 p (off + 1) with
  | some b0, some b1 => some (b0 + 256 * b1)
  | _, _ => none

/-- Modelled from the spec: `EQ::Net::Packet::GetUInt32`, little-endian; a read
past the end of the frame fails. -/
def GetUInt32 (p : Packet) (off : Nat) : Option Nat :=
  match GetUInt8 p off, GetUInt8 p (off + 1), GetUInt8 p (off + 2), GetUInt8 p (off + 3) with
  | some b0, some b1, some b2, some b3 => some (b0 + 256 * b1 + 65536 * b2 + 16777216 * b3)
  | _, _, _, _ => none

/-- Modelled from the spec: the value of `EQ::Net::Packet::GetCString`, the
bytes from an offset up to (not including) the first zero byte. It is used as
it is where the handler has checked that the offset lies inside the frame; a
string that no zero byte ends inside the frame is then read up to the end of
the frame. -/
def GetCString (p : Packet) (off : Nat) : List Nat :=
  ((p.drop off).map (fun b => b % 256)).takeWhile (fun b => b != 0)

/-- Modelled from the spec: `EQ::Net::Packet::GetCString` with its failure: a
read past the end of the frame fails, so the read succeeds only when a zero
byte ends the string inside the frame (an offset at or past the end of the
frame leaves no such byte). -/
def GetCStringChecked (p : Packet) (off : Nat) : Option (List Nat) :=
  if 0 ∈ (p.drop off).map (fun b => b % 256) then some (GetCString p off) else none

/-- The value of a binary32 bit pattern: sign bit 31, biased exponent in bits
23-30, fraction in bits 0-22. Patterns with exponent 255 (infinities and NaNs)
denote no rational; the normal-number formula is extended to them. -/
def f32OfBits (w : Nat) : ℚ :=
  let e : Nat := w / 2 ^ 23 % 256
  let m : Nat := w % 2 ^ 23
  let mag : ℚ :=
    if e = 0 then (m : ℚ) * (2 : ℚ) ^ (-149 : ℤ)
    else ((2 ^ 23 + m : ℕ) : ℚ) * (2 : ℚ) ^ ((e : ℤ) - 150)
  if w / 2 ^ 31 % 2 = 1 then -mag else mag

/-- The binary32 bit pattern of a rational: sign, biased exponent and 23
fraction bits. A value that is not a binary32 number is truncated toward zero
to one; magnitudes of `2 ^ 128` and more give the pattern of infinity. -/
def f32Bits (q : ℚ) : Nat :=
  if q = 0 then 0
  else
    let a : ℚ := |q|
    let sgn : Nat := if q < 0 then 2 ^ 31 else 0
    let e : ℤ := Int.log 2 a
    if e < -126 then sgn + ⌊a * (2 : ℚ) ^ (149 : ℤ)⌋₊
    else if 127 < e then sgn + 255 * 2 ^ 23
    else sgn + (e + 127).toNat * 2 ^ 23 + (⌊a * (2 : ℚ) ^ (23 - e)⌋₊ - 2 ^ 23)

/-- Rounding a rational to the nearest integer, a tie to the even one. -/
def roundHalfEven (r : ℚ) : ℤ :=
  if r - ⌊r⌋ < 1 / 2 then ⌊r⌋
  else if 1 / 2 < r - ⌊r⌋ then ⌊r⌋ + 1
  else if ⌊r⌋ % 2 = 0 then ⌊r⌋ else ⌊r⌋ + 1

/-- The binary32 number nearest to a rational, a tie to the one with the even
fraction: the result of a `float` operation `+`, `-` or `*` whose exact result
is the rational, and the value of a `float` literal. A magnitude in
`[2 ^ e, 2 ^ (e + 1))` is rounded to a multiple of `2 ^ (e - 23)`, one below
`2 ^ -126` to a multiple of `2 ^ -149`. Magnitudes past the largest binary32
number, which round to an infinity, are not cut off. -/
def f32Round (q : ℚ) : ℚ :=
  if q = 0 then 0
  else
    let e : ℤ := max (Int.log 2 |q|) (-126)
    (roundHalfEven (q / (2 : ℚ) ^ (e - 23)) : ℚ) * (2 : ℚ) ^ (e - 23)

/-- Modelled from the spec: `EQ::Net::Packet::GetFloat`, the binary32 value
whose little-endian pattern sits at an offset. -/
def GetFloat (p : Packet) (off : Nat) : Option ℚ :=
  (GetUInt32 p off).map f32OfBits

/-- The two bytes of a `uint16_t`, little-endian (`PutUInt16`, and the object
representation copied by `memcpy` on the little-endian hosts the client is
built for). -/
def u16le (v : Nat) : List Nat := [v % 256, v / 256 % 256]

/-- The four bytes of a `uint32_t`, little-endian. -/
def u32le (v : Nat) : List Nat :=
  [v % 256, v / 256 % 256, v / 65536 % 256, v / 16777216 % 256]

/-- The four bytes of a `float` object. -/
def f32le (q : ℚ) : List Nat := u32le (f32Bits q)

/-- The value of a 32-bit pattern read as `int32_t`. -/
def toInt32 (u : Nat) : ℤ :=
  if u % 2 ^ 32 < 2 ^ 31 then ((u % 2 ^ 32 : ℕ) : ℤ) else ((u % 2 ^ 32 : ℕ) : ℤ) - 2 ^ 32

/-- The source idiom `if (v & 0x40000) v |= 0xFFF80000;` on an `int32_t`. -/
def signExtend19 (v : Nat) : ℤ :=
  toInt32 (if v &&& 0x40000 ≠ 0 then v ||| 0xFFF80000 else v)

/-- The source idiom `if (v & 0x1000) v |= 0xFFFFE000;` on an `int32_t`. -/
def signExtend13 (v : Nat) : ℤ :=
  toInt32 (if v &&& 0x1000 ≠ 0 then v ||| 0xFFFFE000 else v)

/-- The source idiom `if (v & 0x200) v |= 0xFFFFFC00;` on an `int32_t`. -/
def signExtend10 (v : Nat) : ℤ :=
  toInt32 (if v &&& 0x200 ≠ 0 then v ||| 0xFFFFFC00 else v)

/-- The two's-complement reading of the low `n + 1` bits of a field: the value
itself below `2 ^ n`, the value minus `2 ^ (n + 1)` from `2 ^ n` on. -/
def twosComplement (n : Nat) (v : Nat) : ℤ :=
  if v < 2 ^ n then (v : ℤ) else (v : ℤ) - 2 ^ (n + 1)

/-! ## Opcodes (`TitaniumZoneOpcodes`, `TitaniumWorldOpcodes`, `TitaniumLoginOpcodes`) -/

def HC_OP_SessionReady : Nat := 0x0001
def HC_OP_AckPacket : Nat := 0x7752
def HC_OP_ZoneEntry : Nat := 0x7213
def HC_OP_NewZone : Nat := 0x0920
def HC_OP_ReqClientSpawn : Nat := 0x0322
def HC_OP_ZoneSpawns : Nat := 0x2e78
def HC_OP_SendZonepoints : Nat := 0x3eba
def HC_OP_ReqNewZone : Nat := 0x7ac5
def HC_OP_PlayerProfile : Nat := 0x75df
def HC_OP_CharInventory : Nat := 0x5394
def HC_OP_TimeOfDay : Nat := 0x1580
def HC_OP_SpawnDoor : Nat := 0x4c24
def HC_OP_ClientReady : Nat := 0x5e20
def HC_OP_ZoneChange : Nat := 0x5dd8
def HC_OP_SetServerFilter : Nat := 0x6563
def HC_OP_GroundSpawn : Nat := 0x0f47
def HC_OP_Weather : Nat := 0x254d
def HC_OP_ClientUpdate : Nat := 0x14cb
def HC_OP_SpawnAppearance : Nat := 0x7c32
def HC_OP_NewSpawn : Nat := 0x1860
def HC_OP_DeleteSpawn : Nat := 0x55bc
def HC_OP_MobHealth : Nat := 0x0695
def HC_OP_HPUpdate : Nat := 0x3bcf
def HC_OP_TributeUpdate : Nat := 0x5639
def HC_OP_TributeTimer : Nat := 0x4665
def HC_OP_SendAATable : Nat := 0x367d
def HC_OP_UpdateAA : Nat := 0x5966
def HC_OP_RespondAA : Nat := 0x3af4
def HC_OP_SendTributes : Nat := 0x067a
def HC_OP_TributeInfo : Nat := 0x152d
def HC_OP_RequestGuildTributes : Nat := 0x5e3a
def HC_OP_SendGuildTributes : Nat := 0x5e3d
def HC_OP_SendAAStats : Nat := 0x5996
def HC_OP_SendExpZonein : Nat := 0x0587
def HC_OP_WorldObjectsSent : Nat := 0x0000
def HC_OP_ExpUpdate : Nat := 0x5ecd
def HC_OP_RaidUpdate : Nat := 0x1f21
def HC_OP_GuildMOTD : Nat := 0x475a
def HC_OP_ChannelMessage : Nat := 0x1004
def HC_OP_WearChange : Nat := 0x7441
def HC_OP_MoveDoor : Nat := 0x700d
def HC_OP_CompletedTasks : Nat := 0x76a2
def HC_OP_DzCompass : Nat := 0x28aa
def HC_OP_DzExpeditionLockoutTimers : Nat := 0x7c12
def HC_OP_BeginCast : Nat := 0x3990
def HC_OP_ManaChange : Nat := 0x4839
def HC_OP_FormattedMessage : Nat := 0x5a48
def HC_OP_PlayerStateAdd : Nat := 0x63da
def HC_OP_Death : Nat := 0x6160
def HC_OP_PlayerStateRemove : Nat := 0x381d
def HC_OP_Stamina : Nat := 0x7a83

/-- Animation `ANIM_STAND` of `AnimationType`. -/
def ANIM_STAND : Nat := 0

/-- Animation `ANIM_RUN` of `AnimationType`. -/
def ANIM_RUN : Nat := 27

/-! ## Data model -/

/-- The `struct Entity` of `eq.h`. Strings are byte lists. -/
structure Entity where
  spawn_id : Nat
  name : List Nat
  x : ℚ
  y : ℚ
  z : ℚ
  heading : ℚ
  level : Nat
  class_id : Nat
  race_id : Nat
  gender : Nat
  guild_id : Nat
  animation : Nat
  hp_percent : Nat
  cur_mana : Nat
  max_mana : Nat
  delta_x : ℚ
  delta_y : ℚ
  delta_z : ℚ
  delta_heading : ℚ
  last_update_time : Nat

/-- What a handler takes from its surroundings: the clock `std::time(nullptr)`
and the indeterminate contents of an `Entity` declared without initialiser. -/
structure RecvCtx where
  now : Nat
  uninit : Entity

/-- A packet handed to `DaybreakConnection::QueuePacket(p, stream, reliable)`. -/
structure Queued where
  data : Packet
  stream : Nat
  reliable : Bool

/-- The members of `class EverQuest` that the zone phase and the position
updates read or write. `m_entities` is the `std::map<uint16_t, Entity>`,
`zone_queue` the packets queued on `m_zone_connection`, oldest first,
`zone_connects` the number of calls of `m_zone_connection_manager->Connect`,
and `last_positions` this instance's entry of the function-local static map of
`SendPositionUpdate`. -/
structure EverQuest where
  m_character : List Nat
  m_zone_connected : Bool
  m_zone_session_established : Bool
  m_zone_entry_sent : Bool
  m_weather_received : Bool
  m_req_new_zone_sent : Bool
  m_new_zone_received : Bool
  m_aa_table_sent : Bool
  m_update_aa_sent : Bool
  m_tributes_sent : Bool
  m_guild_tributes_sent : Bool
  m_req_client_spawn_sent : Bool
  m_spawn_appearance_sent : Bool
  m_exp_zonein_sent : Bool
  m_send_exp_zonein_received : Bool
  m_server_filter_sent : Bool
  m_client_ready_sent : Bool
  m_client_spawned : Bool
  m_zone_sequence : Nat
  m_aa_table_count : Nat
  m_tribute_count : Nat
  m_guild_tribute_count : Nat
  m_entities : Nat → Option Entity
  m_my_spawn_id : Nat
  m_my_character_id : Nat
  m_x : ℚ
  m_y : ℚ
  m_z : ℚ
  m_heading : ℚ
  m_animation : Nat
  m_movement_sequence : Nat
  m_is_moving : Bool
  m_current_zone_name : List Nat
  zone_queue : List Queued
  zone_connects : Nat
  last_positions : Option (ℚ × ℚ × ℚ × ℚ)

/-- Assignment `m_entities[k] = e`. -/
def mapInsert (m : Nat → Option Entity) (k : Nat) (e : Entity) : Nat → Option Entity :=
  fun j => if j = k then some e else m j

/-- Removal `m_entities.erase(k)`. -/
def mapErase (m : Nat → Option Entity) (k : Nat) : Nat → Option Entity :=
  fun j => if j = k then none else m j

/-- The call `m_zone_connection->QueuePacket(p)`: default stream 0, reliable. -/
def QueuePacket (s : EverQuest) (p : Packet) : EverQuest :=
  { s with zone_queue := s.zone_queue ++ [{ data := p, stream := 0, reliable := true }] }

/-- Method `EverQuest::IsFullyZonedIn`. -/
def IsFullyZonedIn (s : EverQuest) : Bool :=
  s.m_zone_connected && s.m_client_ready_sent

/-! ## `ZoneProcessClientUpdate` -/

/-- The values `ZoneProcessClientUpdate` extracts from the five 32-bit words of
a position record. -/
structure ClientUpdateFields where
  x : ℚ
  y : ℚ
  z : ℚ
  dx : ℚ
  dy : ℚ
  dz : ℚ
  dh : ℚ
  h : ℚ
  animation : Nat

/-- The field extraction of `ZoneProcessClientUpdate`: masks and shifts, sign
extension, and the conversions to `float`. -/
def decodeClientUpdate (field1 field2 field3 field4 field5 : Nat) : ClientUpdateFields :=
  let delta_heading := signExtend10 (field1 &&& 0x3FF)
  let x_pos_raw := signExtend19 ((field1 >>> 10) &&& 0x7FFFF)
  let y_pos_raw := signExtend19 (field2 &&& 0x7FFFF)
  let animation := (field2 >>> 19) &&& 0x3FF
  let z_pos_raw := signExtend19 (field3 &&& 0x7FFFF)
  let delta_y := signExtend13 ((field3 >>> 19) &&& 0x1FFF)
  let delta_x := signExtend13 (field4 &&& 0x1FFF)
  let heading := (field4 >>> 13) &&& 0xFFF
  let delta_z := signExtend13 (field5 &&& 0x1FFF)
  { x := (x_pos_raw : ℚ) / 8
    y := (y_pos_raw : ℚ) / 8
    z := (z_pos_raw : ℚ) / 8
    dx := (delta_x : ℚ) / 8
    dy := (delta_y : ℚ) / 8
    dz := (delta_z : ℚ) / 8
    dh := (delta_heading : ℚ)
    h := (heading : ℚ) * 360 / 4096
    animation := animation }

/-- Method `EverQuest::ZoneProcessClientUpdate`. -/
def ZoneProcessClientUpdate (ctx : RecvCtx) (s : EverQuest) (p : Packet) : EverQuest :=
  if Length p < 24 then s
  else
    match GetUInt16 p 2, GetUInt32 p 4, GetUInt32 p 8, GetUInt32 p 12, GetUInt32 p 16,
        GetUInt32 p 20 with
    | some spawn_id, some field1, some field2, some field3, some field4, some field5 =>
      let d := decodeClientUpdate field1 field2 field3 field4 field5
      if spawn_id = s.m_my_character_id then
        { s with m_x := d.x, m_y := d.y, m_z := d.z, m_heading := d.h }
      else
        match s.m_entities spawn_id with
        | some e =>
          let e2 : Entity :=
            { e with x := d.x, y := d.y, z := d.z, heading := d.h,
                     animation := d.animation % 256,
                     delta_x := d.dx, delta_y := d.dy, delta_z := d.dz,
                     delta_heading := d.dh,
                     last_update_time := ctx.now % 2 ^ 32 }
          { s with m_entities := mapInsert s.m_entities spawn_id e2 }
        | none => s
    | _, _, _, _, _, _ => s

/-! ## Construction and the zone connection -/

/-- The member initialisers of `class EverQuest` (`eq.h`) for a client created
for a character name. -/
def EverQuest.init (character : List Nat) : EverQuest :=
  { m_character := character
    m_zone_connected := false
    m_zone_session_established := false
    m_zone_entry_sent := false
    m_weather_received := false
    m_req_new_zone_sent := false
    m_new_zone_received := false
    m_aa_table_sent := false
    m_update_aa_sent := false
    m_tributes_sent := false
    m_guild_tributes_sent := false
    m_req_client_spawn_sent := false
    m_spawn_appearance_sent := false
    m_exp_zonein_sent := false
    m_send_exp_zonein_received := false
    m_server_filter_sent := false
    m_client_ready_sent := false
    m_client_spawned := false
    m_zone_sequence := 2
    m_aa_table_count := 0
    m_tribute_count := 0
    m_guild_tribute_count := 0
    m_entities := fun _ => none
    m_my_spawn_id := 0
    m_my_character_id := 0
    m_x := 0
    m_y := 0
    m_z := 0
    m_heading := 0
    m_animation := 0
    m_movement_sequence := 0
    m_is_moving := false
    m_current_zone_name := []
    zone_queue := []
    zone_connects := 0
    last_positions := none }

/-- Modelled from the spec: the connection states of `EQ::Net::DbProtocolStatus`
(declared in `common/net/`, outside `hc/`). -/
inductive DbProtocolStatus where
  | StatusConnecting
  | StatusConnected
  | StatusDisconnected
  deriving DecidableEq

/-! ## Zone packet senders -/

/-- Method `EverQuest::ZoneSendStreamIdentify`: two bytes, queued unreliable. -/
def ZoneSendStreamIdentify (s : EverQuest) : EverQuest :=
  { s with zone_queue := s.zone_queue ++
      [{ data := u16le HC_OP_ZoneEntry, stream := 0, reliable := false }] }

/-- Method `EverQuest::ZoneSendAckPacket`. -/
def ZoneSendAckPacket (s : EverQuest) : EverQuest :=
  QueuePacket s (u16le HC_OP_AckPacket ++ u32le 0)

/-- Method `EverQuest::ZoneSendZoneEntry`: opcode, the constant `0xFFF67726`,
and the 64-byte name field. -/
def ZoneSendZoneEntry (s : EverQuest) : EverQuest :=
  let name_len := min s.m_character.length 63
  let name := (s.m_character.take name_len).map (fun b => b % 256)
  let p := u16le HC_OP_ZoneEntry ++ u32le 0xFFF67726 ++ name ++ List.replicate (64 - name_len) 0
  { QueuePacket s p with m_zone_entry_sent := true }

/-- Method `EverQuest::ZoneSendReqClientSpawn`. -/
def ZoneSendReqClientSpawn (s : EverQuest) : EverQuest :=
  QueuePacket s (u16le HC_OP_ReqClientSpawn)

/-- Method `EverQuest::ZoneSendClientReady`. -/
def ZoneSendClientReady (s : EverQuest) : EverQuest :=
  { QueuePacket s (u16le HC_OP_ClientReady) with m_client_ready_sent := true }

/-- Method `EverQuest::ZoneSendSetServerFilter`: 29 filters, all `0xFFFFFFFF`. -/
def ZoneSendSetServerFilter (s : EverQuest) : EverQuest :=
  let p := u16le HC_OP_SetServerFilter ++
    ((List.range 29).map (fun _ => u32le 0xFFFFFFFF)).flatten
  { QueuePacket s p with m_server_filter_sent := true }

/-- Method `EverQuest::ZoneSendReqNewZone`. -/
def ZoneSendReqNewZone (s : EverQuest) : EverQuest :=
  { QueuePacket s (u16le HC_OP_ReqNewZone) with m_req_new_zone_sent := true }

/-- Method `EverQuest::ZoneSendSendAATable`. -/
def ZoneSendSendAATable (s : EverQuest) : EverQuest :=
  { QueuePacket s (u16le HC_OP_SendAATable) with m_aa_table_sent := true }

/-- Method `EverQuest::ZoneSendUpdateAA`: 12 bytes, zero after the opcode. -/
def ZoneSendUpdateAA (s : EverQuest) : EverQuest :=
  { QueuePacket s (u16le HC_OP_UpdateAA ++ List.replicate 10 0) with m_update_aa_sent := true }

/-- Method `EverQuest::ZoneSendSendTributes`. -/
def ZoneSendSendTributes (s : EverQuest) : EverQuest :=
  { QueuePacket s (u16le HC_OP_SendTributes) with m_tributes_sent := true }

/-- Method `EverQuest::ZoneSendRequestGuildTributes`. -/
def ZoneSendRequestGuildTributes (s : EverQuest) : EverQuest :=
  { QueuePacket s (u16le HC_OP_RequestGuildTributes) with m_guild_tributes_sent := true }

/-- Method `EverQuest::ZoneSendSendExpZonein`. -/
def ZoneSendSendExpZonein (s : EverQuest) : EverQuest :=
  { QueuePacket s (u16le HC_OP_SendExpZonein) with m_exp_zonein_sent := true }

/-- Method `EverQuest::ZoneOnStatusChangeReconnectEnabled`, the status callback
that `ConnectToZone` installs; `status` is its argument `to`. -/
def ZoneOnStatusChangeReconnectEnabled (s : EverQuest) (status : DbProtocolStatus) :
    EverQuest :=
  let s1 :=
    if status = DbProtocolStatus.StatusConnected then
      let a := ZoneSendStreamIdentify { s with m_zone_connected := true }
      ZoneSendZoneEntry (ZoneSendAckPacket { a with m_zone_session_established := true })
    else s
  if status = DbProtocolStatus.StatusDisconnected then
    { s1 with m_zone_connected := false, m_zone_session_established := false,
              m_zone_entry_sent := false, zone_connects := s1.zone_connects + 1 }
  else s1

/-! ## Zone packet processors -/

/-- Method `EverQuest::CheckZoneRequestPhaseComplete`. -/
def CheckZoneRequestPhaseComplete (s : EverQuest) : EverQuest :=
  if s.m_new_zone_received && decide (s.m_aa_table_count > 0) &&
      decide (s.m_tribute_count > 0) && decide (s.m_guild_tribute_count > 0) &&
      !s.m_req_client_spawn_sent then
    { ZoneSendReqClientSpawn s with m_req_client_spawn_sent := true }
  else s

/-- Method `EverQuest::ZoneProcessNewZone`. Loading the pathfinder and the
terrain map touches no member of the modelled state. -/
def ZoneProcessNewZone (s : EverQuest) (p : Packet) : EverQuest :=
  let s0 := if Length p ≥ 96 then { s with m_current_zone_name := GetCString p 66 } else s
  let s1 := { s0 with m_new_zone_received := true }
  let s2 := if !s1.m_aa_table_sent then ZoneSendSendAATable s1 else s1
  let s3 := if !s2.m_update_aa_sent then ZoneSendUpdateAA s2 else s2
  let s4 := if !s3.m_tributes_sent then ZoneSendSendTributes s3 else s3
  if !s4.m_guild_tributes_sent then ZoneSendRequestGuildTributes s4 else s4

/-- Method `EverQuest::ZoneProcessPlayerProfile`. The 4-byte read of the entity
id is guarded by `Length > 14386` and the four floats by `Length > 42`; a read
that fails throws out of the handler, leaving what was assigned before it. -/
def ZoneProcessPlayerProfile (ctx : RecvCtx) (s : EverQuest) (p : Packet) : EverQuest :=
  let idStep : Option EverQuest :=
    if Length p > 14386 then
      match GetUInt32 p 14386 with
      | some entity_id => some { s with m_my_character_id := entity_id % 65536 }
      | none => none
    else some s
  match idStep with
  | none => s
  | some s1 =>
    if Length p > 42 then
      match GetFloat p 30 with
      | none => s1
      | some x =>
        match GetFloat p 34 with
        | none => { s1 with m_x := x }
        | some y =>
          match GetFloat p 38 with
          | none => { s1 with m_x := x, m_y := y }
          | some z =>
            match GetFloat p 42 with
            | none => { s1 with m_x := x, m_y := y, m_z := z }
            | some h =>
              let self_entity : Entity :=
                { ctx.uninit with
                  spawn_id := s1.m_my_character_id, name := s1.m_character,
                  x := x, y := y, z := z, heading := h,
                  level := 1, class_id := 0, race_id := 0, hp_percent := 100,
                  animation := 0, delta_x := 0, delta_y := 0, delta_z := 0,
                  delta_heading := 0, last_update_time := ctx.now % 2 ^ 32 }
              { s1 with m_x := x, m_y := y, m_z := z, m_heading := h,
                        m_entities := mapInsert s1.m_entities s1.m_my_character_id self_entity }
    else s1

/-- The fixed-width fields that both spawn handlers read from the
`Spawn_Struct` at an offset, as read (before any narrowing conversion). -/
structure SpawnFields where
  spawn_id : Nat
  level : Nat
  field1 : Nat
  field2 : Nat
  field3 : Nat
  field4 : Nat
  race_id : Nat
  class_id : Nat
  gender : Nat
  guild_id : Nat
  hp_percent : Nat

/-- The reads `GetUInt32(offset + 340)`, `GetUInt8(offset + 151)`,
`GetUInt32(offset + 94 / 98 / 102 / 106)`, `GetUInt32(offset + 284)`,
`GetUInt8(offset + 331)`, `GetUInt8(offset + 334)`, `GetUInt32(offset + 238)`
and `GetUInt8(offset + 86)` of the spawn handlers. -/
def readSpawnFields (p : Packet) (offset : Nat) : Option SpawnFields :=
  match GetUInt32 p (offset + 340), GetUInt8 p (offset + 151), GetUInt32 p (offset + 94),
      GetUInt32 p (offset + 98), GetUInt32 p (offset + 102), GetUInt32 p (offset + 106) with
  | some spawn_id, some level, some field1, some field2, some field3, some field4 =>
    match GetUInt32 p (offset + 284), GetUInt8 p (offset + 331), GetUInt8 p (offset + 334),
        GetUInt32 p (offset + 238), GetUInt8 p (offset + 86) with
    | some race_id, some class_id, some gender, some guild_id, some hp_percent =>
      some { spawn_id := spawn_id, level := level, field1 := field1, field2 := field2,
             field3 := field3, field4 := field4, race_id := race_id, class_id := class_id,
             gender := gender, guild_id := guild_id, hp_percent := hp_percent }
    | _, _, _, _, _ => none
  | _, _, _, _, _, _ => none

/-- The `Entity` that `ZoneProcessZoneSpawns` fills from the fields of a
`Spawn_Struct`; `cur_mana` and `max_mana` are never assigned. -/
def zoneSpawnsEntity (ctx : RecvCtx) (name : List Nat) (r : SpawnFields) : Entity :=
  { ctx.uninit with
    name := name, spawn_id := r.spawn_id % 65536, level := r.level,
    x := (signExtend19 ((r.field1 >>> 10) &&& 0x7FFFF) : ℚ) / 8,
    y := (signExtend19 (r.field2 &&& 0x7FFFF) : ℚ) / 8,
    z := (signExtend19 (r.field3 &&& 0x7FFFF) : ℚ) / 8,
    heading := (((r.field4 >>> 13) &&& 0xFFF : ℕ) : ℚ) * 360 / 4096,
    race_id := r.race_id % 65536, class_id := r.class_id, gender := r.gender,
    guild_id := r.guild_id, hp_percent := r.hp_percent,
    animation := ((r.field2 >>> 19) &&& 0x3FF) % 256,
    delta_x := 0, delta_y := 0, delta_z := 0, delta_heading := 0,
    last_update_time := ctx.now % 2 ^ 32 }

/-- The `while (offset + 385 <= p.Length())` loop of `ZoneProcessZoneSpawns`.
The first argument bounds the number of iterations; each one advances the
offset by 385, so `Length p` of them always suffice. -/
def ZoneSpawnsLoop (ctx : RecvCtx) (p : Packet) : Nat → Nat → EverQuest → EverQuest
  | 0, _, s => s
  | fuel + 1, offset, s =>
    if offset + 385 ≤ Length p then
      let name := GetCString p (offset + 7)
      if name = [] then s
      else
        match readSpawnFields p offset with
        | none => s
        | some r =>
          let entity := zoneSpawnsEntity ctx name r
          let s2 :=
            if entity.spawn_id > 0 ∧ entity.spawn_id < 100000 ∧ entity.name ≠ [] then
              let s1 :=
                if entity.name = s.m_character then
                  { s with m_x := entity.x, m_y := entity.y, m_z := entity.z }
                else s
              { s1 with m_entities := mapInsert s1.m_entities entity.spawn_id entity }
            else s
          ZoneSpawnsLoop ctx p fuel (offset + 385) s2
    else s

/-- Method `EverQuest::ZoneProcessZoneSpawns`. -/
def ZoneProcessZoneSpawns (ctx : RecvCtx) (s : EverQuest) (p : Packet) : EverQuest :=
  ZoneSpawnsLoop ctx p (Length p) 2 s

/-- The `Entity` that `ZoneProcessNewSpawn` fills from the fields of the
`Spawn_Struct` at offset 2; the positions are the raw fixed-point integers. -/
def newSpawnEntity (ctx : RecvCtx) (name : List Nat) (r : SpawnFields) : Entity :=
  { ctx.uninit with
    spawn_id := r.spawn_id % 65536, name := name, level := r.level,
    x := (signExtend19 ((r.field1 >>> 10) &&& 0x7FFFF) : ℚ),
    y := (signExtend19 (r.field2 &&& 0x7FFFF) : ℚ),
    z := (signExtend19 (r.field3 &&& 0x7FFFF) : ℚ),
    heading := (((r.field4 >>> 13) &&& 0xFFF : ℕ) : ℚ) * 360 / 4096,
    race_id := r.race_id % 65536, class_id := r.class_id, gender := r.gender,
    guild_id := r.guild_id, hp_percent := r.hp_percent,
    animation := ((r.field2 >>> 19) &&& 0x3FF) % 256,
    delta_x := 0, delta_y := 0, delta_z := 0, delta_heading := 0,
    last_update_time := ctx.now % 2 ^ 32 }

/-- Method `EverQuest::ZoneProcessNewSpawn`. -/
def ZoneProcessNewSpawn (ctx : RecvCtx) (s : EverQuest) (p : Packet) : EverQuest :=
  if Length p < 387 then s
  else
    match readSpawnFields p 2 with
    | none => s
    | some r =>
      let entity := newSpawnEntity ctx (GetCString p (2 + 7)) r
      if entity.spawn_id > 0 ∧ entity.spawn_id < 100000 ∧ entity.name ≠ [] then
        let s1 :=
          if entity.name = s.m_character then
            { s with m_my_spawn_id := entity.spawn_id,
                     m_x := entity.x, m_y := entity.y, m_z := entity.z }
          else s
        { s1 with m_entities := mapInsert s1.m_entities entity.spawn_id entity }
      else s

/-- Method `EverQuest::ZoneProcessSendZonepoints`. -/
def ZoneProcessSendZonepoints (s : EverQuest) : EverQuest :=
  if s.m_zone_entry_sent && !s.m_client_ready_sent then
    let s1 :=
      if !s.m_server_filter_sent && s.m_send_exp_zonein_received then ZoneSendSetServerFilter s
      else s
    if !s1.m_client_ready_sent && s1.m_server_filter_sent then ZoneSendClientReady s1 else s1
  else s

/-- Method `EverQuest::ZoneProcessWeather`. -/
def ZoneProcessWeather (s : EverQuest) : EverQuest :=
  let s1 := { s with m_weather_received := true }
  if !s1.m_req_new_zone_sent then ZoneSendReqNewZone s1 else s1

/-- Method `EverQuest::ZoneProcessSendAATable`. -/
def ZoneProcessSendAATable (s : EverQuest) : EverQuest :=
  CheckZoneRequestPhaseComplete { s with m_aa_table_count := s.m_aa_table_count + 1 }

/-- Method `EverQuest::ZoneProcessRespondAA`. -/
def ZoneProcessRespondAA (s : EverQuest) : EverQuest :=
  CheckZoneRequestPhaseComplete s

/-- Method `EverQuest::ZoneProcessTributeInfo`. -/
def ZoneProcessTributeInfo (s : EverQuest) : EverQuest :=
  CheckZoneRequestPhaseComplete { s with m_tribute_count := s.m_tribute_count + 1 }

/-- Method `EverQuest::ZoneProcessSendGuildTributes`. -/
def ZoneProcessSendGuildTributes (s : EverQuest) : EverQuest :=
  CheckZoneRequestPhaseComplete { s with m_guild_tribute_count := s.m_guild_tribute_count + 1 }

/-- Method `EverQuest::ZoneProcessSendExpZonein`. -/
def ZoneProcessSendExpZonein (s : EverQuest) : EverQuest :=
  { s with m_send_exp_zonein_received := true }

/-- Method `EverQuest::ZoneProcessWorldObjectsSent`. -/
def ZoneProcessWorldObjectsSent (s : EverQuest) : EverQuest :=
  if !s.m_exp_zonein_sent then ZoneSendSendExpZonein s else s

/-- Method `EverQuest::ZoneProcessGuildMOTD`. -/
def ZoneProcessGuildMOTD (s : EverQuest) : EverQuest :=
  let s1 :=
    if !s.m_server_filter_sent then
      { ZoneSendSetServerFilter s with m_server_filter_sent := true }
    else s
  if !s1.m_client_ready_sent then
    { ZoneSendClientReady s1 with m_client_ready_sent := true }
  else s1

/-- Method `EverQuest::ZoneProcessDeleteSpawn`. -/
def ZoneProcessDeleteSpawn (s : EverQuest) (p : Packet) : EverQuest :=
  if Length p < 4 then s
  else
    match GetUInt16 p 2 with
    | none => s
    | some spawn_id =>
      match s.m_entities spawn_id with
      | some _ => { s with m_entities := mapErase s.m_entities spawn_id }
      | none => s

/-- Method `EverQuest::ZoneProcessMobHealth`. -/
def ZoneProcessMobHealth (s : EverQuest) (p : Packet) : EverQuest :=
  if Length p < 5 then s
  else
    match GetUInt16 p 2, GetUInt8 p 4 with
    | some spawn_id, some hp_percent =>
      match s.m_entities spawn_id with
      | some e =>
        let e2 : Entity := { e with hp_percent := hp_percent }
        { s with m_entities := mapInsert s.m_entities spawn_id e2 }
      | none => s
    | _, _ => s

/-- Method `EverQuest::ZoneProcessHPUpdate`; the quotient is computed in
`uint32_t` and stored in a `uint8_t`. -/
def ZoneProcessHPUpdate (s : EverQuest) (p : Packet) : EverQuest :=
  if Length p < 12 then s
  else
    match GetUInt32 p 2, GetUInt32 p 6, GetUInt16 p 10 with
    | some cur_hp, some max_hp, some _ =>
      if s.m_my_spawn_id ≠ 0 then
        match s.m_entities s.m_my_spawn_id with
        | some e =>
          let hp : Nat := if max_hp > 0 then (cur_hp * 100 % 2 ^ 32) / max_hp else 100
          let e2 : Entity := { e with hp_percent := hp % 256 }
          { s with m_entities := mapInsert s.m_entities s.m_my_spawn_id e2 }
        | none => s
      else s
    | _, _, _ => s

/-- Method `EverQuest::ZoneProcessManaChange`. -/
def ZoneProcessManaChange (s : EverQuest) (p : Packet) : EverQuest :=
  if Length p < 8 then s
  else
    match GetUInt16 p 2, GetUInt16 p 4, GetUInt16 p 6 with
    | some spawn_id, some cur_mana, some max_mana =>
      match s.m_entities spawn_id with
      | some e =>
        let e2 : Entity := { e with cur_mana := cur_mana, max_mana := max_mana }
        { s with m_entities := mapInsert s.m_entities spawn_id e2 }
      | none => s
    | _, _, _ => s

/-- Method `EverQuest::ZoneProcessDeath`. -/
def ZoneProcessDeath (s : EverQuest) (p : Packet) : EverQuest :=
  if Length p < 10 then s
  else
    match GetUInt16 p 2, GetUInt16 p 4, GetUInt32 p 6 with
    | some victim_id, some _, some _ =>
      match s.m_entities victim_id with
      | some e =>
        let e2 : Entity := { e with hp_percent := 0 }
        { s with m_entities := mapInsert s.m_entities victim_id e2 }
      | none => s
    | _, _, _ => s

/-- Method `EverQuest::ZoneOnPacketRecv`: the opcode switch. The opcodes whose
handlers only log (`ZoneEntry`, `TimeOfDay`, `TributeUpdate`, `TributeTimer`,
`CharInventory`, `SpawnDoor`, `GroundSpawn`, `SendAAStats`, `SpawnAppearance`,
`ExpUpdate`, `RaidUpdate`, `ChannelMessage`, `WearChange`, `MoveDoor`,
`CompletedTasks`, `DzCompass`, `DzExpeditionLockoutTimers`, `BeginCast`,
`FormattedMessage`, `PlayerStateAdd`, `PlayerStateRemove`, `Stamina`) and the
`default` case leave the state as it is, as does a frame too short to hold an
opcode. -/
def ZoneOnPacketRecv (ctx : RecvCtx) (s : EverQuest) (p : Packet) : EverQuest :=
  match GetUInt16 p 0 with
  | none => s
  | some opcode =>
    if opcode = HC_OP_SessionReady then ZoneSendZoneEntry (ZoneSendAckPacket s)
    else if opcode = HC_OP_PlayerProfile then ZoneProcessPlayerProfile ctx s p
    else if opcode = HC_OP_ZoneSpawns then ZoneProcessZoneSpawns ctx s p
    else if opcode = HC_OP_Weather then ZoneProcessWeather s
    else if opcode = HC_OP_NewZone then ZoneProcessNewZone s p
    else if opcode = HC_OP_SendAATable then ZoneProcessSendAATable s
    else if opcode = HC_OP_RespondAA then ZoneProcessRespondAA s
    else if opcode = HC_OP_TributeInfo then ZoneProcessTributeInfo s
    else if opcode = HC_OP_SendGuildTributes then ZoneProcessSendGuildTributes s
    else if opcode = HC_OP_SendZonepoints then ZoneProcessSendZonepoints s
    else if opcode = HC_OP_SendExpZonein then ZoneProcessSendExpZonein s
    else if opcode = HC_OP_WorldObjectsSent then ZoneProcessWorldObjectsSent s
    else if opcode = HC_OP_GuildMOTD then ZoneProcessGuildMOTD s
    else if opcode = HC_OP_NewSpawn then ZoneProcessNewSpawn ctx s p
    else if opcode = HC_OP_ClientUpdate then ZoneProcessClientUpdate ctx s p
    else if opcode = HC_OP_DeleteSpawn then ZoneProcessDeleteSpawn s p
    else if opcode = HC_OP_MobHealth then ZoneProcessMobHealth s p
    else if opcode = HC_OP_HPUpdate then ZoneProcessHPUpdate s p
    else if opcode = HC_OP_ManaChange then ZoneProcessManaChange s p
    else if opcode = HC_OP_Death then ZoneProcessDeath s p
    else s

/-- The zone session after a list of received packets, each with the
surroundings of its handler call, oldest first. -/
def ZoneRecvAll (s : EverQuest) (evs : List (RecvCtx × Packet)) : EverQuest :=
  evs.foldl (fun st ev => ZoneOnPacketRecv ev.1 st ev.2) s

/-- A zone session right after the transport reported `StatusConnected` to a
newly constructed client. -/
def zoneConnected (character : List Nat) : EverQuest :=
  ZoneOnStatusChangeReconnectEnabled (EverQuest.init character) DbProtocolStatus.StatusConnected

/-- The opcode of a queued packet. -/
def Queued.opcode (q : Queued) : Option Nat := GetUInt16 q.data 0

/-- The opcodes of the packets queued on the zone session, oldest first. -/
def queuedOpcodes (s : EverQuest) : List (Option Nat) := s.zone_queue.map Queued.opcode

/-- How many packets with a given opcode are queued on the zone session. -/
def queuedCount (s : EverQuest) (op : Nat) : Nat := (queuedOpcodes s).count (some op)

/-! ## `SendPositionUpdate` -/

/-- The conversion `static_cast<int>` of a float: truncation toward zero. For
a value that does not fit an `int` the C++ conversion is undefined; the
conversion instruction of the x86-64 build (`cvttss2si`) then gives `-2 ^ 31`,
and this is the value taken here. -/
def truncToInt (q : ℚ) : ℤ :=
  if -2 ^ 31 ≤ Int.tdiv q.num q.den ∧ Int.tdiv q.num q.den < 2 ^ 31 then Int.tdiv q.num q.den
  else -2 ^ 31

/-- The `uint16_t heading_scaled` of `SendPositionUpdate`: the `int`
`heading_raw = static_cast<int>(m_heading * 2048.0f / 360.0f)`, the C++
remainder `heading_raw % 2048` (sign of the dividend), converted to
`uint16_t`. -/
def headingScaled (m_heading : ℚ) : Nat :=
  let heading_raw : ℤ := truncToInt (m_heading * 2048 / 360)
  (Int.tmod heading_raw 2048 % 65536).toNat

/-- The word `anim_and_delta_heading` of `SendPositionUpdate`. -/
def animAndDeltaHeading (m_is_moving : Bool) : Nat :=
  let anim_value : Nat := if m_is_moving then ANIM_RUN else ANIM_STAND
  ((anim_value &&& 0x3FF) ||| (0 <<< 10)) ||| (1 <<< 20)

/-- The object representation of the local `update` struct of
`SendPositionUpdate` (36 bytes, no padding): `spawn_id`, `sequence`, `y_pos`,
`delta_z`, `delta_y`, `delta_x`, `anim_and_delta_heading`, `x_pos`, `z_pos`,
`heading_and_padding`, `unknown[2]`. -/
def positionUpdateStruct (spawn_id sequence : Nat) (x y z : ℚ) (anim heading : Nat) :
    List Nat :=
  u16le spawn_id ++ u16le sequence ++ f32le y ++ f32le 0 ++ f32le 0 ++ f32le 0 ++
    u32le anim ++ f32le x ++ f32le z ++ u16le heading ++ [0, 0]

/-- Method `EverQuest::SendPositionUpdate`. The deltas against `last_positions`
feed only the debug output and the local `delta_heading_scaled`, which is
never used, and are left out, together with the two `while` loops that
normalise the heading delta.
These loops end whenever the heading and the heading remembered in
`last_positions` differ by less than `2 ^ 33`; for a larger difference the
binary32 subtraction of 360 changes nothing and the method does not return,
which the model does not show. -/
def SendPositionUpdate (s : EverQuest) : EverQuest :=
  if !IsFullyZonedIn s then s
  else
    let s1 :=
      match s.last_positions with
      | none => { s with last_positions := some (s.m_x, s.m_y, s.m_z, s.m_heading) }
      | some _ => s
    let heading_scaled := headingScaled s1.m_heading
    let s2 := { s1 with m_movement_sequence := (s1.m_movement_sequence + 1) % 2 ^ 32 }
    if s2.m_my_character_id = 0 then s2
    else
      let update := positionUpdateStruct s2.m_my_character_id s2.m_movement_sequence
        s2.m_x s2.m_y s2.m_z (animAndDeltaHeading s2.m_is_moving) heading_scaled
      let s3 := QueuePacket s2 (u16le HC_OP_ClientUpdate ++ update)
      { s3 with last_positions := some (s3.m_x, s3.m_y, s3.m_z, s3.m_heading) }

/-- The state after `n` consecutive calls of `SendPositionUpdate`. -/
def sendPositionUpdates : Nat → EverQuest → EverQuest
  | 0, s => s
  | n + 1, s => sendPositionUpdates n (SendPositionUpdate s)

/-! ## Example data -/

/-- Example data: a rat. -/
def exampleEntity : Entity :=
  { spawn_id := 7, name := [97, 95, 114, 97, 116], x := 0, y := 0, z := 0, heading := 0,
    level := 1, class_id := 0, race_id := 0, gender := 0, guild_id := 0, animation := 0,
    hp_percent := 100, cur_mana := 0, max_mana := 0, delta_x := 0, delta_y := 0,
    delta_z := 0, delta_heading := 0, last_update_time := 0 }

/-- Example data: the surroundings of a handler call. -/
def exampleCtx : RecvCtx := { now := 1000, uninit := exampleEntity }

/-- Example data: a fully zoned-in client with own id 42 at position
(-1234.5, 2345.25, -8.0), heading 135, that knows the entity 7. -/
def exampleZonedIn : EverQuest :=
  { EverQuest.init [72, 99] with
    m_zone_connected := true, m_client_ready_sent := true, m_my_character_id := 42,
    m_x := -1234.5, m_y := 2345.25, m_z := -8, m_heading := 135,
    m_entities := mapInsert (fun _ => none) 7 exampleEntity }

/-- Example data: a second client, with own id 1, that has the entity 42 in its
entity map. -/
def exampleReceiver : EverQuest :=
  { EverQuest.init [66] with
    m_zone_connected := true, m_client_ready_sent := true, m_my_character_id := 1,
    m_entities := mapInsert (fun _ => none) 42 exampleEntity }

/-- Example data: a ClientUpdate for spawn id 7 whose record holds x = -1234.5
(raw 0x7D96C), y = 2345.25 (raw 0x0494A), z = -8.0 (raw 0x7FFC0) and heading
raw 1536. -/
def exampleClientUpdate : Packet :=
  [0xcb, 0x14, 7, 0, 0x00, 0xB0, 0x65, 0x1F, 0x4A, 0x49, 0, 0, 0xC0, 0xFF, 0x07, 0,
   0, 0, 0xC0, 0, 0, 0, 0, 0]

/-- Example data: the example client after its heading was set to -90. -/
def exampleFacingWest : EverQuest := { exampleZonedIn with m_heading := -90 }

/-- Relation: `t` differs from `s` at most in the entity map, the position and
heading scalars and the two own ids. -/
def EntityFrame (s t : EverQuest) : Prop :=
  ∃ ents x y z hd cid sid,
    t = { s with m_entities := ents, m_x := x, m_y := y, m_z := z, m_heading := hd,
                 m_my_character_id := cid, m_my_spawn_id := sid }


/-- A run of `n` zero bytes. -/
def zeros (n : Nat) : List Nat := List.replicate n 0

/-- Example data: a PlayerProfile of 14390 bytes with position
(288.0, 344.0, 3.75), heading 128.0 and entity id 42. -/
def exampleProfile : Packet :=
  ([0xdf, 0x75] ++ (zeros 28 ++
    [0x00, 0x00, 0x90, 0x43, 0x00, 0x00, 0xAC, 0x43, 0x00, 0x00, 0x70, 0x40,
     0x00, 0x00, 0x00, 0x43])) ++ (zeros 14340 ++ [42, 0, 0, 0])

/-- The part of the client state that the zone bring-up reads and writes: the
connection flag, the send flags, the receive flags and counters, and the
opcodes of the queued packets. -/
structure BringUp where
  zone_connected : Bool
  zone_entry_sent : Bool
  req_new_zone_sent : Bool
  new_zone_received : Bool
  aa_table_sent : Bool
  update_aa_sent : Bool
  tributes_sent : Bool
  guild_tributes_sent : Bool
  req_client_spawn_sent : Bool
  exp_zonein_sent : Bool
  send_exp_zonein_received : Bool
  server_filter_sent : Bool
  client_ready_sent : Bool
  aa_table_count : Nat
  tribute_count : Nat
  guild_tribute_count : Nat
  sent : List (Option Nat)
  deriving DecidableEq

/-- The bring-up part of a client state. -/
def bringUp (s : EverQuest) : BringUp :=
  { zone_connected := s.m_zone_connected
    zone_entry_sent := s.m_zone_entry_sent
    req_new_zone_sent := s.m_req_new_zone_sent
    new_zone_received := s.m_new_zone_received
    aa_table_sent := s.m_aa_table_sent
    update_aa_sent := s.m_update_aa_sent
    tributes_sent := s.m_tributes_sent
    guild_tributes_sent := s.m_guild_tributes_sent
    req_client_spawn_sent := s.m_req_client_spawn_sent
    exp_zonein_sent := s.m_exp_zonein_sent
    send_exp_zonein_received := s.m_send_exp_zonein_received
    server_filter_sent := s.m_server_filter_sent
    client_ready_sent := s.m_client_ready_sent
    aa_table_count := s.m_aa_table_count
    tribute_count := s.m_tribute_count
    guild_tribute_count := s.m_guild_tribute_count
    sent := queuedOpcodes s }

/-- Queueing a packet with a given opcode, seen on the bring-up part. -/
def BringUp.queue (b : BringUp) (op : Nat) : BringUp :=
  { b with sent := b.sent ++ [some op] }

/-- The sender `ZoneSendReqNewZone` on the bring-up part. -/
def BringUp.sendReqNewZone (b : BringUp) : BringUp :=
  { b with sent := b.sent ++ [some HC_OP_ReqNewZone], req_new_zone_sent := true }

/-- The sender `ZoneSendSendAATable` on the bring-up part. -/
def BringUp.sendSendAATable (b : BringUp) : BringUp :=
  { b with sent := b.sent ++ [some HC_OP_SendAATable], aa_table_sent := true }

/-- The sender `ZoneSendUpdateAA` on the bring-up part. -/
def BringUp.sendUpdateAA (b : BringUp) : BringUp :=
  { b with sent := b.sent ++ [some HC_OP_UpdateAA], update_aa_sent := true }

/-- The sender `ZoneSendSendTributes` on the bring-up part. -/
def BringUp.sendSendTributes (b : BringUp) : BringUp :=
  { b with sent := b.sent ++ [some HC_OP_SendTributes], tributes_sent := true }

/-- The sender `ZoneSendRequestGuildTributes` on the bring-up part. -/
def BringUp.sendRequestGuildTributes (b : BringUp) : BringUp :=
  { b with sent := b.sent ++ [some HC_OP_RequestGuildTributes], guild_tributes_sent := true }

/-- The sender `ZoneSendReqClientSpawn` followed by setting its flag, on the
bring-up part. -/
def BringUp.sendReqClientSpawn (b : BringUp) : BringUp :=
  { b with sent := b.sent ++ [some HC_OP_ReqClientSpawn], req_client_spawn_sent := true }

/-- The sender `ZoneSendSendExpZonein` on the bring-up part. -/
def BringUp.sendSendExpZonein (b : BringUp) : BringUp :=
  { b with sent := b.sent ++ [some HC_OP_SendExpZonein], exp_zonein_sent := true }

/-- The sender `ZoneSendSetServerFilter` on the bring-up part. -/
def BringUp.sendSetServerFilter (b : BringUp) : BringUp :=
  { b with sent := b.sent ++ [some HC_OP_SetServerFilter], server_filter_sent := true }

/-- The sender `ZoneSendClientReady` on the bring-up part. -/
def BringUp.sendClientReady (b : BringUp) : BringUp :=
  { b with sent := b.sent ++ [some HC_OP_ClientReady], client_ready_sent := true }

/-- The senders `ZoneSendAckPacket` and `ZoneSendZoneEntry`, one after the
other, on the bring-up part. -/
def BringUp.sendAckAndZoneEntry (b : BringUp) : BringUp :=
  { b with sent := b.sent ++ [some HC_OP_AckPacket] ++ [some HC_OP_ZoneEntry],
           zone_entry_sent := true }

/-- The step `CheckZoneRequestPhaseComplete` on the bring-up part. -/
def BringUp.check (b : BringUp) : BringUp :=
  if b.new_zone_received && decide (b.aa_table_count > 0) && decide (b.tribute_count > 0) &&
      decide (b.guild_tribute_count > 0) && !b.req_client_spawn_sent then
    b.sendReqClientSpawn
  else b

/-- The handler `ZoneProcessWeather` on the bring-up part. -/
def BringUp.weather (b : BringUp) : BringUp :=
  if !b.req_new_zone_sent then b.sendReqNewZone else b

/-- The handler `ZoneProcessNewZone` on the bring-up part. -/
def BringUp.newZone (b : BringUp) : BringUp :=
  let b1 := { b with new_zone_received := true }
  let b2 := if !b1.aa_table_sent then b1.sendSendAATable else b1
  let b3 := if !b2.update_aa_sent then b2.sendUpdateAA else b2
  let b4 := if !b3.tributes_sent then b3.sendSendTributes else b3
  if !b4.guild_tributes_sent then b4.sendRequestGuildTributes else b4

/-- The handler `ZoneProcessSendZonepoints` on the bring-up part. -/
def BringUp.zonepoints (b : BringUp) : BringUp :=
  if b.zone_entry_sent && !b.client_ready_sent then
    let b1 :=
      if !b.server_filter_sent && b.send_exp_zonein_received then b.sendSetServerFilter else b
    if !b1.client_ready_sent && b1.server_filter_sent then b1.sendClientReady else b1
  else b

/-- The handler `ZoneProcessWorldObjectsSent` on the bring-up part. -/
def BringUp.worldObjectsSent (b : BringUp) : BringUp :=
  if !b.exp_zonein_sent then b.sendSendExpZonein else b

/-- The handler `ZoneProcessGuildMOTD` on the bring-up part. -/
def BringUp.guildMOTD (b : BringUp) : BringUp :=
  let b1 := if !b.server_filter_sent then b.sendSetServerFilter else b
  if !b1.client_ready_sent then b1.sendClientReady else b1

/-- The switch of `ZoneOnPacketRecv` on the bring-up part, by the opcode read
from the packet. -/
def BringUp.step (b : BringUp) (o : Option Nat) : BringUp :=
  match o with
  | none => b
  | some opcode =>
    if opcode = HC_OP_SessionReady then b.sendAckAndZoneEntry
    else if opcode = HC_OP_Weather then b.weather
    else if opcode = HC_OP_NewZone then b.newZone
    else if opcode = HC_OP_SendAATable then
      BringUp.check { b with aa_table_count := b.aa_table_count + 1 }
    else if opcode = HC_OP_RespondAA then b.check
    else if opcode = HC_OP_TributeInfo then
      BringUp.check { b with tribute_count := b.tribute_count + 1 }
    else if opcode = HC_OP_SendGuildTributes then
      BringUp.check { b with guild_tribute_count := b.guild_tribute_count + 1 }
    else if opcode = HC_OP_SendZonepoints then b.zonepoints
    else if opcode = HC_OP_SendExpZonein then { b with send_exp_zonein_received := true }
    else if opcode = HC_OP_WorldObjectsSent then b.worldObjectsSent
    else if opcode = HC_OP_GuildMOTD then b.guildMOTD
    else b

/-- The bring-up part after a list of received opcodes. -/
def BringUp.run (b : BringUp) (os : List (Option Nat)) : BringUp :=
  os.foldl BringUp.step b


/-- The bring-up invariant: each of the nine bring-up packets is in the queue
exactly once when its flag is set, and not at all otherwise. -/
def BringUp.SentOnce (b : BringUp) : Prop :=
  b.sent.count (some HC_OP_ReqNewZone) = (if b.req_new_zone_sent then 1 else 0) ∧
  b.sent.count (some HC_OP_SendAATable) = (if b.aa_table_sent then 1 else 0) ∧
  b.sent.count (some HC_OP_UpdateAA) = (if b.update_aa_sent then 1 else 0) ∧
  b.sent.count (some HC_OP_SendTributes) = (if b.tributes_sent then 1 else 0) ∧
  b.sent.count (some HC_OP_RequestGuildTributes) = (if b.guild_tributes_sent then 1 else 0) ∧
  b.sent.count (some HC_OP_ReqClientSpawn) = (if b.req_client_spawn_sent then 1 else 0) ∧
  b.sent.count (some HC_OP_SendExpZonein) = (if b.exp_zonein_sent then 1 else 0) ∧
  b.sent.count (some HC_OP_SetServerFilter) = (if b.server_filter_sent then 1 else 0) ∧
  b.sent.count (some HC_OP_ClientReady) = (if b.client_ready_sent then 1 else 0)


/-! ## Events of the zone connection -/

/-- What the zone connection manager hands to the two callbacks that
`ConnectToZone` installs: a status change (`OnConnectionStateChange`) or a
received packet (`OnPacketRecv`). -/
inductive ZoneEvent where
  | status (st : DbProtocolStatus)
  | recv (ctx : RecvCtx) (p : Packet)

/-- The callback that `ConnectToZone` installed for an event:
`ZoneOnStatusChangeReconnectEnabled` or `ZoneOnPacketRecv`. -/
def ZoneOnEvent (s : EverQuest) : ZoneEvent → EverQuest
  | ZoneEvent.status st => ZoneOnStatusChangeReconnectEnabled s st
  | ZoneEvent.recv ctx p => ZoneOnPacketRecv ctx s p

/-- The zone session after a list of events, oldest first. -/
def ZoneRun (s : EverQuest) (evs : List ZoneEvent) : EverQuest :=
  evs.foldl ZoneOnEvent s

/-! ## Login and world sessions -/

def HC_OP_Login : Nat := 0x0002
def HC_OP_ServerListRequest : Nat := 0x0004
def HC_OP_PlayEverquestRequest : Nat := 0x000d
def HC_OP_ChatMessage : Nat := 0x0016
def HC_OP_LoginAccepted : Nat := 0x0017
def HC_OP_ServerListResponse : Nat := 0x0018
def HC_OP_PlayEverquestResponse : Nat := 0x0021
/-- The `struct WorldServer` of `eq.h`. -/
structure WorldServer where
  long_name : List Nat
  address : List Nat
  type : ℤ
  lang : List Nat
  region : List Nat
  status : ℤ
  players : ℤ
  deriving DecidableEq

/-- Modelled from the spec: `DES_ncbc_encrypt` of OpenSSL with the all-zero key
schedule and initialisation vector that `eqcrypt_block` passes; `ncbc b enc`
is the output for input `b`, encrypting when `enc` is set. -/
structure Des where
  ncbc : List Nat → Bool → List Nat

/-- The members of `class EverQuest` that the login and world handlers read or
write. `m_world_servers` is the `std::map<uint32_t, WorldServer>` as its
entries in ascending key order; `login_queue` and `world_queue` are the packets
queued on `m_login_connection` and `m_world_connection`, oldest first;
`login_connects` and `world_connects` are the `Connect(host, port)` calls made
on the two connection managers; `login_reconnect` tells which status callback
is installed on the login manager (`LoginOnStatusChangeReconnectEnabled` when
set); `login_closed` records `m_login_connection->Close()`. -/
structure LoginSession where
  m_host : List Nat
  m_port : Nat
  m_user : List Nat
  m_pass : List Nat
  m_server : List Nat
  m_key : List Nat
  m_dbid : Nat
  m_login_sequence : Nat
  m_world_servers : List (Nat × WorldServer)
  login_queue : List Packet
  login_connects : List (List Nat × Nat)
  login_reconnect : Bool
  login_closed : Bool
  world_queue : List Packet
  world_connects : List (List Nat × Nat)
  deriving DecidableEq

/-- Assignment `m[k] = v` on a `std::map` kept as its entries in ascending key
order: a new key is put in its place, an existing key gets the new value. -/
def mapAssign {α : Type} : List (Nat × α) → Nat → α → List (Nat × α)
  | [], k, v => [(k, v)]
  | (k0, v0) :: rest, k, v =>
    if k < k0 then (k, v) :: (k0, v0) :: rest
    else if k = k0 then (k, v) :: rest
    else (k0, v0) :: mapAssign rest k v

/-- Lookup `m.find(k)` on a `std::map` kept as its entries. -/
def mapFind {α : Type} (m : List (Nat × α)) (k : Nat) : Option α :=
  (m.find? (fun e => e.1 == k)).map (fun e => e.2)

/-- Modelled from the spec: `EQ::Net::Packet::GetInt32`, the little-endian
32-bit word at an offset read as a signed number. -/
def GetInt32 (p : Packet) (off : Nat) : Option ℤ :=
  (GetUInt32 p off).map toInt32

/-- The bytes that `strcpy` copies from `s.c_str()`: up to the first zero. -/
def cstr (s : List Nat) : List Nat :=
  (s.map (fun b => b % 256)).takeWhile (fun b => b != 0)

/-- A buffer with the bytes `src` copied to offset `off` (`memcpy`, `strcpy`). -/
def writeAt (buf : List Nat) (off : Nat) (src : List Nat) : List Nat :=
  buf.take off ++ src ++ buf.drop (off + src.length)

/-- Function `eqcrypt_block`: the DES pass over the input, refused
(`nullptr`, nothing written) for a decryption whose size is not a multiple of
8. -/
def eqcrypt_block (d : Des) (buffer_in : List Nat) (enc : Bool) : Option (List Nat) :=
  if !enc && buffer_in.length != 0 && buffer_in.length % 8 != 0 then none
  else some (d.ncbc buffer_in enc)

/-- The call `m_login_connection->QueuePacket(p)`. -/
def LoginQueuePacket (s : LoginSession) (p : Packet) : LoginSession :=
  { s with login_queue := s.login_queue ++ [p] }

/-- Method `EverQuest::LoginSendSessionReady`. -/
def LoginSendSessionReady (s : LoginSession) : LoginSession :=
  let p := u16le HC_OP_SessionReady ++ u32le s.m_login_sequence ++ u32le 0 ++ u32le 2048
  LoginQueuePacket { s with m_login_sequence := (s.m_login_sequence + 1) % 2 ^ 32 } p

/-- Method `EverQuest::LoginSendLogin`: the opcode, the sequence, the constant
`0x00020000`, two bytes left zero by `Resize`, and the encrypted block of
user name and password, each zero-terminated. -/
def LoginSendLogin (d : Des) (s : LoginSession) : LoginSession :=
  let buffer_len := s.m_user.length + s.m_pass.length + 2
  let buffer := writeAt (writeAt (zeros buffer_len) 0 (cstr s.m_user ++ [0]))
    (s.m_user.length + 1) (cstr s.m_pass ++ [0])
  let encrypted_len := if buffer_len % 8 > 0 then (buffer_len / 8 + 1) * 8 else buffer_len
  let block :=
    match eqcrypt_block d buffer true with
    | some out => (out ++ zeros encrypted_len).take encrypted_len
    | none => zeros encrypted_len
  let p := u16le HC_OP_Login ++ u32le s.m_login_sequence ++ u32le 0x00020000 ++ [0, 0] ++ block
  LoginQueuePacket { s with m_login_sequence := (s.m_login_sequence + 1) % 2 ^ 32 } p

/-- Method `EverQuest::LoginSendServerRequest`. -/
def LoginSendServerRequest (s : LoginSession) : LoginSession :=
  let p := u16le HC_OP_ServerListRequest ++ u32le s.m_login_sequence ++ u32le 0 ++ u16le 0
  LoginQueuePacket { s with m_login_sequence := (s.m_login_sequence + 1) % 2 ^ 32 } p

/-- Method `EverQuest::LoginSendPlayRequest`. -/
def LoginSendPlayRequest (s : LoginSession) (id : Nat) : LoginSession :=
  let p := u16le HC_OP_PlayEverquestRequest ++ u32le s.m_login_sequence ++ u32le 0 ++
    u16le 0 ++ u32le id
  LoginQueuePacket { s with m_login_sequence := (s.m_login_sequence + 1) % 2 ^ 32 } p

/-- Method `EverQuest::LoginDisableReconnect`: installs
`LoginOnStatusChangeReconnectDisabled` and closes the login connection. -/
def LoginDisableReconnect (s : LoginSession) : LoginSession :=
  { s with login_reconnect := false, login_closed := true }

/-- Method `EverQuest::ConnectToWorld`: a new world connection manager and
`Connect(world_address, 9000)`. -/
def ConnectToWorld (s : LoginSession) (world_address : List Nat) : LoginSession :=
  { s with world_connects := s.world_connects ++ [(world_address, 9000)] }

/-- The `StaticPacket sp` of `LoginProcessLoginResponse`: the bytes from
offset 12 on, cut to a multiple of 8 and decrypted. A packet shorter than 12
bytes has none: `p.Length() - 12` wraps around and the buffer of that size
cannot be allocated. -/
def decryptedPayload (d : Des) (p : Packet) : Option Packet :=
  if Length p < 12 then none
  else
    let size := Length p - 12
    let encrypt_size := if size % 8 > 0 then size / 8 * 8 else size
    match eqcrypt_block d (((p.drop 12).take encrypt_size).map (fun b => b % 256)) false with
    | some out => some (out.take encrypt_size)
    | none => none

/-- Method `EverQuest::LoginProcessLoginResponse`. A failed read leaves the
handler (the getters throw), with the assignments made so far kept. -/
def LoginProcessLoginResponse (d : Des) (s : LoginSession) (p : Packet) : LoginSession :=
  match decryptedPayload d p with
  | none => s
  | some sp =>
    match GetUInt16 sp 1 with
    | none => s
    | some response_error =>
      if response_error > 101 then LoginDisableReconnect s
      else
        match GetCStringChecked sp 12 with
        | none => s
        | some key =>
          let s1 := { s with m_key := key }
          match GetUInt32 sp 8 with
          | none => s1
          | some dbid => LoginSendServerRequest { s1 with m_dbid := dbid }

/-- One pass of the loop body of `LoginProcessServerPacketList`: the record at
`idx`, as its server id, its `WorldServer` and the offset after it; `none` when
a read fails. -/
def readServerRecord (p : Packet) (idx : Nat) : Option (Nat × WorldServer × Nat) :=
  let address := GetCString p idx
  let idx1 := idx + (address.length + 1)
  match GetInt32 p idx1 with
  | none => none
  | some type =>
    let idx2 := idx1 + 4
    match GetUInt32 p idx2 with
    | none => none
    | some id =>
      let idx3 := idx2 + 4
      let long_name := GetCString p idx3
      let idx4 := idx3 + (long_name.length + 1)
      let lang := GetCString p idx4
      let idx5 := idx4 + (lang.length + 1)
      let region := GetCString p idx5
      let idx6 := idx5 + (region.length + 1)
      match GetInt32 p idx6 with
      | none => none
      | some status =>
        match GetInt32 p (idx6 + 4) with
        | none => none
        | some players =>
          some (id, { long_name := long_name, address := address, type := type, lang := lang,
                      region := region, status := status, players := players }, idx6 + 8)

/-- The `for` loop of `LoginProcessServerPacketList` with `n` passes left, from
offset `idx` and listing `m`: the listing at the end and whether every read
succeeded (a failed read leaves the handler with the listing built so far). -/
def serverListLoop (p : Packet) : Nat → Nat → List (Nat × WorldServer) →
    List (Nat × WorldServer) × Bool
  | 0, _, m => (m, true)
  | n + 1, idx, m =>
    match readServerRecord p idx with
    | none => (m, false)
    | some (id, ws, next) => serverListLoop p n next (mapAssign m id ws)

/-- Method `EverQuest::LoginProcessServerPacketList`. -/
def LoginProcessServerPacketList (s : LoginSession) (p : Packet) : LoginSession :=
  let s0 := { s with m_world_servers := [] }
  match GetUInt32 p 18 with
  | none => s0
  | some number_of_servers =>
    let r := serverListLoop p number_of_servers 22 []
    let s1 := { s0 with m_world_servers := r.1 }
    if r.2 then
      match r.1.find? (fun server => decide (server.2.long_name = s.m_server)) with
      | some server => LoginSendPlayRequest s1 server.1
      | none => LoginDisableReconnect s1
    else s1

/-- Method `EverQuest::LoginProcessServerPlayResponse` (debug output off, as
`s_debug_level` is initialised). -/
def LoginProcessServerPlayResponse (s : LoginSession) (p : Packet) : LoginSession :=
  match GetUInt8 p 12 with
  | none => s
  | some allowed =>
    if allowed ≠ 0 then
      match GetUInt32 p 18 with
      | none => s
      | some server =>
        match mapFind s.m_world_servers server with
        | some ws => LoginDisableReconnect (ConnectToWorld s ws.address)
        | none => s
    else
      match GetUInt16 p 13 with
      | none => s
      | some _ => LoginDisableReconnect s

/-- Method `EverQuest::LoginOnPacketRecv`. -/
def LoginOnPacketRecv (d : Des) (s : LoginSession) (p : Packet) : LoginSession :=
  match GetUInt16 p 0 with
  | none => s
  | some opcode =>
    if opcode = HC_OP_ChatMessage then LoginSendLogin d s
    else if opcode = HC_OP_LoginAccepted then LoginProcessLoginResponse d s p
    else if opcode = HC_OP_ServerListResponse then LoginProcessServerPacketList s p
    else if opcode = HC_OP_PlayEverquestResponse then LoginProcessServerPlayResponse s p
    else s

/-- Method `EverQuest::LoginOnStatusChangeReconnectEnabled`. -/
def LoginOnStatusChangeReconnectEnabled (s : LoginSession) (status : DbProtocolStatus) :
    LoginSession :=
  let s1 := if status = DbProtocolStatus.StatusConnected then LoginSendSessionReady s else s
  if status = DbProtocolStatus.StatusDisconnected then
    { s1 with m_key := [], m_dbid := 0,
              login_connects := s1.login_connects ++ [(s1.m_host, s1.m_port)] }
  else s1

/-- Method `EverQuest::LoginOnStatusChangeReconnectDisabled`: it only drops
the connection pointer. -/
def LoginOnStatusChangeReconnectDisabled (s : LoginSession) (_status : DbProtocolStatus) :
    LoginSession := s

/-- Modelled from the spec: the login connection manager reports a status
change to the callback last installed with `OnConnectionStateChange`. -/
def LoginOnStatusChange (s : LoginSession) (status : DbProtocolStatus) : LoginSession :=
  if s.login_reconnect then LoginOnStatusChangeReconnectEnabled s status
  else LoginOnStatusChangeReconnectDisabled s status

/-- Example data: a login session configured for server `Test` (bytes
84, 101, 115, 116), right after construction. -/
def exampleLogin : LoginSession :=
  { m_host := [104], m_port := 5998, m_user := [117], m_pass := [112],
    m_server := [84, 101, 115, 116], m_key := [], m_dbid := 0, m_login_sequence := 2,
    m_world_servers := [], login_queue := [], login_connects := [([104], 5998)],
    login_reconnect := true, login_closed := false, world_queue := [], world_connects := [] }

/-- The records of a server list block in the order of the block: `n` records
from offset `idx`, each read as the loop body of `LoginProcessServerPacketList`
reads it; `none` when a read fails. -/
def serverRecords (p : Packet) : Nat → Nat → Option (List (Nat × WorldServer))
  | 0, _ => some []
  | n + 1, idx =>
    match readServerRecord p idx with
    | none => none
    | some (id, ws, next) => (serverRecords p n next).map (fun rs => (id, ws) :: rs)

/-- The last record of a block that carries a given server id. -/
def lastRecord (rs : List (Nat × WorldServer)) (id : Nat) : Option WorldServer :=
  (rs.reverse.find? (fun r => r.1 == id)).map (fun r => r.2)

/-- Example data: a stand-in for the DES pass that hands its input back. -/
def exampleDes : Des := { ncbc := fun b _ => b }

/-- Example data: a LoginAccepted packet whose payload (here in the clear)
has response code 102. -/
def exampleLoginRejected : Packet :=
  [0x17, 0, 0, 0, 0, 0, 0, 0, 0, 0, 0, 0,
   0, 102, 0, 0, 0, 0, 0, 0, 0, 0, 0, 0, 0, 0, 0, 0]

/-- Example data: a LoginAccepted packet whose payload (here in the clear)
has response code 101, dbid 258 and key `k1`. -/
def exampleLoginAccepted : Packet :=
  [0x17, 0, 0, 0, 0, 0, 0, 0, 0, 0, 0, 0,
   0, 101, 0, 0, 0, 0, 0, 0, 2, 1, 0, 0, 107, 49, 0, 0]

/-- Example data: a ServerListResponse with two records that both carry
server id 1: the first with long name `Test` at address `a`, the second with
long name `Dev` at address `b`. -/
def exampleServerListTwice : Packet :=
  [0x18, 0, 0, 0, 0, 0, 0, 0, 0, 0, 0, 0, 0, 0, 0, 0, 0, 0, 2, 0, 0, 0,
   97, 0, 0, 0, 0, 0, 1, 0, 0, 0, 84, 101, 115, 116, 0, 0, 0, 0, 0, 0, 0, 0, 0, 0, 0,
   98, 0, 0, 0, 0, 0, 1, 0, 0, 0, 68, 101, 118, 0, 0, 0, 0, 0, 0, 0, 0, 0, 0, 0]

/-- Example data: a ServerListResponse with the records (id 3, `Dev`, address
`b`) and (id 1, `Test`, address `a`). -/
def exampleServerList : Packet :=
  [0x18, 0, 0, 0, 0, 0, 0, 0, 0, 0, 0, 0, 0, 0, 0, 0, 0, 0, 2, 0, 0, 0,
   98, 0, 0, 0, 0, 0, 3, 0, 0, 0, 68, 101, 118, 0, 0, 0, 0, 0, 0, 0, 0, 0, 0, 0,
   97, 0, 0, 0, 0, 0, 1, 0, 0, 0, 84, 101, 115, 116, 0, 0, 0, 0, 0, 0, 0, 0, 0, 0, 0]

/-- Example data: the example login session with one listed server, id 1 at
address `a`. -/
def exampleListed : LoginSession :=
  { exampleLogin with
    m_world_servers := [(1, { long_name := [84, 101, 115, 116], address := [97], type := 0,
                              lang := [], region := [], status := 0, players := 0 })] }

/-- Example data: a PlayEverquestResponse with the allowed byte set and
server id 5. -/
def examplePlayAllowedUnknown : Packet :=
  [0x21, 0, 0, 0, 0, 0, 0, 0, 0, 0, 0, 0, 1, 0, 0, 0, 0, 0, 5, 0, 0, 0]

/-- Example data: a PlayEverquestResponse with the allowed byte set and
server id 1. -/
def examplePlayAllowed : Packet :=
  [0x21, 0, 0, 0, 0, 0, 0, 0, 0, 0, 0, 0, 1, 0, 0, 0, 0, 0, 1, 0, 0, 0]

/-- Example data: a PlayEverquestResponse with the allowed byte clear. -/
def examplePlayDenied : Packet :=
  [0x21, 0, 0, 0, 0, 0, 0, 0, 0, 0, 0, 0, 0, 0, 0, 0, 0, 0, 1, 0, 0, 0]

/-- The entries of a `std::map` kept as a list are in strictly ascending key
order. -/
def KeysAscend {α : Type} (m : List (Nat × α)) : Prop :=
  m.Pairwise (fun a b => a.1 < b.1)

/-! ## Looking an entity up by name -/

/-- Function `::tolower` in the C locale, on a byte. -/
def tolower (c : Nat) : Nat := if 65 ≤ c ∧ c ≤ 90 then c + 32 else c

/-- The entries of `m_entities` in the order in which a `for` loop over the
`std::map<uint16_t, Entity>` visits them: by ascending key. -/
def entityList (m : Nat → Option Entity) : List (Nat × Entity) :=
  (List.range 65536).filterMap (fun k => (m k).map (fun e => (k, e)))

/-- The search term of `FindEntityByName`: lower case, then every space
replaced by an underscore. -/
def searchTerm (name : List Nat) : List Nat :=
  (name.map tolower).map (fun c => if c = 32 then 95 else c)

/-- Method `EverQuest::FindEntityByName`: the first entity, in map order,
whose lower-cased name has the search term at position 0. -/
def FindEntityByName (s : EverQuest) (name : List Nat) : Option Entity :=
  let name_lower := searchTerm name
  ((entityList s.m_entities).find?
    (fun pair => name_lower.isPrefixOf (pair.2.name.map tolower))).map (fun pair => pair.2)

/-! ## The movement engine -/

def ANIM_WALK : Nat := 1
def DEFAULT_RUN_SPEED : ℚ := 100
def DEFAULT_WALK_SPEED : ℚ := 40
def WALK_SPEED_THRESHOLD : ℚ := 45
def POSITION_UPDATE_INTERVAL_MS : ℚ := 50
def FOLLOW_CLOSE_DISTANCE : ℚ := 10
def FOLLOW_FAR_DISTANCE : ℚ := 30
def FOLLOW_MIN_SPEED_MULT : ℚ := 1 / 2
def FOLLOW_MAX_SPEED_MULT : ℚ := 3 / 2
def BEST_Z_INVALID : ℚ := -99999

/-- A `glm::vec3`. -/
structure Vec3 where
  x : ℚ
  y : ℚ
  z : ℚ
  deriving DecidableEq

/-- Modelled from the spec: a node of an `IPathfinder::IPath` (declared in
`pathfinder_interface.h`, outside `hc/`): a position and the teleport mark. -/
structure IPathNode where
  pos : Vec3
  teleport : Bool
  deriving DecidableEq

/-- Modelled from the spec: the fields of `PathfinderOptions` that
`EverQuest::FindPath` sets. -/
structure PathfinderOptions where
  smooth_path : Bool
  step_size : ℚ
  offset : ℚ

/-- What `IPathfinder::FindPath` hands back: the path and the two flags it
sets through its reference parameters. -/
structure PathResult where
  path : List IPathNode
  partial_path : Bool
  stuck : Bool

/-- Modelled from the spec: an `IPathfinder` object, as its virtual method
`FindPath(start, end, partial, stuck, opts)`. -/
structure IPathfinder where
  FindPath : Vec3 → Vec3 → PathfinderOptions → PathResult

/-- Method `PathfinderNull::FindPath`. -/
def PathfinderNull.FindPath (start finish : Vec3) (_opts : PathfinderOptions) : PathResult :=
  { path := [{ pos := start, teleport := false }, { pos := finish, teleport := false }],
    partial_path := false, stuck := false }

/-- The class `PathfinderNull`. -/
def PathfinderNull : IPathfinder := { FindPath := PathfinderNull.FindPath }

/-- Modelled from the spec: the `HCMap` object, as the ray caster behind
`m_impl->rm` (`RaycastMesh::raycast(from, to, hit, ...)`, outside `hc/`): the
hit point of the ray, if it hits; `rm` is `none` when no mesh is loaded. -/
structure HCMap where
  rm : Option (Vec3 → Vec3 → Option Vec3)

/-- Method `HCMap::FindBestZ`. -/
def HCMap.FindBestZ (map : HCMap) (start : Vec3) : ℚ :=
  match map.rm with
  | none => BEST_Z_INVALID
  | some raycast =>
    let src : Vec3 := { x := start.x, y := start.y, z := start.z + 10 }
    match raycast src { x := start.x, y := start.y, z := BEST_Z_INVALID } with
    | some result => result.z
    | none =>
      match raycast src { x := start.x, y := start.y, z := -BEST_Z_INVALID } with
      | some result => result.z
      | none => BEST_Z_INVALID

/-- The members of `class EverQuest` that only the movement engine uses, and
this instance's entries of the function-local static maps of `UpdateMovement`
(`none`: no entry yet). Clock readings are in milliseconds;
`m_last_position_update_time` is 0 while it is the default time point. -/
structure Movement where
  m_target_x : ℚ
  m_target_y : ℚ
  m_target_z : ℚ
  m_move_speed : ℚ
  m_last_position_update_time : Nat
  m_follow_target : List Nat
  m_follow_distance : ℚ
  m_pathfinder : Option IPathfinder
  m_current_path : List Vec3
  m_current_path_index : Nat
  m_use_pathfinding : Bool
  m_zone_map : Option HCMap
  last_idle_updates : Option Nat
  stuck_detection : Option (ℚ × Nat)
  last_move_times : Option Nat
  last_z_fix_times : Option Nat

/-- One `EverQuest` object in the zone: the members of the zone phase and
those of the movement engine. -/
structure Client where
  eq : EverQuest
  mv : Movement

/-- What a movement method takes from its surroundings: the reading of
`std::chrono::steady_clock::now()` in milliseconds (one reading for the whole
call), and the library functions `std::sqrt` and `std::atan2`, the latter as
the angle in degrees (`std::atan2(a, b) * 180.0f / M_PI`). Float arithmetic
is exact rational arithmetic here, so these two are supplied. -/
structure MoveCtx where
  now : Nat
  sqrt : ℚ → ℚ
  atan2deg : ℚ → ℚ → ℚ

/-- Method `EverQuest::CalculateHeading`. -/
def CalculateHeading (ctx : MoveCtx) (x1 y1 x2 y2 : ℚ) : ℚ :=
  let dx := x2 - x1
  let dy := y2 - y1
  let degrees := ctx.atan2deg dx dy
  if degrees < 0 then degrees + 360 else degrees

/-- Method `EverQuest::CalculateDistance2D`. -/
def CalculateDistance2D (ctx : MoveCtx) (x1 y1 x2 y2 : ℚ) : ℚ :=
  let dx := x2 - x1
  let dy := y2 - y1
  ctx.sqrt (dx * dx + dy * dy)

/-- Method `EverQuest::StopMovement`. -/
def StopMovement (c : Client) : Client :=
  if c.eq.m_is_moving then
    { eq := SendPositionUpdate { c.eq with m_is_moving := false, m_animation := ANIM_STAND },
      mv := { c.mv with m_current_path := [], m_current_path_index := 0 } }
  else c

/-- Method `EverQuest::MoveTo`. -/
def MoveTo (ctx : MoveCtx) (c : Client) (x y z : ℚ) : Client :=
  let new_heading := CalculateHeading ctx c.eq.m_x c.eq.m_y x y
  { eq := SendPositionUpdate { c.eq with m_is_moving := true, m_heading := new_heading },
    mv := { c.mv with m_target_x := x, m_target_y := y, m_target_z := z } }

/-- Method `EverQuest::FindPath`: the state afterwards and the value
returned. -/
def FindPath (c : Client) (start finish : Vec3) : Client × Bool :=
  match c.mv.m_pathfinder with
  | none => (c, false)
  | some pathfinder =>
    let r := pathfinder.FindPath start finish
      { smooth_path := true, step_size := 10, offset := 5 }
    let c1 : Client := { c with mv := { c.mv with m_current_path := [],
                                                  m_current_path_index := 0 } }
    if r.path.isEmpty then (c1, false)
    else
      ({ c1 with mv := { c1.mv with m_current_path :=
          (r.path.filter (fun node => !node.teleport)).map (fun node => node.pos) } }, true)

/-- Method `EverQuest::GetBestZ`. -/
def GetBestZ (c : Client) (x y z : ℚ) : ℚ :=
  match c.mv.m_zone_map with
  | none => z
  | some map =>
    let best_z := map.FindBestZ { x := x, y := y, z := z }
    if best_z = BEST_Z_INVALID then z else best_z

/-- Method `EverQuest::FixZ`, with the rounding of its binary32 operations:
the difference `new_z - m_z` (computed for `z_diff` and again for
`adjustment`), the product with the literal `0.3f`, and the sum
`m_z += adjustment`. -/
def FixZ (c : Client) : Client :=
  match c.mv.m_zone_map with
  | none => c
  | some _ =>
    let new_z := GetBestZ c c.eq.m_x c.eq.m_y c.eq.m_z
    let z_diff := |f32Round (new_z - c.eq.m_z)|
    if z_diff > 1 ∧ z_diff < 20 then
      let adjustment := f32Round (f32Round (new_z - c.eq.m_z) * f32Round (3 / 10))
      { c with eq := { c.eq with m_z := f32Round (c.eq.m_z + adjustment) } }
    else c

/-- The first entity, in map order, with a given name: the entity at which the
`for` loop of the follow block of `UpdateMovement` stops. -/
def followedEntity (s : EverQuest) (name : List Nat) : Option Entity :=
  ((entityList s.m_entities).find? (fun pair => decide (pair.2.name = name))).map
    (fun pair => pair.2)

/-- The follow block of `EverQuest::UpdateMovement` (its first `if`): the
state after it, and whether the method returns from inside it. -/
def followBlock (ctx : MoveCtx) (c : Client) : Client × Bool :=
  if c.mv.m_follow_target.isEmpty then (c, false)
  else
    match followedEntity c.eq c.mv.m_follow_target with
    | none => (c, false)
    | some entity =>
      let dist := CalculateDistance2D ctx c.eq.m_x c.eq.m_y entity.x entity.y
      if dist < c.mv.m_follow_distance then
        (if c.eq.m_is_moving then StopMovement c else c, true)
      else if dist > c.mv.m_follow_distance * (3 / 2) then
        let final_dest_dist : ℚ :=
          match c.mv.m_current_path.getLast? with
          | some final_waypoint =>
            CalculateDistance2D ctx final_waypoint.x final_waypoint.y entity.x entity.y
          | none => CalculateDistance2D ctx c.mv.m_target_x c.mv.m_target_y entity.x entity.y
        if final_dest_dist > 5 ∨ c.mv.m_current_path.isEmpty then
          let direct : Client :=
            { eq := { c.eq with m_is_moving := true },
              mv := { c.mv with m_target_x := entity.x, m_target_y := entity.y,
                                m_target_z := entity.z } }
          if c.mv.m_use_pathfinding ∧ c.mv.m_pathfinder.isSome then
            let r := FindPath c { x := c.eq.m_x, y := c.eq.m_y, z := c.eq.m_z }
              { x := entity.x, y := entity.y, z := entity.z }
            if r.2 then
              ({ eq := { r.1.eq with m_is_moving := true },
                 mv := { r.1.mv with m_current_path_index := 0 } }, false)
            else
              ({ eq := { r.1.eq with m_is_moving := true },
                 mv := { r.1.mv with m_target_x := entity.x, m_target_y := entity.y,
                                     m_target_z := entity.z } }, false)
          else (direct, false)
        else (c, false)
      else (c, false)

/-- The idle block of `EverQuest::UpdateMovement` (`if (!m_is_moving)`): a
position update every 1500 ms, then the method returns. -/
def idleBlock (ctx : MoveCtx) (c : Client) : Client :=
  let last := match c.mv.last_idle_updates with
    | some t => t
    | none => ctx.now
  let elapsed := ctx.now - last
  if elapsed ≥ 1500 then
    { eq := SendPositionUpdate c.eq, mv := { c.mv with last_idle_updates := some ctx.now } }
  else { c with mv := { c.mv with last_idle_updates := some last } }

/-- The stuck detection inside the path block of `EverQuest::UpdateMovement`:
the state after it, and whether the method returns from inside it. -/
def stuckDetection (ctx : MoveCtx) (c : Client) (dist_to_waypoint : ℚ) : Client × Bool :=
  match c.mv.stuck_detection with
  | none => ({ c with mv := { c.mv with stuck_detection := some (dist_to_waypoint, ctx.now) } },
      false)
  | some (last_dist, last_time) =>
    let elapsed := (ctx.now - last_time) / 1000
    if elapsed ≥ 3 ∧ |dist_to_waypoint - last_dist| < 1 then
      if c.mv.m_current_path_index < c.mv.m_current_path.length - 1 then
        ({ c with mv := { c.mv with m_current_path_index := c.mv.m_current_path_index + 1,
                                    stuck_detection := some (dist_to_waypoint, ctx.now) } },
          false)
      else (StopMovement c, true)
    else if elapsed ≥ 1 then
      ({ c with mv := { c.mv with stuck_detection := some (dist_to_waypoint, ctx.now) } }, false)
    else (c, false)

/-- The path block of `EverQuest::UpdateMovement` (`if (!m_current_path.empty()
&& m_current_path_index < m_current_path.size())`): the state after it, and
whether the method returns from inside it. -/
def pathBlock (ctx : MoveCtx) (c : Client) : Client × Bool :=
  match c.mv.m_current_path[c.mv.m_current_path_index]? with
  | none => (c, false)
  | some waypoint =>
    let dist_to_waypoint := CalculateDistance2D ctx c.eq.m_x c.eq.m_y waypoint.x waypoint.y
    let r := stuckDetection ctx c dist_to_waypoint
    if r.2 then r
    else
      let c1 := r.1
      if dist_to_waypoint < 5 then
        let c2 : Client :=
          { c1 with mv := { c1.mv with m_current_path_index := c1.mv.m_current_path_index + 1 } }
        match c2.mv.m_current_path[c2.mv.m_current_path_index]? with
        | none => (StopMovement c2, true)
        | some next_waypoint =>
          let dist_to_next :=
            CalculateDistance2D ctx c2.eq.m_x c2.eq.m_y next_waypoint.x next_waypoint.y
          if dist_to_next > 2 then
            (MoveTo ctx c2 next_waypoint.x next_waypoint.y next_waypoint.z, false)
          else (c2, false)
      else (c1, false)

/-- The arrival branch of `EverQuest::UpdateMovement` (`if (distance < 2.0f)`):
the position snaps to the target; the method then returns, after
`StopMovement` unless a further waypoint is left. -/
def arriveBlock (c : Client) : Client :=
  let c1 : Client := { c with eq := { c.eq with m_x := c.mv.m_target_x,
                                                m_y := c.mv.m_target_y,
                                                m_z := c.mv.m_target_z } }
  if ¬ c.mv.m_current_path.isEmpty ∧
      c.mv.m_current_path_index < c.mv.m_current_path.length - 1 then c1
  else StopMovement c1

/-- The `float delta_time` of `EverQuest::UpdateMovement`: the seconds since
the previous moving tick, at most 0.1. -/
def deltaTime (ctx : MoveCtx) (c : Client) : ℚ :=
  let last := match c.mv.last_move_times with
    | some t => t
    | none => ctx.now
  min (((ctx.now - last : Nat) : ℚ) / 1000) (1 / 10)

/-- The `float current_speed` of `EverQuest::UpdateMovement` at a distance
from the target: the move speed, scaled between the follow multipliers while
following. -/
def currentSpeed (c : Client) (distance : ℚ) : ℚ :=
  if c.mv.m_follow_target.isEmpty then c.mv.m_move_speed
  else if distance > FOLLOW_FAR_DISTANCE then c.mv.m_move_speed * FOLLOW_MAX_SPEED_MULT
  else if distance < FOLLOW_CLOSE_DISTANCE then c.mv.m_move_speed * FOLLOW_MIN_SPEED_MULT
  else
    let speed_factor :=
      (distance - FOLLOW_CLOSE_DISTANCE) / (FOLLOW_FAR_DISTANCE - FOLLOW_CLOSE_DISTANCE)
    c.mv.m_move_speed * (FOLLOW_MIN_SPEED_MULT +
      (FOLLOW_MAX_SPEED_MULT - FOLLOW_MIN_SPEED_MULT) * speed_factor)

/-- The `float step` of `EverQuest::UpdateMovement`: speed times time, at most
the distance. -/
def moveStep (ctx : MoveCtx) (c : Client) (distance : ℚ) : ℚ :=
  if currentSpeed c distance * deltaTime ctx c > distance then distance
  else currentSpeed c distance * deltaTime ctx c

/-- The step of `EverQuest::UpdateMovement` towards a target that is `distance`
away in direction `(dx, dy, dz)`: new position, heading and animation, and the
time of this moving tick. The quotient `step / delta_time` is a NaN when
`delta_time` is 0, and a comparison with a NaN is false. -/
def advance (ctx : MoveCtx) (c : Client) (dx dy dz distance : ℚ) : Client :=
  let delta_time := deltaTime ctx c
  let step := moveStep ctx c distance
  let factor := step / distance
  let x := c.eq.m_x + dx * factor
  let y := c.eq.m_y + dy * factor
  let z := c.eq.m_z + dz * factor
  let heading := CalculateHeading ctx (x - dx * factor) (y - dy * factor) x y
  let animation :=
    if delta_time ≠ 0 ∧ step / delta_time < WALK_SPEED_THRESHOLD then ANIM_WALK else ANIM_RUN
  { eq := { c.eq with m_x := x, m_y := y, m_z := z, m_heading := heading,
                      m_animation := animation },
    mv := { c.mv with last_move_times := some ctx.now } }

/-- The periodic Z fix of `EverQuest::UpdateMovement`: `FixZ` every 500 ms. -/
def zFixBlock (ctx : MoveCtx) (c : Client) : Client :=
  let last_z_fix := match c.mv.last_z_fix_times with
    | some t => t
    | none => ctx.now
  if ctx.now - last_z_fix ≥ 500 then
    { eq := (FixZ c).eq, mv := { (FixZ c).mv with last_z_fix_times := some ctx.now } }
  else { c with mv := { c.mv with last_z_fix_times := some last_z_fix } }

/-- The throttled position update at the end of `EverQuest::UpdateMovement`:
one `SendPositionUpdate` per `POSITION_UPDATE_INTERVAL_MS`. -/
def throttledUpdate (ctx : MoveCtx) (c : Client) : Client :=
  let last_update :=
    if c.mv.m_last_position_update_time = 0 then ctx.now
    else c.mv.m_last_position_update_time
  if ((ctx.now - last_update : Nat) : ℚ) ≥ POSITION_UPDATE_INTERVAL_MS then
    { eq := SendPositionUpdate c.eq,
      mv := { c.mv with m_last_position_update_time := ctx.now } }
  else { c with mv := { c.mv with m_last_position_update_time := last_update } }

/-- The rest of `EverQuest::UpdateMovement`, from `// Calculate distance to
target` on: arrival within 2 units, or one step towards the target, the
periodic Z fix and the throttled position update. -/
def stepBlock (ctx : MoveCtx) (c : Client) : Client :=
  let dx := c.mv.m_target_x - c.eq.m_x
  let dy := c.mv.m_target_y - c.eq.m_y
  let dz := c.mv.m_target_z - c.eq.m_z
  let distance := ctx.sqrt (dx * dx + dy * dy + dz * dz)
  if distance < 2 then arriveBlock c
  else throttledUpdate ctx (zFixBlock ctx (advance ctx c dx dy dz distance))

/-- Method `EverQuest::UpdateMovement`, one tick: the follow block, the idle
block, the path block and the step, each of the first three possibly
returning. -/
def UpdateMovement (ctx : MoveCtx) (c : Client) : Client :=
  let r1 := followBlock ctx c
  if r1.2 then r1.1
  else if !r1.1.eq.m_is_moving then idleBlock ctx r1.1
  else
    let r2 := pathBlock ctx r1.1
    if r2.2 then r2.1 else stepBlock ctx r2.1

/-- Example surroundings of a movement call: clock at 5000 ms, the integer
square root of the argument in thousandths, and an `atan2` that is exact on
the positive axes. -/
def exampleMoveCtx : MoveCtx :=
  { now := 5000,
    sqrt := fun q => (Nat.sqrt (q.num.toNat * q.den * 1000000) : ℚ) / (q.den * 1000),
    atan2deg := fun a b => if a = 0 then 0 else if b = 0 ∧ 0 < a then 90 else 45 }

/-- Example data: the engine of a player walking to the point one unit East of
the example position, without path, map or follow target. -/
def exampleMovement : Movement :=
  { m_target_x := -1233.5, m_target_y := 2345.25, m_target_z := -8, m_move_speed := 70,
    m_last_position_update_time := 0, m_follow_target := [], m_follow_distance := 10,
    m_pathfinder := none, m_current_path := [], m_current_path_index := 0,
    m_use_pathfinding := true, m_zone_map := none, last_idle_updates := none,
    stuck_detection := none, last_move_times := none, last_z_fix_times := none }

/-- Example data: the example client walking East, with its own record in the
entity map at its position. -/
def exampleWalker : Client :=
  { eq := { exampleZonedIn with
      m_is_moving := true,
      m_entities := mapInsert exampleZonedIn.m_entities 42
        { exampleEntity with spawn_id := 42, name := [72, 99], x := -1234.5, y := 2345.25,
                             z := -8, heading := 135 } },
    mv := exampleMovement }

/-- Example data: the example PlayerProfile with entity id 65578
(65536 + 42) in place of 42. -/
def exampleProfileWide : Packet :=
  ([0xdf, 0x75] ++ (zeros 28 ++
    [0x00, 0x00, 0x90, 0x43, 0x00, 0x00, 0xAC, 0x43, 0x00, 0x00, 0x70, 0x40,
     0x00, 0x00, 0x00, 0x43])) ++ (zeros 14340 ++ [42, 0, 1, 0])

/-- Two names differ at most in letter case and in space versus underscore:
they have the same length and agree byte by byte up to these two changes. -/
def SameUpToCaseAndSpace (a b : List Nat) : Prop :=
  List.Forall₂ (fun x y => x = y ∨ (65 ≤ x ∧ x ≤ 90 ∧ y = x + 32) ∨
    (65 ≤ y ∧ y ≤ 90 ∧ x = y + 32) ∨ (x = 32 ∧ y = 95) ∨ (x = 95 ∧ y = 32)) a b

/-- Example data: a rat with spawn id 5 named `a_rat00`. -/
def exampleRat00 : Entity :=
  { exampleEntity with spawn_id := 5, name := [97, 95, 114, 97, 116, 48, 48] }

/-- Example data: a rat with spawn id 9 named `a_rat`. -/
def exampleRat : Entity := { exampleEntity with spawn_id := 9 }

/-- Example data: a client that knows the two example rats. -/
def exampleTwoRats : EverQuest :=
  { exampleZonedIn with
    m_entities := mapInsert (mapInsert (fun _ => none) 5 exampleRat00) 9 exampleRat }

/-- The entity map is a `std::map<uint16_t, Entity>` in which every record
carries its key as spawn id (the handlers store a record under its own
`spawn_id`, and the player's record under `m_my_character_id`), and the own id
is a `uint16_t`. -/
def EntityKeys (s : EverQuest) : Prop :=
  s.m_my_character_id < 65536 ∧
  ∀ k e, s.m_entities k = some e → k < 65536 ∧ e.spawn_id = k

/-- The player's own record is in the entity map. -/
def OwnRecord (s : EverQuest) : Prop := (s.m_entities s.m_my_character_id).isSome = true

/-- Whether a packet is a DeleteSpawn that names the player's own id. -/
def deletesSelf (s : EverQuest) (p : Packet) : Bool :=
  decide (GetUInt16 p 0 = some HC_OP_DeleteSpawn) &&
    decide (GetUInt16 p 2 = some s.m_my_character_id)

/-- Whether none of the packets of a list, at the time it is received, is a
DeleteSpawn that names the player's own id. -/
def sparesSelf : EverQuest → List (RecvCtx × Packet) → Bool
  | _, [] => true
  | s, ev :: evs => !deletesSelf s ev.2 && sparesSelf (ZoneOnPacketRecv ev.1 s ev.2) evs

/-- Relation between the states before and after a handler that keeps the own
id and only adds or updates records: every key stays, and a record of the
later map is the earlier one, or is stored under its own spawn id, or has the
spawn id of the record it replaces. -/
def EntityStep (s t : EverQuest) : Prop :=
  t.m_my_character_id = s.m_my_character_id ∧
  (∀ j, (s.m_entities j).isSome = true → (t.m_entities j).isSome = true) ∧
  (∀ j e, t.m_entities j = some e →
    s.m_entities j = some e ∨ (e.spawn_id = j ∧ j < 65536) ∨
      ∃ e0, s.m_entities j = some e0 ∧ e.spawn_id = e0.spawn_id)

/-- Example data: a DeleteSpawn for spawn id 42. -/
def exampleDeleteSelf : Packet := [0xbc, 0x55, 42, 0]

/-- Example data: a DeleteSpawn for spawn id 7. -/
def exampleDeleteRat : Packet := [0xbc, 0x55, 7, 0]

/-- Example data: a new client after the example PlayerProfile. -/
def exampleProfiled : EverQuest :=
  ZoneProcessPlayerProfile exampleCtx (EverQuest.init [72, 99]) exampleProfile

/-- Relation: the later state has the entity map, the own id, the character
name and the two flags of `IsFullyZonedIn` of the earlier one. -/
def TickFrame (a b : EverQuest) : Prop :=
  b.m_entities = a.m_entities ∧ b.m_my_character_id = a.m_my_character_id ∧
  b.m_character = a.m_character ∧ b.m_zone_connected = a.m_zone_connected ∧
  b.m_client_ready_sent = a.m_client_ready_sent

/-! ## Health, mana and death packets -/

/-- Every record of the entity map holds a health value of at most `n`: 100
for a percentage, 255 for what fits the `uint8_t hp_percent`. -/
def HpAtMost (n : Nat) (s : EverQuest) : Prop :=
  ∀ k e, s.m_entities k = some e → e.hp_percent ≤ n

/-- Example data: a MobHealth for spawn id 42 with the health byte 200. -/
def exampleMobHealth : Packet := [0x95, 0x06, 42, 0, 200]

/-- Example data: a MobHealth for spawn id 7 with the health byte 55. -/
def exampleMobHealthRat : Packet := [0x95, 0x06, 7, 0, 55]

/-- The spawn id that a health, mana, equipment or death packet addresses: the
player's own spawn id (`m_my_spawn_id`) for an HPUpdate, which carries no id,
and the `uint16_t` at offset 2 for the others. -/
def addressedSpawn (s : EverQuest) (p : Packet) : Option Nat :=
  if GetUInt16 p 0 = some HC_OP_HPUpdate then some s.m_my_spawn_id else GetUInt16 p 2

/-- The second record is the first one up to `hp_percent`, `cur_mana` and
`max_mana`. -/
def SameButVitals (e e2 : Entity) : Prop :=
  e2 = { e with hp_percent := e2.hp_percent, cur_mana := e2.cur_mana,
                max_mana := e2.max_mana }

/-! ## The reads of `ZoneProcessPlayerProfile` -/

/-- Method `EverQuest::ZoneProcessPlayerProfile` together with the reads of
packet fields it performs outside its `[DEBUG]` output, in order, each as
offset and width in bytes. A read that fails ends the handler. -/
def ZoneProcessPlayerProfileTraced (ctx : RecvCtx) (s : EverQuest) (p : Packet) :
    EverQuest × List (Nat × Nat) :=
  let idStep : Option EverQuest × List (Nat × Nat) :=
    if Length p > 14386 then
      match GetUInt32 p 14386 with
      | some entity_id => (some { s with m_my_character_id := entity_id % 65536 }, [(14386, 4)])
      | none => (none, [(14386, 4)])
    else (some s, [])
  match idStep.1 with
  | none => (s, idStep.2)
  | some s1 =>
    if Length p > 42 then
      match GetFloat p 30 with
      | none => (s1, idStep.2 ++ [(30, 4)])
      | some x =>
        match GetFloat p 34 with
        | none => ({ s1 with m_x := x }, idStep.2 ++ [(30, 4), (34, 4)])
        | some y =>
          match GetFloat p 38 with
          | none => ({ s1 with m_x := x, m_y := y }, idStep.2 ++ [(30, 4), (34, 4), (38, 4)])
          | some z =>
            match GetFloat p 42 with
            | none => ({ s1 with m_x := x, m_y := y, m_z := z },
                idStep.2 ++ [(30, 4), (34, 4), (38, 4), (42, 4)])
            | some h =>
              let self_entity : Entity :=
                { ctx.uninit with
                  spawn_id := s1.m_my_character_id, name := s1.m_character,
                  x := x, y := y, z := z, heading := h,
                  level := 1, class_id := 0, race_id := 0, hp_percent := 100,
                  animation := 0, delta_x := 0, delta_y := 0, delta_z := 0,
                  delta_heading := 0, last_update_time := ctx.now % 2 ^ 32 }
              ({ s1 with m_x := x, m_y := y, m_z := z, m_heading := h,
                         m_entities := mapInsert s1.m_entities s1.m_my_character_id
                           self_entity },
                idStep.2 ++ [(30, 4), (34, 4), (38, 4), (42, 4)])
    else (s1, idStep.2)

/-- Every read of a list lies inside a packet: offset plus width is at most the
packet length. -/
def ReadsInside (p : Packet) (reads : List (Nat × Nat)) : Prop :=
  ∀ r ∈ reads, r.1 + r.2 ≤ Length p

/-- Example data: a PlayerProfile of 43 bytes, all zero after the opcode. -/
def exampleShortProfile : Packet := u16le HC_OP_PlayerProfile ++ zeros 41

/-! ## Movement commands -/

/-- The `while` loop of `EverQuest::FollowPath` that skips the waypoints within
one unit of the player; the first argument bounds the number of iterations
(each one that continues advances the index, so the path length suffices). -/
def followPathLoop (ctx : MoveCtx) : Nat → Client → Client
  | 0, c => c
  | fuel + 1, c =>
    match c.mv.m_current_path[c.mv.m_current_path_index]? with
    | none => c
    | some waypoint =>
      let dist := CalculateDistance2D ctx c.eq.m_x c.eq.m_y waypoint.x waypoint.y
      if dist > 1 then MoveTo ctx c waypoint.x waypoint.y waypoint.z
      else followPathLoop ctx fuel
        { c with mv := { c.mv with m_current_path_index := c.mv.m_current_path_index + 1 } }

/-- Method `EverQuest::FollowPath`. -/
def FollowPath (ctx : MoveCtx) (c : Client) : Client :=
  if c.mv.m_current_path.isEmpty ∨ c.mv.m_current_path_index ≥ c.mv.m_current_path.length then
    StopMovement c
  else
    let c1 := followPathLoop ctx c.mv.m_current_path.length c
    if c1.mv.m_current_path_index ≥ c1.mv.m_current_path.length then StopMovement c1 else c1

/-- Method `EverQuest::MoveToWithPath`. -/
def MoveToWithPath (ctx : MoveCtx) (c : Client) (x y z : ℚ) : Client :=
  if !IsFullyZonedIn c.eq then c
  else if !c.mv.m_use_pathfinding ∨ c.mv.m_pathfinder.isNone then MoveTo ctx c x y z
  else
    let r := FindPath c { x := c.eq.m_x, y := c.eq.m_y, z := c.eq.m_z } { x := x, y := y, z := z }
    if r.2 then
      let new_heading := CalculateHeading ctx r.1.eq.m_x r.1.eq.m_y x y
      let c1 : Client :=
        if |new_heading - r.1.eq.m_heading| > 1 / 10 then
          { r.1 with eq := SendPositionUpdate { r.1.eq with m_heading := new_heading } }
        else r.1
      FollowPath ctx { c1 with mv := { c1.mv with m_current_path_index := 0 } }
    else MoveTo ctx r.1 x y z

/-- The blocking loop of `EverQuest::Move`:
`while (m_is_moving && IsFullyZonedIn())`. Modelled from the spec:
`EQ::EventLoop::Process` (outside `hc/`) is whatever the event loop does to
the client in one pass. The list holds, for each pass that is made, that
effect and the surroundings of the `UpdateMovement` call that follows it. -/
def moveLoop : List ((Client → Client) × MoveCtx) → Client → Client
  | [], c => c
  | pass :: rest, c =>
    if c.eq.m_is_moving && IsFullyZonedIn c.eq then
      moveLoop rest (UpdateMovement pass.2 (pass.1 c))
    else c

/-- Method `EverQuest::Move`. -/
def Move (ctx : MoveCtx) (passes : List ((Client → Client) × MoveCtx)) (c : Client)
    (x y z : ℚ) : Client :=
  moveLoop passes (MoveToWithPath ctx c x y z)

/-- Method `EverQuest::Follow`. -/
def Follow (ctx : MoveCtx) (c : Client) (name : List Nat) : Client :=
  match FindEntityByName c.eq name with
  | none => c
  | some entity =>
    let c1 : Client := { c with mv := { c.mv with m_follow_target := entity.name } }
    if c1.mv.m_use_pathfinding ∧ c1.mv.m_pathfinder.isSome then
      let dist := CalculateDistance2D ctx c1.eq.m_x c1.eq.m_y entity.x entity.y
      if dist > c1.mv.m_follow_distance then
        let r := FindPath c1 { x := c1.eq.m_x, y := c1.eq.m_y, z := c1.eq.m_z }
          { x := entity.x, y := entity.y, z := entity.z }
        if r.2 then
          { eq := { r.1.eq with m_is_moving := true },
            mv := { r.1.mv with m_current_path_index := 0 } }
        else
          { eq := { r.1.eq with m_is_moving := true },
            mv := { r.1.mv with m_target_x := entity.x, m_target_y := entity.y,
                                m_target_z := entity.z } }
      else c1
    else c1

/-- Method `EverQuest::StopFollow`. -/
def StopFollow (c : Client) : Client :=
  let c1 : Client :=
    if c.mv.m_follow_target ≠ [] then { c with mv := { c.mv with m_follow_target := [] } }
    else c
  StopMovement c1

/-- Method `EverQuest::Face`; the `z` argument is not used. -/
def Face (ctx : MoveCtx) (c : Client) (x y _z : ℚ) : Client :=
  let new_heading := CalculateHeading ctx c.eq.m_x c.eq.m_y x y
  { c with eq := SendPositionUpdate { c.eq with m_heading := new_heading } }

/-- Example data: the example client before it is fully zoned in (ClientReady
not yet sent), standing, with the example engine. -/
def exampleNotZoned : Client :=
  { eq := { exampleZonedIn with m_client_ready_sent := false }, mv := exampleMovement }

/-- Example data: the example client fully zoned in and standing, following
nobody, with a two-point path left in the engine. -/
def exampleStanding : Client :=
  { eq := exampleZonedIn,
    mv := { exampleMovement with
      m_current_path := [{ x := -1234.5, y := 2345.25, z := -8 },
                         { x := -1234, y := 2345.25, z := -8 }],
      m_current_path_index := 2 } }

/-! ## Chat -/

def CHAT_CHANNEL_GUILD : Nat := 0
def CHAT_CHANNEL_GROUP : Nat := 2
def CHAT_CHANNEL_SHOUT : Nat := 3
def CHAT_CHANNEL_AUCTION : Nat := 4
def CHAT_CHANNEL_OOC : Nat := 5
def CHAT_CHANNEL_BROADCAST : Nat := 6
def CHAT_CHANNEL_TELL : Nat := 7
def CHAT_CHANNEL_SAY : Nat := 8
def CHAT_CHANNEL_PETITION : Nat := 10
def CHAT_CHANNEL_GMSAY : Nat := 11
def CHAT_CHANNEL_RAID : Nat := 15
def CHAT_CHANNEL_EMOTE : Nat := 22

/-- The bytes of a `std::string`. -/
def bytes (s : List Nat) : List Nat := s.map (fun b => b % 256)

/-- The packet `EverQuest::ZoneSendChannelMessage` builds: `Resize`, the
opcode, the `memset` to zero, then the `memcpy`s and `PutUInt32`s in source
order. `channel` is the numeric value of the `ChatChannelType`. -/
def channelMessagePacket (character message : List Nat) (channel : Nat) (target : List Nat) :
    Packet :=
  let message_len := message.length
  let packet_size := 150 + message_len + 1
  let p0 : Packet := writeAt (zeros packet_size) 0 (u16le HC_OP_ChannelMessage)
  let p1 : Packet :=
    if target ≠ [] then
      let target_len := if target.length > 63 then 63 else target.length
      writeAt p0 2 ((bytes target).take target_len)
    else p0
  let name_len := if character.length > 63 then 63 else character.length
  let p2 := writeAt p1 66 ((bytes character).take name_len)
  let p3 := writeAt p2 130 (u32le 0)
  let p4 := writeAt p3 134 (u32le channel)
  let p5 := writeAt p4 146 (u32le 100)
  writeAt p5 150 (bytes message)

/-- Method `EverQuest::ZoneSendChannelMessage`. -/
def ZoneSendChannelMessage (s : EverQuest) (message : List Nat) (channel : Nat)
    (target : List Nat) : EverQuest :=
  QueuePacket s (channelMessagePacket s.m_character message channel target)

/-- The values `ZoneProcessChannelMessage` reads from a packet. -/
structure ChannelMessage where
  target : List Nat
  sender : List Nat
  language : Nat
  channel : Nat
  skill : Nat
  message : List Nat
  deriving DecidableEq

/-- Method `EverQuest::ZoneProcessChannelMessage`, as the values it reads (it
only prints them, at debug level 1): none for a packet it refuses or a read
that fails. -/
def ZoneProcessChannelMessage (p : Packet) : Option ChannelMessage :=
  if Length p < 150 then none
  else
    match GetCStringChecked p 2, GetCStringChecked p 66 with
    | some target, some sender =>
      match GetUInt32 p 130, GetUInt32 p 134, GetUInt32 p 146 with
      | some language, some channel, some skill =>
        match GetCStringChecked p 150 with
        | some message =>
          some { target := target, sender := sender, language := language, channel := channel,
                 skill := skill, message := message }
        | none => none
      | _, _, _ => none
    | _, _ => none

/-- A string of non-zero bytes. -/
def NoNul (s : List Nat) : Prop := ∀ b ∈ s, 0 < b ∧ b < 256

/-! ## The character name on the wire -/

def HC_OP_EnterWorld : Nat := 0x7cba

/-- The world session with the flag `m_enter_world_sent`. -/
structure WorldClient where
  session : LoginSession
  m_enter_world_sent : Bool

/-- The packet `EverQuest::WorldSendEnterWorld` builds: 74 bytes, the name
copied to offset 2, a zero after it, zeros up to offset 65, and two zero
words. -/
def enterWorldPacket (character : List Nat) : Packet :=
  let name_len := if character.length > 63 then 63 else character.length
  let p0 := writeAt (zeros 74) 0 (u16le HC_OP_EnterWorld)
  let p1 := writeAt p0 2 ((bytes character).take name_len)
  let p2 := writeAt p1 (2 + name_len) [0]
  let p3 := writeAt p2 (2 + name_len + 1) (zeros (66 - (2 + name_len + 1)))
  let p4 := writeAt p3 66 (u32le 0)
  writeAt p4 70 (u32le 0)

/-- Method `EverQuest::WorldSendEnterWorld`. -/
def WorldSendEnterWorld (w : WorldClient) (character : List Nat) : WorldClient :=
  { session := { w.session with
      world_queue := w.session.world_queue ++ [enterWorldPacket character] },
    m_enter_world_sent := true }

/-- The 64-byte name field the claim describes for a name: its first
`min |n| 63` bytes, then zeros. -/
def nameField (n : List Nat) : List Nat :=
  n.take (min n.length 63) ++ zeros (64 - min n.length 63)

/-- Example data: a name of 63 bytes. -/
def exampleName63 : List Nat := List.replicate 63 65

/-- Example data: a name of 64 bytes whose last byte differs from the others. -/
def exampleName64 : List Nat := List.replicate 63 65 ++ [66]

/-! ## Terrain height -/

/-- Example data: a map whose mesh is hit at height 10 by every ray cast
downward and by no ray cast upward. -/
def exampleHill : HCMap :=
  { rm := some (fun src dst =>
      if dst.z < src.z then some { x := src.x, y := src.y, z := 10 } else none) }

/-- Example data: a map whose mesh is hit at height 30 by every ray cast upward
and by no ray cast downward. -/
def exampleCeiling : HCMap :=
  { rm := some (fun src dst =>
      if src.z < dst.z then some { x := src.x, y := src.y, z := 30 } else none) }

/-- Example data: a map whose mesh no ray hits. -/
def exampleVoid : HCMap := { rm := some (fun _ _ => none) }

/-- Example data: the example client at height 8 in the zone of the example
hill. -/
def exampleClimber : Client :=
  { eq := { exampleZonedIn with m_z := 8 },
    mv := { exampleMovement with m_zone_map := some exampleHill } }

/-- Example data: the example client at height `-10 + 2 ^ -20` (the binary32
number next to -10) in the zone of the example hill. -/
def exampleBrink : Client :=
  { eq := { exampleZonedIn with m_z := -10 + 1 / 1048576 },
    mv := { exampleMovement with m_zone_map := some exampleHill } }

/-- Example data: the example client in a zone whose map no ray hits. -/
def exampleFalling : Client :=
  { eq := exampleZonedIn, mv := { exampleMovement with m_zone_map := some exampleVoid } }

/-! ## Ticks of the movement engine -/

/-- The `float distance` of `EverQuest::UpdateMovement`: the 3D distance from
the player to the immediate target `(m_target_x, m_target_y, m_target_z)`. -/
def targetDistance (ctx : MoveCtx) (c : Client) : ℚ :=
  ctx.sqrt ((c.mv.m_target_x - c.eq.m_x) * (c.mv.m_target_x - c.eq.m_x) +
    (c.mv.m_target_y - c.eq.m_y) * (c.mv.m_target_y - c.eq.m_y) +
    (c.mv.m_target_z - c.eq.m_z) * (c.mv.m_target_z - c.eq.m_z))

/-- Example data: the example client at (0, 0, 8) running East to the point
(100, 0, 8) without a path, 50 ms after its previous moving tick, in the zone
of the example hill, with the last Z fix at clock 4500. -/
def exampleClimbing : Client :=
  { eq := { exampleZonedIn with m_x := 0, m_y := 0, m_z := 8, m_is_moving := true },
    mv := { exampleMovement with
      m_target_x := 100, m_target_y := 0, m_target_z := 8,
      m_zone_map := some exampleHill, last_move_times := some 4950,
      last_z_fix_times := some 4500 } }

/-- Example data: the example client standing at (20, 0, 0), following a_rat
(spawn 7, at the origin), without path or pathfinder. -/
def exampleFollower : Client :=
  { eq := { exampleZonedIn with m_x := 20, m_y := 0, m_z := 0 },
    mv := { exampleMovement with m_follow_target := [97, 95, 114, 97, 116] } }

/-- Example data: the example client running at the origin, where a_rat is,
and following it. -/
def exampleArrived : Client :=
  { eq := { exampleZonedIn with m_x := 0, m_y := 0, m_z := 0, m_is_moving := true },
    mv := { exampleMovement with m_follow_target := [97, 95, 114, 97, 116] } }

/-! ## Stuck detection over a run of ticks -/

/-- The main loop of `main.cpp`, one pass after the other: the event loop's
effect on the zone members of the client (packets and status changes
delivered), then `UpdateMovement`. Each pass is that effect and the
surroundings of the `UpdateMovement` call. -/
def tickRun : List ((EverQuest → EverQuest) × MoveCtx) → Client → Client
  | [], c => c
  | pass :: rest, c => tickRun rest (UpdateMovement pass.2 { c with eq := pass.1 c.eq })

/-- The ticks of a run come at clock readings that never decrease and are less
than one second apart, the first one less than one second after `t`. -/
def TicksWithinSecond : Nat → List ((EverQuest → EverQuest) × MoveCtx) → Prop
  | _, [] => True
  | t, pass :: rest =>
    t ≤ pass.2.now ∧ pass.2.now < t + 1000 ∧ TicksWithinSecond pass.2.now rest

/-- The entry of the static map `stuck_detection`, if there is one, is less
than a second old at clock reading `t`. -/
def StuckRecordFresh (c : Client) (t : Nat) : Prop :=
  ∀ d last_time, c.mv.stuck_detection = some (d, last_time) → t < last_time + 1000

/-- At every tick of a run the client is following a path: it follows no
entity, it is moving, and it has a current waypoint. -/
def FollowsPath : Client → List ((EverQuest → EverQuest) × MoveCtx) → Prop
  | _, [] => True
  | c, pass :: rest =>
    (pass.1 c.eq).m_is_moving = true ∧ c.mv.m_follow_target = [] ∧
    (c.mv.m_current_path[c.mv.m_current_path_index]?).isSome = true ∧
    FollowsPath (UpdateMovement pass.2 { c with eq := pass.1 c.eq }) rest

/-- At no tick of a run does the stuck detection act: it neither returns from
`UpdateMovement` (after `StopMovement`) nor changes the waypoint index or
anything but its own entry. -/
def NeverStuck : Client → List ((EverQuest → EverQuest) × MoveCtx) → Prop
  | _, [] => True
  | c, pass :: rest =>
    (∀ d, (stuckDetection pass.2 { c with eq := pass.1 c.eq } d).2 = false ∧
      (stuckDetection pass.2 { c with eq := pass.1 c.eq } d).1.eq = pass.1 c.eq ∧
      (stuckDetection pass.2 { c with eq := pass.1 c.eq } d).1.mv.m_current_path_index =
        c.mv.m_current_path_index) ∧
    NeverStuck (UpdateMovement pass.2 { c with eq := pass.1 c.eq }) rest

/-- Example data: the example client at the origin, moving toward its only
waypoint (100, 0, 0), with no entry in `stuck_detection` yet. -/
def exampleStuck : Client :=
  { eq := { exampleZonedIn with m_x := 0, m_y := 0, m_z := 0, m_is_moving := true },
    mv := { exampleMovement with
      m_target_x := 100, m_target_y := 0, m_target_z := 0,
      m_current_path := [{ x := 100, y := 0, z := 0 }], m_current_path_index := 0 } }

/-- Example data: the server puts the player back at the origin (as a
ClientUpdate for the player's own id does). -/
def examplePutBack (s : EverQuest) : EverQuest := { s with m_x := 0, m_y := 0, m_z := 0 }

/-- Example data: five passes, 900 ms apart from clock 900 to clock 4500, in
each of which the server puts the player back at the origin. -/
def exampleStuckRun : List ((EverQuest → EverQuest) × MoveCtx) :=
  [(examplePutBack, { exampleMoveCtx with now := 900 }),
   (examplePutBack, { exampleMoveCtx with now := 1800 }),
   (examplePutBack, { exampleMoveCtx with now := 2700 }),
   (examplePutBack, { exampleMoveCtx with now := 3600 }),
   (examplePutBack, { exampleMoveCtx with now := 4500 })]

/-! ## Repeated Z fixes -/

/-- Example data: a map whose mesh every ray hits at height 10. -/
def exampleFlat : HCMap :=
  { rm := some (fun src _ => some { x := src.x, y := src.y, z := 10 }) }

/-- Example data: the example client at height 8 in the zone of the flat
map. -/
def exampleOnFlat : Client :=
  { eq := { exampleZonedIn with m_z := 8 },
    mv := { exampleMovement with m_zone_map := some exampleFlat } }

/-! ## Spawn descriptors -/

/-- Example data: a `Spawn_Struct` of 385 bytes named a_rat whose x field
(bits 10 to 28 of the word at offset 94) holds 8 and whose spawnId (offset
340) is given by its four bytes; everything else is zero. -/
def exampleDescriptor (id : List Nat) : List Nat :=
  List.replicate 7 0 ++ [97, 95, 114, 97, 116] ++ List.replicate 82 0 ++ [0x00, 0x20, 0, 0] ++
    List.replicate 242 0 ++ id ++ List.replicate 41 0

/-- Example data: a NewSpawn packet for the example descriptor with spawnId 7. -/
def exampleNewSpawn : Packet := u16le HC_OP_NewSpawn ++ exampleDescriptor [7, 0, 0, 0]

/-- Example data: a ZoneSpawns packet with the same descriptor alone. -/
def exampleZoneSpawnsOne : Packet := u16le HC_OP_ZoneSpawns ++ exampleDescriptor [7, 0, 0, 0]

/-- A zone handler that starts with a length check: its opcode, the least
packet length it accepts, and the fixed-width fields it then reads from a
packet, in source order, each as offset and width in bytes. -/
structure CheckedHandler where
  opcode : Nat
  min_length : Nat
  reads : Packet → List (Nat × Nat)

/-- Method `EverQuest::ZoneProcessClientUpdate`: check and reads. -/
def checkedClientUpdate : CheckedHandler :=
  { opcode := HC_OP_ClientUpdate, min_length := 24,
    reads := fun _ => [(2, 2), (4, 4), (8, 4), (12, 4), (16, 4), (20, 4)] }

/-- Method `EverQuest::ZoneProcessDeleteSpawn`: check and reads. -/
def checkedDeleteSpawn : CheckedHandler :=
  { opcode := HC_OP_DeleteSpawn, min_length := 4, reads := fun _ => [(2, 2)] }

/-- Method `EverQuest::ZoneProcessMobHealth`: check and reads. -/
def checkedMobHealth : CheckedHandler :=
  { opcode := HC_OP_MobHealth, min_length := 5, reads := fun _ => [(2, 2), (4, 1)] }

/-- Method `EverQuest::ZoneProcessHPUpdate`: check and reads. -/
def checkedHPUpdate : CheckedHandler :=
  { opcode := HC_OP_HPUpdate, min_length := 12, reads := fun _ => [(2, 4), (6, 4), (10, 2)] }

/-- Method `EverQuest::ZoneProcessManaChange`: check and reads. -/
def checkedManaChange : CheckedHandler :=
  { opcode := HC_OP_ManaChange, min_length := 8, reads := fun _ => [(2, 2), (4, 2), (6, 2)] }

/-- Method `EverQuest::ZoneProcessDeath`: check and reads; the spell id is read
only `if (p.Length() >= 12)`. -/
def checkedDeath : CheckedHandler :=
  { opcode := HC_OP_Death, min_length := 10,
    reads := fun p => [(2, 2), (4, 2), (6, 4)] ++ (if Length p ≥ 12 then [(10, 2)] else []) }

/-- Method `EverQuest::ZoneProcessBeginCast`: check and reads. -/
def checkedBeginCast : CheckedHandler :=
  { opcode := HC_OP_BeginCast, min_length := 10, reads := fun _ => [(2, 2), (4, 2), (6, 4)] }

/-- Method `EverQuest::ZoneProcessStamina`: check and reads. -/
def checkedStamina : CheckedHandler :=
  { opcode := HC_OP_Stamina, min_length := 10, reads := fun _ => [(2, 2), (4, 4), (8, 4)] }

/-- Method `EverQuest::ZoneProcessNewSpawn`: check and reads, with `offset = 2`:
spawnId at `offset + 340`, level at 151, the four position words at 94 to
106, race at 284, class at 331, gender at 334, guild at 238, hp at 86. -/
def checkedNewSpawn : CheckedHandler :=
  { opcode := HC_OP_NewSpawn, min_length := 387,
    reads := fun _ => [(2 + 340, 4), (2 + 151, 1), (2 + 94, 4), (2 + 98, 4), (2 + 102, 4),
      (2 + 106, 4), (2 + 284, 4), (2 + 331, 1), (2 + 334, 1), (2 + 238, 4), (2 + 86, 1)] }

/-- The zone handlers that start with a minimum-length check. -/
def checkedHandlers : List CheckedHandler :=
  [checkedClientUpdate, checkedDeleteSpawn, checkedMobHealth, checkedHPUpdate,
   checkedManaChange, checkedDeath, checkedBeginCast, checkedStamina, checkedNewSpawn]

/-- The reads of a list that are performed on a packet: each in turn, up to
and including the first that does not lie inside the packet (the getter fails
there and the handler ends). -/
def readsUntilFail (p : Packet) : List (Nat × Nat) → List (Nat × Nat)
  | [] => []
  | r :: rs => if r.1 + r.2 ≤ Length p then r :: readsUntilFail p rs else [r]

/-- The reads a checked handler performs on a packet: none when the packet is
shorter than the handler accepts. -/
def performedReads (h : CheckedHandler) (p : Packet) : List (Nat × Nat) :=
  if Length p < h.min_length then [] else readsUntilFail p (h.reads p)

/-- Example data: a Stamina packet of 10 bytes. -/
def exampleStamina : Packet := u16le HC_OP_Stamina ++ [42, 0, 50, 0, 0, 0, 100, 0]

/-! ## The `turn` command -/

/-- The two `while` loops of the `turn` command, which bring the heading into
`[0, 512)` by steps of 512: in exact arithmetic, the remainder of the heading
modulo 512. -/
def wrap512 (heading : ℚ) : ℚ := heading - 512 * ⌊heading / 512⌋

/-- The `turn` branch of `ProcessCommand` (`main.cpp`) for a parsed argument:
`SetHeading(degrees * 512 / 360)` after the wrap, then
`SendPositionUpdate()`. -/
def ProcessCommand_turn (s : EverQuest) (degrees : ℚ) : EverQuest :=
  let heading := wrap512 (degrees * 512 / 360)
  SendPositionUpdate { s with m_heading := heading }

/-- Example data: the example client fully zoned in and standing, with the
example engine. -/
def exampleIdle : Client := { eq := exampleZonedIn, mv := exampleMovement }

/-! ## The animation word -/

/-- Example data: the example client walking East at speed 30 to the point
(100, 0, 8), 50 ms after its previous moving tick. -/
def exampleStroller : Client :=
  { eq := exampleClimbing.eq,
    mv := { exampleClimbing.mv with m_move_speed := 30, m_zone_map := none } }

/-! ## The follow step -/

/-- The `float final_dest_dist` of the follow block of
`EverQuest::UpdateMovement`: the 2D distance from the final waypoint of the
current path, or without a path from the immediate target, to the entity. -/
def finalDestDist (ctx : MoveCtx) (c : Client) (entity : Entity) : ℚ :=
  match c.mv.m_current_path.getLast? with
  | some final_waypoint =>
    CalculateDistance2D ctx final_waypoint.x final_waypoint.y entity.x entity.y
  | none => CalculateDistance2D ctx c.mv.m_target_x c.mv.m_target_y entity.x entity.y

/-! # Properties -/

/-! ## Reads inside the frame succeed -/

theorem GetUInt8_of_lt (p : Packet) (off : Nat) (h : off < Length p) :
    ∃ b, GetUInt8 p off = some b := by
  unfold GetUInt8 Length at *
  rw [List.getElem?_eq_getElem h]
  exact ⟨_, rfl⟩

theorem GetUInt16_of_le (p : Packet) (off : Nat) (h : off + 2 ≤ Length p) :
    ∃ v, GetUInt16 p off = some v := by
  obtain ⟨b0, h0⟩ := GetUInt8_of_lt p off (by omega)
  obtain ⟨b1, h1⟩ := GetUInt8_of_lt p (off + 1) (by omega)
  exact ⟨b0 + 256 * b1, by simp [GetUInt16, h0, h1]⟩

theorem GetUInt32_of_le (p : Packet) (off : Nat) (h : off + 4 ≤ Length p) :
    ∃ v, GetUInt32 p off = some v := by
  obtain ⟨b0, h0⟩ := GetUInt8_of_lt p off (by omega)
  obtain ⟨b1, h1⟩ := GetUInt8_of_lt p (off + 1) (by omega)
  obtain ⟨b2, h2⟩ := GetUInt8_of_lt p (off + 2) (by omega)
  obtain ⟨b3, h3⟩ := GetUInt8_of_lt p (off + 3) (by omega)
  exact ⟨b0 + 256 * b1 + 65536 * b2 + 16777216 * b3, by simp [GetUInt32, h0, h1, h2, h3]⟩

/-! ## The binary32 encoding -/

theorem int_log_two_eq (r : ℚ) (e : ℤ) (hr : 0 < r) (h1 : (2 : ℚ) ^ e ≤ r)
    (h2 : r < (2 : ℚ) ^ (e + 1)) : Int.log 2 r = e := by
  have ha : e ≤ Int.log 2 r := by
    rw [← Int.zpow_le_iff_le_log (by norm_num) hr]
    exact_mod_cast h1
  have hb : Int.log 2 r < e + 1 := by
    rw [← Int.lt_zpow_iff_log_lt (by norm_num) hr]
    exact_mod_cast h2
  omega

/-- The bit pattern of a nonzero multiple of 1/8 whose numerator has `k + 1`
bits, `k ≤ 23`. -/
theorem f32Bits_eighths (q : ℚ) (n k : ℕ) (hk : k ≤ 23) (h1 : 2 ^ k ≤ n)
    (h2 : n < 2 ^ (k + 1)) (hq : |q| = (n : ℚ) / 8) :
    f32Bits q = (if q < 0 then 2 ^ 31 else 0) + (k + 124) * 2 ^ 23 +
      (n * 2 ^ (23 - k) - 2 ^ 23) := by
  have hnpos : 0 < n := lt_of_lt_of_le (Nat.pow_pos (by norm_num)) h1
  have habs : 0 < |q| := by rw [hq]; positivity
  have hq0 : q ≠ 0 := abs_pos.1 habs
  have hpk : (2 : ℚ) ^ ((k : ℤ) - 3) = (2 : ℚ) ^ k / 8 := by
    rw [zpow_sub₀ (by norm_num), zpow_natCast]; norm_num
  have hpk1 : (2 : ℚ) ^ ((k : ℤ) - 3 + 1) = (2 : ℚ) ^ (k + 1) / 8 := by
    have : (k : ℤ) - 3 + 1 = ((k + 1 : ℕ) : ℤ) - 3 := by push_cast; ring
    rw [this, zpow_sub₀ (by norm_num), zpow_natCast]; norm_num
  have hlog : Int.log 2 |q| = (k : ℤ) - 3 := by
    apply int_log_two_eq _ _ habs
    · rw [hpk, hq]
      have : ((2 : ℚ) ^ k) ≤ (n : ℚ) := by exact_mod_cast h1
      linarith
    · rw [hpk1, hq]
      have : (n : ℚ) < (2 : ℚ) ^ (k + 1) := by exact_mod_cast h2
      linarith
  have hfl : ⌊|q| * (2 : ℚ) ^ ((23 : ℤ) - ((k : ℤ) - 3))⌋₊ = n * 2 ^ (23 - k) := by
    have he : (23 : ℤ) - ((k : ℤ) - 3) = ((23 - k : ℕ) : ℤ) + 3 := by omega
    rw [he, zpow_add₀ (by norm_num), zpow_natCast, hq]
    have : (n : ℚ) / 8 * ((2 : ℚ) ^ (23 - k) * (2 : ℚ) ^ (3 : ℤ)) = ((n * 2 ^ (23 - k) : ℕ) : ℚ) := by
      push_cast; norm_num; ring
    rw [this, Nat.floor_natCast]
  unfold f32Bits
  rw [if_neg hq0]
  simp only [hlog]
  rw [if_neg (by omega), if_neg (by omega), hfl]
  have ht : ((k : ℤ) - 3 + 127).toNat = k + 124 := by omega
  rw [ht]

/-- Decoding a pattern given by its sign, exponent and fraction fields. -/
theorem f32OfBits_fields (neg : Bool) (E F : ℕ) (hE0 : 0 < E) (hE : E < 256)
    (hF : F < 2 ^ 23) :
    f32OfBits ((if neg then 2 ^ 31 else 0) + E * 2 ^ 23 + F) =
      (if neg then -1 else 1) * (((2 ^ 23 + F : ℕ) : ℚ) * (2 : ℚ) ^ ((E : ℤ) - 150)) := by
  have hE0' : E ≠ 0 := by omega
  cases neg
  · have hE' : (0 + E * 2 ^ 23 + F) / 2 ^ 23 % 256 = E := by omega
    have hF' : (0 + E * 2 ^ 23 + F) % 2 ^ 23 = F := by omega
    have hS : (0 + E * 2 ^ 23 + F) / 2 ^ 31 % 2 = 0 := by omega
    simp only [f32OfBits, Bool.false_eq_true, if_false, hE', hF', hS, if_neg hE0']
    simp
  · have hE' : (2 ^ 31 + E * 2 ^ 23 + F) / 2 ^ 23 % 256 = E := by omega
    have hF' : (2 ^ 31 + E * 2 ^ 23 + F) % 2 ^ 23 = F := by omega
    have hS : (2 ^ 31 + E * 2 ^ 23 + F) / 2 ^ 31 % 2 = 1 := by omega
    simp only [f32OfBits, if_true, hE', hF', hS, if_neg hE0']
    simp

theorem f32_roundtrip_eighths (a : ℤ) (ha : a.natAbs < 2 ^ 24) :
    f32OfBits (f32Bits ((a : ℚ) / 8)) = (a : ℚ) / 8 := by
  by_cases h0 : a = 0
  · subst h0; simp [f32Bits, f32OfBits]
  set n := a.natAbs with hn
  have hn0 : n ≠ 0 := by simpa [hn] using h0
  set k := Nat.log 2 n with hkdef
  have h1 : 2 ^ k ≤ n := Nat.pow_log_le_self 2 hn0
  have h2 : n < 2 ^ (k + 1) := Nat.lt_pow_succ_log_self (by norm_num) n
  have hk : k ≤ 23 := by
    have : k < 24 := Nat.log_lt_of_lt_pow hn0 ha
    omega
  have habs : |(a : ℚ) / 8| = (n : ℚ) / 8 := by
    rw [abs_div, hn, Nat.cast_natAbs]
    simp [abs_of_pos]
  have hM1 : 2 ^ 23 ≤ n * 2 ^ (23 - k) := by
    calc 2 ^ 23 = 2 ^ k * 2 ^ (23 - k) := by rw [← pow_add]; congr 1; omega
      _ ≤ n * 2 ^ (23 - k) := Nat.mul_le_mul_right _ h1
  have hM2 : n * 2 ^ (23 - k) < 2 ^ 24 := by
    calc n * 2 ^ (23 - k) < 2 ^ (k + 1) * 2 ^ (23 - k) :=
          Nat.mul_lt_mul_of_pos_right h2 (Nat.pow_pos (by norm_num))
      _ = 2 ^ 24 := by rw [← pow_add]; congr 1; omega
  rw [f32Bits_eighths _ n k hk h1 h2 habs]
  have hneg : ((a : ℚ) / 8 < 0) ↔ a < 0 := by
    constructor
    · intro h
      have : (a : ℚ) < 0 := by linarith
      exact_mod_cast this
    · intro h
      have : (a : ℚ) < 0 := by exact_mod_cast h
      linarith
  have hform : (if (a : ℚ) / 8 < 0 then 2 ^ 31 else 0) + (k + 124) * 2 ^ 23 +
      (n * 2 ^ (23 - k) - 2 ^ 23) =
      (if decide (a < 0) then 2 ^ 31 else 0) + (k + 124) * 2 ^ 23 +
      (n * 2 ^ (23 - k) - 2 ^ 23) := by
    by_cases h : a < 0
    · simp [h, hneg.2 h]
    · simp [h, (not_congr hneg).2 h]
  rw [hform, f32OfBits_fields _ _ _ (by omega) (by omega) (by omega)]
  have hsum : 2 ^ 23 + (n * 2 ^ (23 - k) - 2 ^ 23) = n * 2 ^ (23 - k) := by omega
  rw [hsum]
  have hexp : (((k + 124 : ℕ) : ℤ) - 150) = -(((23 - k : ℕ) : ℤ) + 3) := by omega
  rw [hexp, zpow_neg, zpow_add₀ (by norm_num), zpow_natCast]
  have h2k : ((2 : ℚ) ^ (23 - k)) ≠ 0 := by positivity
  push_cast
  by_cases h : a < 0
  · have hna : (n : ℚ) = -(a : ℚ) := by
      rw [hn, Nat.cast_natAbs]; simp [abs_of_neg h]
    simp only [h, decide_True, if_true]
    rw [hna]; field_simp; ring
  · have hna : (n : ℚ) = (a : ℚ) := by
      rw [hn, Nat.cast_natAbs]; simp [abs_of_nonneg (not_lt.1 h)]
    simp only [h, decide_False, if_false, Bool.false_eq_true]
    rw [hna]; field_simp; ring

/-- Every bit pattern produced by `f32Bits` fits 32 bits. -/
theorem f32Bits_lt (q : ℚ) : f32Bits q < 2 ^ 32 := by
  unfold f32Bits
  by_cases h0 : q = 0
  · simp [h0]
  rw [if_neg h0]
  have habs : 0 < |q| := abs_pos.2 h0
  have hup : |q| < (2 : ℚ) ^ (Int.log 2 |q| + 1) := by
    have := Int.lt_zpow_succ_log_self (R := ℚ) (b := 2) (by norm_num) |q|
    exact_mod_cast this
  have hsgn : (if q < 0 then 2 ^ 31 else 0) ≤ 2 ^ 31 := by split_ifs <;> omega
  simp only []
  generalize (if q < 0 then 2 ^ 31 else 0) = sgn at hsgn ⊢
  by_cases hsub : Int.log 2 |q| < -126
  · rw [if_pos hsub]
    have h1 : |q| * (2 : ℚ) ^ (149 : ℤ) < ((2 ^ 23 : ℕ) : ℚ) := by
      have hle : (2 : ℚ) ^ (Int.log 2 |q| + 1) ≤ (2 : ℚ) ^ (-126 : ℤ) :=
        zpow_le_zpow_right₀ (by norm_num) (by omega)
      have : |q| < (2 : ℚ) ^ (-126 : ℤ) := lt_of_lt_of_le hup hle
      have h149 : (0 : ℚ) < (2 : ℚ) ^ (149 : ℤ) := by positivity
      calc |q| * (2 : ℚ) ^ (149 : ℤ) < (2 : ℚ) ^ (-126 : ℤ) * (2 : ℚ) ^ (149 : ℤ) :=
            mul_lt_mul_of_pos_right this h149
        _ = ((2 ^ 23 : ℕ) : ℚ) := by rw [← zpow_add₀ (by norm_num)]; norm_num
    have := (Nat.floor_lt (by positivity)).2 h1
    omega
  rw [if_neg hsub]
  by_cases hinf : 127 < Int.log 2 |q|
  · rw [if_pos hinf]; omega
  rw [if_neg hinf]
  have h1 : |q| * (2 : ℚ) ^ ((23 : ℤ) - Int.log 2 |q|) < ((2 ^ 24 : ℕ) : ℚ) := by
    have hp : (0 : ℚ) < (2 : ℚ) ^ ((23 : ℤ) - Int.log 2 |q|) := by positivity
    calc |q| * (2 : ℚ) ^ ((23 : ℤ) - Int.log 2 |q|)
        < (2 : ℚ) ^ (Int.log 2 |q| + 1) * (2 : ℚ) ^ ((23 : ℤ) - Int.log 2 |q|) :=
          mul_lt_mul_of_pos_right hup hp
      _ = ((2 ^ 24 : ℕ) : ℚ) := by
          rw [← zpow_add₀ (by norm_num)]
          have : Int.log 2 |q| + 1 + (23 - Int.log 2 |q|) = 24 := by ring
          rw [this]; norm_num
  have hfl := (Nat.floor_lt (by positivity)).2 h1
  have ht : (Int.log 2 |q| + 127).toNat ≤ 254 := by omega
  have : (Int.log 2 |q| + 127).toNat * 2 ^ 23 ≤ 254 * 2 ^ 23 := Nat.mul_le_mul_right _ ht
  omega

/-! ## Sign extension is the two's-complement reading -/

theorem and_pow_ne_zero_iff (k v : Nat) (hv : v < 2 ^ (k + 1)) :
    v &&& 2 ^ k ≠ 0 ↔ 2 ^ k ≤ v := by
  rw [Nat.and_two_pow, Nat.testBit_to_div_mod]
  have hpos : 0 < 2 ^ k := Nat.pow_pos (by norm_num)
  have hlt : v / 2 ^ k < 2 := by
    rw [Nat.div_lt_iff_lt_mul hpos]
    calc v < 2 ^ (k + 1) := hv
      _ = 2 * 2 ^ k := by ring
  constructor
  · intro h
    by_contra hc
    push_neg at hc
    have : v / 2 ^ k = 0 := Nat.div_eq_of_lt hc
    simp [this] at h
  · intro h
    have h1 : 1 ≤ v / 2 ^ k := (Nat.one_le_div_iff hpos).2 h
    have h2 : v / 2 ^ k = 1 := by omega
    simp [h2]

theorem toInt32_small (v : Nat) (h : v < 2 ^ 31) : toInt32 v = (v : ℤ) := by
  unfold toInt32
  have h1 : v % 2 ^ 32 = v := Nat.mod_eq_of_lt (by omega)
  rw [h1, if_pos h]

theorem toInt32_large (v : Nat) (h : 2 ^ 31 ≤ v) (h2 : v < 2 ^ 32) :
    toInt32 v = (v : ℤ) - 2 ^ 32 := by
  unfold toInt32
  have h1 : v % 2 ^ 32 = v := Nat.mod_eq_of_lt h2
  rw [h1, if_neg (by omega)]

theorem signExtend_generic (k v c : Nat) (hk : k + 1 ≤ 31) (hv : v < 2 ^ (k + 1))
    (hc : c + 2 ^ (k + 1) = 2 ^ 32) :
    toInt32 (if v &&& 2 ^ k ≠ 0 then v ||| c else v) = twosComplement k v := by
  have hle : 2 ^ (k + 1) ≤ 2 ^ 31 := Nat.pow_le_pow_right (by norm_num) hk
  have hkk : 2 ^ k < 2 ^ (k + 1) := Nat.pow_lt_pow_right (by norm_num) (by omega)
  have hc2 : c = 2 ^ (k + 1) * (2 ^ (31 - k) - 1) := by
    have h32 : 2 ^ (k + 1) * 2 ^ (31 - k) = 2 ^ 32 := by
      rw [← pow_add]; congr 1; omega
    rw [Nat.mul_sub, h32]; omega
  have hor : v ||| c = c + v := by
    rw [Nat.or_comm, hc2]
    exact (Nat.mul_add_lt_is_or hv _).symm
  unfold twosComplement
  by_cases hb : 2 ^ k ≤ v
  · rw [if_pos ((and_pow_ne_zero_iff k v hv).2 hb), hor, if_neg (by omega),
      toInt32_large _ (by omega) (by omega)]
    have hcz : (c : ℤ) + 2 ^ (k + 1) = 2 ^ 32 := by exact_mod_cast hc
    push_cast
    linarith
  · have hb2 : v < 2 ^ k := by omega
    have hn : ¬ (v &&& 2 ^ k ≠ 0) := by rw [and_pow_ne_zero_iff k v hv]; omega
    rw [if_neg hn, if_pos hb2, toInt32_small _ (by omega)]

theorem signExtend19_eq (v : Nat) (hv : v < 2 ^ 19) :
    signExtend19 v = twosComplement 18 v := by
  have := signExtend_generic 18 v 0xFFF80000 (by norm_num) hv (by norm_num)
  simpa [signExtend19] using this

theorem signExtend13_eq (v : Nat) (hv : v < 2 ^ 13) :
    signExtend13 v = twosComplement 12 v := by
  have := signExtend_generic 12 v 0xFFFFE000 (by norm_num) hv (by norm_num)
  simpa [signExtend13] using this

theorem signExtend10_eq (v : Nat) (hv : v < 2 ^ 10) :
    signExtend10 v = twosComplement 9 v := by
  have := signExtend_generic 9 v 0xFFFFFC00 (by norm_num) hv (by norm_num)
  simpa [signExtend10] using this

theorem mask19 (v : Nat) : v &&& 0x7FFFF = v % 2 ^ 19 := by
  simpa using Nat.and_pow_two_sub_one_eq_mod v 19

theorem mask13 (v : Nat) : v &&& 0x1FFF = v % 2 ^ 13 := by
  simpa using Nat.and_pow_two_sub_one_eq_mod v 13

theorem mask12 (v : Nat) : v &&& 0xFFF = v % 2 ^ 12 := by
  simpa using Nat.and_pow_two_sub_one_eq_mod v 12

theorem mask10 (v : Nat) : v &&& 0x3FF = v % 2 ^ 10 := by
  simpa using Nat.and_pow_two_sub_one_eq_mod v 10

/-- The field extraction of `ZoneProcessClientUpdate` in arithmetic form: each
field is the two's-complement (or, for the heading, unsigned) reading of its
bit range. -/
theorem decodeClientUpdate_eq (w1 w2 w3 w4 w5 : Nat) :
    decodeClientUpdate w1 w2 w3 w4 w5 =
      { x := (twosComplement 18 (w1 / 2 ^ 10 % 2 ^ 19) : ℚ) / 8
        y := (twosComplement 18 (w2 % 2 ^ 19) : ℚ) / 8
        z := (twosComplement 18 (w3 % 2 ^ 19) : ℚ) / 8
        dx := (twosComplement 12 (w4 % 2 ^ 13) : ℚ) / 8
        dy := (twosComplement 12 (w3 / 2 ^ 19 % 2 ^ 13) : ℚ) / 8
        dz := (twosComplement 12 (w5 % 2 ^ 13) : ℚ) / 8
        dh := (twosComplement 9 (w1 % 2 ^ 10) : ℚ)
        h := ((w4 / 2 ^ 13 % 2 ^ 12 : ℕ) : ℚ) * 360 / 4096
        animation := w2 / 2 ^ 19 % 2 ^ 10 } := by
  unfold decodeClientUpdate
  simp only [mask19, mask13, mask12, mask10, Nat.shiftRight_eq_div_pow]
  rw [signExtend19_eq _ (Nat.mod_lt _ (by norm_num)),
    signExtend19_eq _ (Nat.mod_lt _ (by norm_num)),
    signExtend19_eq _ (Nat.mod_lt _ (by norm_num)),
    signExtend13_eq _ (Nat.mod_lt _ (by norm_num)),
    signExtend13_eq _ (Nat.mod_lt _ (by norm_num)),
    signExtend13_eq _ (Nat.mod_lt _ (by norm_num)),
    signExtend10_eq _ (Nat.mod_lt _ (by norm_num))]

/-- C1. A ClientUpdate packet of at least 24 bytes whose spawn id is a key of
the entity map and is not the player's own id: all five words are read, and the
entity's x, y, z become the two's-complement 19-bit fields (word 1 bits 10-28,
word 2 bits 0-18, word 3 bits 0-18) divided by 8, its delta_x, delta_y, delta_z
the signed 13-bit fields (word 4 bits 0-12, word 3 bits 19-31, word 5 bits
0-12) divided by 8, its delta_heading the signed 10-bit field (word 1 bits
0-9), its heading the unsigned 12-bit field (word 4 bits 13-24) times 360/4096;
the sign extension of the source maps 0x40000 to -262144 and 0x3FFFF to
262143. -/
theorem C1_client_update_decodes (ctx : RecvCtx) (s : EverQuest) (p : Packet)
    (spawn_id : Nat) (e : Entity)
    (hlen : 24 ≤ Length p)
    (hid : GetUInt16 p 2 = some spawn_id)
    (hkey : s.m_entities spawn_id = some e)
    (hother : spawn_id ≠ s.m_my_character_id) :
    ∃ w1 w2 w3 w4 w5 e2,
      GetUInt32 p 4 = some w1 ∧ GetUInt32 p 8 = some w2 ∧ GetUInt32 p 12 = some w3 ∧
      GetUInt32 p 16 = some w4 ∧ GetUInt32 p 20 = some w5 ∧
      (ZoneProcessClientUpdate ctx s p).m_entities spawn_id = some e2 ∧
      e2.x = (twosComplement 18 (w1 / 2 ^ 10 % 2 ^ 19) : ℚ) / 8 ∧
      e2.y = (twosComplement 18 (w2 % 2 ^ 19) : ℚ) / 8 ∧
      e2.z = (twosComplement 18 (w3 % 2 ^ 19) : ℚ) / 8 ∧
      e2.delta_x = (twosComplement 12 (w4 % 2 ^ 13) : ℚ) / 8 ∧
      e2.delta_y = (twosComplement 12 (w3 / 2 ^ 19 % 2 ^ 13) : ℚ) / 8 ∧
      e2.delta_z = (twosComplement 12 (w5 % 2 ^ 13) : ℚ) / 8 ∧
      e2.delta_heading = (twosComplement 9 (w1 % 2 ^ 10) : ℚ) ∧
      e2.heading = ((w4 / 2 ^ 13 % 2 ^ 12 : ℕ) : ℚ) * 360 / 4096 ∧
      signExtend19 0x40000 = -262144 ∧ signExtend19 0x3FFFF = 262143 := by
  obtain ⟨w1, h1⟩ := GetUInt32_of_le p 4 (by omega)
  obtain ⟨w2, h2⟩ := GetUInt32_of_le p 8 (by omega)
  obtain ⟨w3, h3⟩ := GetUInt32_of_le p 12 (by omega)
  obtain ⟨w4, h4⟩ := GetUInt32_of_le p 16 (by omega)
  obtain ⟨w5, h5⟩ := GetUInt32_of_le p 20 (by omega)
  have hs : (ZoneProcessClientUpdate ctx s p).m_entities spawn_id =
      some { e with
        x := (decodeClientUpdate w1 w2 w3 w4 w5).x, y := (decodeClientUpdate w1 w2 w3 w4 w5).y,
        z := (decodeClientUpdate w1 w2 w3 w4 w5).z,
        heading := (decodeClientUpdate w1 w2 w3 w4 w5).h,
        animation := (decodeClientUpdate w1 w2 w3 w4 w5).animation % 256,
        delta_x := (decodeClientUpdate w1 w2 w3 w4 w5).dx,
        delta_y := (decodeClientUpdate w1 w2 w3 w4 w5).dy,
        delta_z := (decodeClientUpdate w1 w2 w3 w4 w5).dz,
        delta_heading := (decodeClientUpdate w1 w2 w3 w4 w5).dh,
        last_update_time := ctx.now % 2 ^ 32 } := by
    unfold ZoneProcessClientUpdate
    rw [if_neg (by omega)]
    simp only [hid, h1, h2, h3, h4, h5, if_neg hother, hkey, mapInsert, if_true]
  refine ⟨w1, w2, w3, w4, w5, _, h1, h2, h3, h4, h5, hs, ?_⟩
  simp only [decodeClientUpdate_eq]
  refine ⟨trivial, trivial, trivial, trivial, trivial, trivial, trivial, trivial, ?_, ?_⟩
  · rw [signExtend19_eq _ (by norm_num)]; simp [twosComplement]
  · rw [signExtend19_eq _ (by norm_num)]; simp [twosComplement]

theorem C1_client_update_decodes_witness :
    24 ≤ Length exampleClientUpdate ∧ GetUInt16 exampleClientUpdate 2 = some 7 ∧
    exampleZonedIn.m_entities 7 = some exampleEntity ∧
    7 ≠ exampleZonedIn.m_my_character_id ∧
    ∃ w1 w2 w3 w4 w5 e2,
      GetUInt32 exampleClientUpdate 4 = some w1 ∧ GetUInt32 exampleClientUpdate 8 = some w2 ∧
      GetUInt32 exampleClientUpdate 12 = some w3 ∧ GetUInt32 exampleClientUpdate 16 = some w4 ∧
      GetUInt32 exampleClientUpdate 20 = some w5 ∧
      (ZoneProcessClientUpdate exampleCtx exampleZonedIn exampleClientUpdate).m_entities 7 =
        some e2 ∧
      e2.x = (twosComplement 18 (w1 / 2 ^ 10 % 2 ^ 19) : ℚ) / 8 ∧
      e2.y = (twosComplement 18 (w2 % 2 ^ 19) : ℚ) / 8 ∧
      e2.z = (twosComplement 18 (w3 % 2 ^ 19) : ℚ) / 8 ∧
      e2.delta_x = (twosComplement 12 (w4 % 2 ^ 13) : ℚ) / 8 ∧
      e2.delta_y = (twosComplement 12 (w3 / 2 ^ 19 % 2 ^ 13) : ℚ) / 8 ∧
      e2.delta_z = (twosComplement 12 (w5 % 2 ^ 13) : ℚ) / 8 ∧
      e2.delta_heading = (twosComplement 9 (w1 % 2 ^ 10) : ℚ) ∧
      e2.heading = ((w4 / 2 ^ 13 % 2 ^ 12 : ℕ) : ℚ) * 360 / 4096 ∧
      signExtend19 0x40000 = -262144 ∧ signExtend19 0x3FFFF = 262143 :=
  ⟨by decide, by decide, rfl, by decide,
    C1_client_update_decodes exampleCtx exampleZonedIn exampleClientUpdate 7 exampleEntity
      (by decide) (by decide) rfl (by decide)⟩

/-! ## The position update packet -/


/-- The effect of `SendPositionUpdate` when it does queue. -/
theorem SendPositionUpdate_queues (s : EverQuest) (hz : IsFullyZonedIn s = true)
    (hid : s.m_my_character_id ≠ 0) :
    SendPositionUpdate s =
      { s with
        m_movement_sequence := (s.m_movement_sequence + 1) % 2 ^ 32
        zone_queue := s.zone_queue ++
          [{ data := u16le HC_OP_ClientUpdate ++
                positionUpdateStruct s.m_my_character_id ((s.m_movement_sequence + 1) % 2 ^ 32)
                  s.m_x s.m_y s.m_z (animAndDeltaHeading s.m_is_moving)
                  (headingScaled s.m_heading)
             stream := 0, reliable := true }]
        last_positions := some (s.m_x, s.m_y, s.m_z, s.m_heading) } := by
  unfold SendPositionUpdate
  rw [hz]
  cases hl : s.last_positions <;> simp [hid, QueuePacket]

theorem headingScaled_lt (h : ℚ) : headingScaled h < 65536 := by
  simp only [headingScaled]
  have := Int.emod_lt_of_pos (Int.tmod (truncToInt (h * 2048 / 360)) 2048) (show (0:ℤ) < 65536 by norm_num)
  have := Int.emod_nonneg (Int.tmod (truncToInt (h * 2048 / 360)) 2048) (show (65536:ℤ) ≠ 0 by norm_num)
  omega

theorem animAndDeltaHeading_eq (m : Bool) :
    animAndDeltaHeading m = if m then 27 + 2 ^ 20 else 2 ^ 20 := by
  cases m <;> decide

theorem positionUpdate_length (id seq : Nat) (x y z : ℚ) (anim heading : Nat) :
    Length (u16le HC_OP_ClientUpdate ++ positionUpdateStruct id seq x y z anim heading) = 38 := by
  simp [Length, positionUpdateStruct, u16le, u32le, f32le]

theorem f32Bits_zero : f32Bits 0 = 0 := by simp [f32Bits]

theorem positionUpdate_fields (id seq : Nat) (x y z : ℚ) (anim heading : Nat)
    (ha : anim < 2 ^ 32) (hh : heading < 65536) :
    let p := u16le HC_OP_ClientUpdate ++ positionUpdateStruct id seq x y z anim heading
    GetUInt16 p 0 = some 0x14cb ∧ GetUInt16 p 2 = some (id % 65536) ∧
    GetUInt16 p 4 = some (seq % 65536) ∧ GetUInt32 p 6 = some (f32Bits y) ∧
    GetUInt32 p 10 = some 0 ∧ GetUInt32 p 14 = some 0 ∧ GetUInt32 p 18 = some 0 ∧
    GetUInt32 p 22 = some anim ∧ GetUInt32 p 26 = some (f32Bits x) ∧
    GetUInt32 p 30 = some (f32Bits z) ∧ GetUInt16 p 34 = some heading ∧
    GetUInt16 p 36 = some 0 := by
  have hx := f32Bits_lt x
  have hy := f32Bits_lt y
  have hz := f32Bits_lt z
  simp only [positionUpdateStruct, u16le, u32le, f32le, f32Bits_zero, HC_OP_ClientUpdate,
    List.cons_append, List.nil_append, GetUInt16, GetUInt32, GetUInt8,
    List.getElem?_cons_succ, List.getElem?_cons_zero]
  refine ⟨?_, ?_, ?_, ?_, ?_, ?_, ?_, ?_, ?_, ?_, ?_, ?_⟩ <;> simp <;> omega


theorem truncToInt_nonneg (q : ℚ) (hq : 0 ≤ q) (hb : q < 2 ^ 31) : truncToInt q = ⌊q⌋ := by
  have hn : 0 ≤ q.num := Rat.num_nonneg.2 hq
  have ht : Int.tdiv q.num q.den = ⌊q⌋ := by
    rw [Rat.floor_def, Int.tdiv_eq_ediv hn (by positivity)]
  have hf0 : 0 ≤ ⌊q⌋ := Int.floor_nonneg.2 hq
  have hf1 : ⌊q⌋ < 2 ^ 31 := by
    rw [Int.floor_lt]
    push_cast
    exact hb
  unfold truncToInt
  rw [ht, if_pos ⟨by omega, hf1⟩]

theorem headingScaled_of_range (h : ℚ) (h0 : 0 ≤ h) (h1 : h < 360) :
    headingScaled h ≤ 2047 ∧ ((headingScaled h : ℕ) : ℚ) * 360 / 2048 ≤ h ∧
      h < (((headingScaled h : ℕ) : ℚ) + 1) * 360 / 2048 := by
  have ht0 : 0 ≤ h * 2048 / 360 := by positivity
  have hfl := Int.floor_le (h * 2048 / 360)
  have hfu := Int.lt_floor_add_one (h * 2048 / 360)
  have hf0 : 0 ≤ ⌊h * 2048 / 360⌋ := Int.floor_nonneg.2 ht0
  have hf1 : ⌊h * 2048 / 360⌋ < 2048 := by
    rw [Int.floor_lt]
    push_cast
    linarith
  have hval : headingScaled h = ⌊h * 2048 / 360⌋.toNat := by
    simp only [headingScaled]
    rw [truncToInt_nonneg _ ht0 (by linarith)]
    congr 1
    rw [Int.tmod_eq_emod hf0 (by norm_num)]
    omega
  have hcast : ((headingScaled h : ℕ) : ℚ) = ((⌊h * 2048 / 360⌋ : ℤ) : ℚ) := by
    rw [hval]
    have : ((⌊h * 2048 / 360⌋.toNat : ℕ) : ℤ) = ⌊h * 2048 / 360⌋ := Int.toNat_of_nonneg hf0
    exact_mod_cast this
  refine ⟨by rw [hval]; omega, ?_, ?_⟩
  · rw [hcast]; linarith
  · rw [hcast]; linarith

/-! ## Claims on `SendPositionUpdate` -/

/-- C6. Whenever the player's own id is 0 when `SendPositionUpdate` is called,
no packet is queued on the zone session. -/
theorem C6_no_update_with_id_zero (s : EverQuest) (h : s.m_my_character_id = 0) :
    (SendPositionUpdate s).zone_queue = s.zone_queue := by
  unfold SendPositionUpdate
  split
  · rfl
  · cases hl : s.last_positions <;> simp [h]

theorem C6_no_update_with_id_zero_witness :
    ({ exampleZonedIn with m_my_character_id := 0 } : EverQuest).m_my_character_id = 0 ∧
    IsFullyZonedIn { exampleZonedIn with m_my_character_id := 0 } = true ∧
    (SendPositionUpdate { exampleZonedIn with m_my_character_id := 0 }).zone_queue =
      ({ exampleZonedIn with m_my_character_id := 0 } : EverQuest).zone_queue :=
  ⟨rfl, rfl, C6_no_update_with_id_zero _ rfl⟩

/-- The record `ZoneProcessClientUpdate` leaves for an entity other than the
player. -/
theorem ZoneProcessClientUpdate_other (ctx : RecvCtx) (s : EverQuest) (p : Packet)
    (spawn_id w1 w2 w3 w4 w5 : Nat) (e : Entity)
    (hlen : 24 ≤ Length p) (hid : GetUInt16 p 2 = some spawn_id)
    (h1 : GetUInt32 p 4 = some w1) (h2 : GetUInt32 p 8 = some w2)
    (h3 : GetUInt32 p 12 = some w3) (h4 : GetUInt32 p 16 = some w4)
    (h5 : GetUInt32 p 20 = some w5)
    (hkey : s.m_entities spawn_id = some e) (hother : spawn_id ≠ s.m_my_character_id) :
    (ZoneProcessClientUpdate ctx s p).m_entities spawn_id =
      some { e with
        x := (decodeClientUpdate w1 w2 w3 w4 w5).x, y := (decodeClientUpdate w1 w2 w3 w4 w5).y,
        z := (decodeClientUpdate w1 w2 w3 w4 w5).z,
        heading := (decodeClientUpdate w1 w2 w3 w4 w5).h,
        animation := (decodeClientUpdate w1 w2 w3 w4 w5).animation % 256,
        delta_x := (decodeClientUpdate w1 w2 w3 w4 w5).dx,
        delta_y := (decodeClientUpdate w1 w2 w3 w4 w5).dy,
        delta_z := (decodeClientUpdate w1 w2 w3 w4 w5).dz,
        delta_heading := (decodeClientUpdate w1 w2 w3 w4 w5).dh,
        last_update_time := ctx.now % 2 ^ 32 } := by
  unfold ZoneProcessClientUpdate
  rw [if_neg (by omega)]
  simp only [hid, h1, h2, h3, h4, h5, if_neg hother, hkey, mapInsert, if_true]

/-- The words of a position update that `ZoneProcessClientUpdate` would read as
`field3` and `field4` are zero: they overlay the zero deltas. -/
theorem positionUpdate_overlay (id seq : Nat) (x y z : ℚ) (anim heading : Nat) :
    let p := u16le HC_OP_ClientUpdate ++ positionUpdateStruct id seq x y z anim heading
    GetUInt32 p 12 = some 0 ∧ GetUInt32 p 16 = some 0 := by
  simp only [positionUpdateStruct, u16le, u32le, f32le, f32Bits_zero, HC_OP_ClientUpdate,
    List.cons_append, List.nil_append, GetUInt16, GetUInt32, GetUInt8,
    List.getElem?_cons_succ, List.getElem?_cons_zero]
  simp

/-- C2 (as amended). For a player position whose coordinates are multiples of
1/8 within the signed 19-bit range and a heading h in [0, 360), the packet that
`SendPositionUpdate` queues carries x, y, z as binary32 values at packet
offsets 26, 6 and 30, which read back exactly, the three deltas as binary32
zero, and at offset 34 the heading as the integer r = floor(h * 2048 / 360),
at most 2047, so that r * 360 / 2048 <= h < (r + 1) * 360 / 2048. -/
theorem C2_position_update_carries_floats (s : EverQuest) (ax ay az : ℤ)
    (hz : IsFullyZonedIn s = true) (hid : s.m_my_character_id ≠ 0)
    (hx : s.m_x = (ax : ℚ) / 8) (hy : s.m_y = (ay : ℚ) / 8) (hzz : s.m_z = (az : ℚ) / 8)
    (hax : -2 ^ 18 ≤ ax ∧ ax < 2 ^ 18) (hay : -2 ^ 18 ≤ ay ∧ ay < 2 ^ 18)
    (haz : -2 ^ 18 ≤ az ∧ az < 2 ^ 18)
    (hh : 0 ≤ s.m_heading ∧ s.m_heading < 360) :
    ∃ q r, (SendPositionUpdate s).zone_queue = s.zone_queue ++ [q] ∧
      GetFloat q.data 26 = some s.m_x ∧ GetFloat q.data 6 = some s.m_y ∧
      GetFloat q.data 30 = some s.m_z ∧
      GetFloat q.data 18 = some 0 ∧ GetFloat q.data 14 = some 0 ∧
      GetFloat q.data 10 = some 0 ∧
      GetUInt16 q.data 34 = some r ∧ r ≤ 2047 ∧
      (r : ℚ) * 360 / 2048 ≤ s.m_heading ∧ s.m_heading < ((r : ℚ) + 1) * 360 / 2048 := by
  rw [SendPositionUpdate_queues s hz hid]
  have hanim : animAndDeltaHeading s.m_is_moving < 2 ^ 32 := by
    rw [animAndDeltaHeading_eq]; split_ifs <;> norm_num
  obtain ⟨-, -, -, h6, h10, h14, h18, -, h26, h30, h34, -⟩ :=
    positionUpdate_fields s.m_my_character_id ((s.m_movement_sequence + 1) % 2 ^ 32)
      s.m_x s.m_y s.m_z _ _ hanim (headingScaled_lt s.m_heading)
  obtain ⟨hr1, hr2, hr3⟩ := headingScaled_of_range s.m_heading hh.1 hh.2
  have rx : f32OfBits (f32Bits s.m_x) = s.m_x := by
    rw [hx]; exact f32_roundtrip_eighths ax (by omega)
  have ry : f32OfBits (f32Bits s.m_y) = s.m_y := by
    rw [hy]; exact f32_roundtrip_eighths ay (by omega)
  have rz : f32OfBits (f32Bits s.m_z) = s.m_z := by
    rw [hzz]; exact f32_roundtrip_eighths az (by omega)
  have r0 : f32OfBits 0 = 0 := by simp [f32OfBits]
  refine ⟨_, headingScaled s.m_heading, rfl, ?_, ?_, ?_, ?_, ?_, ?_, h34, hr1, hr2, hr3⟩
  · simp only [GetFloat, h26, Option.map_some', rx]
  · simp only [GetFloat, h6, Option.map_some', ry]
  · simp only [GetFloat, h30, Option.map_some', rz]
  · simp only [GetFloat, h18, Option.map_some', r0]
  · simp only [GetFloat, h14, Option.map_some', r0]
  · simp only [GetFloat, h10, Option.map_some', r0]

theorem C2_position_update_carries_floats_witness :
    IsFullyZonedIn exampleZonedIn = true ∧ exampleZonedIn.m_my_character_id ≠ 0 ∧
    exampleZonedIn.m_x = ((-9876 : ℤ) : ℚ) / 8 ∧ exampleZonedIn.m_y = ((18762 : ℤ) : ℚ) / 8 ∧
    exampleZonedIn.m_z = ((-64 : ℤ) : ℚ) / 8 ∧
    (0 ≤ exampleZonedIn.m_heading ∧ exampleZonedIn.m_heading < 360) ∧
    ∃ q r, (SendPositionUpdate exampleZonedIn).zone_queue = exampleZonedIn.zone_queue ++ [q] ∧
      GetFloat q.data 26 = some exampleZonedIn.m_x ∧
      GetFloat q.data 6 = some exampleZonedIn.m_y ∧
      GetFloat q.data 30 = some exampleZonedIn.m_z ∧
      GetFloat q.data 18 = some 0 ∧ GetFloat q.data 14 = some 0 ∧
      GetFloat q.data 10 = some 0 ∧
      GetUInt16 q.data 34 = some r ∧ r ≤ 2047 ∧
      (r : ℚ) * 360 / 2048 ≤ exampleZonedIn.m_heading ∧
      exampleZonedIn.m_heading < ((r : ℚ) + 1) * 360 / 2048 :=
  have hx : exampleZonedIn.m_x = ((-9876 : ℤ) : ℚ) / 8 := by
    simp [exampleZonedIn]; norm_num
  have hy : exampleZonedIn.m_y = ((18762 : ℤ) : ℚ) / 8 := by
    simp [exampleZonedIn]; norm_num
  have hz : exampleZonedIn.m_z = ((-64 : ℤ) : ℚ) / 8 := by
    simp [exampleZonedIn]; norm_num
  have hh : 0 ≤ exampleZonedIn.m_heading ∧ exampleZonedIn.m_heading < 360 := by
    simp [exampleZonedIn]; norm_num
  ⟨rfl, by decide, hx, hy, hz, hh,
    C2_position_update_carries_floats exampleZonedIn (-9876) 18762 (-64) rfl (by decide)
      hx hy hz (by decide) (by decide) (by decide) hh⟩

/-- Whatever the position, the update one client queues leaves, in
`ZoneProcessClientUpdate` of another client that knows the sender, z = 0 and
heading 0. -/
theorem positionUpdate_misread (ctx : RecvCtx) (s r : EverQuest) (e : Entity)
    (hz : IsFullyZonedIn s = true) (hid : s.m_my_character_id ≠ 0)
    (hlt : s.m_my_character_id < 65536)
    (hkey : r.m_entities s.m_my_character_id = some e)
    (hother : s.m_my_character_id ≠ r.m_my_character_id) :
    ((SendPositionUpdate s).zone_queue.drop s.zone_queue.length).map
        (fun q => ((ZoneProcessClientUpdate ctx r q.data).m_entities s.m_my_character_id).map
          (fun e => (e.z, e.heading))) = [some (0, 0)] := by
  rw [SendPositionUpdate_queues s hz hid]
  simp only [List.drop_left, List.map_cons, List.map_nil]
  generalize hp : u16le HC_OP_ClientUpdate ++ positionUpdateStruct s.m_my_character_id
    ((s.m_movement_sequence + 1) % 2 ^ 32) s.m_x s.m_y s.m_z
    (animAndDeltaHeading s.m_is_moving) (headingScaled s.m_heading) = p
  have hlen : Length p = 38 := by rw [← hp]; exact positionUpdate_length _ _ _ _ _ _ _
  have hov := positionUpdate_overlay s.m_my_character_id
    ((s.m_movement_sequence + 1) % 2 ^ 32) s.m_x s.m_y s.m_z
    (animAndDeltaHeading s.m_is_moving) (headingScaled s.m_heading)
  simp only [hp] at hov
  obtain ⟨h12, h16⟩ := hov
  have hanim : animAndDeltaHeading s.m_is_moving < 2 ^ 32 := by
    rw [animAndDeltaHeading_eq]; split_ifs <;> norm_num
  have hf := positionUpdate_fields s.m_my_character_id ((s.m_movement_sequence + 1) % 2 ^ 32)
    s.m_x s.m_y s.m_z _ _ hanim (headingScaled_lt s.m_heading)
  simp only [hp] at hf
  have hid2 : GetUInt16 p 2 = some s.m_my_character_id := by
    rw [hf.2.1, Nat.mod_eq_of_lt hlt]
  obtain ⟨w1, h4⟩ := GetUInt32_of_le p 4 (by omega)
  obtain ⟨w2, h8⟩ := GetUInt32_of_le p 8 (by omega)
  obtain ⟨w5, h20⟩ := GetUInt32_of_le p 20 (by omega)
  have hres := ZoneProcessClientUpdate_other ctx r p s.m_my_character_id w1 w2 0 0 w5
    e (by omega) hid2 h4 h8 h12 h16 h20 hkey hother
  have hzz : (decodeClientUpdate w1 w2 0 0 w5).z = 0 := by
    rw [decodeClientUpdate_eq]; simp [twosComplement]
  have hh : (decodeClientUpdate w1 w2 0 0 w5).h = 0 := by
    rw [decodeClientUpdate_eq]; simp
  rw [hres]
  simp only [Option.map_some', hzz, hh]

/-- C2, counterexample. For the position (-1234.5, 2345.25, -8.0) and heading
135, the packet that `SendPositionUpdate` queues, handed to
`ZoneProcessClientUpdate` of a client that knows the sender as entity 42,
leaves that entity at z = 0 and heading 0: not within 0.125 of -8.0 and not
within 0.088 of 135. -/
theorem C2_counterexample :
    exampleZonedIn.m_z = -8 ∧ exampleZonedIn.m_heading = 135 ∧
    exampleZonedIn.m_my_character_id = 42 ∧
    ((SendPositionUpdate exampleZonedIn).zone_queue.drop exampleZonedIn.zone_queue.length).map
        (fun q => ((ZoneProcessClientUpdate exampleCtx exampleReceiver q.data).m_entities
            exampleZonedIn.m_my_character_id).map
          (fun e => (e.z, e.heading))) = [some (0, 0)] ∧
    ¬ (|(0 : ℚ) - (-8)| ≤ 0.125) ∧ ¬ (|(0 : ℚ) - 135| ≤ 0.088) :=
  ⟨rfl, rfl, rfl,
    positionUpdate_misread exampleCtx exampleZonedIn exampleReceiver exampleEntity rfl
      (by decide) (by decide) rfl (by decide),
    by norm_num, by norm_num⟩


theorem SendPositionUpdate_keeps (s : EverQuest) (hz : IsFullyZonedIn s = true)
    (hid : s.m_my_character_id ≠ 0) :
    IsFullyZonedIn (SendPositionUpdate s) = true ∧
    (SendPositionUpdate s).m_my_character_id = s.m_my_character_id ∧
    (SendPositionUpdate s).m_movement_sequence = (s.m_movement_sequence + 1) % 2 ^ 32 := by
  rw [SendPositionUpdate_queues s hz hid]
  exact ⟨hz, rfl, rfl⟩

theorem SendPositionUpdate_field (s : EverQuest) (hz : IsFullyZonedIn s = true)
    (hid : s.m_my_character_id ≠ 0) :
    ∃ q, (SendPositionUpdate s).zone_queue = s.zone_queue ++ [q] ∧
      GetUInt16 q.data 4 = some ((s.m_movement_sequence + 1) % 65536) ∧
      GetUInt16 q.data 34 = some (headingScaled s.m_heading) := by
  rw [SendPositionUpdate_queues s hz hid]
  have hanim : animAndDeltaHeading s.m_is_moving < 2 ^ 32 := by
    rw [animAndDeltaHeading_eq]; split_ifs <;> norm_num
  have hf := positionUpdate_fields s.m_my_character_id ((s.m_movement_sequence + 1) % 2 ^ 32)
    s.m_x s.m_y s.m_z _ _ hanim (headingScaled_lt s.m_heading)
  have hseq : (s.m_movement_sequence + 1) % 2 ^ 32 % 65536 = (s.m_movement_sequence + 1) % 65536 := by
    omega
  simp only [hseq] at hf
  exact ⟨_, rfl, hf.2.2.1, hf.2.2.2.2.2.2.2.2.2.2.1⟩

/-- The sequence fields of `n` consecutive updates. -/
theorem sendPositionUpdates_spec (n : Nat) (s : EverQuest) (hz : IsFullyZonedIn s = true)
    (hid : s.m_my_character_id ≠ 0) :
    IsFullyZonedIn (sendPositionUpdates n s) = true ∧
    (sendPositionUpdates n s).m_my_character_id = s.m_my_character_id ∧
    (sendPositionUpdates n s).m_movement_sequence % 2 ^ 32 =
      (s.m_movement_sequence + n) % 2 ^ 32 ∧
    ∃ qs, (sendPositionUpdates n s).zone_queue = s.zone_queue ++ qs ∧
      qs.map (fun q => GetUInt16 q.data 4) =
        (List.range n).map (fun i => some ((s.m_movement_sequence + i + 1) % 65536)) := by
  induction n generalizing s with
  | zero =>
    exact ⟨hz, rfl, rfl, [], by simp [sendPositionUpdates], by simp⟩
  | succ n ih =>
    obtain ⟨k1, k2, k3⟩ := SendPositionUpdate_keeps s hz hid
    obtain ⟨q, hq, hq4, -⟩ := SendPositionUpdate_field s hz hid
    obtain ⟨i1, i2, i3, qs, i4, i5⟩ := ih (SendPositionUpdate s) k1 (by rw [k2]; exact hid)
    refine ⟨i1, by rw [← k2]; exact i2, ?_, q :: qs, ?_, ?_⟩
    · show (sendPositionUpdates n (SendPositionUpdate s)).m_movement_sequence % 2 ^ 32 = _
      rw [i3, k3]; omega
    · show (sendPositionUpdates n (SendPositionUpdate s)).zone_queue = _
      rw [i4, hq]; simp
    · rw [List.range_succ_eq_map]
      simp only [List.map_cons, List.map_map, hq4, i5, k3]
      congr 1
      apply List.map_congr_left
      intro i _
      simp only [Function.comp]
      congr 1
      omega

/-- C5 (as amended). As long as the counter stays below 65536, the sequence
fields (u16 at packet offset 4) of the updates queued by consecutive calls of
`SendPositionUpdate` are strictly increasing: any later one is greater than any
earlier one. (The field holds the low 16 bits of the counter and wraps from
65535 to 0.) -/
theorem C5_sequence_increases_until_wrap (n : Nat) (s : EverQuest)
    (hz : IsFullyZonedIn s = true) (hid : s.m_my_character_id ≠ 0)
    (hbound : s.m_movement_sequence + n < 65536) :
    ∃ seqs : List Nat,
      ((sendPositionUpdates n s).zone_queue.drop s.zone_queue.length).map
        (fun q => GetUInt16 q.data 4) = seqs.map some ∧
      seqs.length = n ∧ List.Pairwise (fun a b => a < b) seqs := by
  obtain ⟨-, -, -, qs, h1, h2⟩ := sendPositionUpdates_spec n s hz hid
  refine ⟨(List.range n).map (fun i => s.m_movement_sequence + i + 1), ?_, by simp, ?_⟩
  · rw [h1, List.drop_left, h2, List.map_map]
    apply List.map_congr_left
    intro i hi
    have : i < n := List.mem_range.1 hi
    simp only [Function.comp]
    congr 1
    exact Nat.mod_eq_of_lt (by omega)
  · rw [List.pairwise_map]
    exact (List.pairwise_lt_range n).imp (by intro a b hab; omega)

theorem C5_sequence_increases_until_wrap_witness :
    IsFullyZonedIn exampleZonedIn = true ∧ exampleZonedIn.m_my_character_id ≠ 0 ∧
    exampleZonedIn.m_movement_sequence + 3 < 65536 ∧
    ∃ seqs : List Nat,
      ((sendPositionUpdates 3 exampleZonedIn).zone_queue.drop
          exampleZonedIn.zone_queue.length).map
        (fun q => GetUInt16 q.data 4) = seqs.map some ∧
      seqs.length = 3 ∧ List.Pairwise (fun a b => a < b) seqs :=
  ⟨rfl, by decide, by decide,
    C5_sequence_increases_until_wrap 3 exampleZonedIn rfl (by decide) (by decide)⟩

/-- C5, counterexample. After 65534 updates of the example client, the next two
updates carry the sequence fields 65535 and then 0: the later one is not
greater. -/
theorem C5_counterexample :
    ((sendPositionUpdates 2 (sendPositionUpdates 65534 exampleZonedIn)).zone_queue.drop
        (sendPositionUpdates 65534 exampleZonedIn).zone_queue.length).map
      (fun q => GetUInt16 q.data 4) = [some 65535, some 0] ∧ ¬ ((65535 : Nat) < 0) := by
  refine ⟨?_, by omega⟩
  obtain ⟨a1, a2, a3, -⟩ := sendPositionUpdates_spec 65534 exampleZonedIn rfl (by decide)
  have hid : (sendPositionUpdates 65534 exampleZonedIn).m_my_character_id ≠ 0 := by
    rw [a2]; decide
  obtain ⟨-, -, -, qs, h1, h2⟩ :=
    sendPositionUpdates_spec 2 (sendPositionUpdates 65534 exampleZonedIn) a1 hid
  have hs0 : exampleZonedIn.m_movement_sequence = 0 := rfl
  have hseq : (sendPositionUpdates 65534 exampleZonedIn).m_movement_sequence % 2 ^ 32 = 65534 := by
    rw [a3, hs0]; norm_num
  rw [h1, List.drop_left, h2]
  have e0 : ((sendPositionUpdates 65534 exampleZonedIn).m_movement_sequence + 0 + 1) % 65536
      = 65535 := by omega
  have e1 : ((sendPositionUpdates 65534 exampleZonedIn).m_movement_sequence + 1 + 1) % 65536
      = 0 := by omega
  have hr : List.range 2 = [0, 1] := by decide
  rw [hr]
  simp only [List.map_cons, List.map_nil, e0, e1]

/-- C4. For the heading -90 the heading value that `SendPositionUpdate` writes
(u16 at packet offset 34) is 65024: the C++ remainder of -512 by 2048 is -512,
stored in a `uint16_t`; the claim's wrapped value would be 1536, and 65024 is
outside [0, 2047]. The headings 0, 90, 180 and 270 give 0, 512, 1024 and
1536. -/
theorem C4_negative_heading_not_wrapped :
    exampleFacingWest.m_heading = -90 ∧
    ((SendPositionUpdate exampleFacingWest).zone_queue.drop
        exampleFacingWest.zone_queue.length).map (fun q => GetUInt16 q.data 34) = [some 65024] ∧
    headingScaled (-90) = 65024 ∧ ¬ (headingScaled (-90) ≤ 2047) ∧
    headingScaled 0 = 0 ∧ headingScaled 90 = 512 ∧ headingScaled 180 = 1024 ∧
    headingScaled 270 = 1536 := by
  have hw : headingScaled (-90) = 65024 := by
    norm_num [headingScaled, truncToInt]
    decide
  refine ⟨rfl, ?_, hw, by rw [hw]; decide, ?_, ?_, ?_, ?_⟩
  · obtain ⟨q, hq, -, h34⟩ := SendPositionUpdate_field exampleFacingWest rfl (by decide)
    rw [hq, List.drop_left]
    have hh : exampleFacingWest.m_heading = -90 := rfl
    rw [hh, hw] at h34
    simp [h34]
  · norm_num [headingScaled, truncToInt]
  · norm_num [headingScaled, truncToInt]; decide
  · norm_num [headingScaled, truncToInt]; decide
  · norm_num [headingScaled, truncToInt]; decide

/-! ## Handlers that leave the bring-up state alone -/

theorem EntityFrame.refl (s : EverQuest) : EntityFrame s s :=
  ⟨s.m_entities, s.m_x, s.m_y, s.m_z, s.m_heading, s.m_my_character_id, s.m_my_spawn_id, rfl⟩

theorem EntityFrame.trans {s t u : EverQuest} (h1 : EntityFrame s t) (h2 : EntityFrame t u) :
    EntityFrame s u := by
  obtain ⟨e1, x1, y1, z1, d1, c1, s1, rfl⟩ := h1
  obtain ⟨e2, x2, y2, z2, d2, c2, s2, rfl⟩ := h2
  exact ⟨e2, x2, y2, z2, d2, c2, s2, rfl⟩

theorem frame_ClientUpdate (ctx : RecvCtx) (s : EverQuest) (p : Packet) :
    EntityFrame s (ZoneProcessClientUpdate ctx s p) := by
  unfold ZoneProcessClientUpdate
  split
  · exact EntityFrame.refl s
  · split
    · split
      · exact ⟨s.m_entities, _, _, _, _, s.m_my_character_id, s.m_my_spawn_id, rfl⟩
      · split
        · exact ⟨_, s.m_x, s.m_y, s.m_z, s.m_heading, s.m_my_character_id, s.m_my_spawn_id, rfl⟩
        · exact EntityFrame.refl s
    · exact EntityFrame.refl s

theorem frame_PlayerProfile (ctx : RecvCtx) (s : EverQuest) (p : Packet) :
    EntityFrame s (ZoneProcessPlayerProfile ctx s p) := by
  unfold ZoneProcessPlayerProfile
  have key : ∀ s1 : EverQuest, EntityFrame s s1 → EntityFrame s
      (if Length p > 42 then
        match GetFloat p 30 with
        | none => s1
        | some x =>
          match GetFloat p 34 with
          | none => { s1 with m_x := x }
          | some y =>
            match GetFloat p 38 with
            | none => { s1 with m_x := x, m_y := y }
            | some z =>
              match GetFloat p 42 with
              | none => { s1 with m_x := x, m_y := y, m_z := z }
              | some h =>
                let self_entity : Entity :=
                  { ctx.uninit with
                    spawn_id := s1.m_my_character_id, name := s1.m_character,
                    x := x, y := y, z := z, heading := h,
                    level := 1, class_id := 0, race_id := 0, hp_percent := 100,
                    animation := 0, delta_x := 0, delta_y := 0, delta_z := 0,
                    delta_heading := 0, last_update_time := ctx.now % 2 ^ 32 }
                { s1 with m_x := x, m_y := y, m_z := z, m_heading := h,
                          m_entities := mapInsert s1.m_entities s1.m_my_character_id self_entity }
      else s1) := by
    intro s1 h1
    split
    · split
      · exact h1
      · split
        · exact h1.trans ⟨s1.m_entities, _, s1.m_y, s1.m_z, s1.m_heading, s1.m_my_character_id, s1.m_my_spawn_id, rfl⟩
        · split
          · exact h1.trans ⟨s1.m_entities, _, _, s1.m_z, s1.m_heading, s1.m_my_character_id, s1.m_my_spawn_id, rfl⟩
          · split
            · exact h1.trans ⟨s1.m_entities, _, _, _, s1.m_heading, s1.m_my_character_id, s1.m_my_spawn_id, rfl⟩
            · exact h1.trans ⟨_, _, _, _, _, s1.m_my_character_id, s1.m_my_spawn_id, rfl⟩
    · exact h1
  split
  · split
    · exact key _ ⟨s.m_entities, s.m_x, s.m_y, s.m_z, s.m_heading, _, s.m_my_spawn_id, rfl⟩
    · exact EntityFrame.refl s
  · exact key _ (EntityFrame.refl s)

theorem frame_entities (s : EverQuest) (ents : Nat → Option Entity) :
    EntityFrame s { s with m_entities := ents } :=
  ⟨ents, s.m_x, s.m_y, s.m_z, s.m_heading, s.m_my_character_id, s.m_my_spawn_id, rfl⟩

theorem frame_DeleteSpawn (s : EverQuest) (p : Packet) :
    EntityFrame s (ZoneProcessDeleteSpawn s p) := by
  unfold ZoneProcessDeleteSpawn
  repeat' split
  all_goals first | exact EntityFrame.refl s | exact frame_entities s _

theorem frame_MobHealth (s : EverQuest) (p : Packet) :
    EntityFrame s (ZoneProcessMobHealth s p) := by
  unfold ZoneProcessMobHealth
  repeat' split
  all_goals first | exact EntityFrame.refl s | exact frame_entities s _

theorem frame_HPUpdate (s : EverQuest) (p : Packet) :
    EntityFrame s (ZoneProcessHPUpdate s p) := by
  unfold ZoneProcessHPUpdate
  repeat' split
  all_goals first | exact EntityFrame.refl s | exact frame_entities s _

theorem frame_ManaChange (s : EverQuest) (p : Packet) :
    EntityFrame s (ZoneProcessManaChange s p) := by
  unfold ZoneProcessManaChange
  repeat' split
  all_goals first | exact EntityFrame.refl s | exact frame_entities s _

theorem frame_Death (s : EverQuest) (p : Packet) :
    EntityFrame s (ZoneProcessDeath s p) := by
  unfold ZoneProcessDeath
  repeat' split
  all_goals first | exact EntityFrame.refl s | exact frame_entities s _

theorem frame_NewSpawn (ctx : RecvCtx) (s : EverQuest) (p : Packet) :
    EntityFrame s (ZoneProcessNewSpawn ctx s p) := by
  unfold ZoneProcessNewSpawn
  simp only []
  repeat' split
  all_goals first
    | exact EntityFrame.refl s
    | exact frame_entities s _
    | exact ⟨_, _, _, _, s.m_heading, s.m_my_character_id, _, rfl⟩

theorem frame_ZoneSpawnsLoop (ctx : RecvCtx) (p : Packet) (fuel offset : Nat) (s : EverQuest) :
    EntityFrame s (ZoneSpawnsLoop ctx p fuel offset s) := by
  induction fuel generalizing offset s with
  | zero => exact EntityFrame.refl s
  | succ n ih =>
    unfold ZoneSpawnsLoop
    simp only []
    repeat' split
    all_goals first
      | exact EntityFrame.refl s
      | exact (frame_entities s _).trans (ih _ _)
      | exact EntityFrame.trans ⟨_, _, _, _, s.m_heading, s.m_my_character_id, s.m_my_spawn_id, rfl⟩ (ih _ _)

theorem frame_ZoneSpawns (ctx : RecvCtx) (s : EverQuest) (p : Packet) :
    EntityFrame s (ZoneProcessZoneSpawns ctx s p) :=
  frame_ZoneSpawnsLoop ctx p _ _ s

/-! ## The bring-up part is a state machine of its own -/

theorem opcode_u16le (v : Nat) (rest : List Nat) (hv : v < 65536) :
    GetUInt16 (u16le v ++ rest) 0 = some v := by
  simp only [u16le, List.cons_append, List.nil_append, GetUInt16, GetUInt8,
    List.getElem?_cons_succ, List.getElem?_cons_zero]
  simp
  omega

theorem bringUp_QueuePacket (s : EverQuest) (v : Nat) (rest : List Nat) (hv : v < 65536) :
    bringUp (QueuePacket s (u16le v ++ rest)) = (bringUp s).queue v := by
  simp [bringUp, BringUp.queue, QueuePacket, queuedOpcodes, Queued.opcode, opcode_u16le v rest hv]

theorem bringUp_QueuePacket_nil (s : EverQuest) (v : Nat) (hv : v < 65536) :
    bringUp (QueuePacket s (u16le v)) = (bringUp s).queue v := by
  have := bringUp_QueuePacket s v [] hv
  simpa using this

theorem bringUp_frame {s t : EverQuest} (h : EntityFrame s t) : bringUp t = bringUp s := by
  obtain ⟨e, x, y, z, d, c, i, rfl⟩ := h
  rfl

theorem bringUp_ReqNewZone (s : EverQuest) :
    bringUp (ZoneSendReqNewZone s) = (bringUp s).sendReqNewZone := by
  have h := bringUp_QueuePacket_nil s HC_OP_ReqNewZone (by decide)
  unfold ZoneSendReqNewZone
  show _ = { (bringUp s).queue HC_OP_ReqNewZone with req_new_zone_sent := true }
  rw [← h]
  rfl

theorem bringUp_SendAATable (s : EverQuest) :
    bringUp (ZoneSendSendAATable s) = (bringUp s).sendSendAATable := by
  have h := bringUp_QueuePacket_nil s HC_OP_SendAATable (by decide)
  unfold ZoneSendSendAATable
  show _ = { (bringUp s).queue HC_OP_SendAATable with aa_table_sent := true }
  rw [← h]
  rfl

theorem bringUp_UpdateAA (s : EverQuest) :
    bringUp (ZoneSendUpdateAA s) = (bringUp s).sendUpdateAA := by
  have h := bringUp_QueuePacket s HC_OP_UpdateAA (List.replicate 10 0) (by decide)
  unfold ZoneSendUpdateAA
  show _ = { (bringUp s).queue HC_OP_UpdateAA with update_aa_sent := true }
  rw [← h]
  rfl

theorem bringUp_SendTributes (s : EverQuest) :
    bringUp (ZoneSendSendTributes s) = (bringUp s).sendSendTributes := by
  have h := bringUp_QueuePacket_nil s HC_OP_SendTributes (by decide)
  unfold ZoneSendSendTributes
  show _ = { (bringUp s).queue HC_OP_SendTributes with tributes_sent := true }
  rw [← h]
  rfl

theorem bringUp_RequestGuildTributes (s : EverQuest) :
    bringUp (ZoneSendRequestGuildTributes s) = (bringUp s).sendRequestGuildTributes := by
  have h := bringUp_QueuePacket_nil s HC_OP_RequestGuildTributes (by decide)
  unfold ZoneSendRequestGuildTributes
  show _ = { (bringUp s).queue HC_OP_RequestGuildTributes with guild_tributes_sent := true }
  rw [← h]
  rfl

theorem bringUp_SendExpZonein (s : EverQuest) :
    bringUp (ZoneSendSendExpZonein s) = (bringUp s).sendSendExpZonein := by
  have h := bringUp_QueuePacket_nil s HC_OP_SendExpZonein (by decide)
  unfold ZoneSendSendExpZonein
  show _ = { (bringUp s).queue HC_OP_SendExpZonein with exp_zonein_sent := true }
  rw [← h]
  rfl

theorem bringUp_ClientReady (s : EverQuest) :
    bringUp (ZoneSendClientReady s) = (bringUp s).sendClientReady := by
  have h := bringUp_QueuePacket_nil s HC_OP_ClientReady (by decide)
  unfold ZoneSendClientReady
  show _ = { (bringUp s).queue HC_OP_ClientReady with client_ready_sent := true }
  rw [← h]
  rfl

theorem bringUp_SetServerFilter (s : EverQuest) :
    bringUp (ZoneSendSetServerFilter s) = (bringUp s).sendSetServerFilter := by
  have h := bringUp_QueuePacket s HC_OP_SetServerFilter
    ((List.range 29).map (fun _ => u32le 0xFFFFFFFF)).flatten (by decide)
  unfold ZoneSendSetServerFilter
  show _ = { (bringUp s).queue HC_OP_SetServerFilter with server_filter_sent := true }
  rw [← h]
  rfl

theorem bringUp_ReqClientSpawn (s : EverQuest) :
    bringUp { ZoneSendReqClientSpawn s with m_req_client_spawn_sent := true } =
      (bringUp s).sendReqClientSpawn := by
  have h := bringUp_QueuePacket_nil s HC_OP_ReqClientSpawn (by decide)
  unfold ZoneSendReqClientSpawn
  show _ = { (bringUp s).queue HC_OP_ReqClientSpawn with req_client_spawn_sent := true }
  rw [← h]
  rfl

theorem bringUp_SessionReady (s : EverQuest) :
    bringUp (ZoneSendZoneEntry (ZoneSendAckPacket s)) = (bringUp s).sendAckAndZoneEntry := by
  have h1 := bringUp_QueuePacket s HC_OP_AckPacket (u32le 0) (by decide)
  unfold ZoneSendZoneEntry
  simp only [List.append_assoc]
  show _ = { ((bringUp s).queue HC_OP_AckPacket).queue HC_OP_ZoneEntry with
    zone_entry_sent := true }
  rw [← h1]
  unfold ZoneSendAckPacket
  rw [← bringUp_QueuePacket _ HC_OP_ZoneEntry _ (by decide)]
  rfl

theorem guard_sim (s : EverQuest) (b : BringUp) (h : bringUp s = b) (c c' : Bool)
    (hc : c = c') (send : EverQuest → EverQuest) (send' : BringUp → BringUp)
    (hs : bringUp (send s) = send' b) :
    bringUp (if c = true then send s else s) = if c' = true then send' b else b := by
  subst hc
  cases c <;> simp [h, hs]

theorem bringUp_check (s : EverQuest) :
    bringUp (CheckZoneRequestPhaseComplete s) = (bringUp s).check :=
  guard_sim s (bringUp s) rfl _ _ rfl
    (fun t => { ZoneSendReqClientSpawn t with m_req_client_spawn_sent := true })
    BringUp.sendReqClientSpawn (bringUp_ReqClientSpawn s)

theorem bringUp_Weather (s : EverQuest) :
    bringUp (ZoneProcessWeather s) = (bringUp s).weather :=
  guard_sim { s with m_weather_received := true } (bringUp s) rfl _ _ rfl
    ZoneSendReqNewZone BringUp.sendReqNewZone (bringUp_ReqNewZone _)

theorem bringUp_NewZone (s : EverQuest) (p : Packet) :
    bringUp (ZoneProcessNewZone s p) = (bringUp s).newZone := by
  unfold ZoneProcessNewZone BringUp.newZone
  lift_lets
  extract_lets s0 s1 s2 s3 s4 b1 b2 b3 b4
  have h0 : bringUp s0 = bringUp s := by
    show bringUp (if Length p ≥ 96 then _ else _) = _
    split_ifs <;> rfl
  have h1 : bringUp s1 = b1 := by
    show bringUp { s0 with m_new_zone_received := true } = { bringUp s with new_zone_received := true }
    rw [← h0]; rfl
  have h2 : bringUp s2 = b2 :=
    guard_sim s1 b1 h1 _ _ (by rw [← h1]; rfl) ZoneSendSendAATable
      BringUp.sendSendAATable (by rw [bringUp_SendAATable, h1])
  have h3 : bringUp s3 = b3 :=
    guard_sim s2 b2 h2 _ _ (by rw [← h2]; rfl) ZoneSendUpdateAA
      BringUp.sendUpdateAA (by rw [bringUp_UpdateAA, h2])
  have h4 : bringUp s4 = b4 :=
    guard_sim s3 b3 h3 _ _ (by rw [← h3]; rfl) ZoneSendSendTributes
      BringUp.sendSendTributes (by rw [bringUp_SendTributes, h3])
  exact guard_sim s4 b4 h4 _ _ (by rw [← h4]; rfl) ZoneSendRequestGuildTributes
      BringUp.sendRequestGuildTributes (by rw [bringUp_RequestGuildTributes, h4])

theorem bringUp_GuildMOTD (s : EverQuest) :
    bringUp (ZoneProcessGuildMOTD s) = (bringUp s).guildMOTD := by
  have h1 : bringUp (if (!s.m_server_filter_sent) = true then
        ({ ZoneSendSetServerFilter s with m_server_filter_sent := true } : EverQuest) else s) =
      if (!(bringUp s).server_filter_sent) = true then (bringUp s).sendSetServerFilter
      else bringUp s :=
    guard_sim s (bringUp s) rfl _ _ rfl
      (fun t => { ZoneSendSetServerFilter t with m_server_filter_sent := true })
      BringUp.sendSetServerFilter (by rw [← bringUp_SetServerFilter]; rfl)
  exact guard_sim _ _ h1 _ _ (by rw [← h1]; rfl)
      (fun t => { ZoneSendClientReady t with m_client_ready_sent := true })
      BringUp.sendClientReady (by rw [← h1, ← bringUp_ClientReady]; rfl)

theorem bringUp_Zonepoints (s : EverQuest) :
    bringUp (ZoneProcessSendZonepoints s) = (bringUp s).zonepoints := by
  have h1 : bringUp (if (!s.m_server_filter_sent && s.m_send_exp_zonein_received) = true then
        ZoneSendSetServerFilter s else s) =
      if (!(bringUp s).server_filter_sent && (bringUp s).send_exp_zonein_received) = true then
        (bringUp s).sendSetServerFilter
      else bringUp s :=
    guard_sim s (bringUp s) rfl _ _ rfl ZoneSendSetServerFilter
      BringUp.sendSetServerFilter (bringUp_SetServerFilter s)
  have h2 := guard_sim _ _ h1 _ _
    (congrArg (fun b : BringUp => !b.client_ready_sent && b.server_filter_sent) h1)
    ZoneSendClientReady BringUp.sendClientReady (by rw [bringUp_ClientReady, h1])
  unfold ZoneProcessSendZonepoints BringUp.zonepoints
  by_cases hc : (s.m_zone_entry_sent && !s.m_client_ready_sent) = true
  · have hc2 : ((bringUp s).zone_entry_sent && !(bringUp s).client_ready_sent) = true := hc
    rw [if_pos hc, if_pos hc2]
    exact h2
  · have hc2 : ¬ ((bringUp s).zone_entry_sent && !(bringUp s).client_ready_sent) = true := hc
    rw [if_neg hc, if_neg hc2]

theorem bringUp_WorldObjectsSent (s : EverQuest) :
    bringUp (ZoneProcessWorldObjectsSent s) = (bringUp s).worldObjectsSent :=
  guard_sim s (bringUp s) rfl _ _ rfl ZoneSendSendExpZonein
    BringUp.sendSendExpZonein (bringUp_SendExpZonein s)

/-- The bring-up part after one received packet depends only on the bring-up
part before it and on the packet's opcode. -/
theorem bringUp_recv (ctx : RecvCtx) (s : EverQuest) (p : Packet) :
    bringUp (ZoneOnPacketRecv ctx s p) = (bringUp s).step (GetUInt16 p 0) := by
  cases hop : GetUInt16 p 0 with
  | none =>
    unfold ZoneOnPacketRecv
    rw [hop]
    rfl
  | some opcode =>
    have hdef : ZoneOnPacketRecv ctx s p =
        if opcode = HC_OP_SessionReady then ZoneSendZoneEntry (ZoneSendAckPacket s)
        else if opcode = HC_OP_PlayerProfile then ZoneProcessPlayerProfile ctx s p
        else if opcode = HC_OP_ZoneSpawns then ZoneProcessZoneSpawns ctx s p
        else if opcode = HC_OP_Weather then ZoneProcessWeather s
        else if opcode = HC_OP_NewZone then ZoneProcessNewZone s p
        else if opcode = HC_OP_SendAATable then ZoneProcessSendAATable s
        else if opcode = HC_OP_RespondAA then ZoneProcessRespondAA s
        else if opcode = HC_OP_TributeInfo then ZoneProcessTributeInfo s
        else if opcode = HC_OP_SendGuildTributes then ZoneProcessSendGuildTributes s
        else if opcode = HC_OP_SendZonepoints then ZoneProcessSendZonepoints s
        else if opcode = HC_OP_SendExpZonein then ZoneProcessSendExpZonein s
        else if opcode = HC_OP_WorldObjectsSent then ZoneProcessWorldObjectsSent s
        else if opcode = HC_OP_GuildMOTD then ZoneProcessGuildMOTD s
        else if opcode = HC_OP_NewSpawn then ZoneProcessNewSpawn ctx s p
        else if opcode = HC_OP_ClientUpdate then ZoneProcessClientUpdate ctx s p
        else if opcode = HC_OP_DeleteSpawn then ZoneProcessDeleteSpawn s p
        else if opcode = HC_OP_MobHealth then ZoneProcessMobHealth s p
        else if opcode = HC_OP_HPUpdate then ZoneProcessHPUpdate s p
        else if opcode = HC_OP_ManaChange then ZoneProcessManaChange s p
        else if opcode = HC_OP_Death then ZoneProcessDeath s p
        else s := by
      unfold ZoneOnPacketRecv
      rw [hop]
    rw [hdef]
    unfold BringUp.step
    simp only []
    by_cases h1 : opcode = HC_OP_SessionReady
    · simp only [if_pos h1]
      exact bringUp_SessionReady s
    simp only [if_neg h1]
    by_cases h2 : opcode = HC_OP_PlayerProfile
    · simp only [if_pos h2]
      rw [bringUp_frame (frame_PlayerProfile ctx s p)]
      subst h2
      rfl
    simp only [if_neg h2]
    by_cases h3 : opcode = HC_OP_ZoneSpawns
    · simp only [if_pos h3]
      rw [bringUp_frame (frame_ZoneSpawns ctx s p)]
      subst h3
      rfl
    simp only [if_neg h3]
    by_cases h4 : opcode = HC_OP_Weather
    · simp only [if_pos h4]
      exact bringUp_Weather s
    simp only [if_neg h4]
    by_cases h5 : opcode = HC_OP_NewZone
    · simp only [if_pos h5]
      exact bringUp_NewZone s p
    simp only [if_neg h5]
    by_cases h6 : opcode = HC_OP_SendAATable
    · simp only [if_pos h6]
      exact bringUp_check _
    simp only [if_neg h6]
    by_cases h7 : opcode = HC_OP_RespondAA
    · simp only [if_pos h7]
      exact bringUp_check s
    simp only [if_neg h7]
    by_cases h8 : opcode = HC_OP_TributeInfo
    · simp only [if_pos h8]
      exact bringUp_check _
    simp only [if_neg h8]
    by_cases h9 : opcode = HC_OP_SendGuildTributes
    · simp only [if_pos h9]
      exact bringUp_check _
    simp only [if_neg h9]
    by_cases h10 : opcode = HC_OP_SendZonepoints
    · simp only [if_pos h10]
      exact bringUp_Zonepoints s
    simp only [if_neg h10]
    by_cases h11 : opcode = HC_OP_SendExpZonein
    · simp only [if_pos h11]
      rfl
    simp only [if_neg h11]
    by_cases h12 : opcode = HC_OP_WorldObjectsSent
    · simp only [if_pos h12]
      exact bringUp_WorldObjectsSent s
    simp only [if_neg h12]
    by_cases h13 : opcode = HC_OP_GuildMOTD
    · simp only [if_pos h13]
      exact bringUp_GuildMOTD s
    simp only [if_neg h13]
    by_cases h14 : opcode = HC_OP_NewSpawn
    · simp only [if_pos h14]
      rw [bringUp_frame (frame_NewSpawn ctx s p)]
    simp only [if_neg h14]
    by_cases h15 : opcode = HC_OP_ClientUpdate
    · simp only [if_pos h15]
      rw [bringUp_frame (frame_ClientUpdate ctx s p)]
    simp only [if_neg h15]
    by_cases h16 : opcode = HC_OP_DeleteSpawn
    · simp only [if_pos h16]
      rw [bringUp_frame (frame_DeleteSpawn s p)]
    simp only [if_neg h16]
    by_cases h17 : opcode = HC_OP_MobHealth
    · simp only [if_pos h17]
      rw [bringUp_frame (frame_MobHealth s p)]
    simp only [if_neg h17]
    by_cases h18 : opcode = HC_OP_HPUpdate
    · simp only [if_pos h18]
      rw [bringUp_frame (frame_HPUpdate s p)]
    simp only [if_neg h18]
    by_cases h19 : opcode = HC_OP_ManaChange
    · simp only [if_pos h19]
      rw [bringUp_frame (frame_ManaChange s p)]
    simp only [if_neg h19]
    by_cases h20 : opcode = HC_OP_Death
    · simp only [if_pos h20]
      rw [bringUp_frame (frame_Death s p)]
    simp only [if_neg h20]

theorem bringUp_recvAll (s : EverQuest) (evs : List (RecvCtx × Packet)) :
    bringUp (ZoneRecvAll s evs) = (bringUp s).run (evs.map (fun ev => GetUInt16 ev.2 0)) := by
  induction evs generalizing s with
  | nil => rfl
  | cons ev evs ih =>
    show bringUp (ZoneRecvAll (ZoneOnPacketRecv ev.1 s ev.2) evs) = _
    rw [ih, bringUp_recv]
    rfl

/-! ## Claims on the zone bring-up -/

theorem bringUp_zoneConnected (character : List Nat) :
    bringUp (zoneConnected character) =
      { zone_connected := true, zone_entry_sent := true, req_new_zone_sent := false,
        new_zone_received := false, aa_table_sent := false, update_aa_sent := false,
        tributes_sent := false, guild_tributes_sent := false, req_client_spawn_sent := false,
        exp_zonein_sent := false, send_exp_zonein_received := false,
        server_filter_sent := false, client_ready_sent := false, aa_table_count := 0,
        tribute_count := 0, guild_tribute_count := 0,
        sent := [some HC_OP_ZoneEntry, some HC_OP_AckPacket, some HC_OP_ZoneEntry] } := by
  unfold zoneConnected ZoneOnStatusChangeReconnectEnabled
  simp only [if_true, if_neg (show ¬ DbProtocolStatus.StatusConnected =
    DbProtocolStatus.StatusDisconnected by decide)]
  rw [bringUp_SessionReady]
  have h : GetUInt16 (u16le HC_OP_ZoneEntry) 0 = some HC_OP_ZoneEntry := by decide
  simp [bringUp, BringUp.sendAckAndZoneEntry, ZoneSendStreamIdentify, EverQuest.init,
    queuedOpcodes, Queued.opcode, h]

theorem SentOnce_sendReqNewZone (b : BringUp) (h : b.SentOnce) (hf : b.req_new_zone_sent = false) :
    b.sendReqNewZone.SentOnce := by
  unfold BringUp.SentOnce BringUp.sendReqNewZone at *
  simp only [List.count_append, List.count_singleton]
  simp_all [HC_OP_ReqNewZone, HC_OP_SendAATable, HC_OP_UpdateAA, HC_OP_SendTributes,
    HC_OP_RequestGuildTributes, HC_OP_ReqClientSpawn, HC_OP_SendExpZonein,
    HC_OP_SetServerFilter, HC_OP_ClientReady]

theorem SentOnce_sendSendAATable (b : BringUp) (h : b.SentOnce) (hf : b.aa_table_sent = false) :
    b.sendSendAATable.SentOnce := by
  unfold BringUp.SentOnce BringUp.sendSendAATable at *
  simp only [List.count_append, List.count_singleton]
  simp_all [HC_OP_ReqNewZone, HC_OP_SendAATable, HC_OP_UpdateAA, HC_OP_SendTributes,
    HC_OP_RequestGuildTributes, HC_OP_ReqClientSpawn, HC_OP_SendExpZonein,
    HC_OP_SetServerFilter, HC_OP_ClientReady]

theorem SentOnce_sendUpdateAA (b : BringUp) (h : b.SentOnce) (hf : b.update_aa_sent = false) :
    b.sendUpdateAA.SentOnce := by
  unfold BringUp.SentOnce BringUp.sendUpdateAA at *
  simp only [List.count_append, List.count_singleton]
  simp_all [HC_OP_ReqNewZone, HC_OP_SendAATable, HC_OP_UpdateAA, HC_OP_SendTributes,
    HC_OP_RequestGuildTributes, HC_OP_ReqClientSpawn, HC_OP_SendExpZonein,
    HC_OP_SetServerFilter, HC_OP_ClientReady]

theorem SentOnce_sendSendTributes (b : BringUp) (h : b.SentOnce) (hf : b.tributes_sent = false) :
    b.sendSendTributes.SentOnce := by
  unfold BringUp.SentOnce BringUp.sendSendTributes at *
  simp only [List.count_append, List.count_singleton]
  simp_all [HC_OP_ReqNewZone, HC_OP_SendAATable, HC_OP_UpdateAA, HC_OP_SendTributes,
    HC_OP_RequestGuildTributes, HC_OP_ReqClientSpawn, HC_OP_SendExpZonein,
    HC_OP_SetServerFilter, HC_OP_ClientReady]

theorem SentOnce_sendRequestGuildTributes (b : BringUp) (h : b.SentOnce) (hf : b.guild_tributes_sent = false) :
    b.sendRequestGuildTributes.SentOnce := by
  unfold BringUp.SentOnce BringUp.sendRequestGuildTributes at *
  simp only [List.count_append, List.count_singleton]
  simp_all [HC_OP_ReqNewZone, HC_OP_SendAATable, HC_OP_UpdateAA, HC_OP_SendTributes,
    HC_OP_RequestGuildTributes, HC_OP_ReqClientSpawn, HC_OP_SendExpZonein,
    HC_OP_SetServerFilter, HC_OP_ClientReady]

theorem SentOnce_sendReqClientSpawn (b : BringUp) (h : b.SentOnce) (hf : b.req_client_spawn_sent = false) :
    b.sendReqClientSpawn.SentOnce := by
  unfold BringUp.SentOnce BringUp.sendReqClientSpawn at *
  simp only [List.count_append, List.count_singleton]
  simp_all [HC_OP_ReqNewZone, HC_OP_SendAATable, HC_OP_UpdateAA, HC_OP_SendTributes,
    HC_OP_RequestGuildTributes, HC_OP_ReqClientSpawn, HC_OP_SendExpZonein,
    HC_OP_SetServerFilter, HC_OP_ClientReady]

theorem SentOnce_sendSendExpZonein (b : BringUp) (h : b.SentOnce) (hf : b.exp_zonein_sent = false) :
    b.sendSendExpZonein.SentOnce := by
  unfold BringUp.SentOnce BringUp.sendSendExpZonein at *
  simp only [List.count_append, List.count_singleton]
  simp_all [HC_OP_ReqNewZone, HC_OP_SendAATable, HC_OP_UpdateAA, HC_OP_SendTributes,
    HC_OP_RequestGuildTributes, HC_OP_ReqClientSpawn, HC_OP_SendExpZonein,
    HC_OP_SetServerFilter, HC_OP_ClientReady]

theorem SentOnce_sendSetServerFilter (b : BringUp) (h : b.SentOnce) (hf : b.server_filter_sent = false) :
    b.sendSetServerFilter.SentOnce := by
  unfold BringUp.SentOnce BringUp.sendSetServerFilter at *
  simp only [List.count_append, List.count_singleton]
  simp_all [HC_OP_ReqNewZone, HC_OP_SendAATable, HC_OP_UpdateAA, HC_OP_SendTributes,
    HC_OP_RequestGuildTributes, HC_OP_ReqClientSpawn, HC_OP_SendExpZonein,
    HC_OP_SetServerFilter, HC_OP_ClientReady]

theorem SentOnce_sendClientReady (b : BringUp) (h : b.SentOnce) (hf : b.client_ready_sent = false) :
    b.sendClientReady.SentOnce := by
  unfold BringUp.SentOnce BringUp.sendClientReady at *
  simp only [List.count_append, List.count_singleton]
  simp_all [HC_OP_ReqNewZone, HC_OP_SendAATable, HC_OP_UpdateAA, HC_OP_SendTributes,
    HC_OP_RequestGuildTributes, HC_OP_ReqClientSpawn, HC_OP_SendExpZonein,
    HC_OP_SetServerFilter, HC_OP_ClientReady]

theorem SentOnce_sendAckAndZoneEntry (b : BringUp) (h : b.SentOnce) :
    b.sendAckAndZoneEntry.SentOnce := by
  unfold BringUp.SentOnce BringUp.sendAckAndZoneEntry at *
  simp only [List.count_append, List.count_singleton]
  simp_all [HC_OP_ReqNewZone, HC_OP_SendAATable, HC_OP_UpdateAA, HC_OP_SendTributes,
    HC_OP_RequestGuildTributes, HC_OP_ReqClientSpawn, HC_OP_SendExpZonein,
    HC_OP_SetServerFilter, HC_OP_ClientReady, HC_OP_AckPacket, HC_OP_ZoneEntry]

theorem SentOnce_guard (b : BringUp) (c : Bool) (send : BringUp → BringUp)
    (h : b.SentOnce) (hs : c = true → (send b).SentOnce) :
    (if c = true then send b else b).SentOnce := by
  cases c
  · exact h
  · exact hs rfl

theorem SentOnce_check (b : BringUp) (h : b.SentOnce) : b.check.SentOnce := by
  unfold BringUp.check
  apply SentOnce_guard b _ BringUp.sendReqClientSpawn h
  intro hc
  apply SentOnce_sendReqClientSpawn b h
  simp only [Bool.and_eq_true, Bool.not_eq_true'] at hc
  exact hc.2

theorem SentOnce_weather (b : BringUp) (h : b.SentOnce) : b.weather.SentOnce := by
  unfold BringUp.weather
  apply SentOnce_guard b _ BringUp.sendReqNewZone h
  intro hc
  exact SentOnce_sendReqNewZone b h (by simpa using hc)

theorem SentOnce_worldObjectsSent (b : BringUp) (h : b.SentOnce) :
    b.worldObjectsSent.SentOnce := by
  unfold BringUp.worldObjectsSent
  apply SentOnce_guard b _ BringUp.sendSendExpZonein h
  intro hc
  exact SentOnce_sendSendExpZonein b h (by simpa using hc)

theorem SentOnce_newZone (b : BringUp) (h : b.SentOnce) : b.newZone.SentOnce := by
  unfold BringUp.newZone
  lift_lets
  intro b1 b2 b3 b4
  have h1 : b1.SentOnce := h
  have h2 : b2.SentOnce :=
    SentOnce_guard b1 _ BringUp.sendSendAATable h1
      (fun hc => SentOnce_sendSendAATable b1 h1 (by simpa using hc))
  have h3 : b3.SentOnce :=
    SentOnce_guard b2 _ BringUp.sendUpdateAA h2
      (fun hc => SentOnce_sendUpdateAA b2 h2 (by simpa using hc))
  have h4 : b4.SentOnce :=
    SentOnce_guard b3 _ BringUp.sendSendTributes h3
      (fun hc => SentOnce_sendSendTributes b3 h3 (by simpa using hc))
  exact SentOnce_guard b4 _ BringUp.sendRequestGuildTributes h4
      (fun hc => SentOnce_sendRequestGuildTributes b4 h4 (by simpa using hc))

theorem SentOnce_guildMOTD (b : BringUp) (h : b.SentOnce) : b.guildMOTD.SentOnce := by
  unfold BringUp.guildMOTD
  lift_lets
  intro b1
  have h1 : b1.SentOnce :=
    SentOnce_guard b _ BringUp.sendSetServerFilter h
      (fun hc => SentOnce_sendSetServerFilter b h (by simpa using hc))
  exact SentOnce_guard b1 _ BringUp.sendClientReady h1
      (fun hc => SentOnce_sendClientReady b1 h1 (by simpa using hc))

theorem SentOnce_zonepoints (b : BringUp) (h : b.SentOnce) : b.zonepoints.SentOnce := by
  unfold BringUp.zonepoints
  by_cases h0 : (b.zone_entry_sent && !b.client_ready_sent) = true
  · rw [if_pos h0]
    lift_lets
    intro b1
    have h1 : b1.SentOnce :=
      SentOnce_guard b _ BringUp.sendSetServerFilter h
        (fun hc => SentOnce_sendSetServerFilter b h (by
          simp only [Bool.and_eq_true, Bool.not_eq_true'] at hc; exact hc.1))
    exact SentOnce_guard b1 _ BringUp.sendClientReady h1
        (fun hc => SentOnce_sendClientReady b1 h1 (by
          simp only [Bool.and_eq_true, Bool.not_eq_true'] at hc; exact hc.1))
  · rw [if_neg h0]
    exact h

theorem SentOnce_step (b : BringUp) (o : Option Nat) (h : b.SentOnce) :
    (b.step o).SentOnce := by
  cases o with
  | none => exact h
  | some opcode =>
    unfold BringUp.step
    simp only []
    by_cases h0 : opcode = HC_OP_SessionReady
    · simp only [if_pos h0]
      exact SentOnce_sendAckAndZoneEntry b h
    simp only [if_neg h0]
    by_cases h1 : opcode = HC_OP_Weather
    · simp only [if_pos h1]
      exact SentOnce_weather b h
    simp only [if_neg h1]
    by_cases h2 : opcode = HC_OP_NewZone
    · simp only [if_pos h2]
      exact SentOnce_newZone b h
    simp only [if_neg h2]
    by_cases h3 : opcode = HC_OP_SendAATable
    · simp only [if_pos h3]
      exact SentOnce_check { b with aa_table_count := b.aa_table_count + 1 } h
    simp only [if_neg h3]
    by_cases h4 : opcode = HC_OP_RespondAA
    · simp only [if_pos h4]
      exact SentOnce_check b h
    simp only [if_neg h4]
    by_cases h5 : opcode = HC_OP_TributeInfo
    · simp only [if_pos h5]
      exact SentOnce_check { b with tribute_count := b.tribute_count + 1 } h
    simp only [if_neg h5]
    by_cases h6 : opcode = HC_OP_SendGuildTributes
    · simp only [if_pos h6]
      exact SentOnce_check { b with guild_tribute_count := b.guild_tribute_count + 1 } h
    simp only [if_neg h6]
    by_cases h7 : opcode = HC_OP_SendZonepoints
    · simp only [if_pos h7]
      exact SentOnce_zonepoints b h
    simp only [if_neg h7]
    by_cases h8 : opcode = HC_OP_SendExpZonein
    · simp only [if_pos h8]
      exact h
    simp only [if_neg h8]
    by_cases h9 : opcode = HC_OP_WorldObjectsSent
    · simp only [if_pos h9]
      exact SentOnce_worldObjectsSent b h
    simp only [if_neg h9]
    by_cases h10 : opcode = HC_OP_GuildMOTD
    · simp only [if_pos h10]
      exact SentOnce_guildMOTD b h
    simp only [if_neg h10]
    exact h

theorem SentOnce_run (os : List (Option Nat)) (b : BringUp) (h : b.SentOnce) :
    (b.run os).SentOnce := by
  induction os generalizing b with
  | nil => exact h
  | cons o os ih => exact ih _ (SentOnce_step b o h)

theorem SentOnce_le_one (b : BringUp) (h : b.SentOnce) :
    b.sent.count (some HC_OP_ReqNewZone) ≤ 1 ∧ b.sent.count (some HC_OP_SendAATable) ≤ 1 ∧
    b.sent.count (some HC_OP_UpdateAA) ≤ 1 ∧ b.sent.count (some HC_OP_SendTributes) ≤ 1 ∧
    b.sent.count (some HC_OP_RequestGuildTributes) ≤ 1 ∧
    b.sent.count (some HC_OP_ReqClientSpawn) ≤ 1 ∧
    b.sent.count (some HC_OP_SendExpZonein) ≤ 1 ∧
    b.sent.count (some HC_OP_SetServerFilter) ≤ 1 ∧
    b.sent.count (some HC_OP_ClientReady) ≤ 1 := by
  obtain ⟨a1, a2, a3, a4, a5, a6, a7, a8, a9⟩ := h
  rw [a1, a2, a3, a4, a5, a6, a7, a8, a9]
  refine ⟨?_, ?_, ?_, ?_, ?_, ?_, ?_, ?_, ?_⟩ <;> split_ifs <;> omega

/-- C10. For every sequence of packets received on a zone session, each of
ReqNewZone, SendAATable, UpdateAA, SendTributes, RequestGuildTributes,
ReqClientSpawn, SendExpZonein, SetServerFilter and ClientReady is queued at
most once. -/
theorem C10_bring_up_packets_queued_at_most_once (character : List Nat)
    (evs : List (RecvCtx × Packet)) :
    queuedCount (ZoneRecvAll (zoneConnected character) evs) HC_OP_ReqNewZone ≤ 1 ∧
    queuedCount (ZoneRecvAll (zoneConnected character) evs) HC_OP_SendAATable ≤ 1 ∧
    queuedCount (ZoneRecvAll (zoneConnected character) evs) HC_OP_UpdateAA ≤ 1 ∧
    queuedCount (ZoneRecvAll (zoneConnected character) evs) HC_OP_SendTributes ≤ 1 ∧
    queuedCount (ZoneRecvAll (zoneConnected character) evs) HC_OP_RequestGuildTributes ≤ 1 ∧
    queuedCount (ZoneRecvAll (zoneConnected character) evs) HC_OP_ReqClientSpawn ≤ 1 ∧
    queuedCount (ZoneRecvAll (zoneConnected character) evs) HC_OP_SendExpZonein ≤ 1 ∧
    queuedCount (ZoneRecvAll (zoneConnected character) evs) HC_OP_SetServerFilter ≤ 1 ∧
    queuedCount (ZoneRecvAll (zoneConnected character) evs) HC_OP_ClientReady ≤ 1 := by
  have h0 : (bringUp (zoneConnected character)).SentOnce := by
    rw [bringUp_zoneConnected]
    unfold BringUp.SentOnce
    decide
  have h := SentOnce_run (evs.map (fun ev => GetUInt16 ev.2 0)) _ h0
  rw [← bringUp_recvAll] at h
  exact SentOnce_le_one _ h

theorem run_append (b : BringUp) (os : List (Option Nat)) (o : Option Nat) :
    b.run (os ++ [o]) = (b.run os).step o := by
  simp [BringUp.run, List.foldl_append]

theorem flags_check (b : BringUp) :
    b.check.client_ready_sent = b.client_ready_sent ∧
    b.check.new_zone_received = b.new_zone_received ∧
    (b.check.req_client_spawn_sent = true → b.req_client_spawn_sent = true ∨
      b.new_zone_received = true) := by
  unfold BringUp.check BringUp.sendReqClientSpawn
  split_ifs with h
  · simp only [Bool.and_eq_true] at h
    exact ⟨rfl, rfl, fun _ => Or.inr h.1.1.1.1⟩
  · exact ⟨rfl, rfl, Or.inl⟩

theorem flags_weather (b : BringUp) :
    b.weather.client_ready_sent = b.client_ready_sent ∧
    b.weather.new_zone_received = b.new_zone_received ∧
    b.weather.req_client_spawn_sent = b.req_client_spawn_sent := by
  unfold BringUp.weather BringUp.sendReqNewZone
  split_ifs <;> exact ⟨rfl, rfl, rfl⟩

theorem flags_worldObjectsSent (b : BringUp) :
    b.worldObjectsSent.client_ready_sent = b.client_ready_sent ∧
    b.worldObjectsSent.new_zone_received = b.new_zone_received ∧
    b.worldObjectsSent.req_client_spawn_sent = b.req_client_spawn_sent := by
  unfold BringUp.worldObjectsSent BringUp.sendSendExpZonein
  split_ifs <;> exact ⟨rfl, rfl, rfl⟩

theorem flags_newZone (b : BringUp) :
    b.newZone.client_ready_sent = b.client_ready_sent ∧
    b.newZone.new_zone_received = true ∧
    b.newZone.req_client_spawn_sent = b.req_client_spawn_sent := by
  unfold BringUp.newZone BringUp.sendSendAATable BringUp.sendUpdateAA BringUp.sendSendTributes
    BringUp.sendRequestGuildTributes
  simp only []
  split_ifs <;> exact ⟨rfl, rfl, rfl⟩

theorem flags_zonepoints (b : BringUp) :
    b.zonepoints.new_zone_received = b.new_zone_received ∧
    b.zonepoints.req_client_spawn_sent = b.req_client_spawn_sent := by
  unfold BringUp.zonepoints BringUp.sendSetServerFilter BringUp.sendClientReady
  simp only []
  split_ifs <;> exact ⟨rfl, rfl⟩

theorem flags_guildMOTD (b : BringUp) :
    b.guildMOTD.new_zone_received = b.new_zone_received ∧
    b.guildMOTD.req_client_spawn_sent = b.req_client_spawn_sent := by
  unfold BringUp.guildMOTD BringUp.sendSetServerFilter BringUp.sendClientReady
  simp only []
  split_ifs <;> exact ⟨rfl, rfl⟩

/-- How one step moves the flags that order the bring-up: `client_ready_sent`
is set only by GuildMOTD or SendZonepoints, `new_zone_received` only by NewZone
and never cleared, `req_client_spawn_sent` only when `new_zone_received` was
already set. -/
theorem step_flags (b : BringUp) (o : Option Nat) :
    ((b.step o).client_ready_sent = true → b.client_ready_sent = true ∨
      o = some HC_OP_GuildMOTD ∨ o = some HC_OP_SendZonepoints) ∧
    ((b.step o).new_zone_received = true → b.new_zone_received = true ∨
      o = some HC_OP_NewZone) ∧
    ((b.step o).req_client_spawn_sent = true → b.req_client_spawn_sent = true ∨
      b.new_zone_received = true) ∧
    (b.new_zone_received = true → (b.step o).new_zone_received = true) := by
  cases o with
  | none => exact ⟨Or.inl, Or.inl, Or.inl, id⟩
  | some opcode =>
    unfold BringUp.step
    simp only []
    by_cases h0 : opcode = HC_OP_SessionReady
    · simp only [if_pos h0]
      exact ⟨Or.inl, Or.inl, Or.inl, id⟩
    simp only [if_neg h0]
    by_cases h1 : opcode = HC_OP_Weather
    · simp only [if_pos h1]
      obtain ⟨a, b1, c⟩ := flags_weather b
      rw [a, b1, c]
      exact ⟨Or.inl, Or.inl, Or.inl, id⟩
    simp only [if_neg h1]
    by_cases h2 : opcode = HC_OP_NewZone
    · simp only [if_pos h2]
      obtain ⟨a, b1, c⟩ := flags_newZone b
      rw [a, b1, c]
      exact ⟨Or.inl, fun _ => Or.inr (congrArg some h2), Or.inl, fun _ => rfl⟩
    simp only [if_neg h2]
    by_cases h3 : opcode = HC_OP_SendAATable
    · simp only [if_pos h3]
      obtain ⟨a, b1, c⟩ := flags_check { b with aa_table_count := b.aa_table_count + 1 }
      rw [a, b1]
      exact ⟨Or.inl, Or.inl, c, id⟩
    simp only [if_neg h3]
    by_cases h4 : opcode = HC_OP_RespondAA
    · simp only [if_pos h4]
      obtain ⟨a, b1, c⟩ := flags_check b
      rw [a, b1]
      exact ⟨Or.inl, Or.inl, c, id⟩
    simp only [if_neg h4]
    by_cases h5 : opcode = HC_OP_TributeInfo
    · simp only [if_pos h5]
      obtain ⟨a, b1, c⟩ := flags_check { b with tribute_count := b.tribute_count + 1 }
      rw [a, b1]
      exact ⟨Or.inl, Or.inl, c, id⟩
    simp only [if_neg h5]
    by_cases h6 : opcode = HC_OP_SendGuildTributes
    · simp only [if_pos h6]
      obtain ⟨a, b1, c⟩ := flags_check { b with guild_tribute_count := b.guild_tribute_count + 1 }
      rw [a, b1]
      exact ⟨Or.inl, Or.inl, c, id⟩
    simp only [if_neg h6]
    by_cases h7 : opcode = HC_OP_SendZonepoints
    · simp only [if_pos h7]
      obtain ⟨b1, c⟩ := flags_zonepoints b
      rw [b1, c]
      exact ⟨fun _ => Or.inr (Or.inr (congrArg some h7)), Or.inl, Or.inl, id⟩
    simp only [if_neg h7]
    by_cases h8 : opcode = HC_OP_SendExpZonein
    · simp only [if_pos h8]
      exact ⟨Or.inl, Or.inl, Or.inl, id⟩
    simp only [if_neg h8]
    by_cases h9 : opcode = HC_OP_WorldObjectsSent
    · simp only [if_pos h9]
      obtain ⟨a, b1, c⟩ := flags_worldObjectsSent b
      rw [a, b1, c]
      exact ⟨Or.inl, Or.inl, Or.inl, id⟩
    simp only [if_neg h9]
    by_cases h10 : opcode = HC_OP_GuildMOTD
    · simp only [if_pos h10]
      obtain ⟨b1, c⟩ := flags_guildMOTD b
      rw [b1, c]
      exact ⟨fun _ => Or.inr (Or.inl (congrArg some h10)), Or.inl, Or.inl, id⟩
    simp only [if_neg h10]
    exact ⟨Or.inl, Or.inl, Or.inl, id⟩

theorem run_flags (os : List (Option Nat)) (b : BringUp)
    (h1 : b.client_ready_sent = false) (h2 : b.new_zone_received = false)
    (h3 : b.req_client_spawn_sent = false) :
    ((b.run os).client_ready_sent = true →
      some HC_OP_GuildMOTD ∈ os ∨ some HC_OP_SendZonepoints ∈ os) ∧
    ((b.run os).new_zone_received = true → some HC_OP_NewZone ∈ os) ∧
    ((b.run os).req_client_spawn_sent = true → (b.run os).new_zone_received = true) := by
  induction os using List.reverseRecOn with
  | nil =>
    refine ⟨?_, ?_, ?_⟩ <;> intro h
    · rw [show b.run [] = b from rfl, h1] at h; cases h
    · rw [show b.run [] = b from rfl, h2] at h; cases h
    · rw [show b.run [] = b from rfl, h3] at h; cases h
  | append_singleton os o ih =>
    obtain ⟨i1, i2, i3⟩ := ih
    obtain ⟨s1, s2, s3, s4⟩ := step_flags (b.run os) o
    rw [run_append]
    refine ⟨?_, ?_, ?_⟩
    · intro h
      rcases s1 h with h | h | h
      · rcases i1 h with h | h
        · exact Or.inl (List.mem_append_left _ h)
        · exact Or.inr (List.mem_append_left _ h)
      · exact Or.inl (by rw [h]; simp)
      · exact Or.inr (by rw [h]; simp)
    · intro h
      rcases s2 h with h | h
      · exact List.mem_append_left _ (i2 h)
      · rw [h]; simp
    · intro h
      rcases s3 h with h | h
      · exact s4 (i3 h)
      · exact s4 h

theorem queuedCount_eq (s : EverQuest) (op : Nat) :
    queuedCount s op = (bringUp s).sent.count (some op) := rfl

theorem mem_opcodes {evs : List (RecvCtx × Packet)} {op : Nat}
    (h : some op ∈ evs.map (fun ev => GetUInt16 ev.2 0)) :
    ∃ ev ∈ evs, GetUInt16 ev.2 0 = some op := by
  obtain ⟨ev, hev, he⟩ := List.mem_map.1 h
  exact ⟨ev, hev, he⟩

/-- C9 (as amended). For every sequence of packets received on a zone session,
the bring-up packets follow the server's packets, not the client's own earlier
sends: ClientReady is never queued (and IsFullyZonedIn never becomes true)
unless a GuildMOTD or a SendZonepoints packet was received, and ReqClientSpawn
is never queued unless NewZone was received. -/
theorem C9_stages_follow_server_packets (character : List Nat)
    (evs : List (RecvCtx × Packet)) :
    ((0 < queuedCount (ZoneRecvAll (zoneConnected character) evs) HC_OP_ClientReady ∨
        IsFullyZonedIn (ZoneRecvAll (zoneConnected character) evs) = true) →
      ∃ ev ∈ evs, GetUInt16 ev.2 0 = some HC_OP_GuildMOTD ∨
        GetUInt16 ev.2 0 = some HC_OP_SendZonepoints) ∧
    (0 < queuedCount (ZoneRecvAll (zoneConnected character) evs) HC_OP_ReqClientSpawn →
      ∃ ev ∈ evs, GetUInt16 ev.2 0 = some HC_OP_NewZone) := by
  have h0 : (bringUp (zoneConnected character)).SentOnce := by
    rw [bringUp_zoneConnected]
    unfold BringUp.SentOnce
    decide
  have hso := SentOnce_run (evs.map (fun ev => GetUInt16 ev.2 0)) _ h0
  obtain ⟨f1, f2, f3⟩ := run_flags (evs.map (fun ev => GetUInt16 ev.2 0))
    (bringUp (zoneConnected character)) (by rw [bringUp_zoneConnected])
    (by rw [bringUp_zoneConnected]) (by rw [bringUp_zoneConnected])
  rw [← bringUp_recvAll] at hso f1 f2 f3
  obtain ⟨-, -, -, -, -, c6, -, -, c9⟩ := hso
  constructor
  · intro h
    have hcr : (bringUp (ZoneRecvAll (zoneConnected character) evs)).client_ready_sent = true := by
      rcases h with h | h
      · rw [queuedCount_eq, c9] at h
        by_contra hn
        rw [if_neg hn] at h
        omega
      · have : ((bringUp (ZoneRecvAll (zoneConnected character) evs)).zone_connected &&
            (bringUp (ZoneRecvAll (zoneConnected character) evs)).client_ready_sent) = true := h
        simp only [Bool.and_eq_true] at this
        exact this.2
    rcases f1 hcr with h | h
    · obtain ⟨ev, hev, he⟩ := mem_opcodes h
      exact ⟨ev, hev, Or.inl he⟩
    · obtain ⟨ev, hev, he⟩ := mem_opcodes h
      exact ⟨ev, hev, Or.inr he⟩
  · intro h
    rw [queuedCount_eq, c6] at h
    have hrcs : (bringUp (ZoneRecvAll (zoneConnected character) evs)).req_client_spawn_sent
        = true := by
      by_contra hn
      rw [if_neg hn] at h
      omega
    exact mem_opcodes (f2 (f3 hrcs))

theorem C9_stages_follow_server_packets_witness :
    0 < queuedCount (ZoneRecvAll (zoneConnected [72, 99])
      [(exampleCtx, u16le HC_OP_GuildMOTD)]) HC_OP_ClientReady ∧
    ∃ ev ∈ [(exampleCtx, u16le HC_OP_GuildMOTD)],
      GetUInt16 ev.2 0 = some HC_OP_GuildMOTD ∨ GetUInt16 ev.2 0 = some HC_OP_SendZonepoints := by
  have h : 0 < queuedCount (ZoneRecvAll (zoneConnected [72, 99])
      [(exampleCtx, u16le HC_OP_GuildMOTD)]) HC_OP_ClientReady := by
    rw [queuedCount_eq, bringUp_recvAll, bringUp_zoneConnected]
    decide
  exact ⟨h, (C9_stages_follow_server_packets [72, 99] [(exampleCtx, u16le HC_OP_GuildMOTD)]).1
    (Or.inl h)⟩

/-- C9, counterexample. On a fresh zone session a single GuildMOTD makes the
client queue ClientReady and become fully zoned in although ReqClientSpawn was
never queued; and NewZone followed by SendAATable, TributeInfo and
SendGuildTributes makes it queue ReqClientSpawn although ReqNewZone was never
queued. -/
theorem C9_counterexample :
    (queuedCount (ZoneRecvAll (zoneConnected [72, 99])
        [(exampleCtx, u16le HC_OP_GuildMOTD)]) HC_OP_ClientReady = 1 ∧
      IsFullyZonedIn (ZoneRecvAll (zoneConnected [72, 99])
        [(exampleCtx, u16le HC_OP_GuildMOTD)]) = true ∧
      queuedCount (ZoneRecvAll (zoneConnected [72, 99])
        [(exampleCtx, u16le HC_OP_GuildMOTD)]) HC_OP_ReqClientSpawn = 0) ∧
    (queuedCount (ZoneRecvAll (zoneConnected [72, 99])
        [(exampleCtx, u16le HC_OP_NewZone), (exampleCtx, u16le HC_OP_SendAATable),
         (exampleCtx, u16le HC_OP_TributeInfo), (exampleCtx, u16le HC_OP_SendGuildTributes)])
        HC_OP_ReqClientSpawn = 1 ∧
      queuedCount (ZoneRecvAll (zoneConnected [72, 99])
        [(exampleCtx, u16le HC_OP_NewZone), (exampleCtx, u16le HC_OP_SendAATable),
         (exampleCtx, u16le HC_OP_TributeInfo), (exampleCtx, u16le HC_OP_SendGuildTributes)])
        HC_OP_ReqNewZone = 0) := by
  have hz : ∀ s : EverQuest, IsFullyZonedIn s =
      ((bringUp s).zone_connected && (bringUp s).client_ready_sent) := fun _ => rfl
  simp only [queuedCount_eq, hz, bringUp_recvAll, bringUp_zoneConnected]
  decide

/-- C8. On a fresh zone session that receives SendAATable, TributeInfo,
SendGuildTributes and then NewZone, the state after the fourth packet has
NewZone received and all three counters positive, yet ReqClientSpawn is not
queued: `ZoneProcessNewZone` does not call `CheckZoneRequestPhaseComplete`. The
queue holds the stream identification, the ack, ZoneEntry and the four
requests sent on NewZone. -/
theorem C8_new_zone_last_never_requests_spawn :
    (ZoneRecvAll (zoneConnected [72, 99])
      [(exampleCtx, u16le HC_OP_SendAATable), (exampleCtx, u16le HC_OP_TributeInfo),
       (exampleCtx, u16le HC_OP_SendGuildTributes), (exampleCtx, u16le HC_OP_NewZone)]
      ).m_new_zone_received = true ∧
    0 < (ZoneRecvAll (zoneConnected [72, 99])
      [(exampleCtx, u16le HC_OP_SendAATable), (exampleCtx, u16le HC_OP_TributeInfo),
       (exampleCtx, u16le HC_OP_SendGuildTributes), (exampleCtx, u16le HC_OP_NewZone)]
      ).m_aa_table_count ∧
    0 < (ZoneRecvAll (zoneConnected [72, 99])
      [(exampleCtx, u16le HC_OP_SendAATable), (exampleCtx, u16le HC_OP_TributeInfo),
       (exampleCtx, u16le HC_OP_SendGuildTributes), (exampleCtx, u16le HC_OP_NewZone)]
      ).m_tribute_count ∧
    0 < (ZoneRecvAll (zoneConnected [72, 99])
      [(exampleCtx, u16le HC_OP_SendAATable), (exampleCtx, u16le HC_OP_TributeInfo),
       (exampleCtx, u16le HC_OP_SendGuildTributes), (exampleCtx, u16le HC_OP_NewZone)]
      ).m_guild_tribute_count ∧
    queuedCount (ZoneRecvAll (zoneConnected [72, 99])
      [(exampleCtx, u16le HC_OP_SendAATable), (exampleCtx, u16le HC_OP_TributeInfo),
       (exampleCtx, u16le HC_OP_SendGuildTributes), (exampleCtx, u16le HC_OP_NewZone)])
      HC_OP_ReqClientSpawn = 0 ∧
    queuedOpcodes (ZoneRecvAll (zoneConnected [72, 99])
      [(exampleCtx, u16le HC_OP_SendAATable), (exampleCtx, u16le HC_OP_TributeInfo),
       (exampleCtx, u16le HC_OP_SendGuildTributes), (exampleCtx, u16le HC_OP_NewZone)]) =
      [some HC_OP_ZoneEntry, some HC_OP_AckPacket, some HC_OP_ZoneEntry,
       some HC_OP_SendAATable, some HC_OP_UpdateAA, some HC_OP_SendTributes,
       some HC_OP_RequestGuildTributes] := by
  have h1 : ∀ s : EverQuest, s.m_new_zone_received = (bringUp s).new_zone_received :=
    fun _ => rfl
  have h2 : ∀ s : EverQuest, s.m_aa_table_count = (bringUp s).aa_table_count := fun _ => rfl
  have h3 : ∀ s : EverQuest, s.m_tribute_count = (bringUp s).tribute_count := fun _ => rfl
  have h4 : ∀ s : EverQuest, s.m_guild_tribute_count = (bringUp s).guild_tribute_count :=
    fun _ => rfl
  have h5 : ∀ s : EverQuest, queuedOpcodes s = (bringUp s).sent := fun _ => rfl
  simp only [queuedCount_eq, h1, h2, h3, h4, h5, bringUp_recvAll, bringUp_zoneConnected]
  decide

theorem ents_check (s : EverQuest) :
    (CheckZoneRequestPhaseComplete s).m_entities = s.m_entities := by
  unfold CheckZoneRequestPhaseComplete
  split_ifs <;> rfl

theorem ents_Weather (s : EverQuest) : (ZoneProcessWeather s).m_entities = s.m_entities := by
  unfold ZoneProcessWeather
  simp only []
  split_ifs <;> rfl

theorem ents_guard (s : EverQuest) (c : Bool) (send : EverQuest → EverQuest)
    (h : (send s).m_entities = s.m_entities) :
    (if c = true then send s else s).m_entities = s.m_entities := by
  cases c
  · rfl
  · exact h

theorem ents_NewZone (s : EverQuest) (p : Packet) :
    (ZoneProcessNewZone s p).m_entities = s.m_entities := by
  unfold ZoneProcessNewZone
  lift_lets
  intro s0 s1 s2 s3 s4
  have h0 : s0.m_entities = s.m_entities := by
    show (if Length p ≥ 96 then _ else _ : EverQuest).m_entities = _
    split_ifs <;> rfl
  have h1 : s1.m_entities = s.m_entities := h0
  have h2 : s2.m_entities = s.m_entities :=
    (ents_guard s1 _ ZoneSendSendAATable rfl).trans h1
  have h3 : s3.m_entities = s.m_entities :=
    (ents_guard s2 _ ZoneSendUpdateAA rfl).trans h2
  have h4 : s4.m_entities = s.m_entities :=
    (ents_guard s3 _ ZoneSendSendTributes rfl).trans h3
  exact (ents_guard s4 _ ZoneSendRequestGuildTributes rfl).trans h4

theorem ents_WorldObjectsSent (s : EverQuest) :
    (ZoneProcessWorldObjectsSent s).m_entities = s.m_entities := by
  unfold ZoneProcessWorldObjectsSent
  split_ifs <;> rfl

theorem ents_GuildMOTD (s : EverQuest) :
    (ZoneProcessGuildMOTD s).m_entities = s.m_entities := by
  unfold ZoneProcessGuildMOTD
  simp only []
  split_ifs <;> rfl

theorem ents_Zonepoints (s : EverQuest) :
    (ZoneProcessSendZonepoints s).m_entities = s.m_entities := by
  unfold ZoneProcessSendZonepoints
  simp only []
  split_ifs <;> rfl

/-- The state `ZoneProcessPlayerProfile` leaves for a profile long enough to
hold the entity id. -/
theorem PlayerProfile_result (ctx : RecvCtx) (s : EverQuest) (p : Packet)
    (id : Nat) (x y z h : ℚ) (hlen : 14390 ≤ Length p)
    (hid : GetUInt32 p 14386 = some id)
    (hx : GetFloat p 30 = some x) (hy : GetFloat p 34 = some y)
    (hz : GetFloat p 38 = some z) (hh : GetFloat p 42 = some h) :
    ZoneProcessPlayerProfile ctx s p =
      { s with
        m_my_character_id := id % 65536, m_x := x, m_y := y, m_z := z, m_heading := h,
        m_entities := mapInsert s.m_entities (id % 65536)
          { ctx.uninit with
            spawn_id := id % 65536, name := s.m_character, x := x, y := y, z := z,
            heading := h, level := 1, class_id := 0, race_id := 0, hp_percent := 100,
            animation := 0, delta_x := 0, delta_y := 0, delta_z := 0, delta_heading := 0,
            last_update_time := ctx.now % 2 ^ 32 } } := by
  unfold ZoneProcessPlayerProfile
  have h1 : Length p > 14386 := by omega
  have h2 : Length p > 42 := by omega
  simp only [h1, h2, if_true, hid, hx, hy, hz, hh]

theorem ZoneRecvAll_cons (s : EverQuest) (ev : RecvCtx × Packet)
    (evs : List (RecvCtx × Packet)) :
    ZoneRecvAll s (ev :: evs) = ZoneRecvAll (ZoneOnPacketRecv ev.1 s ev.2) evs := rfl

theorem zeros_length (n : Nat) : (zeros n).length = n := List.length_replicate n 0

theorem zeros_getElem? (n i : Nat) (h : i < n) : (zeros n)[i]? = some 0 := by
  unfold zeros
  rw [List.getElem?_replicate]
  simp [h]

theorem exampleProfile_length : Length exampleProfile = 14390 := by
  simp only [exampleProfile, Length, List.length_append, List.length_cons, List.length_nil,
    zeros_length]

theorem exampleProfile_id (i : Nat) :
    exampleProfile[14386 + i]? = [42, 0, 0, 0][i]? := by
  unfold exampleProfile
  rw [List.getElem?_append_right (by
    simp only [List.length_append, List.length_cons, List.length_nil, zeros_length]; omega)]
  rw [List.getElem?_append_right (by
    simp only [List.length_append, List.length_cons, List.length_nil, zeros_length]; omega)]
  simp only [List.length_append, List.length_cons, List.length_nil, zeros_length]
  have e : 14386 + i - (0 + 1 + 1 + (28 + (0 + 1 + 1 + 1 + 1 + 1 + 1 + 1 + 1 + 1 + 1 + 1 + 1 + 1 +
      1 + 1 + 1))) - 14340 = i := by omega
  rw [e]

theorem exampleProfile_entity_id : GetUInt32 exampleProfile 14386 = some 42 := by
  have h0 := exampleProfile_id 0
  have h1 := exampleProfile_id 1
  have h2 := exampleProfile_id 2
  have h3 := exampleProfile_id 3
  simp only [Nat.add_zero] at h0
  simp [GetUInt32, GetUInt8, h0, h1, h2, h3]

theorem bringUp_statusConnected (s : EverQuest) :
    bringUp (ZoneOnStatusChangeReconnectEnabled s DbProtocolStatus.StatusConnected) =
      { bringUp s with
        zone_connected := true, zone_entry_sent := true,
        sent := (bringUp s).sent ++
          [some HC_OP_ZoneEntry, some HC_OP_AckPacket, some HC_OP_ZoneEntry] } := by
  unfold ZoneOnStatusChangeReconnectEnabled
  simp only [if_true, if_neg (show ¬ DbProtocolStatus.StatusConnected =
    DbProtocolStatus.StatusDisconnected by decide)]
  rw [bringUp_SessionReady]
  have h : GetUInt16 (u16le HC_OP_ZoneEntry) 0 = some HC_OP_ZoneEntry := by decide
  simp [bringUp, BringUp.sendAckAndZoneEntry, ZoneSendStreamIdentify, queuedOpcodes,
    Queued.opcode, h]

theorem bringUp_statusDisconnected (s : EverQuest) :
    bringUp (ZoneOnStatusChangeReconnectEnabled s DbProtocolStatus.StatusDisconnected) =
      { bringUp s with zone_connected := false, zone_entry_sent := false } := by
  unfold ZoneOnStatusChangeReconnectEnabled
  simp only [if_true, if_neg (show ¬ DbProtocolStatus.StatusDisconnected =
    DbProtocolStatus.StatusConnected by decide)]
  rfl

theorem ZoneRun_cons (s : EverQuest) (ev : ZoneEvent) (evs : List ZoneEvent) :
    ZoneRun s (ev :: evs) = ZoneRun (ZoneOnEvent s ev) evs := rfl

/-- C11. A zone session connects, receives GuildMOTD (which makes the client
queue SetServerFilter and ClientReady), is reported Disconnected and then
Connected again. After the Disconnected `IsFullyZonedIn` is false; right after
the second Connected it is true, although the packets queued since then are only
the stream identification, the ack and ZoneEntry: no ClientReady. The
Disconnected branch clears `m_zone_entry_sent` and leaves
`m_client_ready_sent` set. -/
theorem C11_fully_zoned_in_right_after_reconnect :
    IsFullyZonedIn (ZoneRun (EverQuest.init [72, 99])
      [ZoneEvent.status DbProtocolStatus.StatusConnected,
       ZoneEvent.recv exampleCtx (u16le HC_OP_GuildMOTD),
       ZoneEvent.status DbProtocolStatus.StatusDisconnected]) = false ∧
    IsFullyZonedIn (ZoneRun (EverQuest.init [72, 99])
      [ZoneEvent.status DbProtocolStatus.StatusConnected,
       ZoneEvent.recv exampleCtx (u16le HC_OP_GuildMOTD),
       ZoneEvent.status DbProtocolStatus.StatusDisconnected,
       ZoneEvent.status DbProtocolStatus.StatusConnected]) = true ∧
    queuedOpcodes (ZoneRun (EverQuest.init [72, 99])
      [ZoneEvent.status DbProtocolStatus.StatusConnected,
       ZoneEvent.recv exampleCtx (u16le HC_OP_GuildMOTD),
       ZoneEvent.status DbProtocolStatus.StatusDisconnected]) =
      [some HC_OP_ZoneEntry, some HC_OP_AckPacket, some HC_OP_ZoneEntry,
       some HC_OP_SetServerFilter, some HC_OP_ClientReady] ∧
    queuedOpcodes (ZoneRun (EverQuest.init [72, 99])
      [ZoneEvent.status DbProtocolStatus.StatusConnected,
       ZoneEvent.recv exampleCtx (u16le HC_OP_GuildMOTD),
       ZoneEvent.status DbProtocolStatus.StatusDisconnected,
       ZoneEvent.status DbProtocolStatus.StatusConnected]) =
      [some HC_OP_ZoneEntry, some HC_OP_AckPacket, some HC_OP_ZoneEntry,
       some HC_OP_SetServerFilter, some HC_OP_ClientReady,
       some HC_OP_ZoneEntry, some HC_OP_AckPacket, some HC_OP_ZoneEntry] := by
  have hz : ∀ s : EverQuest, IsFullyZonedIn s =
      ((bringUp s).zone_connected && (bringUp s).client_ready_sent) := fun _ => rfl
  have hq : ∀ s : EverQuest, queuedOpcodes s = (bringUp s).sent := fun _ => rfl
  have hc : ZoneOnEvent (EverQuest.init [72, 99])
      (ZoneEvent.status DbProtocolStatus.StatusConnected) = zoneConnected [72, 99] := rfl
  have hm : bringUp (ZoneOnEvent (zoneConnected [72, 99])
      (ZoneEvent.recv exampleCtx (u16le HC_OP_GuildMOTD))) =
      (bringUp (zoneConnected [72, 99])).step (some HC_OP_GuildMOTD) := by
    show bringUp (ZoneOnPacketRecv _ _ _) = _
    rw [bringUp_recv]
    rfl
  simp only [ZoneRun_cons, hc, hz, hq]
  simp only [ZoneRun, List.foldl_nil, ZoneOnEvent, bringUp_statusConnected,
    bringUp_statusDisconnected]
  rw [show ZoneOnPacketRecv exampleCtx (zoneConnected [72, 99]) (u16le HC_OP_GuildMOTD) =
    ZoneOnEvent (zoneConnected [72, 99]) (ZoneEvent.recv exampleCtx (u16le HC_OP_GuildMOTD))
    from rfl, hm, bringUp_zoneConnected]
  decide

theorem LoginOnPacketRecv_accepted (d : Des) (s : LoginSession) (p : Packet)
    (hop : GetUInt16 p 0 = some HC_OP_LoginAccepted) :
    LoginOnPacketRecv d s p = LoginProcessLoginResponse d s p := by
  unfold LoginOnPacketRecv
  rw [hop]
  rfl

theorem GetCStringChecked_some (p : Packet) (off : Nat) (str : List Nat)
    (h : GetCStringChecked p off = some str) :
    str = GetCString p off ∧ 0 ∈ (p.drop off).map (fun b => b % 256) := by
  unfold GetCStringChecked at h
  by_cases h0 : 0 ∈ (p.drop off).map (fun b => b % 256)
  · rw [if_pos h0] at h
    exact ⟨(Option.some.inj h).symm, h0⟩
  · rw [if_neg h0] at h
    cases h

/-- C13. On LoginAccepted, with `sp` the decrypted bytes after offset 12 and
`code` the u16 at its offset 1: if the code is above 101, nothing is queued,
key and dbid stay, the login session is closed with reconnection disabled (a
later Disconnected starts no connection) and no world connection is made;
otherwise, when the block holds at offset 12 a string `key` that a zero byte
ends inside the block and at offset 8 the u32 `dbid`, dbid and key are taken
from offsets 8 and 12 and exactly one packet, a ServerListRequest, is queued;
and when no zero byte ends the string inside the block, the read of the key
fails and the handler leaves the session as it is. -/
theorem C13_login_response (d : Des) (s : LoginSession) (p sp : Packet) (code : Nat)
    (hop : GetUInt16 p 0 = some HC_OP_LoginAccepted)
    (hsp : decryptedPayload d p = some sp) (hcode : GetUInt16 sp 1 = some code) :
    (101 < code →
      (LoginOnPacketRecv d s p).login_queue = s.login_queue ∧
      (LoginOnPacketRecv d s p).m_key = s.m_key ∧
      (LoginOnPacketRecv d s p).m_dbid = s.m_dbid ∧
      (LoginOnPacketRecv d s p).login_closed = true ∧
      (LoginOnPacketRecv d s p).login_reconnect = false ∧
      (LoginOnPacketRecv d s p).world_connects = s.world_connects ∧
      (LoginOnStatusChange (LoginOnPacketRecv d s p)
        DbProtocolStatus.StatusDisconnected).login_connects = s.login_connects) ∧
    (code ≤ 101 → ∀ key dbid, GetCStringChecked sp 12 = some key →
      GetUInt32 sp 8 = some dbid →
      (LoginOnPacketRecv d s p).m_dbid = dbid ∧
      (LoginOnPacketRecv d s p).m_key = key ∧
      key = GetCString sp 12 ∧ 0 ∈ (sp.drop 12).map (fun b => b % 256) ∧
      (LoginOnPacketRecv d s p).login_queue = s.login_queue ++
        [u16le HC_OP_ServerListRequest ++ u32le s.m_login_sequence ++ u32le 0 ++ u16le 0] ∧
      (LoginOnPacketRecv d s p).login_closed = s.login_closed ∧
      (LoginOnPacketRecv d s p).world_connects = s.world_connects) ∧
    (code ≤ 101 → GetCStringChecked sp 12 = none → LoginOnPacketRecv d s p = s) := by
  rw [LoginOnPacketRecv_accepted d s p hop]
  unfold LoginProcessLoginResponse
  simp only [hsp, hcode]
  refine ⟨?_, ?_, ?_⟩
  · intro h
    rw [if_pos h]
    refine ⟨rfl, rfl, rfl, rfl, rfl, rfl, ?_⟩
    unfold LoginOnStatusChange LoginDisableReconnect
    simp [LoginOnStatusChangeReconnectDisabled]
  · intro h key dbid hk hd
    rw [if_neg (by omega)]
    simp only [hk, hd]
    obtain ⟨k1, k2⟩ := GetCStringChecked_some sp 12 key hk
    exact ⟨rfl, rfl, k1, k2, rfl, rfl, rfl⟩
  · intro h hk
    rw [if_neg (by omega)]
    simp only [hk]

theorem C13_login_response_witness :
    ((LoginOnPacketRecv exampleDes exampleLogin exampleLoginRejected).login_queue = [] ∧
      (LoginOnPacketRecv exampleDes exampleLogin exampleLoginRejected).login_closed = true ∧
      (LoginOnPacketRecv exampleDes exampleLogin exampleLoginRejected).login_reconnect = false ∧
      (LoginOnPacketRecv exampleDes exampleLogin exampleLoginRejected).world_connects = []) ∧
    ((LoginOnPacketRecv exampleDes exampleLogin exampleLoginAccepted).m_dbid = 258 ∧
      (LoginOnPacketRecv exampleDes exampleLogin exampleLoginAccepted).m_key = [107, 49] ∧
      (LoginOnPacketRecv exampleDes exampleLogin exampleLoginAccepted).login_queue =
        [[4, 0, 2, 0, 0, 0, 0, 0, 0, 0, 0, 0]]) := by
  have h := (C13_login_response exampleDes exampleLogin exampleLoginRejected
    [0, 102, 0, 0, 0, 0, 0, 0, 0, 0, 0, 0, 0, 0, 0, 0] 102 (by decide) (by decide)
    (by decide)).1 (by decide)
  have h2 := (C13_login_response exampleDes exampleLogin exampleLoginAccepted
    [0, 101, 0, 0, 0, 0, 0, 0, 2, 1, 0, 0, 107, 49, 0, 0] 101 (by decide) (by decide)
    (by decide)).2.1 (by decide) [107, 49] 258 (by decide) (by decide)
  exact ⟨⟨h.1, h.2.2.2.1, h.2.2.2.2.1, h.2.2.2.2.2.1⟩, h2.1, h2.2.1, h2.2.2.2.2.1⟩

theorem mapFind_mapAssign {α : Type} (m : List (Nat × α)) (k j : Nat) (v : α) :
    mapFind (mapAssign m k v) j = if j = k then some v else mapFind m j := by
  induction m with
  | nil =>
    by_cases h : j = k
    · subst h; simp [mapFind, mapAssign]
    · have h2 : ¬ k = j := fun e => h e.symm
      simp [mapFind, mapAssign, h, h2]
  | cons e rest ih =>
    obtain ⟨k0, v0⟩ := e
    unfold mapAssign
    by_cases h1 : k < k0
    · rw [if_pos h1]
      by_cases h : j = k
      · subst h; simp [mapFind]
      · have h2 : ¬ k = j := fun e => h e.symm
        simp [mapFind, h, h2]
    · rw [if_neg h1]
      by_cases h2 : k = k0
      · rw [if_pos h2]
        subst h2
        by_cases h : j = k
        · subst h; simp [mapFind]
        · have h3 : ¬ k = j := fun e => h e.symm
          simp [mapFind, h, h3]
      · rw [if_neg h2]
        have ih2 : mapFind (mapAssign rest k v) j = if j = k then some v else mapFind rest j := ih
        by_cases h3 : k0 = j
        · subst h3
          have h4 : ¬ k0 = k := fun e => h2 e.symm
          simp [mapFind, h4]
        · have e1 : mapFind ((k0, v0) :: mapAssign rest k v) j =
              mapFind (mapAssign rest k v) j := by
            simp [mapFind, h3]
          have e2 : mapFind ((k0, v0) :: rest) j = mapFind rest j := by
            simp [mapFind, h3]
          rw [e1, e2, ih2]

theorem mem_mapAssign {α : Type} (m : List (Nat × α)) (k : Nat) (v : α) (e : Nat × α)
    (h : e ∈ mapAssign m k v) : e = (k, v) ∨ e ∈ m := by
  induction m with
  | nil =>
    simp only [mapAssign, List.mem_singleton] at h
    exact Or.inl h
  | cons e0 rest ih =>
    obtain ⟨k0, v0⟩ := e0
    unfold mapAssign at h
    by_cases h1 : k < k0
    · rw [if_pos h1] at h
      rcases List.mem_cons.1 h with h | h
      · exact Or.inl h
      · exact Or.inr h
    · rw [if_neg h1] at h
      by_cases h2 : k = k0
      · rw [if_pos h2] at h
        rcases List.mem_cons.1 h with h | h
        · exact Or.inl h
        · exact Or.inr (List.mem_cons_of_mem _ h)
      · rw [if_neg h2] at h
        rcases List.mem_cons.1 h with h | h
        · exact Or.inr (by rw [h]; exact List.mem_cons_self _ _)
        · rcases ih h with h | h
          · exact Or.inl h
          · exact Or.inr (List.mem_cons_of_mem _ h)

theorem KeysAscend_mapAssign {α : Type} (m : List (Nat × α)) (k : Nat) (v : α)
    (hm : KeysAscend m) : KeysAscend (mapAssign m k v) := by
  induction m with
  | nil => simp [mapAssign, KeysAscend]
  | cons e0 rest ih =>
    obtain ⟨k0, v0⟩ := e0
    unfold KeysAscend at hm ih ⊢
    rw [List.pairwise_cons] at hm
    obtain ⟨hlt, hrest⟩ := hm
    unfold mapAssign
    by_cases h1 : k < k0
    · rw [if_pos h1, List.pairwise_cons, List.pairwise_cons]
      refine ⟨?_, hlt, hrest⟩
      intro e he
      rcases List.mem_cons.1 he with he | he
      · rw [he]; exact h1
      · exact lt_trans h1 (hlt e he)
    · rw [if_neg h1]
      by_cases h2 : k = k0
      · rw [if_pos h2, List.pairwise_cons]
        subst h2
        exact ⟨hlt, hrest⟩
      · rw [if_neg h2, List.pairwise_cons]
        refine ⟨?_, ih hrest⟩
        intro e he
        rcases mem_mapAssign rest k v e he with he | he
        · rw [he]
          show k0 < k
          omega
        · exact hlt e he

theorem mem_of_mapFind {α : Type} (m : List (Nat × α)) (k : Nat) (v : α)
    (h : mapFind m k = some v) : (k, v) ∈ m := by
  unfold mapFind at h
  obtain ⟨e, he, hv⟩ := Option.map_eq_some'.1 h
  have h1 := List.mem_of_find?_eq_some he
  have h2 := List.find?_some he
  simp only [beq_iff_eq] at h2
  rw [← h2, ← hv]
  exact h1

theorem mapFind_of_mem {α : Type} (m : List (Nat × α)) (k : Nat) (v : α)
    (hm : KeysAscend m) (h : (k, v) ∈ m) : mapFind m k = some v := by
  induction m with
  | nil => cases h
  | cons e0 rest ih =>
    unfold KeysAscend at hm ih
    rw [List.pairwise_cons] at hm
    obtain ⟨hlt, hrest⟩ := hm
    rcases List.mem_cons.1 h with h | h
    · rw [← h]
      simp [mapFind]
    · have hne : ¬ e0.1 = k := by
        have := hlt (k, v) h
        simp only at this
        omega
      have e1 : mapFind (e0 :: rest) k = mapFind rest k := by
        simp [mapFind, hne]
      rw [e1]
      exact ih hrest h

theorem find_least {α : Type} (m : List (Nat × α)) (P : Nat × α → Bool) (e : Nat × α)
    (hm : KeysAscend m) (h : m.find? P = some e) :
    e ∈ m ∧ P e = true ∧ ∀ e2 ∈ m, P e2 = true → e.1 ≤ e2.1 := by
  refine ⟨List.mem_of_find?_eq_some h, List.find?_some h, ?_⟩
  induction m with
  | nil => cases h
  | cons e0 rest ih =>
    unfold KeysAscend at hm ih
    rw [List.pairwise_cons] at hm
    obtain ⟨hlt, hrest⟩ := hm
    intro e2 he2 hp2
    by_cases hp : P e0 = true
    · rw [List.find?_cons_of_pos _ hp] at h
      cases h
      rcases List.mem_cons.1 he2 with he2 | he2
      · rw [he2]
      · exact le_of_lt (hlt e2 he2)
    · rw [List.find?_cons_of_neg _ hp] at h
      rcases List.mem_cons.1 he2 with he2 | he2
      · rw [he2] at hp2
        exact absurd hp2 hp
      · exact ih hrest h e2 he2 hp2

theorem lastRecord_append (rs : List (Nat × WorldServer)) (r : Nat × WorldServer) (id : Nat) :
    lastRecord (rs ++ [r]) id = if id = r.1 then some r.2 else lastRecord rs id := by
  unfold lastRecord
  rw [List.reverse_append]
  by_cases h : id = r.1
  · subst h
    simp
  · have h2 : ¬ r.1 = id := fun e => h e.symm
    simp [h, h2]

/-- The listing that the loop builds from a block: its records assigned one
after the other. -/
theorem mapFind_foldl (rs : List (Nat × WorldServer)) (id : Nat) :
    mapFind (rs.foldl (fun m r => mapAssign m r.1 r.2) []) id = lastRecord rs id := by
  induction rs using List.reverseRecOn with
  | nil => rfl
  | append_singleton rs r ih =>
    rw [List.foldl_append, lastRecord_append]
    simp only [List.foldl_cons, List.foldl_nil]
    rw [mapFind_mapAssign, ih]

theorem KeysAscend_foldl (rs : List (Nat × WorldServer)) (m : List (Nat × WorldServer))
    (hm : KeysAscend m) : KeysAscend (rs.foldl (fun m r => mapAssign m r.1 r.2) m) := by
  induction rs generalizing m with
  | nil => exact hm
  | cons r rs ih => exact ih _ (KeysAscend_mapAssign m r.1 r.2 hm)

theorem serverListLoop_records (p : Packet) (n idx : Nat) (m : List (Nat × WorldServer))
    (rs : List (Nat × WorldServer)) (h : serverRecords p n idx = some rs) :
    serverListLoop p n idx m = (rs.foldl (fun m r => mapAssign m r.1 r.2) m, true) := by
  induction n generalizing idx m rs with
  | zero =>
    simp only [serverRecords, Option.some.injEq] at h
    subst h
    rfl
  | succ n ih =>
    unfold serverRecords at h
    unfold serverListLoop
    cases hr : readServerRecord p idx with
    | none => rw [hr] at h; cases h
    | some t =>
      obtain ⟨id, ws, next⟩ := t
      rw [hr] at h
      obtain ⟨rs2, h2, h3⟩ := Option.map_eq_some'.1 h
      subst h3
      simp only []
      rw [ih next (mapAssign m id ws) rs2 h2]
      rfl

theorem LoginOnPacketRecv_serverList (d : Des) (s : LoginSession) (p : Packet)
    (hop : GetUInt16 p 0 = some HC_OP_ServerListResponse) :
    LoginOnPacketRecv d s p = LoginProcessServerPacketList s p := by
  unfold LoginOnPacketRecv
  rw [hop]
  rfl

/-- C14 (as amended). For a ServerListResponse whose block of `n` records
parses into `rs`, the listing keeps for each server id the last record that
carries it. If some server id has a last record whose long name is the
configured server, exactly one PlayEverquestRequest is queued, carrying at
offset 12 the lowest such id, and the session stays open; if none has, nothing
is queued and the login session is closed with reconnection disabled. -/
theorem C14_play_request_for_listed_server (d : Des) (s : LoginSession) (p : Packet)
    (n : Nat) (rs : List (Nat × WorldServer))
    (hop : GetUInt16 p 0 = some HC_OP_ServerListResponse)
    (hn : GetUInt32 p 18 = some n) (hrs : serverRecords p n 22 = some rs) :
    ((∃ id ws, lastRecord rs id = some ws ∧ ws.long_name = s.m_server) →
      ∃ id ws, lastRecord rs id = some ws ∧ ws.long_name = s.m_server ∧
        (∀ id2 ws2, lastRecord rs id2 = some ws2 → ws2.long_name = s.m_server → id ≤ id2) ∧
        (LoginOnPacketRecv d s p).login_queue = s.login_queue ++
          [u16le HC_OP_PlayEverquestRequest ++ u32le s.m_login_sequence ++ u32le 0 ++
            u16le 0 ++ u32le id] ∧
        (LoginOnPacketRecv d s p).login_closed = s.login_closed ∧
        (LoginOnPacketRecv d s p).login_reconnect = s.login_reconnect) ∧
    ((¬ ∃ id ws, lastRecord rs id = some ws ∧ ws.long_name = s.m_server) →
      (LoginOnPacketRecv d s p).login_queue = s.login_queue ∧
      (LoginOnPacketRecv d s p).login_closed = true ∧
      (LoginOnPacketRecv d s p).login_reconnect = false) := by
  rw [LoginOnPacketRecv_serverList d s p hop]
  unfold LoginProcessServerPacketList
  simp only [hn]
  rw [serverListLoop_records p n 22 [] rs hrs]
  simp only [if_true]
  have hasc : KeysAscend (rs.foldl (fun m r => mapAssign m r.1 r.2) []) :=
    KeysAscend_foldl rs [] List.Pairwise.nil
  cases hf : (rs.foldl (fun m r => mapAssign m r.1 r.2) []).find?
      (fun server => decide (server.2.long_name = s.m_server)) with
  | some e =>
    obtain ⟨hmem, hP, hleast⟩ := find_least _ _ e hasc hf
    have hname : e.2.long_name = s.m_server := of_decide_eq_true hP
    have hlast : lastRecord rs e.1 = some e.2 := by
      rw [← mapFind_foldl]
      exact mapFind_of_mem _ e.1 e.2 hasc hmem
    constructor
    · intro _
      refine ⟨e.1, e.2, hlast, hname, ?_, rfl, rfl, rfl⟩
      intro id2 ws2 h2 hn2
      rw [← mapFind_foldl] at h2
      exact hleast (id2, ws2) (mem_of_mapFind _ _ _ h2) (decide_eq_true hn2)
    · intro hno
      exact absurd ⟨e.1, e.2, hlast, hname⟩ hno
  | none =>
    constructor
    · intro hex
      obtain ⟨id, ws, h1, h2⟩ := hex
      rw [← mapFind_foldl] at h1
      have hmem := mem_of_mapFind _ _ _ h1
      have := List.find?_eq_none.1 hf (id, ws) hmem
      exact absurd (decide_eq_true h2) this
    · intro _
      exact ⟨rfl, rfl, rfl⟩

theorem C14_play_request_for_listed_server_witness :
    ∃ id ws,
      lastRecord [(3, { long_name := [68, 101, 118], address := [98], type := 0, lang := [],
                        region := [], status := 0, players := 0 }),
                  (1, { long_name := [84, 101, 115, 116], address := [97], type := 0,
                        lang := [], region := [], status := 0, players := 0 })] id = some ws ∧
      ws.long_name = exampleLogin.m_server ∧
      (∀ id2 ws2,
        lastRecord [(3, { long_name := [68, 101, 118], address := [98], type := 0, lang := [],
                          region := [], status := 0, players := 0 }),
                    (1, { long_name := [84, 101, 115, 116], address := [97], type := 0,
                          lang := [], region := [], status := 0, players := 0 })] id2 =
          some ws2 → ws2.long_name = exampleLogin.m_server → id ≤ id2) ∧
      (LoginOnPacketRecv exampleDes exampleLogin exampleServerList).login_queue =
        exampleLogin.login_queue ++
          [u16le HC_OP_PlayEverquestRequest ++ u32le exampleLogin.m_login_sequence ++
            u32le 0 ++ u16le 0 ++ u32le id] ∧
      (LoginOnPacketRecv exampleDes exampleLogin exampleServerList).login_closed =
        exampleLogin.login_closed ∧
      (LoginOnPacketRecv exampleDes exampleLogin exampleServerList).login_reconnect =
        exampleLogin.login_reconnect :=
  (C14_play_request_for_listed_server exampleDes exampleLogin exampleServerList 2 _
    (by decide) (by decide) (by decide)).1
    ⟨1, { long_name := [84, 101, 115, 116], address := [97], type := 0, lang := [],
          region := [], status := 0, players := 0 }, by decide, by decide⟩

/-- C14, counterexample. A ServerListResponse whose two records both carry
server id 1, the first with the configured long name `Test` and the second
with `Dev`: the block parses and a record has the configured name, yet the
listing keeps only the second record, no PlayEverquestRequest is queued and
the login session is closed. -/
theorem C14_counterexample :
    serverRecords exampleServerListTwice 2 22 =
      some [(1, { long_name := [84, 101, 115, 116], address := [97], type := 0, lang := [],
                  region := [], status := 0, players := 0 }),
            (1, { long_name := [68, 101, 118], address := [98], type := 0, lang := [],
                  region := [], status := 0, players := 0 })] ∧
    exampleLogin.m_server = [84, 101, 115, 116] ∧
    (LoginOnPacketRecv exampleDes exampleLogin exampleServerListTwice).login_queue = [] ∧
    (LoginOnPacketRecv exampleDes exampleLogin exampleServerListTwice).login_closed = true := by
  decide

/-- C15. With server 1 listed at address `a`: a PlayEverquestResponse that
allows server 1 opens the world session to `a` on port 9000 and closes the
login session, and one with the allowed byte clear closes the login session;
but one with the allowed byte set and the unlisted server id 5 leaves the
state as it is: no world session, and the login session neither closed nor
its reconnection disabled. -/
theorem C15_unknown_server_id_leaves_login_open :
    (LoginOnPacketRecv exampleDes exampleListed examplePlayAllowed).world_connects =
      [([97], 9000)] ∧
    (LoginOnPacketRecv exampleDes exampleListed examplePlayAllowed).login_closed = true ∧
    (LoginOnPacketRecv exampleDes exampleListed examplePlayAllowed).login_reconnect = false ∧
    (LoginOnPacketRecv exampleDes exampleListed examplePlayDenied).world_connects = [] ∧
    (LoginOnPacketRecv exampleDes exampleListed examplePlayDenied).login_closed = true ∧
    (LoginOnPacketRecv exampleDes exampleListed examplePlayDenied).login_reconnect = false ∧
    GetUInt8 examplePlayAllowedUnknown 12 = some 1 ∧
    GetUInt32 examplePlayAllowedUnknown 18 = some 5 ∧
    LoginOnPacketRecv exampleDes exampleListed examplePlayAllowedUnknown = exampleListed ∧
    exampleListed.world_connects = [] ∧
    exampleListed.login_closed = false ∧
    exampleListed.login_reconnect = true := by
  decide

theorem GetFloat_of_le (p : Packet) (off : Nat) (h : off + 4 ≤ Length p) :
    ∃ v, GetFloat p off = some v := by
  obtain ⟨w, hw⟩ := GetUInt32_of_le p off h
  exact ⟨f32OfBits w, by simp [GetFloat, hw]⟩

/-- What `ZoneProcessPlayerProfile` stores for a profile long enough to hold
the entity id. -/
theorem PlayerProfile_stores (ctx : RecvCtx) (s : EverQuest) (p : Packet)
    (hlen : 14390 ≤ Length p) :
    ∃ id x y z h e,
      GetUInt32 p 14386 = some id ∧ GetFloat p 30 = some x ∧ GetFloat p 34 = some y ∧
      GetFloat p 38 = some z ∧ GetFloat p 42 = some h ∧
      (ZoneProcessPlayerProfile ctx s p).m_entities =
        mapInsert s.m_entities (id % 65536) e ∧
      e.spawn_id = id % 65536 ∧ e.name = s.m_character ∧
      e.x = x ∧ e.y = y ∧ e.z = z ∧ e.heading = h ∧
      (ZoneProcessPlayerProfile ctx s p).m_my_character_id = id % 65536 ∧
      (ZoneProcessPlayerProfile ctx s p).m_x = x ∧
      (ZoneProcessPlayerProfile ctx s p).m_y = y ∧
      (ZoneProcessPlayerProfile ctx s p).m_z = z ∧
      (ZoneProcessPlayerProfile ctx s p).m_heading = h := by
  obtain ⟨id, hid⟩ := GetUInt32_of_le p 14386 (by omega)
  obtain ⟨x, hx⟩ := GetFloat_of_le p 30 (by omega)
  obtain ⟨y, hy⟩ := GetFloat_of_le p 34 (by omega)
  obtain ⟨z, hz⟩ := GetFloat_of_le p 38 (by omega)
  obtain ⟨h, hh⟩ := GetFloat_of_le p 42 (by omega)
  rw [PlayerProfile_result ctx s p id x y z h hlen hid hx hy hz hh]
  exact ⟨id, x, y, z, h, _, hid, hx, hy, hz, hh, rfl, rfl, rfl, rfl, rfl, rfl, rfl, rfl, rfl,
    rfl, rfl, rfl⟩

/-- C16 (as amended). For every PlayerProfile packet of at least 14390 bytes,
after `ZoneProcessPlayerProfile` the entity map has a record under the low 16
bits of the u32 entity id at packet offset 14386 (profile offset 14384), with
that key as its spawn id, the configured character as its name and the floats
at packet offsets 30, 34, 38 and 42 (profile offsets 28, 32, 36, 40) as x, y,
z and heading; the own id and the position and heading scalars hold the same
values. -/
theorem C16_profile_inserts_self (ctx : RecvCtx) (s : EverQuest) (p : Packet)
    (hlen : 14390 ≤ Length p) :
    ∃ id x y z h e,
      GetUInt32 p 14386 = some id ∧ GetFloat p 30 = some x ∧ GetFloat p 34 = some y ∧
      GetFloat p 38 = some z ∧ GetFloat p 42 = some h ∧
      (ZoneProcessPlayerProfile ctx s p).m_entities (id % 65536) = some e ∧
      e.spawn_id = id % 65536 ∧ e.name = s.m_character ∧
      e.x = x ∧ e.y = y ∧ e.z = z ∧ e.heading = h ∧
      (ZoneProcessPlayerProfile ctx s p).m_my_character_id = id % 65536 ∧
      (ZoneProcessPlayerProfile ctx s p).m_x = x ∧
      (ZoneProcessPlayerProfile ctx s p).m_y = y ∧
      (ZoneProcessPlayerProfile ctx s p).m_z = z ∧
      (ZoneProcessPlayerProfile ctx s p).m_heading = h := by
  obtain ⟨id, x, y, z, h, e, h1, h2, h3, h4, h5, h6, rest⟩ := PlayerProfile_stores ctx s p hlen
  refine ⟨id, x, y, z, h, e, h1, h2, h3, h4, h5, ?_, rest⟩
  rw [h6]
  unfold mapInsert
  rw [if_pos rfl]

theorem exampleProfileWide_length : Length exampleProfileWide = 14390 := by
  simp only [exampleProfileWide, Length, List.length_append, List.length_cons, List.length_nil,
    zeros_length]

theorem exampleProfileWide_id (i : Nat) :
    exampleProfileWide[14386 + i]? = [42, 0, 1, 0][i]? := by
  unfold exampleProfileWide
  rw [List.getElem?_append_right (by
    simp only [List.length_append, List.length_cons, List.length_nil, zeros_length]; omega)]
  rw [List.getElem?_append_right (by
    simp only [List.length_append, List.length_cons, List.length_nil, zeros_length]; omega)]
  simp only [List.length_append, List.length_cons, List.length_nil, zeros_length]
  have e : 14386 + i - (0 + 1 + 1 + (28 + (0 + 1 + 1 + 1 + 1 + 1 + 1 + 1 + 1 + 1 + 1 + 1 + 1 + 1 +
      1 + 1 + 1))) - 14340 = i := by omega
  rw [e]

theorem exampleProfileWide_entity_id : GetUInt32 exampleProfileWide 14386 = some 65578 := by
  have h0 := exampleProfileWide_id 0
  have h1 := exampleProfileWide_id 1
  have h2 := exampleProfileWide_id 2
  have h3 := exampleProfileWide_id 3
  simp only [Nat.add_zero] at h0
  simp [GetUInt32, GetUInt8, h0, h1, h2, h3]

theorem C16_profile_inserts_self_witness :
    ∃ id x y z h e,
      GetUInt32 exampleProfile 14386 = some id ∧ GetFloat exampleProfile 30 = some x ∧
      GetFloat exampleProfile 34 = some y ∧ GetFloat exampleProfile 38 = some z ∧
      GetFloat exampleProfile 42 = some h ∧
      (ZoneProcessPlayerProfile exampleCtx (EverQuest.init [72, 99])
        exampleProfile).m_entities (id % 65536) = some e ∧
      e.spawn_id = id % 65536 ∧ e.name = (EverQuest.init [72, 99]).m_character ∧
      e.x = x ∧ e.y = y ∧ e.z = z ∧ e.heading = h ∧
      (ZoneProcessPlayerProfile exampleCtx (EverQuest.init [72, 99])
        exampleProfile).m_my_character_id = id % 65536 ∧
      (ZoneProcessPlayerProfile exampleCtx (EverQuest.init [72, 99]) exampleProfile).m_x = x ∧
      (ZoneProcessPlayerProfile exampleCtx (EverQuest.init [72, 99]) exampleProfile).m_y = y ∧
      (ZoneProcessPlayerProfile exampleCtx (EverQuest.init [72, 99]) exampleProfile).m_z = z ∧
      (ZoneProcessPlayerProfile exampleCtx (EverQuest.init [72, 99])
        exampleProfile).m_heading = h :=
  C16_profile_inserts_self exampleCtx (EverQuest.init [72, 99]) exampleProfile
    (by rw [exampleProfile_length])

/-- C16, counterexample. A PlayerProfile of 14390 bytes whose u32 entity id is
65578: the entity map has no record under 65578 afterwards; the record sits
under 42, the low 16 bits, which is also the own id. -/
theorem C16_counterexample :
    Length exampleProfileWide = 14390 ∧
    GetUInt32 exampleProfileWide 14386 = some 65578 ∧
    (ZoneProcessPlayerProfile exampleCtx (EverQuest.init [72, 99])
      exampleProfileWide).m_entities 65578 = none ∧
    (ZoneProcessPlayerProfile exampleCtx (EverQuest.init [72, 99])
      exampleProfileWide).m_my_character_id = 42 ∧
    ((ZoneProcessPlayerProfile exampleCtx (EverQuest.init [72, 99])
      exampleProfileWide).m_entities 42).isSome = true := by
  obtain ⟨id, x, y, z, h, e, h1, -, -, -, -, h6, -, -, -, -, -, -, h7, -⟩ :=
    PlayerProfile_stores exampleCtx (EverQuest.init [72, 99]) exampleProfileWide
      (by rw [exampleProfileWide_length])
  rw [exampleProfileWide_entity_id] at h1
  have hid : id = 65578 := (Option.some.inj h1).symm
  subst hid
  refine ⟨exampleProfileWide_length, exampleProfileWide_entity_id, ?_, h7, ?_⟩
  · rw [h6]
    unfold mapInsert
    rw [if_neg (by norm_num)]
    rfl
  · rw [h6]
    unfold mapInsert
    rw [if_pos (by norm_num)]
    rfl

/-- The members that `SendPositionUpdate` writes: the movement sequence, the
zone queue and the remembered last position. -/
theorem SendPositionUpdate_frame (s : EverQuest) :
    ∃ seq q lp, SendPositionUpdate s =
      { s with m_movement_sequence := seq, zone_queue := q, last_positions := lp } := by
  unfold SendPositionUpdate
  split
  · exact ⟨_, _, _, rfl⟩
  · simp only []
    split
    · split
      · exact ⟨_, _, _, rfl⟩
      · exact ⟨_, _, _, rfl⟩
    · split
      · exact ⟨_, _, _, rfl⟩
      · exact ⟨_, _, _, rfl⟩

theorem SendPositionUpdate_position (s : EverQuest) :
    (SendPositionUpdate s).m_x = s.m_x ∧ (SendPositionUpdate s).m_y = s.m_y ∧
    (SendPositionUpdate s).m_z = s.m_z ∧ (SendPositionUpdate s).m_heading = s.m_heading ∧
    (SendPositionUpdate s).m_is_moving = s.m_is_moving ∧
    (SendPositionUpdate s).m_animation = s.m_animation := by
  obtain ⟨seq, q, lp, h⟩ := SendPositionUpdate_frame s
  rw [h]
  exact ⟨rfl, rfl, rfl, rfl, rfl, rfl⟩

theorem TickFrame_refl (a : EverQuest) : TickFrame a a := ⟨rfl, rfl, rfl, rfl, rfl⟩

theorem TickFrame_trans {a b c : EverQuest} (h1 : TickFrame a b) (h2 : TickFrame b c) :
    TickFrame a c :=
  ⟨h2.1.trans h1.1, h2.2.1.trans h1.2.1, h2.2.2.1.trans h1.2.2.1,
    h2.2.2.2.1.trans h1.2.2.2.1, h2.2.2.2.2.trans h1.2.2.2.2⟩

theorem tick_SendPositionUpdate (s : EverQuest) : TickFrame s (SendPositionUpdate s) := by
  obtain ⟨seq, q, lp, h⟩ := SendPositionUpdate_frame s
  rw [h]
  exact ⟨rfl, rfl, rfl, rfl, rfl⟩

theorem tick_StopMovement (c : Client) : TickFrame c.eq (StopMovement c).eq := by
  unfold StopMovement
  split
  · exact TickFrame_trans ⟨rfl, rfl, rfl, rfl, rfl⟩ (tick_SendPositionUpdate _)
  · exact TickFrame_refl _

theorem tick_MoveTo (ctx : MoveCtx) (c : Client) (x y z : ℚ) :
    TickFrame c.eq (MoveTo ctx c x y z).eq := by
  unfold MoveTo
  exact TickFrame_trans ⟨rfl, rfl, rfl, rfl, rfl⟩ (tick_SendPositionUpdate _)

theorem FindPath_eq (c : Client) (a b : Vec3) : (FindPath c a b).1.eq = c.eq := by
  unfold FindPath
  split
  · rfl
  · simp only []
    split <;> rfl

theorem tick_FixZ (c : Client) : TickFrame c.eq (FixZ c).eq := by
  unfold FixZ
  split
  · exact TickFrame_refl _
  · simp only []
    split
    · exact ⟨rfl, rfl, rfl, rfl, rfl⟩
    · exact TickFrame_refl _

theorem tick_followBlock (ctx : MoveCtx) (c : Client) :
    TickFrame c.eq (followBlock ctx c).1.eq := by
  unfold followBlock
  split
  · exact TickFrame_refl _
  · split
    · exact TickFrame_refl _
    · simp only []
      split
      · split
        · exact tick_StopMovement c
        · exact TickFrame_refl _
      · split
        · split
          · split
            · split
              · show TickFrame c.eq { (FindPath c _ _).1.eq with m_is_moving := true }
                rw [FindPath_eq]
                exact ⟨rfl, rfl, rfl, rfl, rfl⟩
              · show TickFrame c.eq { (FindPath c _ _).1.eq with m_is_moving := true }
                rw [FindPath_eq]
                exact ⟨rfl, rfl, rfl, rfl, rfl⟩
            · exact ⟨rfl, rfl, rfl, rfl, rfl⟩
          · exact TickFrame_refl _
        · exact TickFrame_refl _

theorem tick_idleBlock (ctx : MoveCtx) (c : Client) :
    TickFrame c.eq (idleBlock ctx c).eq := by
  unfold idleBlock
  simp only []
  split
  · exact tick_SendPositionUpdate _
  · exact TickFrame_refl _

theorem tick_stuckDetection (ctx : MoveCtx) (c : Client) (d : ℚ) :
    TickFrame c.eq (stuckDetection ctx c d).1.eq := by
  unfold stuckDetection
  split
  · exact TickFrame_refl _
  · simp only []
    split
    · split
      · exact TickFrame_refl _
      · exact tick_StopMovement c
    · split
      · exact TickFrame_refl _
      · exact TickFrame_refl _

theorem tick_StopMovement_after (a : EverQuest) (c : Client) (h : TickFrame a c.eq) :
    TickFrame a (StopMovement c).eq :=
  TickFrame_trans h (tick_StopMovement c)

theorem tick_MoveTo_after (ctx : MoveCtx) (a : EverQuest) (c : Client) (x y z : ℚ)
    (h : TickFrame a c.eq) : TickFrame a (MoveTo ctx c x y z).eq :=
  TickFrame_trans h (tick_MoveTo ctx c x y z)

theorem tick_pathBlock (ctx : MoveCtx) (c : Client) :
    TickFrame c.eq (pathBlock ctx c).1.eq := by
  unfold pathBlock
  split
  · exact TickFrame_refl _
  · rename_i wp hwp
    simp only []
    have hs := tick_stuckDetection ctx c
      (CalculateDistance2D ctx c.eq.m_x c.eq.m_y wp.x wp.y)
    split
    · exact hs
    · split
      · split
        · exact tick_StopMovement_after _ _ hs
        · split
          · exact tick_MoveTo_after ctx _ _ _ _ _ hs
          · exact hs
      · exact hs

theorem tick_arriveBlock (c : Client) : TickFrame c.eq (arriveBlock c).eq := by
  unfold arriveBlock
  simp only []
  split
  · exact ⟨rfl, rfl, rfl, rfl, rfl⟩
  · exact TickFrame_trans ⟨rfl, rfl, rfl, rfl, rfl⟩ (tick_StopMovement _)

theorem tick_zFixBlock (ctx : MoveCtx) (c : Client) :
    TickFrame c.eq (zFixBlock ctx c).eq := by
  unfold zFixBlock
  simp only []
  split
  · exact tick_FixZ c
  · exact TickFrame_refl _

theorem tick_throttledUpdate (ctx : MoveCtx) (c : Client) :
    TickFrame c.eq (throttledUpdate ctx c).eq := by
  unfold throttledUpdate
  simp only []
  repeat' split
  all_goals first | exact tick_SendPositionUpdate _ | exact TickFrame_refl _

theorem tick_stepBlock (ctx : MoveCtx) (c : Client) :
    TickFrame c.eq (stepBlock ctx c).eq := by
  unfold stepBlock
  simp only []
  split
  · exact tick_arriveBlock c
  · refine TickFrame_trans ?_ (TickFrame_trans (tick_zFixBlock ctx _) (tick_throttledUpdate ctx _))
    exact ⟨rfl, rfl, rfl, rfl, rfl⟩

theorem tick_UpdateMovement (ctx : MoveCtx) (c : Client) :
    TickFrame c.eq (UpdateMovement ctx c).eq := by
  unfold UpdateMovement
  simp only []
  split
  · exact tick_followBlock ctx c
  · split
    · exact TickFrame_trans (tick_followBlock ctx c) (tick_idleBlock ctx _)
    · split
      · exact TickFrame_trans (tick_followBlock ctx c) (tick_pathBlock ctx _)
      · exact TickFrame_trans (tick_followBlock ctx c)
          (TickFrame_trans (tick_pathBlock ctx _) (tick_stepBlock ctx _))

/-- C17 (as amended). One tick of `UpdateMovement` leaves the entity map as it
is, together with the own id and the zoned-in state: the player's own record
after the tick is the record before it, whatever the tick does to `m_x`,
`m_y`, `m_z`. -/
theorem C17_tick_leaves_own_record (ctx : MoveCtx) (c : Client) :
    (UpdateMovement ctx c).eq.m_entities = c.eq.m_entities ∧
    (UpdateMovement ctx c).eq.m_my_character_id = c.eq.m_my_character_id ∧
    IsFullyZonedIn (UpdateMovement ctx c).eq = IsFullyZonedIn c.eq := by
  obtain ⟨h1, h2, -, h4, h5⟩ := tick_UpdateMovement ctx c
  refine ⟨h1, h2, ?_⟩
  unfold IsFullyZonedIn
  rw [h4, h5]

/-- A tick of a moving client without follow target and path, closer than 2
units to its target, ends at the target. -/
theorem UpdateMovement_arrives (ctx : MoveCtx) (c : Client)
    (hf : c.mv.m_follow_target = []) (hm : c.eq.m_is_moving = true)
    (hp : c.mv.m_current_path = [])
    (hd : ctx.sqrt ((c.mv.m_target_x - c.eq.m_x) * (c.mv.m_target_x - c.eq.m_x) +
      (c.mv.m_target_y - c.eq.m_y) * (c.mv.m_target_y - c.eq.m_y) +
      (c.mv.m_target_z - c.eq.m_z) * (c.mv.m_target_z - c.eq.m_z)) < 2) :
    (UpdateMovement ctx c).eq.m_x = c.mv.m_target_x ∧
    (UpdateMovement ctx c).eq.m_y = c.mv.m_target_y ∧
    (UpdateMovement ctx c).eq.m_z = c.mv.m_target_z := by
  have h1 : followBlock ctx c = (c, false) := by
    unfold followBlock
    rw [hf]
    rfl
  have h2 : pathBlock ctx c = (c, false) := by
    unfold pathBlock
    rw [hp]
    rfl
  have h3 : stepBlock ctx c = arriveBlock c := by
    unfold stepBlock
    simp only []
    rw [if_pos hd]
  have h4 : arriveBlock c = StopMovement
      { c with eq := { c.eq with m_x := c.mv.m_target_x, m_y := c.mv.m_target_y,
                                 m_z := c.mv.m_target_z } } := by
    unfold arriveBlock
    simp only [hp]
    rfl
  have h5 : UpdateMovement ctx c = arriveBlock c := by
    unfold UpdateMovement
    simp only [h1, hm, h2, h3]
    rfl
  rw [h5, h4]
  unfold StopMovement
  simp only [hm, if_true]
  obtain ⟨a1, a2, a3, -⟩ := SendPositionUpdate_position
    { c.eq with m_x := c.mv.m_target_x, m_y := c.mv.m_target_y, m_z := c.mv.m_target_z,
                m_is_moving := false, m_animation := ANIM_STAND }
  exact ⟨a1, a2, a3⟩

theorem exampleMoveCtx_sqrt_one : exampleMoveCtx.sqrt 1 = 1 := by
  have h : Nat.sqrt 1000000 = 1000 := by
    rw [show (1000000 : Nat) = 1000 * 1000 from rfl]
    exact Nat.sqrt_eq 1000
  simp [exampleMoveCtx, h]

/-- C17, counterexample. The example client is fully zoned in, moving, one
unit West of its target, with its own record in the entity map at its
position. After one tick it stands on the target, `m_x = -1233.5`, while its
own record still has `x = -1234.5`. -/
theorem C17_counterexample :
    IsFullyZonedIn exampleWalker.eq = true ∧
    exampleWalker.eq.m_x = -1234.5 ∧
    (∃ e, exampleWalker.eq.m_entities exampleWalker.eq.m_my_character_id = some e ∧
      e.x = -1234.5) ∧
    IsFullyZonedIn (UpdateMovement exampleMoveCtx exampleWalker).eq = true ∧
    (UpdateMovement exampleMoveCtx exampleWalker).eq.m_x = -1233.5 ∧
    (∃ e, (UpdateMovement exampleMoveCtx exampleWalker).eq.m_entities
        (UpdateMovement exampleMoveCtx exampleWalker).eq.m_my_character_id = some e ∧
      e.x = -1234.5) := by
  have hz : IsFullyZonedIn exampleWalker.eq = true := rfl
  have hrec : ∃ e, exampleWalker.eq.m_entities exampleWalker.eq.m_my_character_id = some e ∧
      e.x = -1234.5 := ⟨_, rfl, rfl⟩
  obtain ⟨t1, t2, -, t4, t5⟩ := tick_UpdateMovement exampleMoveCtx exampleWalker
  have hd : exampleMoveCtx.sqrt
      ((exampleWalker.mv.m_target_x - exampleWalker.eq.m_x) *
        (exampleWalker.mv.m_target_x - exampleWalker.eq.m_x) +
      (exampleWalker.mv.m_target_y - exampleWalker.eq.m_y) *
        (exampleWalker.mv.m_target_y - exampleWalker.eq.m_y) +
      (exampleWalker.mv.m_target_z - exampleWalker.eq.m_z) *
        (exampleWalker.mv.m_target_z - exampleWalker.eq.m_z)) < 2 := by
    have e1 : exampleWalker.mv.m_target_x - exampleWalker.eq.m_x = 1 := by
      show (-1233.5 : ℚ) - (-1234.5) = 1
      norm_num
    have e2 : exampleWalker.mv.m_target_y - exampleWalker.eq.m_y = 0 := by
      show (2345.25 : ℚ) - 2345.25 = 0
      norm_num
    have e3 : exampleWalker.mv.m_target_z - exampleWalker.eq.m_z = 0 := by
      show (-8 : ℚ) - (-8) = 0
      norm_num
    rw [e1, e2, e3]
    norm_num
    rw [exampleMoveCtx_sqrt_one]
    norm_num
  obtain ⟨a1, -, -⟩ := UpdateMovement_arrives exampleMoveCtx exampleWalker rfl rfl rfl hd
  refine ⟨hz, rfl, hrec, ?_, a1, ?_⟩
  · unfold IsFullyZonedIn
    rw [t4, t5]
    exact hz
  · rw [t1, t2]
    exact hrec

/-- Case analysis on the opcode switch of `ZoneOnPacketRecv`: a property of the
state it returns follows from the same property of what each handler returns
for a packet with its opcode. -/
theorem recv_cases (P : EverQuest → Prop) (ctx : RecvCtx) (s : EverQuest) (p : Packet)
    (h0 : P s)
    (h1 : GetUInt16 p 0 = some HC_OP_SessionReady → P (ZoneSendZoneEntry (ZoneSendAckPacket s)))
    (h2 : GetUInt16 p 0 = some HC_OP_PlayerProfile → P (ZoneProcessPlayerProfile ctx s p))
    (h3 : GetUInt16 p 0 = some HC_OP_ZoneSpawns → P (ZoneProcessZoneSpawns ctx s p))
    (h4 : GetUInt16 p 0 = some HC_OP_Weather → P (ZoneProcessWeather s))
    (h5 : GetUInt16 p 0 = some HC_OP_NewZone → P (ZoneProcessNewZone s p))
    (h6 : GetUInt16 p 0 = some HC_OP_SendAATable → P (ZoneProcessSendAATable s))
    (h7 : GetUInt16 p 0 = some HC_OP_RespondAA → P (ZoneProcessRespondAA s))
    (h8 : GetUInt16 p 0 = some HC_OP_TributeInfo → P (ZoneProcessTributeInfo s))
    (h9 : GetUInt16 p 0 = some HC_OP_SendGuildTributes → P (ZoneProcessSendGuildTributes s))
    (h10 : GetUInt16 p 0 = some HC_OP_SendZonepoints → P (ZoneProcessSendZonepoints s))
    (h11 : GetUInt16 p 0 = some HC_OP_SendExpZonein → P (ZoneProcessSendExpZonein s))
    (h12 : GetUInt16 p 0 = some HC_OP_WorldObjectsSent → P (ZoneProcessWorldObjectsSent s))
    (h13 : GetUInt16 p 0 = some HC_OP_GuildMOTD → P (ZoneProcessGuildMOTD s))
    (h14 : GetUInt16 p 0 = some HC_OP_NewSpawn → P (ZoneProcessNewSpawn ctx s p))
    (h15 : GetUInt16 p 0 = some HC_OP_ClientUpdate → P (ZoneProcessClientUpdate ctx s p))
    (h16 : GetUInt16 p 0 = some HC_OP_DeleteSpawn → P (ZoneProcessDeleteSpawn s p))
    (h17 : GetUInt16 p 0 = some HC_OP_MobHealth → P (ZoneProcessMobHealth s p))
    (h18 : GetUInt16 p 0 = some HC_OP_HPUpdate → P (ZoneProcessHPUpdate s p))
    (h19 : GetUInt16 p 0 = some HC_OP_ManaChange → P (ZoneProcessManaChange s p))
    (h20 : GetUInt16 p 0 = some HC_OP_Death → P (ZoneProcessDeath s p)) :
    P (ZoneOnPacketRecv ctx s p) := by
  unfold ZoneOnPacketRecv
  cases hop : GetUInt16 p 0 with
  | none => exact h0
  | some opcode =>
    simp only []
    by_cases c1 : opcode = HC_OP_SessionReady
    · rw [if_pos c1]
      exact h1 (by rw [hop, c1])
    rw [if_neg c1]
    by_cases c2 : opcode = HC_OP_PlayerProfile
    · rw [if_pos c2]
      exact h2 (by rw [hop, c2])
    rw [if_neg c2]
    by_cases c3 : opcode = HC_OP_ZoneSpawns
    · rw [if_pos c3]
      exact h3 (by rw [hop, c3])
    rw [if_neg c3]
    by_cases c4 : opcode = HC_OP_Weather
    · rw [if_pos c4]
      exact h4 (by rw [hop, c4])
    rw [if_neg c4]
    by_cases c5 : opcode = HC_OP_NewZone
    · rw [if_pos c5]
      exact h5 (by rw [hop, c5])
    rw [if_neg c5]
    by_cases c6 : opcode = HC_OP_SendAATable
    · rw [if_pos c6]
      exact h6 (by rw [hop, c6])
    rw [if_neg c6]
    by_cases c7 : opcode = HC_OP_RespondAA
    · rw [if_pos c7]
      exact h7 (by rw [hop, c7])
    rw [if_neg c7]
    by_cases c8 : opcode = HC_OP_TributeInfo
    · rw [if_pos c8]
      exact h8 (by rw [hop, c8])
    rw [if_neg c8]
    by_cases c9 : opcode = HC_OP_SendGuildTributes
    · rw [if_pos c9]
      exact h9 (by rw [hop, c9])
    rw [if_neg c9]
    by_cases c10 : opcode = HC_OP_SendZonepoints
    · rw [if_pos c10]
      exact h10 (by rw [hop, c10])
    rw [if_neg c10]
    by_cases c11 : opcode = HC_OP_SendExpZonein
    · rw [if_pos c11]
      exact h11 (by rw [hop, c11])
    rw [if_neg c11]
    by_cases c12 : opcode = HC_OP_WorldObjectsSent
    · rw [if_pos c12]
      exact h12 (by rw [hop, c12])
    rw [if_neg c12]
    by_cases c13 : opcode = HC_OP_GuildMOTD
    · rw [if_pos c13]
      exact h13 (by rw [hop, c13])
    rw [if_neg c13]
    by_cases c14 : opcode = HC_OP_NewSpawn
    · rw [if_pos c14]
      exact h14 (by rw [hop, c14])
    rw [if_neg c14]
    by_cases c15 : opcode = HC_OP_ClientUpdate
    · rw [if_pos c15]
      exact h15 (by rw [hop, c15])
    rw [if_neg c15]
    by_cases c16 : opcode = HC_OP_DeleteSpawn
    · rw [if_pos c16]
      exact h16 (by rw [hop, c16])
    rw [if_neg c16]
    by_cases c17 : opcode = HC_OP_MobHealth
    · rw [if_pos c17]
      exact h17 (by rw [hop, c17])
    rw [if_neg c17]
    by_cases c18 : opcode = HC_OP_HPUpdate
    · rw [if_pos c18]
      exact h18 (by rw [hop, c18])
    rw [if_neg c18]
    by_cases c19 : opcode = HC_OP_ManaChange
    · rw [if_pos c19]
      exact h19 (by rw [hop, c19])
    rw [if_neg c19]
    by_cases c20 : opcode = HC_OP_Death
    · rw [if_pos c20]
      exact h20 (by rw [hop, c20])
    rw [if_neg c20]
    exact h0
theorem EntityStep_refl (s : EverQuest) : EntityStep s s :=
  ⟨rfl, fun _ h => h, fun _ _ h => Or.inl h⟩

theorem EntityStep_trans {s t u : EverQuest} (h1 : EntityStep s t) (h2 : EntityStep t u) :
    EntityStep s u := by
  obtain ⟨a1, b1, c1⟩ := h1
  obtain ⟨a2, b2, c2⟩ := h2
  refine ⟨a2.trans a1, fun j h => b2 j (b1 j h), ?_⟩
  intro j e h
  rcases c2 j e h with h | h | ⟨e0, h, he⟩
  · exact c1 j e h
  · exact Or.inr (Or.inl h)
  · rcases c1 j e0 h with h | h | ⟨e00, h, he0⟩
    · exact Or.inr (Or.inr ⟨e0, h, he⟩)
    · exact Or.inr (Or.inl ⟨he.trans h.1, h.2⟩)
    · exact Or.inr (Or.inr ⟨e00, h, he.trans he0⟩)

theorem EntityStep_same (s t : EverQuest) (he : t.m_entities = s.m_entities)
    (hi : t.m_my_character_id = s.m_my_character_id) : EntityStep s t := by
  refine ⟨hi, ?_, ?_⟩
  · intro j h
    rw [he]
    exact h
  · intro j e h
    rw [he] at h
    exact Or.inl h

theorem EntityStep_insert (s t : EverQuest) (k : Nat) (e : Entity)
    (he : t.m_entities = mapInsert s.m_entities k e)
    (hi : t.m_my_character_id = s.m_my_character_id)
    (hk : e.spawn_id = k ∧ k < 65536 ∨ ∃ e0, s.m_entities k = some e0 ∧ e.spawn_id = e0.spawn_id) :
    EntityStep s t := by
  refine ⟨hi, ?_, ?_⟩
  · intro j h
    rw [he]
    unfold mapInsert
    split_ifs
    · rfl
    · exact h
  · intro j e2 h
    rw [he] at h
    unfold mapInsert at h
    split_ifs at h with hj
    · cases h
      subst hj
      exact Or.inr hk
    · exact Or.inl h

theorem step_ClientUpdate (ctx : RecvCtx) (s : EverQuest) (p : Packet) :
    EntityStep s (ZoneProcessClientUpdate ctx s p) := by
  unfold ZoneProcessClientUpdate
  split
  · exact EntityStep_refl s
  · split
    · split
      · exact EntityStep_same _ _ rfl rfl
      · split
        · rename_i e he
          exact EntityStep_insert _ _ _ _ rfl rfl (Or.inr ⟨e, he, rfl⟩)
        · exact EntityStep_refl s
    · exact EntityStep_refl s

theorem step_MobHealth (s : EverQuest) (p : Packet) :
    EntityStep s (ZoneProcessMobHealth s p) := by
  unfold ZoneProcessMobHealth
  split
  · exact EntityStep_refl s
  · split
    · split
      · rename_i e he
        exact EntityStep_insert _ _ _ _ rfl rfl (Or.inr ⟨e, he, rfl⟩)
      · exact EntityStep_refl s
    · exact EntityStep_refl s

theorem step_HPUpdate (s : EverQuest) (p : Packet) :
    EntityStep s (ZoneProcessHPUpdate s p) := by
  unfold ZoneProcessHPUpdate
  split
  · exact EntityStep_refl s
  · split
    · split
      · split
        · rename_i e he
          exact EntityStep_insert _ _ _ _ rfl rfl (Or.inr ⟨e, he, rfl⟩)
        · exact EntityStep_refl s
      · exact EntityStep_refl s
    · exact EntityStep_refl s

theorem step_ManaChange (s : EverQuest) (p : Packet) :
    EntityStep s (ZoneProcessManaChange s p) := by
  unfold ZoneProcessManaChange
  split
  · exact EntityStep_refl s
  · split
    · split
      · rename_i e he
        exact EntityStep_insert _ _ _ _ rfl rfl (Or.inr ⟨e, he, rfl⟩)
      · exact EntityStep_refl s
    · exact EntityStep_refl s

theorem step_Death (s : EverQuest) (p : Packet) :
    EntityStep s (ZoneProcessDeath s p) := by
  unfold ZoneProcessDeath
  split
  · exact EntityStep_refl s
  · split
    · split
      · rename_i e he
        exact EntityStep_insert _ _ _ _ rfl rfl (Or.inr ⟨e, he, rfl⟩)
      · exact EntityStep_refl s
    · exact EntityStep_refl s

theorem step_NewSpawn (ctx : RecvCtx) (s : EverQuest) (p : Packet) :
    EntityStep s (ZoneProcessNewSpawn ctx s p) := by
  unfold ZoneProcessNewSpawn
  simp only []
  split
  · exact EntityStep_refl s
  · split
    · exact EntityStep_refl s
    · rename_i r hr
      split
      · split
        · exact EntityStep_insert _ _ _ _ rfl rfl
            (Or.inl ⟨rfl, Nat.mod_lt _ (by norm_num)⟩)
        · exact EntityStep_insert _ _ _ _ rfl rfl
            (Or.inl ⟨rfl, Nat.mod_lt _ (by norm_num)⟩)
      · exact EntityStep_refl s

theorem step_ZoneSpawnsLoop (ctx : RecvCtx) (p : Packet) (fuel offset : Nat) (s : EverQuest) :
    EntityStep s (ZoneSpawnsLoop ctx p fuel offset s) := by
  induction fuel generalizing offset s with
  | zero => exact EntityStep_refl s
  | succ n ih =>
    unfold ZoneSpawnsLoop
    simp only []
    split
    · split
      · exact EntityStep_refl s
      · split
        · exact EntityStep_refl s
        · rename_i r hr
          refine EntityStep_trans ?_ (ih _ _)
          split
          · split
            · exact EntityStep_insert _ _ _ _ rfl rfl
                (Or.inl ⟨rfl, Nat.mod_lt _ (by norm_num)⟩)
            · exact EntityStep_insert _ _ _ _ rfl rfl
                (Or.inl ⟨rfl, Nat.mod_lt _ (by norm_num)⟩)
          · exact EntityStep_refl s
    · exact EntityStep_refl s

theorem id_check (s : EverQuest) :
    (CheckZoneRequestPhaseComplete s).m_my_character_id = s.m_my_character_id := by
  unfold CheckZoneRequestPhaseComplete
  split_ifs <;> rfl

theorem id_Weather (s : EverQuest) :
    (ZoneProcessWeather s).m_my_character_id = s.m_my_character_id := by
  unfold ZoneProcessWeather
  simp only []
  split_ifs <;> rfl

theorem id_guard (s : EverQuest) (c : Bool) (send : EverQuest → EverQuest)
    (h : (send s).m_my_character_id = s.m_my_character_id) :
    (if c = true then send s else s).m_my_character_id = s.m_my_character_id := by
  cases c
  · rfl
  · exact h

theorem id_NewZone (s : EverQuest) (p : Packet) :
    (ZoneProcessNewZone s p).m_my_character_id = s.m_my_character_id := by
  unfold ZoneProcessNewZone
  lift_lets
  intro s0 s1 s2 s3 s4
  have h0 : s0.m_my_character_id = s.m_my_character_id := by
    show (if Length p ≥ 96 then _ else _ : EverQuest).m_my_character_id = _
    split_ifs <;> rfl
  have h1 : s1.m_my_character_id = s.m_my_character_id := h0
  have h2 : s2.m_my_character_id = s.m_my_character_id :=
    (id_guard s1 _ ZoneSendSendAATable rfl).trans h1
  have h3 : s3.m_my_character_id = s.m_my_character_id :=
    (id_guard s2 _ ZoneSendUpdateAA rfl).trans h2
  have h4 : s4.m_my_character_id = s.m_my_character_id :=
    (id_guard s3 _ ZoneSendSendTributes rfl).trans h3
  exact (id_guard s4 _ ZoneSendRequestGuildTributes rfl).trans h4

theorem id_WorldObjectsSent (s : EverQuest) :
    (ZoneProcessWorldObjectsSent s).m_my_character_id = s.m_my_character_id := by
  unfold ZoneProcessWorldObjectsSent
  split_ifs <;> rfl

theorem id_GuildMOTD (s : EverQuest) :
    (ZoneProcessGuildMOTD s).m_my_character_id = s.m_my_character_id := by
  unfold ZoneProcessGuildMOTD
  simp only []
  split_ifs <;> rfl

theorem id_Zonepoints (s : EverQuest) :
    (ZoneProcessSendZonepoints s).m_my_character_id = s.m_my_character_id := by
  unfold ZoneProcessSendZonepoints
  simp only []
  split_ifs <;> rfl

theorem GetUInt32_none_of_lt (p : Packet) (off : Nat) (h : Length p < off + 4) :
    GetUInt32 p off = none := by
  have h8 : GetUInt8 p (off + 3) = none := by
    unfold GetUInt8 Length at *
    rw [List.getElem?_eq_none (by omega)]
  unfold GetUInt32
  rw [h8]
  cases GetUInt8 p off <;> cases GetUInt8 p (off + 1) <;> cases GetUInt8 p (off + 2) <;> rfl

/-- What `ZoneProcessPlayerProfile` does to the entity map and the own id:
nothing, or it stores a record under the own id it leaves, which is the old
one or a 16-bit value. -/
theorem PlayerProfile_cases (ctx : RecvCtx) (s : EverQuest) (p : Packet) :
    ((ZoneProcessPlayerProfile ctx s p).m_entities = s.m_entities ∧
      (ZoneProcessPlayerProfile ctx s p).m_my_character_id = s.m_my_character_id) ∨
    (∃ e, (ZoneProcessPlayerProfile ctx s p).m_entities =
        mapInsert s.m_entities (ZoneProcessPlayerProfile ctx s p).m_my_character_id e ∧
      e.spawn_id = (ZoneProcessPlayerProfile ctx s p).m_my_character_id ∧
      ((ZoneProcessPlayerProfile ctx s p).m_my_character_id = s.m_my_character_id ∨
        (ZoneProcessPlayerProfile ctx s p).m_my_character_id < 65536)) := by
  by_cases hlen : 14390 ≤ Length p
  · obtain ⟨id, x, y, z, h, e, -, -, -, -, -, h6, h7, -, -, -, -, -, h8, -⟩ :=
      PlayerProfile_stores ctx s p hlen
    right
    refine ⟨e, ?_, ?_, Or.inr ?_⟩
    · rw [h6, h8]
    · rw [h7, h8]
    · rw [h8]
      exact Nat.mod_lt _ (by norm_num)
  · by_cases h1 : Length p > 14386
    · left
      have hn : GetUInt32 p 14386 = none := GetUInt32_none_of_lt p 14386 (by omega)
      unfold ZoneProcessPlayerProfile
      simp only [h1, if_true, hn]
      trivial
    · unfold ZoneProcessPlayerProfile
      simp only [h1, if_false]
      split
      · split
        · left; exact ⟨rfl, rfl⟩
        · split
          · left; exact ⟨rfl, rfl⟩
          · split
            · left; exact ⟨rfl, rfl⟩
            · split
              · left; exact ⟨rfl, rfl⟩
              · right
                exact ⟨_, rfl, rfl, Or.inl rfl⟩
      · left; exact ⟨rfl, rfl⟩

theorem DeleteSpawn_cases (s : EverQuest) (p : Packet) :
    (ZoneProcessDeleteSpawn s p).m_my_character_id = s.m_my_character_id ∧
    ((ZoneProcessDeleteSpawn s p).m_entities = s.m_entities ∨
      ∃ k, GetUInt16 p 2 = some k ∧
        (ZoneProcessDeleteSpawn s p).m_entities = mapErase s.m_entities k) := by
  unfold ZoneProcessDeleteSpawn
  split
  · exact ⟨rfl, Or.inl rfl⟩
  · split
    · exact ⟨rfl, Or.inl rfl⟩
    · rename_i k hk
      split
      · exact ⟨rfl, Or.inr ⟨k, hk, rfl⟩⟩
      · exact ⟨rfl, Or.inl rfl⟩

theorem OwnRecord_step {s t : EverQuest} (h : EntityStep s t) (ho : OwnRecord s) :
    OwnRecord t := by
  unfold OwnRecord at *
  rw [h.1]
  exact h.2.1 _ ho

theorem EntityKeys_step {s t : EverQuest} (h : EntityStep s t) (hk : EntityKeys s) :
    EntityKeys t := by
  refine ⟨by rw [h.1]; exact hk.1, ?_⟩
  intro j e he
  rcases h.2.2 j e he with h1 | h1 | ⟨e0, h1, h2⟩
  · exact hk.2 j e h1
  · exact ⟨h1.2, h1.1⟩
  · exact ⟨(hk.2 j e0 h1).1, h2.trans (hk.2 j e0 h1).2⟩

/-- Every zone packet other than a DeleteSpawn naming the own id keeps the
player's own record in the entity map. -/
theorem OwnRecord_recv (ctx : RecvCtx) (s : EverQuest) (p : Packet) (ho : OwnRecord s)
    (hd : deletesSelf s p = false) : OwnRecord (ZoneOnPacketRecv ctx s p) := by
  apply recv_cases OwnRecord ctx s p ho
  · intro _; exact OwnRecord_step (EntityStep_same _ _ rfl rfl) ho
  · intro _
    rcases PlayerProfile_cases ctx s p with ⟨h1, h2⟩ | ⟨e, h1, -, -⟩
    · exact OwnRecord_step (EntityStep_same _ _ h1 h2) ho
    · unfold OwnRecord
      rw [h1]
      simp [mapInsert]
  · intro _; exact OwnRecord_step (step_ZoneSpawnsLoop ctx p _ _ s) ho
  · intro _; exact OwnRecord_step (EntityStep_same _ _ (ents_Weather s) (id_Weather s)) ho
  · intro _; exact OwnRecord_step (EntityStep_same _ _ (ents_NewZone s p) (id_NewZone s p)) ho
  · intro _; exact OwnRecord_step (EntityStep_same _ _ (ents_check _) (id_check _)) ho
  · intro _; exact OwnRecord_step (EntityStep_same _ _ (ents_check _) (id_check _)) ho
  · intro _; exact OwnRecord_step (EntityStep_same _ _ (ents_check _) (id_check _)) ho
  · intro _; exact OwnRecord_step (EntityStep_same _ _ (ents_check _) (id_check _)) ho
  · intro _
    exact OwnRecord_step (EntityStep_same _ _ (ents_Zonepoints s) (id_Zonepoints s)) ho
  · intro _; exact OwnRecord_step (EntityStep_same _ _ rfl rfl) ho
  · intro _
    exact OwnRecord_step
      (EntityStep_same _ _ (ents_WorldObjectsSent s) (id_WorldObjectsSent s)) ho
  · intro _; exact OwnRecord_step (EntityStep_same _ _ (ents_GuildMOTD s) (id_GuildMOTD s)) ho
  · intro _; exact OwnRecord_step (step_NewSpawn ctx s p) ho
  · intro _; exact OwnRecord_step (step_ClientUpdate ctx s p) ho
  · intro hop
    obtain ⟨hi, he⟩ := DeleteSpawn_cases s p
    unfold OwnRecord at *
    rw [hi]
    rcases he with he | ⟨k, hk, he⟩
    · rw [he]; exact ho
    · rw [he]
      have hne : ¬ s.m_my_character_id = k := by
        intro hcontra
        unfold deletesSelf at hd
        rw [hop, hk, hcontra] at hd
        simp at hd
      unfold mapErase
      rw [if_neg hne]
      exact ho
  · intro _; exact OwnRecord_step (step_MobHealth s p) ho
  · intro _; exact OwnRecord_step (step_HPUpdate s p) ho
  · intro _; exact OwnRecord_step (step_ManaChange s p) ho
  · intro _; exact OwnRecord_step (step_Death s p) ho

/-- Every zone packet keeps the entity map keyed by the spawn ids of its
records. -/
theorem EntityKeys_recv (ctx : RecvCtx) (s : EverQuest) (p : Packet) (hk : EntityKeys s) :
    EntityKeys (ZoneOnPacketRecv ctx s p) := by
  apply recv_cases EntityKeys ctx s p hk
  · intro _; exact EntityKeys_step (EntityStep_same _ _ rfl rfl) hk
  · intro _
    rcases PlayerProfile_cases ctx s p with ⟨h1, h2⟩ | ⟨e, h1, h2, h3⟩
    · exact EntityKeys_step (EntityStep_same _ _ h1 h2) hk
    · have hid : (ZoneProcessPlayerProfile ctx s p).m_my_character_id < 65536 := by
        rcases h3 with h3 | h3
        · rw [h3]; exact hk.1
        · exact h3
      refine ⟨hid, ?_⟩
      intro j e2 he2
      rw [h1] at he2
      unfold mapInsert at he2
      split_ifs at he2 with hj
      · cases he2
        rw [hj]
        exact ⟨hid, h2⟩
      · exact hk.2 j e2 he2
  · intro _; exact EntityKeys_step (step_ZoneSpawnsLoop ctx p _ _ s) hk
  · intro _; exact EntityKeys_step (EntityStep_same _ _ (ents_Weather s) (id_Weather s)) hk
  · intro _; exact EntityKeys_step (EntityStep_same _ _ (ents_NewZone s p) (id_NewZone s p)) hk
  · intro _; exact EntityKeys_step (EntityStep_same _ _ (ents_check _) (id_check _)) hk
  · intro _; exact EntityKeys_step (EntityStep_same _ _ (ents_check _) (id_check _)) hk
  · intro _; exact EntityKeys_step (EntityStep_same _ _ (ents_check _) (id_check _)) hk
  · intro _; exact EntityKeys_step (EntityStep_same _ _ (ents_check _) (id_check _)) hk
  · intro _
    exact EntityKeys_step (EntityStep_same _ _ (ents_Zonepoints s) (id_Zonepoints s)) hk
  · intro _; exact EntityKeys_step (EntityStep_same _ _ rfl rfl) hk
  · intro _
    exact EntityKeys_step
      (EntityStep_same _ _ (ents_WorldObjectsSent s) (id_WorldObjectsSent s)) hk
  · intro _; exact EntityKeys_step (EntityStep_same _ _ (ents_GuildMOTD s) (id_GuildMOTD s)) hk
  · intro _; exact EntityKeys_step (step_NewSpawn ctx s p) hk
  · intro _; exact EntityKeys_step (step_ClientUpdate ctx s p) hk
  · intro _
    obtain ⟨hi, he⟩ := DeleteSpawn_cases s p
    refine ⟨by rw [hi]; exact hk.1, ?_⟩
    intro j e2 he2
    rcases he with he | ⟨k, -, he⟩
    · rw [he] at he2; exact hk.2 j e2 he2
    · rw [he] at he2
      unfold mapErase at he2
      split_ifs at he2
      exact hk.2 j e2 he2
  · intro _; exact EntityKeys_step (step_MobHealth s p) hk
  · intro _; exact EntityKeys_step (step_HPUpdate s p) hk
  · intro _; exact EntityKeys_step (step_ManaChange s p) hk
  · intro _; exact EntityKeys_step (step_Death s p) hk

theorem EntityKeys_recvAll (evs : List (RecvCtx × Packet)) (s : EverQuest)
    (hk : EntityKeys s) : EntityKeys (ZoneRecvAll s evs) := by
  induction evs generalizing s with
  | nil => exact hk
  | cons ev evs ih => exact ih _ (EntityKeys_recv ev.1 s ev.2 hk)

theorem EntityKeys_zoneConnected (character : List Nat) :
    EntityKeys (zoneConnected character) := by
  have hid : (zoneConnected character).m_my_character_id = 0 := rfl
  refine ⟨by rw [hid]; norm_num, ?_⟩
  intro k e h
  cases h

theorem OwnRecord_recvAll (evs : List (RecvCtx × Packet)) (s : EverQuest)
    (ho : OwnRecord s) (hs : sparesSelf s evs = true) : OwnRecord (ZoneRecvAll s evs) := by
  induction evs generalizing s with
  | nil => exact ho
  | cons ev evs ih =>
    unfold sparesSelf at hs
    rw [Bool.and_eq_true, Bool.not_eq_true'] at hs
    exact ih _ (OwnRecord_recv ev.1 s ev.2 ho hs.1) hs.2

/-- A PlayerProfile that holds the four floats (46 bytes) and either no entity
id (at most 14386 bytes) or the whole entity id (14390 bytes) leaves the
player's own record in the entity map. -/
theorem PlayerProfile_own (ctx : RecvCtx) (s : EverQuest) (p : Packet)
    (h46 : 46 ≤ Length p) (hgap : Length p ≤ 14386 ∨ 14390 ≤ Length p) :
    OwnRecord (ZoneProcessPlayerProfile ctx s p) := by
  rcases hgap with hshort | hlong
  · obtain ⟨x, hx⟩ := GetFloat_of_le p 30 (by omega)
    obtain ⟨y, hy⟩ := GetFloat_of_le p 34 (by omega)
    obtain ⟨z, hz⟩ := GetFloat_of_le p 38 (by omega)
    obtain ⟨h, hh⟩ := GetFloat_of_le p 42 (by omega)
    unfold ZoneProcessPlayerProfile OwnRecord
    simp only [gt_iff_lt, if_neg (not_lt.2 hshort), if_pos (show 42 < Length p by omega),
      hx, hy, hz, hh]
    unfold mapInsert
    rw [if_pos rfl]
    rfl
  · obtain ⟨id, x, y, z, h, e, -, -, -, -, -, h6, -, -, -, -, -, -, h7, -⟩ :=
      PlayerProfile_stores ctx s p hlong
    unfold OwnRecord
    rw [h6, h7]
    unfold mapInsert
    rw [if_pos rfl]
    rfl

/-- C18 (as amended). Once the player's own record is in the entity map, it is
still there after every sequence of received zone packets in which no
DeleteSpawn names the player's own id at the time it arrives. A PlayerProfile
puts the record there when the packet has at least 46 bytes and is not 14387
to 14389 bytes long. -/
theorem C18_own_record_kept_unless_deleted (s : EverQuest)
    (evs : List (RecvCtx × Packet)) (ho : OwnRecord s) (hs : sparesSelf s evs = true) :
    OwnRecord (ZoneRecvAll s evs) ∧
    ∀ (ctx : RecvCtx) (s0 : EverQuest) (p : Packet), 46 ≤ Length p →
      (Length p ≤ 14386 ∨ 14390 ≤ Length p) →
      OwnRecord (ZoneProcessPlayerProfile ctx s0 p) :=
  ⟨OwnRecord_recvAll evs s ho hs, PlayerProfile_own⟩

theorem exampleProfiled_spec :
    exampleProfiled.m_my_character_id = 42 ∧
    ∃ e, exampleProfiled.m_entities = mapInsert (fun _ => none) 42 e := by
  obtain ⟨id, x, y, z, h, e, h1, -, -, -, -, h6, -, -, -, -, -, -, h7, -⟩ :=
    PlayerProfile_stores exampleCtx (EverQuest.init [72, 99]) exampleProfile
      (by rw [exampleProfile_length])
  rw [exampleProfile_entity_id] at h1
  have hid : id = 42 := (Option.some.inj h1).symm
  subst hid
  exact ⟨h7, e, h6⟩

theorem exampleProfiled_own : OwnRecord exampleProfiled := by
  obtain ⟨h1, e, h2⟩ := exampleProfiled_spec
  unfold OwnRecord
  rw [h1, h2]
  simp [mapInsert]

theorem exampleDeleteRat_spares :
    sparesSelf exampleProfiled [(exampleCtx, exampleDeleteRat)] = true := by
  have h : deletesSelf exampleProfiled exampleDeleteRat = false := by
    unfold deletesSelf
    rw [exampleProfiled_spec.1]
    decide
  simp [sparesSelf, h]

theorem C18_own_record_kept_unless_deleted_witness :
    OwnRecord exampleProfiled ∧
    sparesSelf exampleProfiled [(exampleCtx, exampleDeleteRat)] = true ∧
    OwnRecord (ZoneRecvAll exampleProfiled [(exampleCtx, exampleDeleteRat)]) :=
  ⟨exampleProfiled_own, exampleDeleteRat_spares,
    (C18_own_record_kept_unless_deleted exampleProfiled _ exampleProfiled_own
      exampleDeleteRat_spares).1⟩

theorem ZoneRecvAll_single (s : EverQuest) (ctx : RecvCtx) (p : Packet) :
    ZoneRecvAll s [(ctx, p)] = ZoneOnPacketRecv ctx s p := rfl

theorem recv_DeleteSpawn (ctx : RecvCtx) (s : EverQuest) (p : Packet)
    (hop : GetUInt16 p 0 = some HC_OP_DeleteSpawn) :
    ZoneOnPacketRecv ctx s p = ZoneProcessDeleteSpawn s p := by
  unfold ZoneOnPacketRecv
  rw [hop]
  rfl

theorem DeleteSpawn_removes (ctx : RecvCtx) (s : EverQuest) (p : Packet) (k : Nat)
    (e : Entity) (hop : GetUInt16 p 0 = some HC_OP_DeleteSpawn) (hl : ¬ Length p < 4)
    (hk : GetUInt16 p 2 = some k) (hm : s.m_entities k = some e) :
    (ZoneRecvAll s [(ctx, p)]).m_my_character_id = s.m_my_character_id ∧
    (ZoneRecvAll s [(ctx, p)]).m_entities k = none := by
  rw [ZoneRecvAll_single, recv_DeleteSpawn ctx s p hop]
  unfold ZoneProcessDeleteSpawn
  simp only [if_neg hl, hk, hm]
  exact ⟨trivial, by simp [mapErase]⟩

/-- C18, counterexample. After the example PlayerProfile the player's own
record is in the entity map under the own id 42; a DeleteSpawn for spawn id 42
removes it. -/
theorem C18_counterexample :
    OwnRecord exampleProfiled ∧
    (ZoneRecvAll exampleProfiled [(exampleCtx, exampleDeleteSelf)]).m_my_character_id = 42 ∧
    (ZoneRecvAll exampleProfiled [(exampleCtx, exampleDeleteSelf)]).m_entities 42 = none := by
  obtain ⟨h1, e, h2⟩ := exampleProfiled_spec
  have hm : exampleProfiled.m_entities 42 = some e := by
    rw [h2]
    simp [mapInsert]
  have h := DeleteSpawn_removes exampleCtx exampleProfiled exampleDeleteSelf 42 e
    (by decide) (by decide) (by decide) hm
  exact ⟨exampleProfiled_own, h.1.trans h1, h.2⟩

theorem mem_entityList (m : Nat → Option Entity) (k : Nat) (e : Entity) :
    (k, e) ∈ entityList m ↔ k < 65536 ∧ m k = some e := by
  unfold entityList
  rw [List.mem_filterMap]
  constructor
  · rintro ⟨j, hj, hm⟩
    rw [List.mem_range] at hj
    cases hmj : m j with
    | none => rw [hmj] at hm; cases hm
    | some e2 =>
      rw [hmj] at hm
      simp only [Option.map_some', Option.some.injEq, Prod.mk.injEq] at hm
      obtain ⟨h1, h2⟩ := hm
      subst h1 h2
      exact ⟨hj, hmj⟩
  · rintro ⟨hk, hm⟩
    exact ⟨k, List.mem_range.2 hk, by rw [hm]; rfl⟩

theorem KeysAscend_entityList (m : Nat → Option Entity) : KeysAscend (entityList m) := by
  unfold KeysAscend entityList
  apply List.Pairwise.filterMap _ _ (List.pairwise_lt_range 65536)
  intro a a2 hlt b hb b2 hb2
  cases hma : m a with
  | none => rw [hma] at hb; cases hb
  | some e =>
    cases hma2 : m a2 with
    | none => rw [hma2] at hb2; cases hb2
    | some e2 =>
      rw [hma] at hb
      rw [hma2] at hb2
      simp only [Option.map_some', Option.mem_def, Option.some.injEq] at hb hb2
      subst hb hb2
      exact hlt

/-- The search of `FindEntityByName` and of the follow block: the first entry,
in key order, that satisfies the test. -/
theorem entityList_find (m : Nat → Option Entity) (P : Nat × Entity → Bool) (k : Nat)
    (e : Entity) (hk : k < 65536) (hm : m k = some e) (hP : P (k, e) = true)
    (hfirst : ∀ j e2, j < k → m j = some e2 → P (j, e2) = false) :
    (entityList m).find? P = some (k, e) := by
  cases hf : (entityList m).find? P with
  | none =>
    have := List.find?_eq_none.1 hf (k, e) ((mem_entityList m k e).2 ⟨hk, hm⟩)
    exact absurd hP this
  | some r =>
    obtain ⟨hmem, hPr, hleast⟩ := find_least _ P r (KeysAscend_entityList m) hf
    have hle := hleast (k, e) ((mem_entityList m k e).2 ⟨hk, hm⟩) hP
    obtain ⟨j, e2⟩ := r
    obtain ⟨hj, hmj⟩ := (mem_entityList m j e2).1 hmem
    simp only at hle
    by_cases hlt : j < k
    · rw [hfirst j e2 hlt hmj] at hPr
      cases hPr
    · have hjk : j = k := by omega
      subst hjk
      rw [hm] at hmj
      cases hmj
      rfl

theorem tolower_ne_space (b : Nat) (h : b ≠ 32) : tolower b ≠ 32 := by
  unfold tolower
  split_ifs with h1
  · omega
  · exact h

theorem searchTerm_no_space (name : List Nat) (h : ∀ b ∈ name, b ≠ 32) :
    searchTerm name = name.map tolower := by
  unfold searchTerm
  rw [List.map_map]
  apply List.map_congr_left
  intro b hb
  have := tolower_ne_space b (h b hb)
  simp [this]

theorem isPrefixOf_self (l : List Nat) : l.isPrefixOf l = true := by
  induction l with
  | nil => rfl
  | cons a l ih => simp [List.isPrefixOf, ih]

theorem FindEntityByName_first (s : EverQuest) (q : List Nat) (k : Nat) (e : Entity)
    (hk : k < 65536) (hm : s.m_entities k = some e)
    (hP : (searchTerm q).isPrefixOf (e.name.map tolower) = true)
    (hfirst : ∀ j e2, j < k → s.m_entities j = some e2 →
      (searchTerm q).isPrefixOf (e2.name.map tolower) = false) :
    FindEntityByName s q = some e := by
  unfold FindEntityByName
  simp only []
  rw [entityList_find s.m_entities _ k e hk hm hP hfirst]
  rfl

/-- C19 (as amended). For an entity `c` in the entity map under key `k` whose
name contains no space, `FindEntityByName(c.name)` returns `c` itself provided
no entity under a lower key has a name that, in lower case, starts with the
lower-cased name of `c`. -/
theorem C19_find_own_name_when_first (s : EverQuest) (k : Nat) (c : Entity)
    (hk : k < 65536) (hm : s.m_entities k = some c) (hsp : ∀ b ∈ c.name, b ≠ 32)
    (hfirst : ∀ j e, j < k → s.m_entities j = some e →
      (c.name.map tolower).isPrefixOf (e.name.map tolower) = false) :
    FindEntityByName s c.name = some c := by
  apply FindEntityByName_first s c.name k c hk hm
  · rw [searchTerm_no_space c.name hsp]
    exact isPrefixOf_self _
  · rw [searchTerm_no_space c.name hsp]
    exact hfirst

theorem exampleTwoRats_below (j : Nat) (e : Entity) (hj : j < 5)
    (h : exampleTwoRats.m_entities j = some e) : False := by
  have h5 : ¬ j = 5 := by omega
  have h9 : ¬ j = 9 := by omega
  simp [exampleTwoRats, mapInsert, h5, h9] at h

theorem C19_find_own_name_when_first_witness :
    FindEntityByName exampleTwoRats exampleRat00.name = some exampleRat00 :=
  C19_find_own_name_when_first exampleTwoRats 5 exampleRat00 (by decide)
    (by simp [exampleTwoRats, mapInsert]) (by decide)
    (fun j e hj h => (exampleTwoRats_below j e hj h).elim)

/-- C19, counterexample. With the rats `a_rat00` (spawn id 5) and `a_rat`
(spawn id 9) in the entity map, `FindEntityByName` for the name of the second
returns the first. -/
theorem C19_counterexample :
    exampleTwoRats.m_entities 9 = some exampleRat ∧
    FindEntityByName exampleTwoRats exampleRat.name = some exampleRat00 ∧
    exampleRat00 ≠ exampleRat := by
  refine ⟨by simp [exampleTwoRats, mapInsert], ?_, ?_⟩
  · exact FindEntityByName_first exampleTwoRats exampleRat.name 5 exampleRat00 (by decide)
      (by simp [exampleTwoRats, mapInsert]) (by decide)
      (fun j e hj h => (exampleTwoRats_below j e hj h).elim)
  · intro h
    have := congrArg Entity.spawn_id h
    simp [exampleRat00, exampleRat] at this

theorem tolower_underscore (c : Nat) :
    tolower (if c = 32 then 95 else c) = (if tolower c = 32 then 95 else tolower c) := by
  by_cases h : c = 32
  · subst h
    simp [tolower]
  · rw [if_neg h, if_neg (tolower_ne_space c h)]

/-- The search term is the query with every space read as an underscore, in
lower case. -/
theorem searchTerm_eq (q : List Nat) :
    searchTerm q = (q.map (fun c => if c = 32 then 95 else c)).map tolower := by
  unfold searchTerm
  rw [List.map_map, List.map_map]
  apply List.map_congr_left
  intro c _
  simp only [Function.comp]
  exact (tolower_underscore c).symm

theorem searchByte_same (x y : Nat)
    (hxy : x = y ∨ (65 ≤ x ∧ x ≤ 90 ∧ y = x + 32) ∨ (65 ≤ y ∧ y ≤ 90 ∧ x = y + 32) ∨
      (x = 32 ∧ y = 95) ∨ (x = 95 ∧ y = 32)) :
    (if tolower x = 32 then 95 else tolower x) = (if tolower y = 32 then 95 else tolower y) := by
  rcases hxy with h | ⟨h1, h2, h3⟩ | ⟨h1, h2, h3⟩ | ⟨h1, h2⟩ | ⟨h1, h2⟩
  · rw [h]
  · subst h3
    have e1 : tolower x = x + 32 := by unfold tolower; rw [if_pos ⟨h1, h2⟩]
    have e2 : tolower (x + 32) = x + 32 := by unfold tolower; rw [if_neg (by omega)]
    rw [e1, e2]
  · subst h3
    have e1 : tolower y = y + 32 := by unfold tolower; rw [if_pos ⟨h1, h2⟩]
    have e2 : tolower (y + 32) = y + 32 := by unfold tolower; rw [if_neg (by omega)]
    rw [e1, e2]
  · subst h1 h2
    simp [tolower]
  · subst h1 h2
    simp [tolower]

theorem searchTerm_same (a b : List Nat) (h : SameUpToCaseAndSpace a b) :
    searchTerm a = searchTerm b := by
  unfold SameUpToCaseAndSpace at h
  unfold searchTerm
  induction h with
  | nil => rfl
  | @cons x y l1 l2 hxy _ ih =>
    simp only [List.map_cons, List.cons.injEq]
    exact ⟨searchByte_same x y hxy, ih⟩

theorem FindEntityByName_some (s : EverQuest) (q : List Nat) (e : Entity)
    (h : FindEntityByName s q = some e) :
    ∃ k, k < 65536 ∧ s.m_entities k = some e ∧
      (searchTerm q).isPrefixOf (e.name.map tolower) = true ∧
      ∀ j e2, j < 65536 → s.m_entities j = some e2 →
        (searchTerm q).isPrefixOf (e2.name.map tolower) = true → k ≤ j := by
  unfold FindEntityByName at h
  simp only [Option.map_eq_some'] at h
  obtain ⟨r, hf, hr⟩ := h
  obtain ⟨hmem, hP, hleast⟩ := find_least _ _ r (KeysAscend_entityList s.m_entities) hf
  obtain ⟨k, e0⟩ := r
  simp only at hr
  subst hr
  obtain ⟨hk, hm⟩ := (mem_entityList _ _ _).1 hmem
  refine ⟨k, hk, hm, hP, ?_⟩
  intro j e2 hj hm2 hP2
  exact hleast (j, e2) ((mem_entityList _ _ _).2 ⟨hj, hm2⟩) hP2

theorem FindEntityByName_isSome (s : EverQuest) (q : List Nat) :
    (FindEntityByName s q).isSome = true ↔
      ∃ k e, k < 65536 ∧ s.m_entities k = some e ∧
        (searchTerm q).isPrefixOf (e.name.map tolower) = true := by
  constructor
  · intro h
    obtain ⟨e, he⟩ := Option.isSome_iff_exists.1 h
    obtain ⟨k, hk, hm, hP, -⟩ := FindEntityByName_some s q e he
    exact ⟨k, e, hk, hm, hP⟩
  · rintro ⟨k, e, hk, hm, hP⟩
    unfold FindEntityByName
    simp only [Option.isSome_map']
    rw [List.find?_isSome]
    exact ⟨(k, e), (mem_entityList _ _ _).2 ⟨hk, hm⟩, hP⟩

/-- C20. `FindEntityByName(q)` returns an entity exactly when some entity's
name in lower case starts with `q` read with each space as an underscore and
in lower case; two queries that differ only in letter case or in space versus
underscore return the same; and the entity returned is a record of the map
whose spawn id is the lowest among the entities that match. -/
theorem C20_find_by_name (s : EverQuest) (q : List Nat) (hkeys : EntityKeys s) :
    ((FindEntityByName s q).isSome = true ↔
      ∃ k e, s.m_entities k = some e ∧
        (q.map (fun c => if c = 32 then 95 else c)).map tolower <+: e.name.map tolower) ∧
    (∀ q2, SameUpToCaseAndSpace q q2 → FindEntityByName s q2 = FindEntityByName s q) ∧
    (∀ e, FindEntityByName s q = some e →
      s.m_entities e.spawn_id = some e ∧
      ∀ k e2, s.m_entities k = some e2 →
        (q.map (fun c => if c = 32 then 95 else c)).map tolower <+: e2.name.map tolower →
        e.spawn_id ≤ e2.spawn_id) := by
  rw [← searchTerm_eq]
  refine ⟨?_, ?_, ?_⟩
  · rw [FindEntityByName_isSome]
    constructor
    · rintro ⟨k, e, -, hm, hP⟩
      exact ⟨k, e, hm, List.isPrefixOf_iff_prefix.1 hP⟩
    · rintro ⟨k, e, hm, hP⟩
      exact ⟨k, e, (hkeys.2 k e hm).1, hm, List.isPrefixOf_iff_prefix.2 hP⟩
  · intro q2 h
    unfold FindEntityByName
    rw [searchTerm_same q q2 h]
  · intro e he
    obtain ⟨k, hk, hm, hP, hleast⟩ := FindEntityByName_some s q e he
    have hid := (hkeys.2 k e hm).2
    rw [hid]
    refine ⟨hm, ?_⟩
    intro j e2 hm2 hP2
    rw [(hkeys.2 j e2 hm2).2]
    exact hleast j e2 (hkeys.2 j e2 hm2).1 hm2 (List.isPrefixOf_iff_prefix.2 hP2)

theorem exampleTwoRats_keys : EntityKeys exampleTwoRats := by
  refine ⟨by decide, ?_⟩
  intro k e h
  by_cases h9 : k = 9
  · subst h9
    simp [exampleTwoRats, mapInsert] at h
    subst h
    exact ⟨by decide, rfl⟩
  · by_cases h5 : k = 5
    · subst h5
      simp [exampleTwoRats, mapInsert] at h
      subst h
      exact ⟨by decide, rfl⟩
    · simp [exampleTwoRats, mapInsert, h5, h9] at h

theorem C20_find_by_name_witness :
    FindEntityByName exampleTwoRats [65, 32, 82] = some exampleRat00 ∧
    ((FindEntityByName exampleTwoRats [65, 32, 82]).isSome = true ↔
      ∃ k e, exampleTwoRats.m_entities k = some e ∧
        ([65, 32, 82].map (fun c => if c = 32 then 95 else c)).map tolower <+:
          e.name.map tolower) ∧
    (∀ q2, SameUpToCaseAndSpace [65, 32, 82] q2 →
      FindEntityByName exampleTwoRats q2 = FindEntityByName exampleTwoRats [65, 32, 82]) ∧
    (∀ e, FindEntityByName exampleTwoRats [65, 32, 82] = some e →
      exampleTwoRats.m_entities e.spawn_id = some e ∧
      ∀ k e2, exampleTwoRats.m_entities k = some e2 →
        ([65, 32, 82].map (fun c => if c = 32 then 95 else c)).map tolower <+:
          e2.name.map tolower →
        e.spawn_id ≤ e2.spawn_id) :=
  ⟨FindEntityByName_first exampleTwoRats [65, 32, 82] 5 exampleRat00 (by decide)
      (by simp [exampleTwoRats, mapInsert]) (by decide)
      (fun j e hj h => (exampleTwoRats_below j e hj h).elim),
    C20_find_by_name exampleTwoRats [65, 32, 82] exampleTwoRats_keys⟩

theorem HpAtMost_same {n : Nat} {s t : EverQuest} (he : t.m_entities = s.m_entities)
    (h : HpAtMost n s) : HpAtMost n t := by
  intro k e hk
  rw [he] at hk
  exact h k e hk

theorem HpAtMost_insert {n : Nat} {s t : EverQuest} (k : Nat) (e : Entity)
    (he : t.m_entities = mapInsert s.m_entities k e) (hq : e.hp_percent ≤ n)
    (h : HpAtMost n s) : HpAtMost n t := by
  intro j e2 hj
  rw [he] at hj
  unfold mapInsert at hj
  split_ifs at hj
  · cases hj
    exact hq
  · exact h j e2 hj

theorem HpAtMost_erase {n : Nat} {s t : EverQuest} (k : Nat)
    (he : t.m_entities = mapErase s.m_entities k) (h : HpAtMost n s) : HpAtMost n t := by
  intro j e2 hj
  rw [he] at hj
  unfold mapErase at hj
  split_ifs at hj
  exact h j e2 hj

theorem GetUInt8_lt (p : Packet) (off b : Nat) (h : GetUInt8 p off = some b) : b < 256 := by
  unfold GetUInt8 at h
  split at h
  · cases h
    exact Nat.mod_lt _ (by norm_num)
  · cases h

theorem readSpawnFields_hp (p : Packet) (off : Nat) (r : SpawnFields)
    (h : readSpawnFields p off = some r) : r.hp_percent < 256 := by
  unfold readSpawnFields at h
  split at h
  · split at h
    · rename_i hp _ _ _ _ h86
      cases h
      exact GetUInt8_lt p _ _ h86
    · cases h
  · cases h

theorem hp_ClientUpdate (ctx : RecvCtx) (s : EverQuest) (p : Packet) (h : HpAtMost 255 s) :
    HpAtMost 255 (ZoneProcessClientUpdate ctx s p) := by
  unfold ZoneProcessClientUpdate
  split
  · exact h
  · split
    · split
      · exact HpAtMost_same rfl h
      · split
        · rename_i e he
          exact HpAtMost_insert _ _ rfl (h _ e he) h
        · exact h
    · exact h

theorem hp_MobHealth (s : EverQuest) (p : Packet) (h : HpAtMost 255 s) :
    HpAtMost 255 (ZoneProcessMobHealth s p) := by
  unfold ZoneProcessMobHealth
  split
  · exact h
  · split
    · rename_i k b hk hb
      split
      · exact HpAtMost_insert _ _ rfl (Nat.le_of_lt_succ (GetUInt8_lt p 4 b hb)) h
      · exact h
    · exact h

theorem hp_HPUpdate (s : EverQuest) (p : Packet) (h : HpAtMost 255 s) :
    HpAtMost 255 (ZoneProcessHPUpdate s p) := by
  unfold ZoneProcessHPUpdate
  split
  · exact h
  · split
    · split
      · split
        · exact HpAtMost_insert _ _ rfl
            (Nat.le_of_lt_succ (Nat.mod_lt _ (by norm_num))) h
        · exact h
      · exact h
    · exact h

theorem hp_ManaChange (s : EverQuest) (p : Packet) (h : HpAtMost 255 s) :
    HpAtMost 255 (ZoneProcessManaChange s p) := by
  unfold ZoneProcessManaChange
  split
  · exact h
  · split
    · split
      · rename_i e he
        exact HpAtMost_insert _ _ rfl (h _ e he) h
      · exact h
    · exact h

theorem hp_Death (s : EverQuest) (p : Packet) (h : HpAtMost 255 s) :
    HpAtMost 255 (ZoneProcessDeath s p) := by
  unfold ZoneProcessDeath
  split
  · exact h
  · split
    · split
      · exact HpAtMost_insert _ _ rfl (Nat.zero_le _) h
      · exact h
    · exact h

theorem hp_NewSpawn (ctx : RecvCtx) (s : EverQuest) (p : Packet) (h : HpAtMost 255 s) :
    HpAtMost 255 (ZoneProcessNewSpawn ctx s p) := by
  unfold ZoneProcessNewSpawn
  simp only []
  split
  · exact h
  · split
    · exact h
    · rename_i r hr
      have hb : r.hp_percent ≤ 255 := Nat.le_of_lt_succ (readSpawnFields_hp p 2 r hr)
      split
      · split
        · exact HpAtMost_insert _ _ rfl hb h
        · exact HpAtMost_insert _ _ rfl hb h
      · exact h

theorem hp_ZoneSpawnsLoop (ctx : RecvCtx) (p : Packet) (fuel offset : Nat) (s : EverQuest)
    (h : HpAtMost 255 s) : HpAtMost 255 (ZoneSpawnsLoop ctx p fuel offset s) := by
  induction fuel generalizing offset s with
  | zero => exact h
  | succ n ih =>
    unfold ZoneSpawnsLoop
    simp only []
    split
    · split
      · exact h
      · split
        · exact h
        · rename_i r hr
          have hb : r.hp_percent ≤ 255 :=
            Nat.le_of_lt_succ (readSpawnFields_hp p offset r hr)
          apply ih
          split
          · split
            · exact HpAtMost_insert _ _ rfl hb h
            · exact HpAtMost_insert _ _ rfl hb h
          · exact h
    · exact h

theorem hp_PlayerProfile (n : Nat) (hn : 100 ≤ n) (ctx : RecvCtx) (s : EverQuest) (p : Packet)
    (h : HpAtMost n s) : HpAtMost n (ZoneProcessPlayerProfile ctx s p) := by
  unfold ZoneProcessPlayerProfile
  simp only []
  split
  · exact h
  · rename_i s1 hs1
    have hs1e : s1.m_entities = s.m_entities := by
      split at hs1
      · split at hs1
        · cases hs1
          rfl
        · cases hs1
      · cases hs1
        rfl
    have h1 : HpAtMost n s1 := HpAtMost_same hs1e h
    split
    · split
      · exact h1
      · split
        · exact HpAtMost_same rfl h1
        · split
          · exact HpAtMost_same rfl h1
          · split
            · exact HpAtMost_same rfl h1
            · exact HpAtMost_insert _ _ rfl hn h1
    · exact h1

theorem hp_DeleteSpawn (s : EverQuest) (p : Packet) (h : HpAtMost 255 s) :
    HpAtMost 255 (ZoneProcessDeleteSpawn s p) := by
  rcases (DeleteSpawn_cases s p).2 with he | ⟨k, -, he⟩
  · exact HpAtMost_same he h
  · exact HpAtMost_erase k he h

/-- Every zone packet keeps the health values of the entity map within a
byte. -/
theorem HpAtMost_recv (ctx : RecvCtx) (s : EverQuest) (p : Packet) (h : HpAtMost 255 s) :
    HpAtMost 255 (ZoneOnPacketRecv ctx s p) := by
  apply recv_cases (HpAtMost 255) ctx s p h
  · intro _; exact HpAtMost_same rfl h
  · intro _; exact hp_PlayerProfile 255 (by norm_num) ctx s p h
  · intro _; exact hp_ZoneSpawnsLoop ctx p _ _ s h
  · intro _; exact HpAtMost_same (ents_Weather s) h
  · intro _; exact HpAtMost_same (ents_NewZone s p) h
  · intro _; exact HpAtMost_same (ents_check _) h
  · intro _; exact HpAtMost_same (ents_check _) h
  · intro _; exact HpAtMost_same (ents_check _) h
  · intro _; exact HpAtMost_same (ents_check _) h
  · intro _; exact HpAtMost_same (ents_Zonepoints s) h
  · intro _; exact HpAtMost_same rfl h
  · intro _; exact HpAtMost_same (ents_WorldObjectsSent s) h
  · intro _; exact HpAtMost_same (ents_GuildMOTD s) h
  · intro _; exact hp_NewSpawn ctx s p h
  · intro _; exact hp_ClientUpdate ctx s p h
  · intro _; exact hp_DeleteSpawn s p h
  · intro _; exact hp_MobHealth s p h
  · intro _; exact hp_HPUpdate s p h
  · intro _; exact hp_ManaChange s p h
  · intro _; exact hp_Death s p h

theorem HpAtMost_recvAll (evs : List (RecvCtx × Packet)) (s : EverQuest) (h : HpAtMost 255 s) :
    HpAtMost 255 (ZoneRecvAll s evs) := by
  induction evs generalizing s with
  | nil => exact h
  | cons ev evs ih =>
    rw [ZoneRecvAll_cons]
    exact ih _ (HpAtMost_recv ev.1 s ev.2 h)

theorem HpAtMost_init (character : List Nat) : HpAtMost 255 (EverQuest.init character) := by
  intro k e hk
  cases hk

theorem HpAtMost_zoneConnected (character : List Nat) :
    HpAtMost 255 (zoneConnected character) := by
  intro k e hk
  cases hk

theorem MobHealth_stores (ctx : RecvCtx) (s : EverQuest) (p : Packet) (k b : Nat) (e : Entity)
    (hop : GetUInt16 p 0 = some HC_OP_MobHealth) (hl : ¬ Length p < 5)
    (hk : GetUInt16 p 2 = some k) (hb : GetUInt8 p 4 = some b) (hm : s.m_entities k = some e) :
    (ZoneRecvAll s [(ctx, p)]).m_entities k = some { e with hp_percent := b } := by
  rw [ZoneRecvAll_single]
  unfold ZoneOnPacketRecv
  simp only [hop]
  have hd : HC_OP_MobHealth = 0x0695 := rfl
  simp only [hd, HC_OP_SessionReady, HC_OP_PlayerProfile, HC_OP_ZoneSpawns, HC_OP_Weather,
    HC_OP_NewZone, HC_OP_SendAATable, HC_OP_RespondAA, HC_OP_TributeInfo,
    HC_OP_SendGuildTributes, HC_OP_SendZonepoints, HC_OP_SendExpZonein,
    HC_OP_WorldObjectsSent, HC_OP_GuildMOTD, HC_OP_NewSpawn, HC_OP_ClientUpdate,
    HC_OP_DeleteSpawn]
  norm_num
  unfold ZoneProcessMobHealth
  simp only [if_neg hl, hk, hb, hm]
  simp [mapInsert]

/-- C21. From a state of the zone session in which every record's health value
fits a byte (as in a new session, whose entity map is empty), every sequence
of received packets leads to a state in which every record's `hp_percent` is
between 0 and 255: the handlers store the byte the server sent (spawn
records, MobHealth), the low byte of `cur_hp * 100 / max_hp` (HPUpdate), 100
(PlayerProfile) or 0 (Death), and never clamp to 100. -/
theorem C21_hp_percent_is_a_byte (s : EverQuest) (evs : List (RecvCtx × Packet))
    (hs : ∀ k e, s.m_entities k = some e → e.hp_percent ≤ 255) :
    (∀ k e, (ZoneRecvAll s evs).m_entities k = some e → e.hp_percent ≤ 255) ∧
    ∀ character k e, (ZoneRecvAll (zoneConnected character) evs).m_entities k = some e →
      e.hp_percent ≤ 255 :=
  ⟨HpAtMost_recvAll evs s hs,
    fun character => HpAtMost_recvAll evs _ (HpAtMost_zoneConnected character)⟩

theorem exampleZonedIn_hp : ∀ k e, exampleZonedIn.m_entities k = some e → e.hp_percent ≤ 255 := by
  intro k e hk
  have : exampleZonedIn.m_entities = mapInsert (fun _ => none) 7 exampleEntity := rfl
  rw [this] at hk
  unfold mapInsert at hk
  split_ifs at hk
  cases hk
  decide

theorem C21_hp_percent_is_a_byte_witness :
    (∀ k e, exampleZonedIn.m_entities k = some e → e.hp_percent ≤ 255) ∧
    (∀ k e, (ZoneRecvAll exampleZonedIn
        ([(exampleCtx, exampleMobHealthRat)] : List (RecvCtx × Packet))).m_entities k = some e →
      e.hp_percent ≤ 255) :=
  ⟨exampleZonedIn_hp,
    (C21_hp_percent_is_a_byte exampleZonedIn [(exampleCtx, exampleMobHealthRat)]
      exampleZonedIn_hp).1⟩

/-- C21, counterexample. After the example PlayerProfile (own record 42 with
health 100) a MobHealth packet for spawn id 42 with the health byte 200 leaves
a record whose `hp_percent` is 200, above 100. -/
theorem C21_counterexample :
    HpAtMost 100 exampleProfiled ∧
    ∃ e, (ZoneRecvAll exampleProfiled
        ([(exampleCtx, exampleMobHealth)] : List (RecvCtx × Packet))).m_entities 42 = some e ∧
      e.hp_percent = 200 ∧ ¬ e.hp_percent ≤ 100 := by
  obtain ⟨h1, e, h2⟩ := exampleProfiled_spec
  have hm : exampleProfiled.m_entities 42 = some e := by
    rw [h2]
    simp [mapInsert]
  have h := MobHealth_stores exampleCtx exampleProfiled exampleMobHealth 42 200 e
    (by decide) (by decide) (by decide) (by decide) hm
  exact ⟨hp_PlayerProfile 100 (le_refl _) exampleCtx _ exampleProfile
    (fun k e hk => by cases hk), _, h, rfl, by norm_num⟩

theorem SameButVitals_refl (e : Entity) : SameButVitals e e := rfl

/-- A handler that returns without a change leaves the entity map with the
same keys and records. -/
theorem vitals_refl (s : EverQuest) (p : Packet) :
    (∀ k, (s.m_entities k).isSome = (s.m_entities k).isSome) ∧
    (∀ k, addressedSpawn s p ≠ some k → s.m_entities k = s.m_entities k) ∧
    (∀ k e, s.m_entities k = some e →
      ∃ e2, s.m_entities k = some e2 ∧ SameButVitals e e2) ∧
    s = { s with m_entities := s.m_entities } :=
  ⟨fun _ => rfl, fun _ _ => rfl, fun _ e h => ⟨e, h, rfl⟩, rfl⟩

/-- A handler that replaces the addressed record by one that differs at most
in `hp_percent`, `cur_mana` and `max_mana` leaves the keys and every other
record as they were. -/
theorem vitals_insert (s : EverQuest) (p : Packet) (j : Nat) (e0 e1 : Entity)
    (ha : addressedSpawn s p = some j) (hm : s.m_entities j = some e0)
    (hv : SameButVitals e0 e1) :
    (∀ k, (({ s with m_entities := mapInsert s.m_entities j e1 } : EverQuest).m_entities
      k).isSome = (s.m_entities k).isSome) ∧
    (∀ k, addressedSpawn s p ≠ some k →
      ({ s with m_entities := mapInsert s.m_entities j e1 } : EverQuest).m_entities k =
        s.m_entities k) ∧
    (∀ k e, s.m_entities k = some e →
      ∃ e2, ({ s with m_entities := mapInsert s.m_entities j e1 } : EverQuest).m_entities k =
        some e2 ∧ SameButVitals e e2) ∧
    ({ s with m_entities := mapInsert s.m_entities j e1 } : EverQuest) =
      { s with m_entities :=
        ({ s with m_entities := mapInsert s.m_entities j e1 } : EverQuest).m_entities } := by
  refine ⟨?_, ?_, ?_, rfl⟩
  · intro k
    show (mapInsert s.m_entities j e1 k).isSome = _
    unfold mapInsert
    split_ifs with hk
    · rw [hk, hm]
      rfl
    · rfl
  · intro k hk
    show mapInsert s.m_entities j e1 k = _
    unfold mapInsert
    split_ifs with hkj
    · exact absurd (ha.trans (by rw [hkj])) hk
    · rfl
  · intro k e hke
    show ∃ e2, mapInsert s.m_entities j e1 k = some e2 ∧ _
    unfold mapInsert
    split_ifs with hkj
    · rw [hkj, hm] at hke
      cases hke
      exact ⟨e1, rfl, hv⟩
    · exact ⟨e, hke, rfl⟩

theorem addressed_other (s : EverQuest) (p : Packet) (k : Nat)
    (hop : GetUInt16 p 0 ≠ some HC_OP_HPUpdate) (hk : GetUInt16 p 2 = some k) :
    addressedSpawn s p = some k := by
  unfold addressedSpawn
  rw [if_neg hop, hk]

theorem addressed_HPUpdate (s : EverQuest) (p : Packet)
    (hop : GetUInt16 p 0 = some HC_OP_HPUpdate) :
    addressedSpawn s p = some s.m_my_spawn_id := by
  unfold addressedSpawn
  rw [if_pos hop]

/-- C22. Processing a packet whose opcode is MobHealth, HPUpdate, ManaChange,
WearChange or Death leaves the entity map with exactly the keys it had, leaves
every record other than the addressed one (the u16 at offset 2; the player's
own spawn id for HPUpdate) as it was, changes a record at most in
`hp_percent`, `cur_mana` and `max_mana`, and changes nothing else of the
client state. -/
theorem C22_vitals_update_in_place (ctx : RecvCtx) (s : EverQuest) (p : Packet)
    (hop : GetUInt16 p 0 = some HC_OP_MobHealth ∨ GetUInt16 p 0 = some HC_OP_HPUpdate ∨
      GetUInt16 p 0 = some HC_OP_ManaChange ∨ GetUInt16 p 0 = some HC_OP_WearChange ∨
      GetUInt16 p 0 = some HC_OP_Death) :
    (∀ k, ((ZoneOnPacketRecv ctx s p).m_entities k).isSome = (s.m_entities k).isSome) ∧
    (∀ k, addressedSpawn s p ≠ some k →
      (ZoneOnPacketRecv ctx s p).m_entities k = s.m_entities k) ∧
    (∀ k e, s.m_entities k = some e →
      ∃ e2, (ZoneOnPacketRecv ctx s p).m_entities k = some e2 ∧ SameButVitals e e2) ∧
    ZoneOnPacketRecv ctx s p =
      { s with m_entities := (ZoneOnPacketRecv ctx s p).m_entities } := by
  have hno : ∀ op, GetUInt16 p 0 = some op → op ≠ HC_OP_MobHealth → op ≠ HC_OP_HPUpdate →
      op ≠ HC_OP_ManaChange → op ≠ HC_OP_WearChange → op ≠ HC_OP_Death → False := by
    intro op h a b c d e
    rw [h] at hop
    rcases hop with h | h | h | h | h <;> cases h <;> contradiction
  apply recv_cases (fun t =>
    (∀ k, (t.m_entities k).isSome = (s.m_entities k).isSome) ∧
    (∀ k, addressedSpawn s p ≠ some k → t.m_entities k = s.m_entities k) ∧
    (∀ k e, s.m_entities k = some e → ∃ e2, t.m_entities k = some e2 ∧ SameButVitals e e2) ∧
    t = { s with m_entities := t.m_entities }) ctx s p (vitals_refl s p)
  · intro h; exact (hno _ h (by decide) (by decide) (by decide) (by decide) (by decide)).elim
  · intro h; exact (hno _ h (by decide) (by decide) (by decide) (by decide) (by decide)).elim
  · intro h; exact (hno _ h (by decide) (by decide) (by decide) (by decide) (by decide)).elim
  · intro h; exact (hno _ h (by decide) (by decide) (by decide) (by decide) (by decide)).elim
  · intro h; exact (hno _ h (by decide) (by decide) (by decide) (by decide) (by decide)).elim
  · intro h; exact (hno _ h (by decide) (by decide) (by decide) (by decide) (by decide)).elim
  · intro h; exact (hno _ h (by decide) (by decide) (by decide) (by decide) (by decide)).elim
  · intro h; exact (hno _ h (by decide) (by decide) (by decide) (by decide) (by decide)).elim
  · intro h; exact (hno _ h (by decide) (by decide) (by decide) (by decide) (by decide)).elim
  · intro h; exact (hno _ h (by decide) (by decide) (by decide) (by decide) (by decide)).elim
  · intro h; exact (hno _ h (by decide) (by decide) (by decide) (by decide) (by decide)).elim
  · intro h; exact (hno _ h (by decide) (by decide) (by decide) (by decide) (by decide)).elim
  · intro h; exact (hno _ h (by decide) (by decide) (by decide) (by decide) (by decide)).elim
  · intro h; exact (hno _ h (by decide) (by decide) (by decide) (by decide) (by decide)).elim
  · intro h; exact (hno _ h (by decide) (by decide) (by decide) (by decide) (by decide)).elim
  · intro h; exact (hno _ h (by decide) (by decide) (by decide) (by decide) (by decide)).elim
  · intro h
    have hne : GetUInt16 p 0 ≠ some HC_OP_HPUpdate := by rw [h]; decide
    unfold ZoneProcessMobHealth
    split
    · exact vitals_refl s p
    · split
      · rename_i k b hk hb
        split
        · rename_i e he
          exact vitals_insert s p k e _ (addressed_other s p k hne hk) he rfl
        · exact vitals_refl s p
      · exact vitals_refl s p
  · intro h
    unfold ZoneProcessHPUpdate
    split
    · exact vitals_refl s p
    · split
      · split
        · split
          · rename_i e he
            exact vitals_insert s p _ e _ (addressed_HPUpdate s p h) he rfl
          · exact vitals_refl s p
        · exact vitals_refl s p
      · exact vitals_refl s p
  · intro h
    have hne : GetUInt16 p 0 ≠ some HC_OP_HPUpdate := by rw [h]; decide
    unfold ZoneProcessManaChange
    split
    · exact vitals_refl s p
    · split
      · rename_i k a b hk ha hb
        split
        · rename_i e he
          exact vitals_insert s p k e _ (addressed_other s p k hne hk) he rfl
        · exact vitals_refl s p
      · exact vitals_refl s p
  · intro h
    have hne : GetUInt16 p 0 ≠ some HC_OP_HPUpdate := by rw [h]; decide
    unfold ZoneProcessDeath
    split
    · exact vitals_refl s p
    · split
      · rename_i k a b hk ha hb
        split
        · rename_i e he
          exact vitals_insert s p k e _ (addressed_other s p k hne hk) he rfl
        · exact vitals_refl s p
      · exact vitals_refl s p

theorem exampleZonedIn_rat : exampleZonedIn.m_entities 7 = some exampleEntity := rfl

theorem C22_vitals_update_in_place_witness :
    (ZoneOnPacketRecv exampleCtx exampleZonedIn exampleMobHealthRat).m_entities 7 =
      some { exampleEntity with hp_percent := 55 } ∧
    (∀ k, ((ZoneOnPacketRecv exampleCtx exampleZonedIn exampleMobHealthRat).m_entities k).isSome =
      (exampleZonedIn.m_entities k).isSome) ∧
    (∀ k, addressedSpawn exampleZonedIn exampleMobHealthRat ≠ some k →
      (ZoneOnPacketRecv exampleCtx exampleZonedIn exampleMobHealthRat).m_entities k =
        exampleZonedIn.m_entities k) ∧
    (∀ k e, exampleZonedIn.m_entities k = some e →
      ∃ e2, (ZoneOnPacketRecv exampleCtx exampleZonedIn exampleMobHealthRat).m_entities k =
        some e2 ∧ SameButVitals e e2) ∧
    ZoneOnPacketRecv exampleCtx exampleZonedIn exampleMobHealthRat =
      { exampleZonedIn with
        m_entities :=
          (ZoneOnPacketRecv exampleCtx exampleZonedIn exampleMobHealthRat).m_entities } :=
  ⟨by
    have h := MobHealth_stores exampleCtx exampleZonedIn exampleMobHealthRat 7 55 exampleEntity
      (by decide) (by decide) (by decide) (by decide) exampleZonedIn_rat
    rw [ZoneRecvAll_single] at h
    exact h,
   C22_vitals_update_in_place exampleCtx exampleZonedIn exampleMobHealthRat
    (Or.inl (by decide))⟩

/-- The traced handler computes the state of `ZoneProcessPlayerProfile`. -/
theorem ZoneProcessPlayerProfileTraced_state (ctx : RecvCtx) (s : EverQuest) (p : Packet) :
    (ZoneProcessPlayerProfileTraced ctx s p).1 = ZoneProcessPlayerProfile ctx s p := by
  unfold ZoneProcessPlayerProfileTraced ZoneProcessPlayerProfile
  simp only []
  by_cases h1 : Length p > 14386
  · simp only [h1, if_true]
    cases GetUInt32 p 14386 with
    | none => rfl
    | some id =>
      simp only []
      split
      · cases GetFloat p 30 <;> [rfl; skip]
        cases GetFloat p 34 <;> [rfl; skip]
        cases GetFloat p 38 <;> [rfl; skip]
        cases GetFloat p 42 <;> rfl
      · rfl
  · simp only [h1, if_false]
    split
    · cases GetFloat p 30 <;> [rfl; skip]
      cases GetFloat p 34 <;> [rfl; skip]
      cases GetFloat p 38 <;> [rfl; skip]
      cases GetFloat p 42 <;> rfl
    · rfl

theorem GetFloat_none_of_lt (p : Packet) (off : Nat) (h : Length p < off + 4) :
    GetFloat p off = none := by
  unfold GetFloat
  rw [GetUInt32_none_of_lt p off h]
  rfl

/-- The reads of `ZoneProcessPlayerProfile` by packet length. -/
theorem PlayerProfile_reads (ctx : RecvCtx) (s : EverQuest) (p : Packet) :
    (Length p ≤ 42 → (ZoneProcessPlayerProfileTraced ctx s p).2 = []) ∧
    (43 ≤ Length p → Length p ≤ 14386 →
      (ZoneProcessPlayerProfileTraced ctx s p).2 = [(30, 4), (34, 4), (38, 4), (42, 4)]) ∧
    (14387 ≤ Length p → Length p < 14390 →
      (ZoneProcessPlayerProfileTraced ctx s p).2 = [(14386, 4)]) ∧
    (14390 ≤ Length p →
      (ZoneProcessPlayerProfileTraced ctx s p).2 =
        [(14386, 4), (30, 4), (34, 4), (38, 4), (42, 4)]) := by
  refine ⟨?_, ?_, ?_, ?_⟩
  · intro h
    have h1 : ¬ Length p > 14386 := by omega
    have h2 : ¬ Length p > 42 := by omega
    unfold ZoneProcessPlayerProfileTraced
    simp only [h1, h2, if_false]
  · intro ha hb
    have h1 : ¬ Length p > 14386 := by omega
    have h2 : Length p > 42 := by omega
    obtain ⟨x, hx⟩ := GetFloat_of_le p 30 (by omega)
    obtain ⟨y, hy⟩ := GetFloat_of_le p 34 (by omega)
    obtain ⟨z, hz⟩ := GetFloat_of_le p 38 (by omega)
    unfold ZoneProcessPlayerProfileTraced
    simp only [h1, h2, if_false, if_true, hx, hy, hz]
    cases GetFloat p 42 <;> rfl
  · intro ha hb
    have h1 : Length p > 14386 := by omega
    have hn : GetUInt32 p 14386 = none := GetUInt32_none_of_lt p 14386 (by omega)
    unfold ZoneProcessPlayerProfileTraced
    simp only [h1, if_true, hn]
  · intro ha
    have h1 : Length p > 14386 := by omega
    have h2 : Length p > 42 := by omega
    obtain ⟨id, hid⟩ := GetUInt32_of_le p 14386 (by omega)
    obtain ⟨x, hx⟩ := GetFloat_of_le p 30 (by omega)
    obtain ⟨y, hy⟩ := GetFloat_of_le p 34 (by omega)
    obtain ⟨z, hz⟩ := GetFloat_of_le p 38 (by omega)
    obtain ⟨h, hh⟩ := GetFloat_of_le p 42 (by omega)
    unfold ZoneProcessPlayerProfileTraced
    simp only [h1, h2, if_true, hid, hx, hy, hz, hh]
    rfl

theorem exampleShortProfile_length : Length exampleShortProfile = 43 := by
  simp [exampleShortProfile, Length, u16le, zeros]

/-- C23. The reads of `ZoneProcessPlayerProfile` lie inside the packet exactly
for the lengths up to 42, from 46 to 14386, and from 14390 on. A packet of 43
to 45 bytes passes the guard `Length() > 42` and has the float at offset 42
read, and one of 14387 to 14389 bytes passes the guard `Length() > 14386` and
has the u32 at offset 14386 read, in both cases beyond its end; the 43-byte
example packet is such a one. -/
theorem C23_profile_reads_past_short_packets (ctx : RecvCtx) (s : EverQuest) (p : Packet) :
    (ReadsInside p (ZoneProcessPlayerProfileTraced ctx s p).2 ↔
      (Length p ≤ 42 ∨ (46 ≤ Length p ∧ Length p ≤ 14386) ∨ 14390 ≤ Length p)) ∧
    (43 ≤ Length p ∧ Length p ≤ 45 →
      (42, 4) ∈ (ZoneProcessPlayerProfileTraced ctx s p).2) ∧
    (14387 ≤ Length p ∧ Length p ≤ 14389 →
      (14386, 4) ∈ (ZoneProcessPlayerProfileTraced ctx s p).2) ∧
    Length exampleShortProfile = 43 ∧
    (42, 4) ∈ (ZoneProcessPlayerProfileTraced ctx s exampleShortProfile).2 ∧
    ¬ ReadsInside exampleShortProfile
      (ZoneProcessPlayerProfileTraced ctx s exampleShortProfile).2 := by
  obtain ⟨ha, hb, hc, hd⟩ := PlayerProfile_reads ctx s p
  have key : ∀ q : Packet, 43 ≤ Length q → Length q ≤ 45 →
      (42, 4) ∈ (ZoneProcessPlayerProfileTraced ctx s q).2 ∧
      ¬ ReadsInside q (ZoneProcessPlayerProfileTraced ctx s q).2 := by
    intro q h1 h2
    have hq := (PlayerProfile_reads ctx s q).2.1 h1 (by omega)
    rw [hq]
    refine ⟨by simp, ?_⟩
    intro hin
    have := hin (42, 4) (by simp)
    simp only at this
    omega
  refine ⟨?_, fun h => (key p h.1 h.2).1, ?_, exampleShortProfile_length,
    (key _ (by rw [exampleShortProfile_length]) (by rw [exampleShortProfile_length]; norm_num)).1,
    (key _ (by rw [exampleShortProfile_length]) (by rw [exampleShortProfile_length]; norm_num)).2⟩
  · constructor
    · intro hin
      by_contra hcon
      push_neg at hcon
      obtain ⟨c1, c2, c3⟩ := hcon
      by_cases hlt : Length p ≤ 45
      · exact (key p (by omega) hlt).2 hin
      · have h14 : 14387 ≤ Length p := by omega
        have hr := hc h14 c3
        rw [hr] at hin
        have := hin (14386, 4) (by simp)
        simp only at this
        omega
    · rintro (h | ⟨h1, h2⟩ | h)
      · rw [ha h]
        intro r hr
        cases hr
      · rw [hb (by omega) h2]
        intro r hr
        simp only [List.mem_cons, List.mem_singleton, List.not_mem_nil, or_false] at hr
        rcases hr with rfl | rfl | rfl | rfl <;> simp only <;> omega
      · rw [hd h]
        intro r hr
        simp only [List.mem_cons, List.mem_singleton, List.not_mem_nil, or_false] at hr
        rcases hr with rfl | rfl | rfl | rfl | rfl <;> simp only <;> omega
  · intro h
    rw [hc h.1 (by omega)]
    simp

theorem SendPositionUpdate_not_zoned (s : EverQuest) (h : IsFullyZonedIn s = false) :
    SendPositionUpdate s = s := by
  unfold SendPositionUpdate
  simp [h]

theorem MoveToWithPath_not_zoned (ctx : MoveCtx) (c : Client) (x y z : ℚ)
    (h : IsFullyZonedIn c.eq = false) : MoveToWithPath ctx c x y z = c := by
  unfold MoveToWithPath
  simp [h]

theorem moveLoop_not_zoned (passes : List ((Client → Client) × MoveCtx)) (c : Client)
    (h : IsFullyZonedIn c.eq = false) : moveLoop passes c = c := by
  cases passes with
  | nil => rfl
  | cons pass rest =>
    unfold moveLoop
    simp [h]

/-- Before the client is fully zoned in, `Move` changes nothing. -/
theorem Move_not_zoned (ctx : MoveCtx) (passes : List ((Client → Client) × MoveCtx))
    (c : Client) (x y z : ℚ) (h : IsFullyZonedIn c.eq = false) :
    Move ctx passes c x y z = c := by
  unfold Move
  rw [MoveToWithPath_not_zoned ctx c x y z h]
  exact moveLoop_not_zoned passes c h

/-- Before the client is fully zoned in, `Face` still assigns the heading. -/
theorem Face_not_zoned (ctx : MoveCtx) (c : Client) (x y z : ℚ)
    (h : IsFullyZonedIn c.eq = false) :
    Face ctx c x y z =
      { c with eq := { c.eq with m_heading := CalculateHeading ctx c.eq.m_x c.eq.m_y x y } } := by
  unfold Face
  simp only []
  rw [SendPositionUpdate_not_zoned
    { c.eq with m_heading := CalculateHeading ctx c.eq.m_x c.eq.m_y x y } h]

/-- The call `Follow` of a known entity without a pathfinder stores the name. -/
theorem Follow_no_pathfinder (ctx : MoveCtx) (c : Client) (name : List Nat) (e : Entity)
    (hf : FindEntityByName c.eq name = some e) (hp : c.mv.m_pathfinder = none) :
    Follow ctx c name = { c with mv := { c.mv with m_follow_target := e.name } } := by
  unfold Follow
  rw [hf]
  simp [hp]

/-- The call `Follow` never queues a packet. -/
theorem Follow_queue (ctx : MoveCtx) (c : Client) (name : List Nat) :
    (Follow ctx c name).eq.zone_queue = c.eq.zone_queue := by
  unfold Follow
  split
  · rfl
  · simp only []
    split
    · split
      · split
        · show (FindPath _ _ _).1.eq.zone_queue = _
          rw [FindPath_eq]
        · show (FindPath _ _ _).1.eq.zone_queue = _
          rw [FindPath_eq]
      · rfl
    · rfl

theorem exampleNotZoned_finds_rat :
    FindEntityByName exampleNotZoned.eq [97, 95, 114, 97, 116] = some exampleEntity := by
  apply FindEntityByName_first _ _ 7 exampleEntity (by norm_num) rfl (by decide)
  intro j e2 hj hm
  have hmap : exampleNotZoned.eq.m_entities = mapInsert (fun _ => none) 7 exampleEntity := rfl
  rw [hmap] at hm
  unfold mapInsert at hm
  rw [if_neg (by omega)] at hm
  cases hm

theorem exampleNotZoned_heading :
    CalculateHeading exampleMoveCtx exampleNotZoned.eq.m_x exampleNotZoned.eq.m_y
      (-1224.5) 2345.25 = 90 := by
  have hx : exampleNotZoned.eq.m_x = -1234.5 := rfl
  have hy : exampleNotZoned.eq.m_y = 2345.25 := rfl
  rw [hx, hy]
  unfold CalculateHeading exampleMoveCtx
  norm_num

/-- C24. Before the client is fully zoned in, `Move` leaves the client as it
is, and neither `Face` nor `Follow` queues a packet; but `Face` and `Follow`
lack the guard of `MoveToWithPath`: on the example client, not yet fully zoned
in, `Face` toward the point ten units East turns the heading from 135 to 90,
and `Follow` of the known entity a_rat sets the follow name. -/
theorem C24_face_and_follow_act_before_zone_in :
    IsFullyZonedIn exampleNotZoned.eq = false ∧
    exampleNotZoned.eq.m_heading = 135 ∧
    (Face exampleMoveCtx exampleNotZoned (-1224.5) 2345.25 (-8)).eq.m_heading = 90 ∧
    exampleNotZoned.mv.m_follow_target = [] ∧
    (Follow exampleMoveCtx exampleNotZoned [97, 95, 114, 97, 116]).mv.m_follow_target =
      [97, 95, 114, 97, 116] ∧
    (∀ ctx passes c x y z, IsFullyZonedIn c.eq = false →
      Move ctx passes c x y z = c ∧
      (Face ctx c x y z).eq.zone_queue = c.eq.zone_queue) ∧
    (∀ ctx c name, (Follow ctx c name).eq.zone_queue = c.eq.zone_queue) := by
  have hz : IsFullyZonedIn exampleNotZoned.eq = false := rfl
  refine ⟨hz, rfl, ?_, rfl, ?_, ?_, Follow_queue⟩
  · rw [Face_not_zoned _ _ _ _ _ hz]
    exact exampleNotZoned_heading
  · rw [Follow_no_pathfinder _ _ _ _ exampleNotZoned_finds_rat rfl]
    rfl
  · intro ctx passes c x y z h
    refine ⟨Move_not_zoned ctx passes c x y z h, ?_⟩
    rw [Face_not_zoned _ _ _ _ _ h]

theorem StopFollow_standing (c : Client) (hm : c.eq.m_is_moving = false) :
    StopFollow c = { c with mv := { c.mv with m_follow_target := [] } } := by
  unfold StopFollow StopMovement
  by_cases hf : c.mv.m_follow_target = []
  · simp only [hf, ne_eq, not_true_eq_false, if_false, hm]
    simp only [Bool.false_eq_true, if_false]
    cases c with
    | mk eq mv =>
      cases mv
      simp only at hf
      subst hf
      rfl
  · simp only [ne_eq, hf, not_false_eq_true, if_true, hm]
    simp only [Bool.false_eq_true, if_false]

theorem StopFollow_moving (c : Client) (hm : c.eq.m_is_moving = true) :
    StopFollow c =
      { eq := SendPositionUpdate { c.eq with m_is_moving := false, m_animation := ANIM_STAND },
        mv := { c.mv with m_follow_target := [], m_current_path := [],
                          m_current_path_index := 0 } } := by
  unfold StopFollow StopMovement
  by_cases hf : c.mv.m_follow_target = []
  · simp only [hf, ne_eq, not_true_eq_false, if_false, hm, if_true]
  · simp only [ne_eq, hf, not_false_eq_true, if_true, hm]

/-- C25. After `StopFollow` on a client that is fully zoned in with a non-zero
own id, the follow name is empty and `m_is_moving` is false. If the client was
moving, the waypoint path is empty as well, the animation is stand, and
exactly one packet, a position update, has been added to the queue. If it was
not moving, nothing is queued, and the path and the animation are left as
they were. -/
theorem C25_stop_follow (c : Client) (hz : IsFullyZonedIn c.eq = true)
    (hid : c.eq.m_my_character_id ≠ 0) :
    (StopFollow c).mv.m_follow_target = [] ∧
    (StopFollow c).eq.m_is_moving = false ∧
    (c.eq.m_is_moving = true →
      (StopFollow c).mv.m_current_path = [] ∧
      (StopFollow c).eq.m_animation = ANIM_STAND ∧
      ∃ q, (StopFollow c).eq.zone_queue = c.eq.zone_queue ++ [q] ∧
        q.opcode = some HC_OP_ClientUpdate) ∧
    (c.eq.m_is_moving = false →
      (StopFollow c).eq = c.eq ∧
      (StopFollow c).mv.m_current_path = c.mv.m_current_path ∧
      (StopFollow c).mv.m_current_path_index = c.mv.m_current_path_index) := by
  cases hm : c.eq.m_is_moving with
  | false =>
    rw [StopFollow_standing c hm]
    exact ⟨rfl, hm, (fun h => by cases h), (fun _ => ⟨rfl, rfl, rfl⟩)⟩
  | true =>
    rw [StopFollow_moving c hm]
    have hq := SendPositionUpdate_queues
      { c.eq with m_is_moving := false, m_animation := ANIM_STAND } hz hid
    refine ⟨rfl, ?_, (fun _ => ⟨rfl, ?_, ?_⟩), (fun h => by cases h)⟩
    · show (SendPositionUpdate _).m_is_moving = false
      rw [hq]
    · show (SendPositionUpdate _).m_animation = ANIM_STAND
      rw [hq]
    · have hq2 := congrArg EverQuest.zone_queue hq
      exact ⟨_, hq2, opcode_u16le _ _ (by decide)⟩

theorem exampleWalker_zoned : IsFullyZonedIn exampleWalker.eq = true := rfl

theorem exampleWalker_id : exampleWalker.eq.m_my_character_id ≠ 0 := by
  show (42 : Nat) ≠ 0
  decide

theorem C25_stop_follow_witness :
    IsFullyZonedIn exampleWalker.eq = true ∧ exampleWalker.eq.m_my_character_id ≠ 0 ∧
    exampleWalker.eq.m_is_moving = true ∧
    (StopFollow exampleWalker).mv.m_follow_target = [] ∧
    (StopFollow exampleWalker).eq.m_is_moving = false ∧
    (StopFollow exampleWalker).mv.m_current_path = [] ∧
    (StopFollow exampleWalker).eq.m_animation = ANIM_STAND ∧
    ∃ q, (StopFollow exampleWalker).eq.zone_queue = exampleWalker.eq.zone_queue ++ [q] ∧
      q.opcode = some HC_OP_ClientUpdate :=
  ⟨exampleWalker_zoned, exampleWalker_id, rfl,
    (C25_stop_follow exampleWalker exampleWalker_zoned exampleWalker_id).1,
    (C25_stop_follow exampleWalker exampleWalker_zoned exampleWalker_id).2.1,
    ((C25_stop_follow exampleWalker exampleWalker_zoned exampleWalker_id).2.2.1 rfl).1,
    ((C25_stop_follow exampleWalker exampleWalker_zoned exampleWalker_id).2.2.1 rfl).2.1,
    ((C25_stop_follow exampleWalker exampleWalker_zoned exampleWalker_id).2.2.1 rfl).2.2⟩

/-- C25, counterexample. The example client stands, fully zoned in with own id
42, with the two-point path left by a `MoveToWithPath` to a point half a unit
away: `StopFollow` queues no position update and leaves the path in place. -/
theorem C25_counterexample :
    IsFullyZonedIn exampleStanding.eq = true ∧ exampleStanding.eq.m_my_character_id = 42 ∧
    (StopFollow exampleStanding).eq.zone_queue = exampleStanding.eq.zone_queue ∧
    (StopFollow exampleStanding).mv.m_current_path.length = 2 := by
  rw [StopFollow_standing exampleStanding rfl]
  exact ⟨rfl, rfl, rfl, rfl⟩

theorem zeros_append (a b : Nat) : zeros a ++ zeros b = zeros (a + b) := by
  unfold zeros
  rw [List.replicate_add]

theorem zeros_succ (k : Nat) : zeros (k + 1) = 0 :: zeros k := rfl

theorem bytes_of_lt (l : List Nat) (h : ∀ b ∈ l, b < 256) : bytes l = l := by
  unfold bytes
  have : l.map (fun b => b % 256) = l.map id :=
    List.map_congr_left (fun b hb => Nat.mod_eq_of_lt (h b hb))
  rw [this, List.map_id]

theorem bytes_length (l : List Nat) : (bytes l).length = l.length := by
  unfold bytes
  rw [List.length_map]

/-- A `memcpy` into a zeroed stretch of a buffer replaces that stretch. -/
theorem writeAt_splice (pre post src : List Nat) (k off : Nat) (buf : List Nat)
    (hbuf : buf = pre ++ (zeros k ++ post)) (hoff : pre.length = off)
    (hk : src.length = k) : writeAt buf off src = pre ++ (src ++ post) := by
  subst hbuf hoff hk
  unfold writeAt
  rw [List.take_left, List.drop_append, List.drop_left' (zeros_length _), List.append_assoc]

theorem GetUInt8_at (pre rest : List Nat) (b off : Nat) (hoff : pre.length = off) :
    GetUInt8 (pre ++ b :: rest) off = some (b % 256) := by
  subst hoff
  unfold GetUInt8
  rw [List.getElem?_append_right (le_refl _), Nat.sub_self, List.getElem?_cons_zero]

/-- Reading back a `uint32_t` written at an offset. -/
theorem GetUInt32_at (pre rest : List Nat) (v off : Nat) (hoff : pre.length = off)
    (hv : v < 2 ^ 32) : GetUInt32 (pre ++ (u32le v ++ rest)) off = some v := by
  have h0 := GetUInt8_at pre ([v / 256 % 256, v / 65536 % 256, v / 16777216 % 256] ++ rest)
    (v % 256) off hoff
  have h1 := GetUInt8_at (pre ++ [v % 256]) ([v / 65536 % 256, v / 16777216 % 256] ++ rest)
    (v / 256 % 256) (off + 1) (by simp [hoff])
  have h2 := GetUInt8_at (pre ++ [v % 256, v / 256 % 256]) ([v / 16777216 % 256] ++ rest)
    (v / 65536 % 256) (off + 2) (by simp [hoff])
  have h3 := GetUInt8_at (pre ++ [v % 256, v / 256 % 256, v / 65536 % 256]) rest
    (v / 16777216 % 256) (off + 3) (by simp [hoff])
  simp only [List.append_assoc, List.cons_append, List.nil_append, List.singleton_append]
    at h0 h1 h2 h3
  unfold GetUInt32
  simp only [u32le, List.cons_append, List.nil_append]
  rw [h0, h1, h2, h3]
  simp only [Option.some.injEq]
  norm_num at hv
  omega

/-- Reading back a string of non-zero bytes that is followed by a zero byte. -/
theorem GetCString_at (pre str rest : List Nat) (off : Nat) (hoff : pre.length = off)
    (hs : NoNul str) : GetCString (pre ++ (str ++ 0 :: rest)) off = str := by
  subst hoff
  unfold GetCString
  rw [List.drop_left, List.map_append]
  have hb : str.map (fun b => b % 256) = str := bytes_of_lt str (fun b hb => (hs b hb).2)
  rw [hb, List.takeWhile_append_of_pos]
  · simp
  · intro a ha
    have := (hs a ha).1
    simp
    omega

/-- The checked read of a string of non-zero bytes that is followed by a zero
byte succeeds. -/
theorem GetCStringChecked_at (pre str rest : List Nat) (off : Nat) (hoff : pre.length = off)
    (hs : NoNul str) : GetCStringChecked (pre ++ (str ++ 0 :: rest)) off = some str := by
  unfold GetCStringChecked
  rw [GetCString_at pre str rest off hoff hs]
  subst hoff
  rw [List.drop_left, if_pos]
  simp

/-- The packet of `ZoneSendChannelMessage`, field by field, when target and
character name fit their fields. -/
theorem channelMessagePacket_eq (character message target : List Nat) (channel : Nat)
    (ht : target.length ≤ 63) (hc : character.length ≤ 63)
    (hbt : ∀ b ∈ target, b < 256) (hbc : ∀ b ∈ character, b < 256)
    (hbm : ∀ b ∈ message, b < 256) :
    channelMessagePacket character message channel target =
      u16le HC_OP_ChannelMessage ++ (target ++ (zeros (64 - target.length) ++
        (character ++ (zeros (64 - character.length) ++ (u32le 0 ++ (u32le channel ++
          (zeros 8 ++ (u32le 100 ++ (message ++ zeros 1))))))))) := by
  have hz : zeros (150 + message.length + 1) =
      zeros 2 ++ (zeros target.length ++ (zeros (64 - target.length) ++
        (zeros character.length ++ (zeros (64 - character.length) ++ (zeros 4 ++ (zeros 4 ++
          (zeros 8 ++ (zeros 4 ++ (zeros message.length ++ zeros 1))))))))) := by
    simp only [zeros_append]
    congr 1
    omega
  have e0 := writeAt_splice [] _ (u16le HC_OP_ChannelMessage) 2 0 _ hz rfl rfl
  have e1 : (if target ≠ [] then
        writeAt (writeAt (zeros (150 + message.length + 1)) 0 (u16le HC_OP_ChannelMessage)) 2
          ((bytes target).take (if target.length > 63 then 63 else target.length))
      else writeAt (zeros (150 + message.length + 1)) 0 (u16le HC_OP_ChannelMessage)) =
      u16le HC_OP_ChannelMessage ++ (target ++ (zeros (64 - target.length) ++
        (zeros character.length ++ (zeros (64 - character.length) ++ (zeros 4 ++ (zeros 4 ++
          (zeros 8 ++ (zeros 4 ++ (zeros message.length ++ zeros 1))))))))) := by
    rw [e0]
    by_cases hte : target = []
    · subst hte
      simp [zeros]
    · rw [if_pos hte, if_neg (by omega), bytes_of_lt target hbt,
        List.take_of_length_le (le_refl _)]
      exact writeAt_splice _ _ target target.length 2 _ (by simp only [List.nil_append])
        rfl rfl
  have e2 := writeAt_splice
    (u16le HC_OP_ChannelMessage ++ (target ++ zeros (64 - target.length)))
    (zeros (64 - character.length) ++ (zeros 4 ++ (zeros 4 ++
      (zeros 8 ++ (zeros 4 ++ (zeros message.length ++ zeros 1))))))
    character character.length 66 _ (e1.trans (by simp only [List.append_assoc]))
    (by simp [u16le, zeros_length]; omega) rfl
  have e3 := writeAt_splice
    (u16le HC_OP_ChannelMessage ++ (target ++ (zeros (64 - target.length) ++
      (character ++ zeros (64 - character.length)))))
    (zeros 4 ++ (zeros 8 ++ (zeros 4 ++ (zeros message.length ++ zeros 1))))
    (u32le 0) 4 130 _ (e2.trans (by simp only [List.append_assoc]))
    (by simp [u16le, zeros_length]; omega) rfl
  have e4 := writeAt_splice
    (u16le HC_OP_ChannelMessage ++ (target ++ (zeros (64 - target.length) ++
      (character ++ (zeros (64 - character.length) ++ u32le 0)))))
    (zeros 8 ++ (zeros 4 ++ (zeros message.length ++ zeros 1)))
    (u32le channel) 4 134 _ (e3.trans (by simp only [List.append_assoc]))
    (by simp [u16le, u32le, zeros_length]; omega) rfl
  have e5 := writeAt_splice
    (u16le HC_OP_ChannelMessage ++ (target ++ (zeros (64 - target.length) ++
      (character ++ (zeros (64 - character.length) ++ (u32le 0 ++ (u32le channel ++
        zeros 8)))))))
    (zeros message.length ++ zeros 1)
    (u32le 100) 4 146 _ (e4.trans (by simp only [List.append_assoc]))
    (by simp [u16le, u32le, zeros_length]; omega) rfl
  have e6 := writeAt_splice
    (u16le HC_OP_ChannelMessage ++ (target ++ (zeros (64 - target.length) ++
      (character ++ (zeros (64 - character.length) ++ (u32le 0 ++ (u32le channel ++
        (zeros 8 ++ u32le 100))))))))
    (zeros 1)
    message message.length 150 _ (e5.trans (by simp only [List.append_assoc]))
    (by simp [u16le, u32le, zeros_length]; omega) rfl
  unfold channelMessagePacket
  simp only []
  rw [if_neg (show ¬ character.length > 63 by omega), bytes_of_lt character hbc,
    List.take_of_length_le (le_refl _), bytes_of_lt message hbm]
  rw [e6]
  simp only [List.append_assoc]

/-- C26. For every message, target and character name without NUL bytes, the
names of at most 63 bytes, and every channel tag, `ZoneSendChannelMessage`
queues one packet with opcode `0x1004` and length `151 + |message|`, from which
`ZoneProcessChannelMessage` reads the target at offset 2, the character name
as sender at 66, language 0 at 130, the channel tag at 134, skill 100 at 146
and the message at 150. -/
theorem C26_channel_message_round_trip (s : EverQuest) (message target : List Nat)
    (channel : Nat) (hm : NoNul message) (ht : NoNul target) (hc : NoNul s.m_character)
    (htl : target.length ≤ 63) (hcl : s.m_character.length ≤ 63) (hch : channel < 2 ^ 32) :
    ∃ p, (ZoneSendChannelMessage s message channel target).zone_queue =
        s.zone_queue ++ [{ data := p, stream := 0, reliable := true }] ∧
      GetUInt16 p 0 = some HC_OP_ChannelMessage ∧
      Length p = 151 + message.length ∧
      ZoneProcessChannelMessage p =
        some { target := target, sender := s.m_character, language := 0, channel := channel,
               skill := 100, message := message } := by
  have hP := channelMessagePacket_eq s.m_character message target channel htl hcl
    (fun b hb => (ht b hb).2) (fun b hb => (hc b hb).2) (fun b hb => (hm b hb).2)
  have ezt : zeros (64 - target.length) = 0 :: zeros (63 - target.length) := by
    rw [← zeros_succ]
    congr 1
    omega
  have ezc : zeros (64 - s.m_character.length) = 0 :: zeros (63 - s.m_character.length) := by
    rw [← zeros_succ]
    congr 1
    omega
  have hlen : Length (channelMessagePacket s.m_character message channel target) =
      151 + message.length := by
    rw [hP]
    simp only [Length, List.length_append, zeros_length, u16le, u32le, List.length_cons,
      List.length_nil]
    omega
  have h2 : GetCStringChecked (channelMessagePacket s.m_character message channel target) 2 =
      some target := by
    rw [hP, ezt]
    exact GetCStringChecked_at _ _ _ 2 rfl ht
  have h66 : GetCStringChecked (channelMessagePacket s.m_character message channel target)
      66 = some s.m_character := by
    rw [hP, ezc]
    have := GetCStringChecked_at (u16le HC_OP_ChannelMessage ++ (target ++ zeros (64 - target.length)))
      s.m_character (zeros (63 - s.m_character.length) ++ (u32le 0 ++ (u32le channel ++
        (zeros 8 ++ (u32le 100 ++ (message ++ zeros 1)))))) 66
      (by simp [u16le, zeros_length]; omega) hc
    simp only [List.append_assoc, List.cons_append] at this
    exact this
  have h130 : GetUInt32 (channelMessagePacket s.m_character message channel target) 130 =
      some 0 := by
    rw [hP]
    have := GetUInt32_at (u16le HC_OP_ChannelMessage ++ (target ++ (zeros (64 - target.length) ++
      (s.m_character ++ zeros (64 - s.m_character.length)))))
      (u32le channel ++ (zeros 8 ++ (u32le 100 ++ (message ++ zeros 1)))) 0 130
      (by simp [u16le, zeros_length]; omega) (by norm_num)
    simp only [List.append_assoc] at this
    exact this
  have h134 : GetUInt32 (channelMessagePacket s.m_character message channel target) 134 =
      some channel := by
    rw [hP]
    have := GetUInt32_at (u16le HC_OP_ChannelMessage ++ (target ++ (zeros (64 - target.length) ++
      (s.m_character ++ (zeros (64 - s.m_character.length) ++ u32le 0)))))
      (zeros 8 ++ (u32le 100 ++ (message ++ zeros 1))) channel 134
      (by simp [u16le, u32le, zeros_length]; omega) hch
    simp only [List.append_assoc] at this
    exact this
  have h146 : GetUInt32 (channelMessagePacket s.m_character message channel target) 146 =
      some 100 := by
    rw [hP]
    have := GetUInt32_at (u16le HC_OP_ChannelMessage ++ (target ++ (zeros (64 - target.length) ++
      (s.m_character ++ (zeros (64 - s.m_character.length) ++ (u32le 0 ++ (u32le channel ++
        zeros 8)))))))
      (message ++ zeros 1) 100 146
      (by simp [u16le, u32le, zeros_length]; omega) (by norm_num)
    simp only [List.append_assoc] at this
    exact this
  have h150 : GetCStringChecked (channelMessagePacket s.m_character message channel target)
      150 = some message := by
    rw [hP]
    have := GetCStringChecked_at (u16le HC_OP_ChannelMessage ++ (target ++ (zeros (64 - target.length) ++
      (s.m_character ++ (zeros (64 - s.m_character.length) ++ (u32le 0 ++ (u32le channel ++
        (zeros 8 ++ u32le 100))))))))
      message [] 150
      (by simp [u16le, u32le, zeros_length]; omega) hm
    simp only [List.append_assoc] at this
    exact this
  refine ⟨channelMessagePacket s.m_character message channel target, rfl, ?_, hlen, ?_⟩
  · rw [hP]
    exact opcode_u16le _ _ (by decide)
  · unfold ZoneProcessChannelMessage
    rw [if_neg (by rw [hlen]; omega)]
    simp only [h2, h66, h130, h134, h146, h150]

theorem C26_channel_message_round_trip_witness :
    NoNul [104, 105] ∧ NoNul [66, 111] ∧ NoNul exampleZonedIn.m_character ∧
    ∃ p, (ZoneSendChannelMessage exampleZonedIn [104, 105] CHAT_CHANNEL_TELL
          [66, 111]).zone_queue =
        exampleZonedIn.zone_queue ++ [{ data := p, stream := 0, reliable := true }] ∧
      GetUInt16 p 0 = some HC_OP_ChannelMessage ∧
      Length p = 151 + 2 ∧
      ZoneProcessChannelMessage p =
        some { target := [66, 111], sender := [72, 99], language := 0,
               channel := 7, skill := 100, message := [104, 105] } :=
  ⟨by unfold NoNul; decide, by unfold NoNul; decide,
    by show NoNul [72, 99]; unfold NoNul; decide,
    C26_channel_message_round_trip exampleZonedIn [104, 105] [66, 111] CHAT_CHANNEL_TELL
      (by unfold NoNul; decide) (by unfold NoNul; decide)
      (by show NoNul [72, 99]; unfold NoNul; decide)
      (by decide) (by decide) (by decide)⟩

theorem zeroByteField (k : Nat) : [0] ++ zeros k = zeros (k + 1) := rfl

/-- The packet of `WorldSendEnterWorld`, field by field. -/
theorem enterWorldPacket_eq (n : List Nat) (hb : ∀ b ∈ n, b < 256) :
    enterWorldPacket n =
      u16le HC_OP_EnterWorld ++ (n.take (min n.length 63) ++
        (zeros (64 - min n.length 63) ++ (u32le 0 ++ u32le 0))) := by
  have hmin : (if n.length > 63 then 63 else n.length) = min n.length 63 := by
    split_ifs <;> omega
  have hl : (n.take (min n.length 63)).length = min n.length 63 := by
    rw [List.length_take]
    omega
  have hz : zeros 74 =
      zeros 2 ++ (zeros (min n.length 63) ++ (zeros 1 ++ (zeros (63 - min n.length 63) ++
        (zeros 4 ++ zeros 4)))) := by
    simp only [zeros_append]
    congr 1
    omega
  have e0 := writeAt_splice [] _ (u16le HC_OP_EnterWorld) 2 0 _ hz rfl rfl
  have e1 := writeAt_splice (u16le HC_OP_EnterWorld)
    (zeros 1 ++ (zeros (63 - min n.length 63) ++ (zeros 4 ++ zeros 4)))
    (n.take (min n.length 63)) (min n.length 63) 2 _
    (e0.trans (by simp only [List.nil_append])) rfl hl
  have e2 := writeAt_splice (u16le HC_OP_EnterWorld ++ n.take (min n.length 63))
    (zeros (63 - min n.length 63) ++ (zeros 4 ++ zeros 4))
    [0] 1 (2 + min n.length 63) _
    (e1.trans (by simp only [List.append_assoc]))
    (by simp only [List.length_append, hl, u16le, List.length_cons, List.length_nil]) rfl
  have e3 := writeAt_splice (u16le HC_OP_EnterWorld ++ (n.take (min n.length 63) ++ [0]))
    (zeros 4 ++ zeros 4)
    (zeros (66 - (2 + min n.length 63 + 1))) (63 - min n.length 63) (2 + min n.length 63 + 1) _
    (e2.trans (by simp only [List.append_assoc]))
    (by simp only [List.length_append, hl, u16le, List.length_cons, List.length_nil]; omega)
    (by rw [zeros_length]; omega)
  have e4 := writeAt_splice (u16le HC_OP_EnterWorld ++ (n.take (min n.length 63) ++ ([0] ++
      zeros (66 - (2 + min n.length 63 + 1)))))
    (zeros 4) (u32le 0) 4 66 _
    (e3.trans (by simp only [List.append_assoc]))
    (by simp only [List.length_append, hl, u16le, List.length_cons, List.length_nil,
      zeros_length]; omega) rfl
  have e5 := writeAt_splice (u16le HC_OP_EnterWorld ++ (n.take (min n.length 63) ++ ([0] ++
      (zeros (66 - (2 + min n.length 63 + 1)) ++ u32le 0))))
    [] (u32le 0) 4 70 _
    (e4.trans (by simp only [List.append_assoc, List.append_nil]))
    (by simp only [List.length_append, hl, u16le, u32le, List.length_cons, List.length_nil,
      zeros_length]; omega) rfl
  unfold enterWorldPacket
  simp only []
  rw [hmin, bytes_of_lt n hb, e5]
  have hzz : ∀ rest : List Nat, [0] ++ (zeros (66 - (2 + min n.length 63 + 1)) ++ rest) =
      zeros (64 - min n.length 63) ++ rest := by
    intro rest
    rw [← List.append_assoc, zeroByteField]
    congr 2
    omega
  simp only [List.append_assoc, List.append_nil]
  rw [hzz]

/-- The packet of `ZoneSendZoneEntry`, field by field. -/
theorem ZoneSendZoneEntry_queue (s : EverQuest) (hb : ∀ b ∈ s.m_character, b < 256) :
    (ZoneSendZoneEntry s).zone_queue = s.zone_queue ++
      [{ data := u16le HC_OP_ZoneEntry ++ (u32le 0xFFF67726 ++
          (s.m_character.take (min s.m_character.length 63) ++
            zeros (64 - min s.m_character.length 63))),
         stream := 0, reliable := true }] := by
  have hm : (s.m_character.take (min s.m_character.length 63)).map (fun b => b % 256) =
      s.m_character.take (min s.m_character.length 63) :=
    bytes_of_lt _ (fun b hb2 => hb b (List.mem_of_mem_take hb2))
  unfold ZoneSendZoneEntry QueuePacket
  simp only [hm, List.append_assoc]
  rfl

theorem nameField_length (n : List Nat) : (nameField n).length = 64 := by
  unfold nameField
  rw [List.length_append, List.length_take, zeros_length]
  omega

/-- C27. For every character name `n` (a list of bytes), `WorldSendEnterWorld`
queues a 74-byte packet whose bytes 2 to 65, and `ZoneSendZoneEntry` a 70-byte
packet whose bytes 6 to 69, are the first `min |n| 63` bytes of `n` followed
by zero bytes only. A name of 63 bytes is there in full, followed by one zero;
a name of 64 bytes is there without its last byte. When `n` has no NUL byte,
the C string at the field's offset is the first 63 bytes of `n`. -/
theorem C27_name_field (w : WorldClient) (s : EverQuest) (n : List Nat)
    (hb : ∀ b ∈ n, b < 256) (hs : s.m_character = n) :
    (∃ p, (WorldSendEnterWorld w n).session.world_queue = w.session.world_queue ++ [p] ∧
      Length p = 74 ∧ (p.drop 2).take 64 = nameField n ∧
      (NoNul n → GetCString p 2 = n.take 63)) ∧
    (∃ q, (ZoneSendZoneEntry s).zone_queue = s.zone_queue ++ [q] ∧
      Length q.data = 70 ∧ (q.data.drop 6).take 64 = nameField n ∧
      (NoNul n → GetCString q.data 6 = n.take 63)) ∧
    (n.length = 63 → nameField n = n ++ [0]) ∧
    (n.length = 64 → nameField n = n.dropLast ++ [0]) := by
  have hnf : nameField n = n.take (min n.length 63) ++ zeros (64 - min n.length 63) := rfl
  have hl : (n.take (min n.length 63)).length = min n.length 63 := by
    rw [List.length_take]
    omega
  have ez : zeros (64 - min n.length 63) = 0 :: zeros (63 - min n.length 63) := by
    rw [← zeros_succ]
    congr 1
    omega
  have htake : NoNul n → n.take (min n.length 63) = n.take 63 ∧
      NoNul (n.take (min n.length 63)) := by
    intro hn
    refine ⟨?_, fun b hb2 => hn b (List.mem_of_mem_take hb2)⟩
    by_cases h : n.length ≤ 63
    · rw [min_eq_left h, List.take_of_length_le (le_refl _), List.take_of_length_le h]
    · rw [min_eq_right (by omega)]
  refine ⟨⟨enterWorldPacket n, rfl, ?_, ?_, ?_⟩,
    ⟨Queued.mk (u16le HC_OP_ZoneEntry ++ (u32le 0xFFF67726 ++
      (n.take (min n.length 63) ++ zeros (64 - min n.length 63)))) 0 true, ?_, ?_, ?_, ?_⟩,
    ?_, ?_⟩
  · rw [enterWorldPacket_eq n hb]
    simp only [Length, List.length_append, hl, zeros_length, u16le, u32le, List.length_cons,
      List.length_nil]
    omega
  · rw [enterWorldPacket_eq n hb, List.drop_left' (by rfl), ← List.append_assoc, ← hnf,
      List.take_left' (nameField_length n)]
  · intro hn
    rw [enterWorldPacket_eq n hb, ez, ← (htake hn).1]
    exact GetCString_at _ _ _ 2 rfl (htake hn).2
  · rw [ZoneSendZoneEntry_queue s (by rw [hs]; exact hb), hs]
  · simp only [Length, List.length_append, hl, zeros_length, u16le, u32le, List.length_cons,
      List.length_nil]
    omega
  · simp only []
    rw [← List.append_assoc (u16le HC_OP_ZoneEntry), List.drop_left' (by rfl), ← hnf,
      List.take_of_length_le (le_of_eq (nameField_length n))]
  · intro hn
    simp only []
    rw [ez, ← (htake hn).1, ← List.append_assoc (u16le HC_OP_ZoneEntry)]
    exact GetCString_at _ _ _ 6 rfl (htake hn).2
  · intro h
    rw [hnf, h]
    simp only [min_self, Nat.sub_self]
    rw [List.take_of_length_le (le_of_eq h)]
    rfl
  · intro h
    rw [hnf, h, List.dropLast_eq_take, h]
    rfl

theorem exampleName63_bytes : ∀ b ∈ exampleName63, b < 256 := by
  intro b hb
  rw [exampleName63, List.mem_replicate] at hb
  omega

theorem exampleName64_bytes : ∀ b ∈ exampleName64, b < 256 := by
  intro b hb
  rw [exampleName64, List.mem_append, List.mem_replicate, List.mem_singleton] at hb
  omega

theorem C27_name_field_witness :
    (∀ b ∈ exampleName64, b < 256) ∧ exampleName64.length = 64 ∧
    (∀ b ∈ exampleName63, b < 256) ∧ exampleName63.length = 63 ∧
    nameField exampleName64 = List.replicate 63 65 ++ [0] ∧
    nameField exampleName63 = exampleName63 ++ [0] ∧
    (∃ q, (ZoneSendZoneEntry { exampleZonedIn with m_character := exampleName64 }).zone_queue =
        exampleZonedIn.zone_queue ++ [q] ∧
      Length q.data = 70 ∧ (q.data.drop 6).take 64 = nameField exampleName64 ∧
      (NoNul exampleName64 → GetCString q.data 6 = exampleName64.take 63)) :=
  have h64 : exampleName64.length = 64 := by
    simp [exampleName64]
  have h63 : exampleName63.length = 63 := by
    simp [exampleName63]
  ⟨exampleName64_bytes, h64, exampleName63_bytes, h63,
    ((C27_name_field { session := exampleLogin, m_enter_world_sent := false }
      { exampleZonedIn with m_character := exampleName64 } exampleName64
      exampleName64_bytes rfl).2.2.2 h64).trans
      (by simp [exampleName64, List.dropLast_append_of_ne_nil]),
    (C27_name_field { session := exampleLogin, m_enter_world_sent := false }
      { exampleZonedIn with m_character := exampleName63 } exampleName63
      exampleName63_bytes rfl).2.2.1 h63,
    (C27_name_field { session := exampleLogin, m_enter_world_sent := false }
      { exampleZonedIn with m_character := exampleName64 } exampleName64
      exampleName64_bytes rfl).2.1⟩

theorem GetBestZ_valid (c : Client) (map : HCMap) (x y z b : ℚ)
    (hmap : c.mv.m_zone_map = some map)
    (hb : map.FindBestZ { x := x, y := y, z := z } = b) (hv : b ≠ BEST_Z_INVALID) :
    GetBestZ c x y z = b := by
  unfold GetBestZ
  rw [hmap]
  simp only [hb, if_neg hv]

/-! ## Binary32 rounding -/

theorem roundHalfEven_cases (r : ℚ) :
    roundHalfEven r = ⌊r⌋ ∧ r - ⌊r⌋ ≤ 1 / 2 ∨
    roundHalfEven r = ⌊r⌋ + 1 ∧ 1 / 2 ≤ r - ⌊r⌋ := by
  unfold roundHalfEven
  by_cases h1 : r - ⌊r⌋ < 1 / 2
  · rw [if_pos h1]
    exact Or.inl ⟨rfl, le_of_lt h1⟩
  · rw [if_neg h1]
    by_cases h2 : 1 / 2 < r - ⌊r⌋
    · rw [if_pos h2]
      exact Or.inr ⟨rfl, le_of_lt h2⟩
    · rw [if_neg h2]
      by_cases h3 : ⌊r⌋ % 2 = 0
      · rw [if_pos h3]
        exact Or.inl ⟨rfl, not_lt.1 h2⟩
      · rw [if_neg h3]
        exact Or.inr ⟨rfl, not_lt.1 h1⟩

/-- The rounded integer is within one half of the rational. -/
theorem roundHalfEven_err (r : ℚ) : |(roundHalfEven r : ℚ) - r| ≤ 1 / 2 := by
  have h1 := Int.floor_le r
  have h2 := Int.lt_floor_add_one r
  rw [abs_le]
  rcases roundHalfEven_cases r with ⟨h, hb⟩ | ⟨h, hb⟩
  · rw [h]
    constructor <;> linarith
  · rw [h]
    push_cast
    constructor <;> linarith

/-- Rounding does not cross an integer: from below. -/
theorem roundHalfEven_le (r : ℚ) (m : ℤ) (h : r ≤ m) : roundHalfEven r ≤ m := by
  have h1 := Int.floor_le r
  rcases roundHalfEven_cases r with ⟨hr, hb⟩ | ⟨hr, hb⟩
  · rw [hr]
    exact_mod_cast le_trans h1 h
  · rw [hr]
    have : (⌊r⌋ : ℚ) < m := by linarith
    have : ⌊r⌋ < m := by exact_mod_cast this
    omega

/-- Rounding does not cross an integer: from above. -/
theorem roundHalfEven_ge (r : ℚ) (m : ℤ) (h : (m : ℚ) ≤ r) : m ≤ roundHalfEven r := by
  have h1 : m ≤ ⌊r⌋ := Int.le_floor.2 h
  rcases roundHalfEven_cases r with ⟨hr, -⟩ | ⟨hr, -⟩
  · rw [hr]; exact h1
  · rw [hr]; omega

theorem f32Round_zero : f32Round 0 = 0 := by
  unfold f32Round
  rw [if_pos rfl]

/-- The quantum of the rounding of a rational: `2 ^ (e - 23)` for a magnitude
in `[2 ^ e, 2 ^ (e + 1))`, at least `2 ^ -149`. -/
theorem f32Round_def (q : ℚ) (hq : q ≠ 0) :
    f32Round q = (roundHalfEven (q / (2 : ℚ) ^ (max (Int.log 2 |q|) (-126) - 23)) : ℚ) *
      (2 : ℚ) ^ (max (Int.log 2 |q|) (-126) - 23) := by
  unfold f32Round
  rw [if_neg hq]

/-- A multiple of the quantum below the rational is below its rounding. -/
theorem f32Round_ge (q : ℚ) (m : ℤ) (hq : q ≠ 0)
    (h : (m : ℚ) * (2 : ℚ) ^ (max (Int.log 2 |q|) (-126) - 23) ≤ q) :
    (m : ℚ) * (2 : ℚ) ^ (max (Int.log 2 |q|) (-126) - 23) ≤ f32Round q := by
  rw [f32Round_def q hq]
  have hQ : (0 : ℚ) < (2 : ℚ) ^ (max (Int.log 2 |q|) (-126) - 23) := zpow_pos (by norm_num) _
  have h1 : (m : ℚ) ≤ q / (2 : ℚ) ^ (max (Int.log 2 |q|) (-126) - 23) := by
    rw [le_div_iff₀ hQ]
    exact h
  have h2 := roundHalfEven_ge _ m h1
  have h3 : (m : ℚ) ≤ (roundHalfEven (q / (2 : ℚ) ^ (max (Int.log 2 |q|) (-126) - 23)) : ℚ) := by
    exact_mod_cast h2
  exact mul_le_mul_of_nonneg_right h3 (le_of_lt hQ)

/-- A multiple of the quantum above the rational is above its rounding. -/
theorem f32Round_le (q : ℚ) (m : ℤ) (hq : q ≠ 0)
    (h : q ≤ (m : ℚ) * (2 : ℚ) ^ (max (Int.log 2 |q|) (-126) - 23)) :
    f32Round q ≤ (m : ℚ) * (2 : ℚ) ^ (max (Int.log 2 |q|) (-126) - 23) := by
  rw [f32Round_def q hq]
  have hQ : (0 : ℚ) < (2 : ℚ) ^ (max (Int.log 2 |q|) (-126) - 23) := zpow_pos (by norm_num) _
  have h1 : q / (2 : ℚ) ^ (max (Int.log 2 |q|) (-126) - 23) ≤ (m : ℚ) := by
    rw [div_le_iff₀ hQ]
    exact h
  have h2 := roundHalfEven_le _ m h1
  have h3 : (roundHalfEven (q / (2 : ℚ) ^ (max (Int.log 2 |q|) (-126) - 23)) : ℚ) ≤ (m : ℚ) := by
    exact_mod_cast h2
  exact mul_le_mul_of_nonneg_right h3 (le_of_lt hQ)

/-- The rounding error is at most half a quantum. -/
theorem f32Round_half_quantum (q : ℚ) (hq : q ≠ 0) :
    |f32Round q - q| ≤ (2 : ℚ) ^ (max (Int.log 2 |q|) (-126) - 23) / 2 := by
  rw [f32Round_def q hq]
  have hQ : (0 : ℚ) < (2 : ℚ) ^ (max (Int.log 2 |q|) (-126) - 23) := zpow_pos (by norm_num) _
  have h := roundHalfEven_err (q / (2 : ℚ) ^ (max (Int.log 2 |q|) (-126) - 23))
  have e : (roundHalfEven (q / (2 : ℚ) ^ (max (Int.log 2 |q|) (-126) - 23)) : ℚ) *
      (2 : ℚ) ^ (max (Int.log 2 |q|) (-126) - 23) - q =
      ((roundHalfEven (q / (2 : ℚ) ^ (max (Int.log 2 |q|) (-126) - 23)) : ℚ) -
        q / (2 : ℚ) ^ (max (Int.log 2 |q|) (-126) - 23)) *
      (2 : ℚ) ^ (max (Int.log 2 |q|) (-126) - 23) := by
    field_simp
  rw [e, abs_mul, abs_of_pos hQ]
  calc _ ≤ 1 / 2 * (2 : ℚ) ^ (max (Int.log 2 |q|) (-126) - 23) :=
        mul_le_mul_of_nonneg_right h (le_of_lt hQ)
    _ = _ := by ring

/-- The rounding error of a binary32 operation: at most the fraction `2 ^ -24`
of the exact result, or `2 ^ -150` for a result below `2 ^ -126`. -/
theorem f32Round_err (q : ℚ) : |f32Round q - q| ≤ |q| / 2 ^ 24 + 1 / 2 ^ 150 := by
  by_cases hq : q = 0
  · rw [hq, f32Round_zero]
    norm_num
  have hpos : 0 < |q| := abs_pos.2 hq
  have h := f32Round_half_quantum q hq
  by_cases hl : -126 ≤ Int.log 2 |q|
  · rw [max_eq_left hl] at h
    have hz : (2 : ℚ) ^ (Int.log 2 |q|) ≤ |q| := by
      have := Int.zpow_log_le_self (b := 2) (r := |q|) (by norm_num) hpos
      exact_mod_cast this
    have e : (2 : ℚ) ^ (Int.log 2 |q| - 23) / 2 = (2 : ℚ) ^ (Int.log 2 |q|) / 2 ^ 24 := by
      rw [zpow_sub₀ (by norm_num)]
      norm_num
      ring
    rw [e] at h
    have : (2 : ℚ) ^ (Int.log 2 |q|) / 2 ^ 24 ≤ |q| / 2 ^ 24 :=
      div_le_div_of_nonneg_right hz (by norm_num)
    have : (0 : ℚ) ≤ 1 / 2 ^ 150 := by positivity
    linarith
  · rw [max_eq_right (le_of_lt (not_le.1 hl))] at h
    have e : (2 : ℚ) ^ ((-126 : ℤ) - 23) / 2 = 1 / 2 ^ 150 := by
      rw [show ((-126 : ℤ) - 23) = -149 by norm_num, zpow_neg]
      norm_num
    rw [e] at h
    have : (0 : ℚ) ≤ |q| / 2 ^ 24 := by positivity
    linarith

theorem pow_quantum (E : ℤ) (k : ℤ) (hk : E - 23 ≤ k) :
    (((2 : ℤ) ^ (k - (E - 23)).toNat : ℤ) : ℚ) * (2 : ℚ) ^ (E - 23) = (2 : ℚ) ^ k := by
  push_cast
  rw [← zpow_natCast, Int.toNat_of_nonneg (by omega), ← zpow_add₀ (by norm_num)]
  congr 1
  ring

/-- A magnitude of at most 1 is rounded to one of at most 1. -/
theorem f32Round_le_one (q : ℚ) (h : |q| ≤ 1) : |f32Round q| ≤ 1 := by
  by_cases hq : q = 0
  · rw [hq, f32Round_zero]
    norm_num
  have hpos : 0 < |q| := abs_pos.2 hq
  have hlog : Int.log 2 |q| < 1 := by
    rw [← Int.lt_zpow_iff_log_lt (by norm_num) hpos]
    have : |q| < 2 := lt_of_le_of_lt h (by norm_num)
    exact_mod_cast this
  have he : max (Int.log 2 |q|) (-126) ≤ 0 := max_le (by omega) (by norm_num)
  have hone := pow_quantum (max (Int.log 2 |q|) (-126)) 0 (by omega)
  rw [zpow_zero] at hone
  have hle := f32Round_le q ((2 : ℤ) ^ ((0 : ℤ) - (max (Int.log 2 |q|) (-126) - 23)).toNat) hq
    (by rw [hone]; exact le_trans (le_abs_self q) h)
  have hge := f32Round_ge q (-((2 : ℤ) ^ ((0 : ℤ) - (max (Int.log 2 |q|) (-126) - 23)).toNat)) hq
    (by
      rw [Int.cast_neg, neg_mul, hone]
      have := neg_abs_le q
      linarith)
  rw [hone] at hle
  rw [Int.cast_neg, neg_mul, hone] at hge
  exact abs_le.2 ⟨hge, hle⟩

/-- A magnitude of at least 20 is rounded to one of at least 20. -/
theorem f32Round_ge_twenty (q : ℚ) (h : 20 ≤ |q|) : 20 ≤ |f32Round q| := by
  have hpos : 0 < |q| := lt_of_lt_of_le (by norm_num) h
  have hq : q ≠ 0 := abs_pos.1 hpos
  have hlog : 4 ≤ Int.log 2 |q| := by
    rw [← Int.zpow_le_iff_le_log (by norm_num) hpos]
    have : (16 : ℚ) ≤ |q| := le_trans (by norm_num) h
    exact_mod_cast this
  have hmax : max (Int.log 2 |q|) (-126) = Int.log 2 |q| := max_eq_left (by omega)
  have hz : (2 : ℚ) ^ (Int.log 2 |q|) ≤ |q| := by
    have := Int.zpow_log_le_self (b := 2) (r := |q|) (by norm_num) hpos
    exact_mod_cast this
  -- the bound `a`: 20 when the exponent is 4, the power of two otherwise
  have key : ∃ (m : ℤ) (a : ℚ), (m : ℚ) * (2 : ℚ) ^ (max (Int.log 2 |q|) (-126) - 23) = a ∧
      20 ≤ a ∧ a ≤ |q| := by
    by_cases h4 : Int.log 2 |q| = 4
    · refine ⟨10485760, 20, ?_, le_refl _, h⟩
      rw [hmax, h4]
      norm_num [zpow_neg]
    · have h5 : 5 ≤ Int.log 2 |q| := by omega
      refine ⟨(2 : ℤ) ^ (Int.log 2 |q| - (max (Int.log 2 |q|) (-126) - 23)).toNat,
        (2 : ℚ) ^ (Int.log 2 |q|), pow_quantum _ _ (by rw [hmax]; omega), ?_, hz⟩
      have : (2 : ℚ) ^ (5 : ℤ) ≤ (2 : ℚ) ^ (Int.log 2 |q|) :=
        zpow_le_zpow_right₀ (by norm_num) h5
      norm_num at this
      linarith
  obtain ⟨m, a, hma, ha20, haq⟩ := key
  rcases le_or_lt 0 q with h0 | h0
  · rw [abs_of_nonneg h0] at haq
    have hge := f32Round_ge q m hq (by rw [hma]; exact haq)
    rw [hma] at hge
    exact le_trans (le_trans ha20 hge) (le_abs_self _)
  · rw [abs_of_neg h0] at haq
    have hle := f32Round_le q (-m) hq (by rw [Int.cast_neg, neg_mul, hma]; linarith)
    rw [Int.cast_neg, neg_mul, hma] at hle
    have : 20 ≤ -f32Round q := by linarith
    exact le_trans this (neg_le_abs _)

/-- A magnitude from `1 + 2 ^ -23` to `20 - 2 ^ -19` is rounded to one
strictly between 1 and 20. -/
theorem f32Round_between (q : ℚ) (h1 : 1 + 1 / 2 ^ 23 ≤ |q|) (h2 : |q| ≤ 20 - 1 / 2 ^ 19) :
    1 < |f32Round q| ∧ |f32Round q| < 20 := by
  have herr := f32Round_err q
  have ha : |q| - |f32Round q - q| ≤ |f32Round q| := by
    have := abs_sub_abs_le_abs_sub q (f32Round q)
    rw [abs_sub_comm q (f32Round q)] at this
    linarith
  have hb : |f32Round q| ≤ |q| + |f32Round q - q| := by
    have := abs_sub_abs_le_abs_sub (f32Round q) q
    linarith
  constructor
  · have : (1 : ℚ) < |q| - (|q| / 2 ^ 24 + 1 / 2 ^ 150) := by
      have e : |q| - (|q| / 2 ^ 24 + 1 / 2 ^ 150) = |q| * (1 - 1 / 2 ^ 24) - 1 / 2 ^ 150 := by ring
      rw [e]
      have : (1 + 1 / 2 ^ 23) * (1 - 1 / 2 ^ 24 : ℚ) ≤ |q| * (1 - 1 / 2 ^ 24) :=
        mul_le_mul_of_nonneg_right h1 (by norm_num)
      have : (1 : ℚ) < (1 + 1 / 2 ^ 23) * (1 - 1 / 2 ^ 24) - 1 / 2 ^ 150 := by norm_num
      linarith
    linarith
  · have : |q| + (|q| / 2 ^ 24 + 1 / 2 ^ 150) < (20 : ℚ) := by
      have e : |q| + (|q| / 2 ^ 24 + 1 / 2 ^ 150) = |q| * (1 + 1 / 2 ^ 24) + 1 / 2 ^ 150 := by ring
      rw [e]
      have : |q| * (1 + 1 / 2 ^ 24 : ℚ) ≤ (20 - 1 / 2 ^ 19) * (1 + 1 / 2 ^ 24) :=
        mul_le_mul_of_nonneg_right h2 (by norm_num)
      have : (20 - 1 / 2 ^ 19 : ℚ) * (1 + 1 / 2 ^ 24) + 1 / 2 ^ 150 < 20 := by norm_num
      linarith
    linarith

theorem f32Round_eq (q : ℚ) (e n : ℤ) (he : -126 ≤ e) (h1 : (2 : ℚ) ^ e ≤ |q|)
    (h2 : |q| < (2 : ℚ) ^ (e + 1)) (hn : roundHalfEven (q / (2 : ℚ) ^ (e - 23)) = n) :
    f32Round q = (n : ℚ) * (2 : ℚ) ^ (e - 23) := by
  have hpos : 0 < |q| := lt_of_lt_of_le (zpow_pos (by norm_num) e) h1
  have hq0 : q ≠ 0 := abs_pos.1 hpos
  have hlog : Int.log 2 |q| = e := int_log_two_eq _ _ hpos h1 h2
  unfold f32Round
  rw [if_neg hq0]
  simp only [hlog, max_eq_left he, hn]

theorem roundHalfEven_near (r : ℚ) (n : ℤ) (h1 : (n : ℚ) - 1 / 2 < r) (h2 : r < (n : ℚ) + 1 / 2) :
    roundHalfEven r = n := by
  unfold roundHalfEven
  by_cases hn : (n : ℚ) ≤ r
  · have hf : ⌊r⌋ = n := Int.floor_eq_iff.2 ⟨hn, by linarith⟩
    rw [hf, if_pos (by linarith)]
  · have hn2 : r < n := not_le.1 hn
    have hf : ⌊r⌋ = n - 1 := Int.floor_eq_iff.2 ⟨by push_cast; linarith, by push_cast; linarith⟩
    rw [hf]
    push_cast
    rw [if_neg (by linarith), if_pos (by linarith)]
    ring

theorem f32_0_3 : f32Round (3 / 10) = 5033165 / 16777216 := by
  rw [f32Round_eq (3 / 10) (-2) 10066330 (by norm_num) (by norm_num [abs_of_pos])
    (by norm_num [abs_of_pos]) (roundHalfEven_near _ _ (by norm_num) (by norm_num))]
  norm_num

/-- The result of the three rounded operations of `FixZ` is within
`(|z| + 24) / 2 ^ 24` of the exact `z + 0.3 * (b - z)`. -/
theorem fixZ_rounding (z b : ℚ) (h : |f32Round (b - z)| < 20) :
    |f32Round (z + f32Round (f32Round (b - z) * f32Round (3 / 10))) -
        (z + 3 / 10 * (b - z))| ≤ (|z| + 24) / 2 ^ 24 := by
  rw [f32_0_3]
  have e1 := f32Round_err (b - z)
  have e2 := f32Round_err (f32Round (b - z) * (5033165 / 16777216))
  have e3 := f32Round_err (z + f32Round (f32Round (b - z) * (5033165 / 16777216)))
  generalize f32Round (z + f32Round (f32Round (b - z) * (5033165 / 16777216))) = w at *
  generalize f32Round (f32Round (b - z) * (5033165 / 16777216)) = t at *
  generalize f32Round (b - z) = d at *
  -- magnitudes
  have hD : |b - z| ≤ 21 := by
    have := abs_sub_abs_le_abs_sub (b - z) d
    rw [abs_sub_comm (b - z) d] at this
    have h0 := abs_nonneg (b - z)
    by_contra hc
    have hc2 : 21 < |b - z| := not_le.1 hc
    have : |b - z| * (1 - 1 / 2 ^ 24 : ℚ) < 20 + 1 / 2 ^ 150 := by
      have e : |b - z| * (1 - 1 / 2 ^ 24 : ℚ) = |b - z| - |b - z| / 2 ^ 24 := by ring
      rw [e]
      linarith
    have : (21 : ℚ) * (1 - 1 / 2 ^ 24) ≤ |b - z| * (1 - 1 / 2 ^ 24) :=
      mul_le_mul_of_nonneg_right (le_of_lt hc2) (by norm_num)
    have : (20 : ℚ) + 1 / 2 ^ 150 < 21 * (1 - 1 / 2 ^ 24) := by norm_num
    linarith
  have hdc : |d * (5033165 / 16777216)| ≤ 20 * (5033165 / 16777216) := by
    rw [abs_mul, abs_of_pos (show (0 : ℚ) < 5033165 / 16777216 by norm_num)]
    exact mul_le_mul_of_nonneg_right (le_of_lt h) (by norm_num)
  have ht : |t| ≤ 7 := by
    have := abs_sub_abs_le_abs_sub t (d * (5033165 / 16777216))
    have : |t| ≤ |d * (5033165 / 16777216)| + (|d * (5033165 / 16777216)| / 2 ^ 24 + 1 / 2 ^ 150) := by
      linarith
    have : (20 * (5033165 / 16777216) : ℚ) + (20 * (5033165 / 16777216) / 2 ^ 24 + 1 / 2 ^ 150) ≤ 7 := by
      norm_num
    have : |d * (5033165 / 16777216)| / 2 ^ 24 ≤ 20 * (5033165 / 16777216) / 2 ^ 24 :=
      div_le_div_of_nonneg_right hdc (by norm_num)
    linarith
  have hzt : |z + t| ≤ |z| + 7 := le_trans (abs_add z t) (by linarith)
  have hsum : w - (z + 3 / 10 * (b - z)) =
      (w - (z + t)) + (t - d * (5033165 / 16777216)) + d * (1 / 83886080) +
        3 / 10 * (d - (b - z)) := by ring
  rw [hsum]
  have hd1 : |d * (1 / 83886080)| ≤ 20 * (1 / 83886080) := by
    rw [abs_mul, abs_of_pos (show (0 : ℚ) < 1 / 83886080 by norm_num)]
    exact mul_le_mul_of_nonneg_right (le_of_lt h) (by norm_num)
  have hd2 : |3 / 10 * (d - (b - z))| ≤ 3 / 10 * (21 / 2 ^ 24 + 1 / 2 ^ 150) := by
    rw [abs_mul, abs_of_pos (show (0 : ℚ) < 3 / 10 by norm_num)]
    have : |b - z| / 2 ^ 24 ≤ 21 / 2 ^ 24 := div_le_div_of_nonneg_right hD (by norm_num)
    exact mul_le_mul_of_nonneg_left (by linarith) (by norm_num)
  have b1 : |w - (z + t)| ≤ (|z| + 7) / 2 ^ 24 + 1 / 2 ^ 150 := by
    have : |z + t| / 2 ^ 24 ≤ (|z| + 7) / 2 ^ 24 := div_le_div_of_nonneg_right hzt (by norm_num)
    linarith
  have b2 : |t - d * (5033165 / 16777216)| ≤ 20 * (5033165 / 16777216) / 2 ^ 24 + 1 / 2 ^ 150 := by
    have : |d * (5033165 / 16777216)| / 2 ^ 24 ≤ 20 * (5033165 / 16777216) / 2 ^ 24 :=
      div_le_div_of_nonneg_right hdc (by norm_num)
    linarith
  have tri := abs_add (w - (z + t) + (t - d * (5033165 / 16777216)) + d * (1 / 83886080))
    (3 / 10 * (d - (b - z)))
  have tri2 := abs_add (w - (z + t) + (t - d * (5033165 / 16777216))) (d * (1 / 83886080))
  have tri3 := abs_add (w - (z + t)) (t - d * (5033165 / 16777216))
  have hfin : (|z| + 7) / 2 ^ 24 + 1 / 2 ^ 150 + (20 * (5033165 / 16777216) / 2 ^ 24 + 1 / 2 ^ 150) +
      20 * (1 / 83886080) + 3 / 10 * (21 / 2 ^ 24 + 1 / 2 ^ 150) ≤ (|z| + 24) / 2 ^ 24 := by
    have e : (|z| + 24) / 2 ^ 24 = (|z| + 7) / 2 ^ 24 + 17 / 2 ^ 24 := by ring
    rw [e]
    have : (1 : ℚ) / 2 ^ 150 + (20 * (5033165 / 16777216) / 2 ^ 24 + 1 / 2 ^ 150) +
        20 * (1 / 83886080) + 3 / 10 * (21 / 2 ^ 24 + 1 / 2 ^ 150) ≤ 17 / 2 ^ 24 := by norm_num
    linarith
  linarith

theorem roundHalfEven_tie (r : ℚ) (n : ℤ) (hn : n % 2 = 0)
    (h : r = (n : ℚ) - 1 / 2 ∨ r = (n : ℚ) + 1 / 2) : roundHalfEven r = n := by
  unfold roundHalfEven
  rcases h with h | h
  · have hf : ⌊r⌋ = n - 1 := Int.floor_eq_iff.2 ⟨by push_cast; linarith, by push_cast; linarith⟩
    rw [hf]
    push_cast
    rw [if_neg (by linarith), if_neg (by linarith), if_neg (by omega)]
    ring
  · have hf : ⌊r⌋ = n := Int.floor_eq_iff.2 ⟨by linarith, by linarith⟩
    rw [hf, if_neg (by linarith), if_neg (by linarith), if_pos hn]

/-- The difference 10 - 8 is exact. -/
theorem f32_sub_10_8 : f32Round (10 - 8) = 2 := by
  rw [f32Round_eq (10 - 8) 1 8388608 (by norm_num) (by norm_num [abs_of_pos])
    (by norm_num [abs_of_pos]) (roundHalfEven_near _ _ (by norm_num) (by norm_num))]
  norm_num

/-- The step of `FixZ` from height 8 toward 10 in binary32: 8.60000038. -/
theorem f32_fix_8_10 :
    f32Round (8 + f32Round (f32Round (10 - 8) * f32Round (3 / 10))) = 4508877 / 524288 := by
  rw [f32_sub_10_8, f32_0_3]
  have h1 : f32Round (2 * (5033165 / 16777216)) = 5033165 / 8388608 := by
    rw [f32Round_eq (2 * (5033165 / 16777216)) (-1) 10066330 (by norm_num)
      (by norm_num [abs_of_pos]) (by norm_num [abs_of_pos])
      (roundHalfEven_near _ _ (by norm_num) (by norm_num))]
    norm_num
  rw [h1, f32Round_eq (8 + 5033165 / 8388608) 3 9017754 (by norm_num)
    (by norm_num [abs_of_pos]) (by norm_num [abs_of_pos])
    (roundHalfEven_near _ _ (by norm_num) (by norm_num))]
  norm_num

/-- The difference `10 - (-10 + 2 ^ -20)` lies half way between the binary32
numbers `20 - 2 ^ -19` and 20 and is rounded to 20, whose fraction is even. -/
theorem f32_sub_brink : f32Round (10 - (-10 + 1 / 1048576)) = 20 := by
  rw [f32Round_eq (10 - (-10 + 1 / 1048576)) 4 10485760 (by norm_num)
    (by norm_num [abs_of_pos]) (by norm_num [abs_of_pos])
    (roundHalfEven_tie _ _ (by decide) (Or.inl (by norm_num)))]
  norm_num

/-! ## The Z fix -/

/-- What `FixZ` does with a valid ground height `b`, by the binary32
difference. -/
theorem FixZ_valid (c : Client) (map : HCMap) (b : ℚ)
    (hmap : c.mv.m_zone_map = some map)
    (hb : map.FindBestZ { x := c.eq.m_x, y := c.eq.m_y, z := c.eq.m_z } = b)
    (hv : b ≠ BEST_Z_INVALID) :
    FixZ c =
      if 1 < |f32Round (b - c.eq.m_z)| ∧ |f32Round (b - c.eq.m_z)| < 20 then
        { c with eq := { c.eq with
            m_z := f32Round (c.eq.m_z +
              f32Round (f32Round (b - c.eq.m_z) * f32Round (3 / 10))) } }
      else c := by
  have hg := GetBestZ_valid c map c.eq.m_x c.eq.m_y c.eq.m_z b hmap hb hv
  unfold FixZ
  rw [hmap]
  simp only [hg, gt_iff_lt]

/-- C28, amended. With a terrain map loaded whose `FindBestZ` reports a ground
height `b` (not the INVALID sentinel) at the player's position, `FixZ` looks
at the binary32 difference `d` of `b` and `z`. When `1 < |d| < 20`, it sets
the player's z to `z + d * 0.3f` with the product and the sum rounded to
binary32, which is within `(|z| + 24) / 2 ^ 24` of `z + 0.3 * (b - z)`;
otherwise it leaves z as it is. The first case holds whenever
`1 + 2 ^ -23 <= |b - z| <= 20 - 2 ^ -19`, the second whenever `|b - z| <= 1`
or `|b - z| >= 20`. The literal `0.3f` is 5033165 / 16777216, and nothing but
z changes. -/
theorem C28_fix_z_moves_30_percent (c : Client) (map : HCMap) (b : ℚ)
    (hmap : c.mv.m_zone_map = some map)
    (hb : map.FindBestZ { x := c.eq.m_x, y := c.eq.m_y, z := c.eq.m_z } = b)
    (hv : b ≠ BEST_Z_INVALID) :
    (1 < |f32Round (b - c.eq.m_z)| ∧ |f32Round (b - c.eq.m_z)| < 20 →
      (FixZ c).eq.m_z =
        f32Round (c.eq.m_z + f32Round (f32Round (b - c.eq.m_z) * f32Round (3 / 10))) ∧
      |(FixZ c).eq.m_z - (c.eq.m_z + 3 / 10 * (b - c.eq.m_z))| ≤ (|c.eq.m_z| + 24) / 2 ^ 24) ∧
    (¬ (1 < |f32Round (b - c.eq.m_z)| ∧ |f32Round (b - c.eq.m_z)| < 20) →
      (FixZ c).eq.m_z = c.eq.m_z) ∧
    (1 + 1 / 2 ^ 23 ≤ |b - c.eq.m_z| ∧ |b - c.eq.m_z| ≤ 20 - 1 / 2 ^ 19 →
      1 < |f32Round (b - c.eq.m_z)| ∧ |f32Round (b - c.eq.m_z)| < 20) ∧
    (|b - c.eq.m_z| ≤ 1 ∨ 20 ≤ |b - c.eq.m_z| → (FixZ c).eq.m_z = c.eq.m_z) ∧
    f32Round (3 / 10) = 5033165 / 16777216 ∧
    FixZ c = { c with eq := { c.eq with m_z := (FixZ c).eq.m_z } } := by
  have hfix := FixZ_valid c map b hmap hb hv
  have hno : ¬ (1 < |f32Round (b - c.eq.m_z)| ∧ |f32Round (b - c.eq.m_z)| < 20) →
      FixZ c = c := by
    intro hn
    rw [hfix, if_neg hn]
  refine ⟨?_, ?_, ?_, ?_, f32_0_3, ?_⟩
  · intro h
    have hz : (FixZ c).eq.m_z =
        f32Round (c.eq.m_z + f32Round (f32Round (b - c.eq.m_z) * f32Round (3 / 10))) := by
      rw [hfix, if_pos h]
    exact ⟨hz, by rw [hz]; exact fixZ_rounding c.eq.m_z b h.2⟩
  · intro hn
    rw [hno hn]
  · intro h
    exact f32Round_between _ h.1 h.2
  · intro h
    rw [hno]
    rintro ⟨h1, h20⟩
    rcases h with h | h
    · exact absurd (f32Round_le_one _ h) (not_le.2 h1)
    · exact absurd (f32Round_ge_twenty _ h) (not_le.2 h20)
  · by_cases h : 1 < |f32Round (b - c.eq.m_z)| ∧ |f32Round (b - c.eq.m_z)| < 20
    · rw [hfix, if_pos h]
    · rw [hno h]

theorem exampleHill_best (x y z : ℚ) (hz : -100009 < z) :
    exampleHill.FindBestZ { x := x, y := y, z := z } = 10 := by
  unfold HCMap.FindBestZ exampleHill BEST_Z_INVALID
  simp only []
  rw [if_pos (by linarith)]

theorem exampleClimber_best :
    exampleHill.FindBestZ
      { x := exampleClimber.eq.m_x, y := exampleClimber.eq.m_y, z := exampleClimber.eq.m_z } =
      10 :=
  exampleHill_best _ _ _ (by
    have hz : exampleClimber.eq.m_z = 8 := rfl
    rw [hz]
    norm_num)

theorem C28_fix_z_moves_30_percent_witness :
    exampleClimber.mv.m_zone_map = some exampleHill ∧
    exampleHill.FindBestZ
      { x := exampleClimber.eq.m_x, y := exampleClimber.eq.m_y, z := exampleClimber.eq.m_z } =
      10 ∧
    exampleClimber.eq.m_z = 8 ∧
    (FixZ exampleClimber).eq.m_z = 4508877 / 524288 :=
  ⟨rfl, exampleClimber_best, rfl,
    (((C28_fix_z_moves_30_percent exampleClimber exampleHill 10 rfl exampleClimber_best
      (by unfold BEST_Z_INVALID; norm_num)).1
      (by
        have hz : exampleClimber.eq.m_z = 8 := rfl
        rw [hz, f32_sub_10_8]
        norm_num [abs_of_pos])).1).trans
      (by
        have hz : exampleClimber.eq.m_z = 8 := rfl
        rw [hz]
        exact f32_fix_8_10)⟩

/-- C28, the case that refutes it. The example client stands at
`z = -10 + 2 ^ -20`, a binary32 number, where the map reports the ground
height 10: `|b - z|` is `20 - 2 ^ -20`, strictly between 1 and 20, but the
binary32 difference is 20, so `FixZ` leaves z as it is instead of moving it to
`z + 0.3 * (b - z)`. And from z = 8 with ground height 10 the result is
4508877 / 524288 (8.60000038), not 8.6. -/
theorem C28_no_move_next_to_twenty :
    exampleBrink.mv.m_zone_map = some exampleHill ∧
    exampleHill.FindBestZ
      { x := exampleBrink.eq.m_x, y := exampleBrink.eq.m_y, z := exampleBrink.eq.m_z } = 10 ∧
    exampleBrink.eq.m_z = -10 + 1 / 1048576 ∧
    1 < |10 - exampleBrink.eq.m_z| ∧ |10 - exampleBrink.eq.m_z| < 20 ∧
    f32Round (10 - exampleBrink.eq.m_z) = 20 ∧
    (FixZ exampleBrink).eq.m_z = exampleBrink.eq.m_z ∧
    (FixZ exampleBrink).eq.m_z ≠
      exampleBrink.eq.m_z + 3 / 10 * (10 - exampleBrink.eq.m_z) ∧
    (FixZ exampleClimber).eq.m_z ≠ 43 / 5 := by
  have hz : exampleBrink.eq.m_z = -10 + 1 / 1048576 := rfl
  have hbest : exampleHill.FindBestZ
      { x := exampleBrink.eq.m_x, y := exampleBrink.eq.m_y, z := exampleBrink.eq.m_z } = 10 :=
    exampleHill_best _ _ _ (by rw [hz]; norm_num)
  have hfix : FixZ exampleBrink = exampleBrink := by
    rw [FixZ_valid exampleBrink exampleHill 10 rfl hbest (by unfold BEST_Z_INVALID; norm_num),
      hz, f32_sub_brink, if_neg (by norm_num)]
  have hclimb : (FixZ exampleClimber).eq.m_z = 4508877 / 524288 := by
    have hz8 : exampleClimber.eq.m_z = 8 := rfl
    rw [FixZ_valid exampleClimber exampleHill 10 rfl exampleClimber_best
      (by unfold BEST_Z_INVALID; norm_num), hz8, f32_sub_10_8,
      if_pos (by norm_num [abs_of_pos])]
    show f32Round (8 + f32Round (2 * f32Round (3 / 10))) = 4508877 / 524288
    rw [← f32_sub_10_8]
    exact f32_fix_8_10
  refine ⟨rfl, hbest, hz, ?_, ?_, ?_, ?_, ?_, ?_⟩
  · rw [hz]; norm_num [abs_of_pos]
  · rw [hz]; norm_num [abs_of_pos]
  · rw [hz]; exact f32_sub_brink
  · rw [hfix]
  · rw [hfix, hz]; norm_num
  · rw [hclimb]; norm_num

theorem FixZ_invalid (c : Client)
    (h : c.mv.m_zone_map = none ∨
      ∃ m, c.mv.m_zone_map = some m ∧
        m.FindBestZ { x := c.eq.m_x, y := c.eq.m_y, z := c.eq.m_z } = BEST_Z_INVALID) :
    FixZ c = c := by
  unfold FixZ
  rcases h with h | ⟨m, hm, hb⟩
  · rw [h]
  · rw [hm]
    have hg : GetBestZ c c.eq.m_x c.eq.m_y c.eq.m_z = c.eq.m_z := by
      unfold GetBestZ
      rw [hm]
      simp only [hb, if_true]
    simp only [hg, sub_self, f32Round_zero, abs_zero]
    rw [if_neg (by norm_num)]

/-- C29. `HCMap::FindBestZ` with a mesh loaded returns the z of the hit of the
ray from `(x, y, z + 10)` down to height -99999 when that ray hits, otherwise
the z of the hit of the ray from the same point up to height 99999 when that
one hits, otherwise -99999; without a mesh it returns -99999. Whenever the
client has no map, or `FindBestZ` returns -99999 at the position asked for,
`GetBestZ` returns the caller's z, and `FixZ` leaves the client as it is. -/
theorem C29_find_best_z_and_invalid (map : HCMap) (start : Vec3) (c : Client) (x y z : ℚ) :
    (∀ raycast, map.rm = some raycast →
      (∀ hit, raycast { x := start.x, y := start.y, z := start.z + 10 }
          { x := start.x, y := start.y, z := -99999 } = some hit →
        map.FindBestZ start = hit.z) ∧
      (raycast { x := start.x, y := start.y, z := start.z + 10 }
          { x := start.x, y := start.y, z := -99999 } = none →
        (∀ hit, raycast { x := start.x, y := start.y, z := start.z + 10 }
            { x := start.x, y := start.y, z := 99999 } = some hit →
          map.FindBestZ start = hit.z) ∧
        (raycast { x := start.x, y := start.y, z := start.z + 10 }
            { x := start.x, y := start.y, z := 99999 } = none →
          map.FindBestZ start = -99999))) ∧
    (map.rm = none → map.FindBestZ start = -99999) ∧
    BEST_Z_INVALID = -99999 ∧
    ((c.mv.m_zone_map = none ∨
        ∃ m, c.mv.m_zone_map = some m ∧
          m.FindBestZ { x := x, y := y, z := z } = BEST_Z_INVALID) →
      GetBestZ c x y z = z) ∧
    ((c.mv.m_zone_map = none ∨
        ∃ m, c.mv.m_zone_map = some m ∧
          m.FindBestZ { x := c.eq.m_x, y := c.eq.m_y, z := c.eq.m_z } = BEST_Z_INVALID) →
      FixZ c = c ∧ (FixZ c).eq.m_z = c.eq.m_z) := by
  have hneg : -BEST_Z_INVALID = (99999 : ℚ) := by
    unfold BEST_Z_INVALID
    norm_num
  have hinv : BEST_Z_INVALID = (-99999 : ℚ) := rfl
  refine ⟨?_, ?_, rfl, ?_, ?_⟩
  · intro raycast hrm
    refine ⟨?_, ?_⟩
    · intro hit hh
      unfold HCMap.FindBestZ
      rw [hrm]
      simp only [hinv, hh]
    · intro hd
      refine ⟨?_, ?_⟩
      · intro hit hh
        unfold HCMap.FindBestZ
        rw [hrm]
        simp only [hneg, hinv, hd]
        rw [show (-(-99999 : ℚ)) = 99999 by norm_num]
        simp only [hh]
      · intro hu
        unfold HCMap.FindBestZ
        rw [hrm]
        simp only [hneg, hinv, hd]
        rw [show (-(-99999 : ℚ)) = 99999 by norm_num]
        simp only [hu]
  · intro hrm
    unfold HCMap.FindBestZ
    rw [hrm]
    rfl
  · intro h
    unfold GetBestZ
    rcases h with h | ⟨m, hm, hb⟩
    · rw [h]
    · rw [hm]
      simp only [hb, if_true]
  · intro h
    have := FixZ_invalid c h
    exact ⟨this, by rw [this]⟩

theorem exampleFalling_invalid :
    exampleVoid.FindBestZ
      { x := exampleFalling.eq.m_x, y := exampleFalling.eq.m_y, z := exampleFalling.eq.m_z } =
      BEST_Z_INVALID := rfl

theorem C29_find_best_z_and_invalid_witness :
    exampleHill.FindBestZ { x := 0, y := 0, z := 8 } = 10 ∧
    exampleCeiling.FindBestZ { x := 0, y := 0, z := 8 } = 30 ∧
    exampleVoid.FindBestZ { x := 0, y := 0, z := 8 } = -99999 ∧
    GetBestZ exampleFalling 1 2 3 = 3 ∧
    GetBestZ exampleWalker 1 2 3 = 3 ∧
    FixZ exampleFalling = exampleFalling ∧
    FixZ exampleWalker = exampleWalker :=
  ⟨((C29_find_best_z_and_invalid exampleHill { x := 0, y := 0, z := 8 } exampleFalling
      1 2 3).1 _ rfl).1 { x := 0, y := 0, z := 10 } (by norm_num),
    (((C29_find_best_z_and_invalid exampleCeiling { x := 0, y := 0, z := 8 } exampleFalling
      1 2 3).1 _ rfl).2 (by norm_num)).1 { x := 0, y := 0, z := 30 } (by norm_num),
    (((C29_find_best_z_and_invalid exampleVoid { x := 0, y := 0, z := 8 } exampleFalling
      1 2 3).1 _ rfl).2 rfl).2 rfl,
    (C29_find_best_z_and_invalid exampleVoid { x := 0, y := 0, z := 8 } exampleFalling
      1 2 3).2.2.2.1 (Or.inr ⟨exampleVoid, rfl, rfl⟩),
    (C29_find_best_z_and_invalid exampleVoid { x := 0, y := 0, z := 8 } exampleWalker
      1 2 3).2.2.2.1 (Or.inl rfl),
    ((C29_find_best_z_and_invalid exampleVoid { x := 0, y := 0, z := 8 } exampleFalling
      1 2 3).2.2.2.2 (Or.inr ⟨exampleVoid, rfl, exampleFalling_invalid⟩)).1,
    ((C29_find_best_z_and_invalid exampleVoid { x := 0, y := 0, z := 8 } exampleWalker
      1 2 3).2.2.2.2 (Or.inl rfl)).1⟩

theorem FindPath_null (c : Client) (start finish : Vec3)
    (hp : c.mv.m_pathfinder = some PathfinderNull) :
    FindPath c start finish =
      ({ c with mv := { c.mv with m_current_path := [start, finish],
                                  m_current_path_index := 0 } }, true) := by
  unfold FindPath
  rw [hp]
  rfl

/-- C30. For every start, end and options value, `PathfinderNull::FindPath`
returns the path of exactly the two nodes start and end, neither marked as a
teleport, with the partial flag and the stuck flag both false; this is also
what the `IPathfinder` object `PathfinderNull` returns through its virtual
method, so `EverQuest::FindPath` over it stores the waypoints start and end
and reports success. -/
theorem C30_pathfinder_null (start finish : Vec3) (opts : PathfinderOptions) (c : Client) :
    (PathfinderNull.FindPath start finish opts).path =
      [{ pos := start, teleport := false }, { pos := finish, teleport := false }] ∧
    (PathfinderNull.FindPath start finish opts).path.map (fun node => node.pos) =
      [start, finish] ∧
    (PathfinderNull.FindPath start finish opts).partial_path = false ∧
    (PathfinderNull.FindPath start finish opts).stuck = false ∧
    ((PathfinderNull : IPathfinder).FindPath start finish opts).path.map
      (fun node => node.pos) = [start, finish] ∧
    ((PathfinderNull : IPathfinder).FindPath start finish opts).partial_path = false ∧
    ((PathfinderNull : IPathfinder).FindPath start finish opts).stuck = false ∧
    (FindPath { c with mv := { c.mv with m_pathfinder := some PathfinderNull } }
      start finish).2 = true ∧
    (FindPath { c with mv := { c.mv with m_pathfinder := some PathfinderNull } }
      start finish).1.mv.m_current_path = [start, finish] := by
  refine ⟨rfl, rfl, rfl, rfl, rfl, rfl, rfl, ?_, ?_⟩
  · rw [FindPath_null _ start finish rfl]
  · rw [FindPath_null _ start finish rfl]

theorem followedEntity_name (s : EverQuest) (name : List Nat) (e : Entity)
    (h : followedEntity s name = some e) : e.name = name := by
  unfold followedEntity at h
  cases hf : (entityList s.m_entities).find? (fun pair => decide (pair.2.name = name)) with
  | none => rw [hf] at h; cases h
  | some r =>
    rw [hf] at h
    have hr : r.2 = e := Option.some.inj h
    have := List.find?_some hf
    rw [← hr]
    exact of_decide_eq_true this

theorem followedEntity_rat (s : EverQuest)
    (hm : s.m_entities = mapInsert (fun _ => none) 7 exampleEntity) :
    followedEntity s [97, 95, 114, 97, 116] = some exampleEntity := by
  unfold followedEntity
  rw [entityList_find s.m_entities _ 7 exampleEntity (by norm_num) (by rw [hm]; rfl)
    (by decide) (by
      intro j e2 hj hje
      rw [hm] at hje
      unfold mapInsert at hje
      rw [if_neg (by omega)] at hje
      cases hje)]
  rfl

theorem StopMovement_frame (c : Client) :
    (StopMovement c).eq.m_x = c.eq.m_x ∧ (StopMovement c).eq.m_y = c.eq.m_y ∧
    (StopMovement c).eq.m_z = c.eq.m_z ∧
    (StopMovement c).mv.m_follow_target = c.mv.m_follow_target ∧
    (StopMovement c).mv.stuck_detection = c.mv.stuck_detection ∧
    (StopMovement c).eq.m_is_moving = false := by
  unfold StopMovement
  by_cases h : c.eq.m_is_moving = true
  · rw [if_pos h]
    obtain ⟨hx, hy, hz, -, hmv, -⟩ :=
      SendPositionUpdate_position { c.eq with m_is_moving := false, m_animation := ANIM_STAND }
    exact ⟨hx, hy, hz, rfl, rfl, hmv⟩
  · rw [if_neg h]
    exact ⟨rfl, rfl, rfl, rfl, rfl, by simpa using h⟩

theorem followBlock_close (ctx : MoveCtx) (c : Client) (e : Entity)
    (hf : c.mv.m_follow_target ≠ [])
    (he : followedEntity c.eq c.mv.m_follow_target = some e)
    (hd : CalculateDistance2D ctx c.eq.m_x c.eq.m_y e.x e.y < c.mv.m_follow_distance) :
    followBlock ctx c = (if c.eq.m_is_moving then StopMovement c else c, true) := by
  unfold followBlock
  have hne : c.mv.m_follow_target.isEmpty = false := by
    cases hl : c.mv.m_follow_target with
    | nil => exact absurd hl hf
    | cons a l => rfl
  rw [hne, he]
  simp only [Bool.false_eq_true, if_false]
  rw [if_pos hd]

/-- C33. In a tick in which the client follows an entity by name, that entity
is found in the entity map, and its 2D distance from the player is less than
the follow distance of 10 units, `UpdateMovement` ends with `m_is_moving`
false and the follow name unchanged (the name of that entity), and the
player's position is the one from before the tick. -/
theorem C33_follow_stops_within_ten (ctx : MoveCtx) (c : Client) (e : Entity)
    (hf : c.mv.m_follow_target ≠ [])
    (he : followedEntity c.eq c.mv.m_follow_target = some e)
    (hfd : c.mv.m_follow_distance = 10)
    (hd : CalculateDistance2D ctx c.eq.m_x c.eq.m_y e.x e.y < 10) :
    (UpdateMovement ctx c).eq.m_is_moving = false ∧
    (UpdateMovement ctx c).mv.m_follow_target = c.mv.m_follow_target ∧
    (UpdateMovement ctx c).mv.m_follow_target = e.name ∧
    (UpdateMovement ctx c).eq.m_x = c.eq.m_x ∧
    (UpdateMovement ctx c).eq.m_y = c.eq.m_y ∧
    (UpdateMovement ctx c).eq.m_z = c.eq.m_z := by
  have h1 := followBlock_close ctx c e hf he (by rw [hfd]; exact hd)
  have hu : UpdateMovement ctx c = if c.eq.m_is_moving then StopMovement c else c := by
    unfold UpdateMovement
    simp only [h1, if_true]
  have hn := followedEntity_name c.eq _ e he
  rw [hu]
  by_cases hm : c.eq.m_is_moving = true
  · rw [if_pos hm]
    obtain ⟨hx, hy, hz, hft, -, hmv⟩ := StopMovement_frame c
    exact ⟨hmv, hft, hft.trans hn.symm, hx, hy, hz⟩
  · rw [if_neg hm]
    exact ⟨by simpa using hm, rfl, hn.symm, rfl, rfl, rfl⟩

theorem exampleMoveCtx_sqrt_zero : exampleMoveCtx.sqrt 0 = 0 := by
  simp [exampleMoveCtx]

theorem exampleArrived_distance :
    CalculateDistance2D exampleMoveCtx exampleArrived.eq.m_x exampleArrived.eq.m_y
      exampleEntity.x exampleEntity.y = 0 := by
  have hx : exampleArrived.eq.m_x = 0 := rfl
  have hy : exampleArrived.eq.m_y = 0 := rfl
  have hex : exampleEntity.x = 0 := rfl
  have hey : exampleEntity.y = 0 := rfl
  unfold CalculateDistance2D
  rw [hx, hy, hex, hey]
  norm_num [exampleMoveCtx_sqrt_zero]

theorem C33_follow_stops_within_ten_witness :
    exampleArrived.eq.m_is_moving = true ∧
    exampleArrived.mv.m_follow_target = exampleEntity.name ∧
    (UpdateMovement exampleMoveCtx exampleArrived).eq.m_is_moving = false ∧
    (UpdateMovement exampleMoveCtx exampleArrived).mv.m_follow_target =
      [97, 95, 114, 97, 116] ∧
    (UpdateMovement exampleMoveCtx exampleArrived).eq.m_x = 0 :=
  ⟨rfl, rfl,
    (C33_follow_stops_within_ten exampleMoveCtx exampleArrived exampleEntity (by decide)
      (followedEntity_rat _ rfl) rfl (by rw [exampleArrived_distance]; norm_num)).1,
    (C33_follow_stops_within_ten exampleMoveCtx exampleArrived exampleEntity (by decide)
      (followedEntity_rat _ rfl) rfl (by rw [exampleArrived_distance]; norm_num)).2.1,
    (C33_follow_stops_within_ten exampleMoveCtx exampleArrived exampleEntity (by decide)
      (followedEntity_rat _ rfl) rfl (by rw [exampleArrived_distance]; norm_num)).2.2.2.1⟩

/-! ## The step of a tick -/

theorem FixZ_mv (c : Client) :
    (FixZ c).mv = c.mv ∧ (FixZ c).eq.m_x = c.eq.m_x ∧ (FixZ c).eq.m_y = c.eq.m_y ∧
    (FixZ c).eq.m_is_moving = c.eq.m_is_moving := by
  unfold FixZ
  split
  · exact ⟨rfl, rfl, rfl, rfl⟩
  · simp only []
    split
    · exact ⟨rfl, rfl, rfl, rfl⟩
    · exact ⟨rfl, rfl, rfl, rfl⟩

/-- What the periodic Z fix leaves alone: everything of the movement engine
but the time of the last Z fix, and the player's x, y and moving flag. -/
theorem zFixBlock_frame (ctx : MoveCtx) (c : Client) :
    (∃ t, (zFixBlock ctx c).mv = { c.mv with last_z_fix_times := some t }) ∧
    (zFixBlock ctx c).eq.m_x = c.eq.m_x ∧ (zFixBlock ctx c).eq.m_y = c.eq.m_y ∧
    (zFixBlock ctx c).eq.m_is_moving = c.eq.m_is_moving := by
  unfold zFixBlock
  simp only []
  obtain ⟨h1, h2, h3, h4⟩ := FixZ_mv c
  split
  · refine ⟨⟨ctx.now, ?_⟩, h2, h3, h4⟩
    show { (FixZ c).mv with last_z_fix_times := some ctx.now } = _
    rw [h1]
  · exact ⟨⟨_, rfl⟩, rfl, rfl, rfl⟩

/-- What the throttled position update leaves alone: everything of the
movement engine but the time of the last position update, and the player's
position and moving flag. -/
theorem throttledUpdate_frame (ctx : MoveCtx) (c : Client) :
    (∃ t, (throttledUpdate ctx c).mv = { c.mv with m_last_position_update_time := t }) ∧
    (throttledUpdate ctx c).eq.m_x = c.eq.m_x ∧ (throttledUpdate ctx c).eq.m_y = c.eq.m_y ∧
    (throttledUpdate ctx c).eq.m_z = c.eq.m_z ∧
    (throttledUpdate ctx c).eq.m_is_moving = c.eq.m_is_moving := by
  unfold throttledUpdate
  simp only []
  obtain ⟨hx, hy, hz, -, hm, -⟩ := SendPositionUpdate_position c.eq
  generalize (if c.mv.m_last_position_update_time = 0 then ctx.now
    else c.mv.m_last_position_update_time) = last_update
  split
  · exact ⟨⟨_, rfl⟩, hx, hy, hz, hm⟩
  · exact ⟨⟨_, rfl⟩, rfl, rfl, rfl, rfl⟩

/-- A tick of a moving client that follows no one, whose path block does not
return and leaves it 2 units or more from the immediate target, is one step
towards that target, the periodic Z fix and the throttled position update. -/
theorem UpdateMovement_steps (ctx : MoveCtx) (c : Client)
    (hm : c.eq.m_is_moving = true) (hf : c.mv.m_follow_target = [])
    (hp : (pathBlock ctx c).2 = false)
    (hd : ¬ targetDistance ctx (pathBlock ctx c).1 < 2) :
    UpdateMovement ctx c =
      throttledUpdate ctx (zFixBlock ctx (advance ctx (pathBlock ctx c).1
        ((pathBlock ctx c).1.mv.m_target_x - (pathBlock ctx c).1.eq.m_x)
        ((pathBlock ctx c).1.mv.m_target_y - (pathBlock ctx c).1.eq.m_y)
        ((pathBlock ctx c).1.mv.m_target_z - (pathBlock ctx c).1.eq.m_z)
        (targetDistance ctx (pathBlock ctx c).1))) := by
  have h1 : followBlock ctx c = (c, false) := by
    unfold followBlock
    rw [hf]
    rfl
  have h3 : stepBlock ctx (pathBlock ctx c).1 =
      throttledUpdate ctx (zFixBlock ctx (advance ctx (pathBlock ctx c).1
        ((pathBlock ctx c).1.mv.m_target_x - (pathBlock ctx c).1.eq.m_x)
        ((pathBlock ctx c).1.mv.m_target_y - (pathBlock ctx c).1.eq.m_y)
        ((pathBlock ctx c).1.mv.m_target_z - (pathBlock ctx c).1.eq.m_z)
        (targetDistance ctx (pathBlock ctx c).1))) := by
    unfold stepBlock
    simp only []
    unfold targetDistance at hd
    rw [if_neg hd]
    rfl
  have h5 : UpdateMovement ctx c = stepBlock ctx (pathBlock ctx c).1 := by
    unfold UpdateMovement
    simp only [h1, hm, hp]
    rfl
  rw [h5, h3]

theorem followBlock_far (ctx : MoveCtx) (c : Client) (e : Entity)
    (hf : c.mv.m_follow_target ≠ [])
    (he : followedEntity c.eq c.mv.m_follow_target = some e)
    (hd : ¬ CalculateDistance2D ctx c.eq.m_x c.eq.m_y e.x e.y < c.mv.m_follow_distance) :
    followBlock ctx c =
      if CalculateDistance2D ctx c.eq.m_x c.eq.m_y e.x e.y > c.mv.m_follow_distance * (3 / 2)
      then
        if finalDestDist ctx c e > 5 ∨ c.mv.m_current_path.isEmpty then
          if c.mv.m_use_pathfinding ∧ c.mv.m_pathfinder.isSome then
            if (FindPath c { x := c.eq.m_x, y := c.eq.m_y, z := c.eq.m_z }
                { x := e.x, y := e.y, z := e.z }).2 then
              ({ eq := { (FindPath c { x := c.eq.m_x, y := c.eq.m_y, z := c.eq.m_z }
                    { x := e.x, y := e.y, z := e.z }).1.eq with m_is_moving := true },
                 mv := { (FindPath c { x := c.eq.m_x, y := c.eq.m_y, z := c.eq.m_z }
                    { x := e.x, y := e.y, z := e.z }).1.mv with m_current_path_index := 0 } },
                false)
            else
              ({ eq := { (FindPath c { x := c.eq.m_x, y := c.eq.m_y, z := c.eq.m_z }
                    { x := e.x, y := e.y, z := e.z }).1.eq with m_is_moving := true },
                 mv := { (FindPath c { x := c.eq.m_x, y := c.eq.m_y, z := c.eq.m_z }
                    { x := e.x, y := e.y, z := e.z }).1.mv with
                    m_target_x := e.x, m_target_y := e.y, m_target_z := e.z } }, false)
          else
            ({ eq := { c.eq with m_is_moving := true },
               mv := { c.mv with m_target_x := e.x, m_target_y := e.y, m_target_z := e.z } },
              false)
        else (c, false)
      else (c, false) := by
  unfold followBlock
  have hne : c.mv.m_follow_target.isEmpty = false := by
    cases hl : c.mv.m_follow_target with
    | nil => exact absurd hl hf
    | cons a l => rfl
  rw [hne, he]
  simp only [Bool.false_eq_true, if_false]
  rw [if_neg hd]
  rfl

/-- C32, amended. During a tick while following an entity found in the entity
map, with the follow distance 10: at 2D distances from 10 to 15 units the
follow step changes nothing; at 10 units or more it changes something only if
the distance exceeds 15 units (1.5 times the follow distance) and the path is
empty or the final waypoint (without a path: the immediate target) is more
than 5 units from the entity; and when it does so, `m_is_moving` is set and,
without a pathfinder, the immediate target is the entity's position. -/
theorem C32_follow_recomputes_beyond_fifteen (ctx : MoveCtx) (c : Client) (e : Entity) (d : ℚ)
    (hf : c.mv.m_follow_target ≠ [])
    (he : followedEntity c.eq c.mv.m_follow_target = some e)
    (hfd : c.mv.m_follow_distance = 10)
    (hd : CalculateDistance2D ctx c.eq.m_x c.eq.m_y e.x e.y = d) (h10 : 10 ≤ d) :
    (d ≤ 15 → followBlock ctx c = (c, false)) ∧
    (followBlock ctx c ≠ (c, false) →
      15 < d ∧ (finalDestDist ctx c e > 5 ∨ c.mv.m_current_path = [])) ∧
    (15 < d → (finalDestDist ctx c e > 5 ∨ c.mv.m_current_path = []) →
      (followBlock ctx c).2 = false ∧ (followBlock ctx c).1.eq.m_is_moving = true ∧
      (c.mv.m_pathfinder = none →
        (followBlock ctx c).1.mv.m_target_x = e.x ∧ (followBlock ctx c).1.mv.m_target_y = e.y ∧
        (followBlock ctx c).1.mv.m_target_z = e.z ∧
        (followBlock ctx c).1.mv.m_current_path = c.mv.m_current_path)) := by
  have hfar := followBlock_far ctx c e hf he (by rw [hd, hfd]; exact not_lt.2 h10)
  rw [hd, hfd] at hfar
  have h15 : (10 : ℚ) * (3 / 2) = 15 := by norm_num
  rw [h15] at hfar
  have hemp : (c.mv.m_current_path.isEmpty = true) ↔ c.mv.m_current_path = [] :=
    List.isEmpty_iff
  refine ⟨?_, ?_, ?_⟩
  · intro hle
    rw [hfar, if_neg (not_lt.2 hle)]
  · intro hne
    by_cases hgt : d > 15
    · by_cases hfin : finalDestDist ctx c e > 5 ∨ c.mv.m_current_path.isEmpty = true
      · exact ⟨hgt, hfin.imp id hemp.1⟩
      · rw [hfar, if_pos hgt, if_neg hfin] at hne
        exact absurd rfl hne
    · rw [hfar, if_neg hgt] at hne
      exact absurd rfl hne
  · intro hgt hfin
    have hfin2 : finalDestDist ctx c e > 5 ∨ c.mv.m_current_path.isEmpty = true :=
      hfin.imp id hemp.2
    rw [hfar, if_pos hgt, if_pos hfin2]
    by_cases hpf : c.mv.m_use_pathfinding = true ∧ c.mv.m_pathfinder.isSome = true
    · rw [if_pos hpf]
      by_cases hr : (FindPath c { x := c.eq.m_x, y := c.eq.m_y, z := c.eq.m_z }
          { x := e.x, y := e.y, z := e.z }).2 = true
      · rw [if_pos hr]
        refine ⟨rfl, rfl, fun hnone => ?_⟩
        rw [hnone] at hpf
        exact absurd hpf.2 (by simp)
      · rw [if_neg hr]
        refine ⟨rfl, rfl, fun hnone => ?_⟩
        rw [hnone] at hpf
        exact absurd hpf.2 (by simp)
    · rw [if_neg hpf]
      exact ⟨rfl, rfl, fun _ => ⟨rfl, rfl, rfl, rfl⟩⟩

theorem exampleMoveCtx_sqrt_400 : exampleMoveCtx.sqrt 400 = 20 := by
  have h : Nat.sqrt 400000000 = 20000 := by
    rw [show (400000000 : Nat) = 20000 * 20000 from rfl]
    exact Nat.sqrt_eq 20000
  simp only [exampleMoveCtx]
  have hn : ((400 : ℚ).num.toNat * (400 : ℚ).den * 1000000) = 400000000 := by
    have h1 : (400 : ℚ).num = 400 := rfl
    have h2 : (400 : ℚ).den = 1 := rfl
    rw [h1, h2]
    rfl
  rw [hn, h]
  have h2 : (400 : ℚ).den = 1 := rfl
  rw [h2]
  norm_num

theorem exampleFollower_distance :
    CalculateDistance2D exampleMoveCtx exampleFollower.eq.m_x exampleFollower.eq.m_y
      exampleEntity.x exampleEntity.y = 20 := by
  have hx : exampleFollower.eq.m_x = 20 := rfl
  have hy : exampleFollower.eq.m_y = 0 := rfl
  have hex : exampleEntity.x = 0 := rfl
  have hey : exampleEntity.y = 0 := rfl
  unfold CalculateDistance2D
  rw [hx, hy, hex, hey]
  norm_num [exampleMoveCtx_sqrt_400]

/-- C32, the case that refutes it. The example client stands 20 units (2D)
from the entity it follows, between 10 and 30 units, with no path. The follow
step of that tick sets `m_is_moving` and moves the immediate target to the
entity's position: the threshold is 1.5 times the follow distance, 15 units,
not the far distance of 30. -/
theorem C32_follow_recomputes_at_twenty :
    followedEntity exampleFollower.eq exampleFollower.mv.m_follow_target = some exampleEntity ∧
    CalculateDistance2D exampleMoveCtx exampleFollower.eq.m_x exampleFollower.eq.m_y
      exampleEntity.x exampleEntity.y = 20 ∧
    FOLLOW_CLOSE_DISTANCE = 10 ∧ FOLLOW_FAR_DISTANCE = 30 ∧
    exampleFollower.eq.m_is_moving = false ∧
    (followBlock exampleMoveCtx exampleFollower).1.eq.m_is_moving = true ∧
    exampleFollower.mv.m_target_x = -1233.5 ∧
    (followBlock exampleMoveCtx exampleFollower).1.mv.m_target_x = 0 := by
  have he := followedEntity_rat exampleFollower.eq rfl
  have hfar := followBlock_far exampleMoveCtx exampleFollower exampleEntity (by decide) he
    (by
      rw [exampleFollower_distance]
      have : exampleFollower.mv.m_follow_distance = 10 := rfl
      rw [this]
      norm_num)
  rw [exampleFollower_distance] at hfar
  have hfd : exampleFollower.mv.m_follow_distance = 10 := rfl
  have hemp : exampleFollower.mv.m_current_path.isEmpty = true := rfl
  rw [hfd, if_pos (by norm_num), if_pos (Or.inr hemp),
    if_neg (fun h => absurd h.2 (by decide))] at hfar
  refine ⟨he, exampleFollower_distance, rfl, rfl, rfl, ?_, rfl, ?_⟩
  · rw [hfar]
  · rw [hfar]
    rfl

theorem C32_follow_recomputes_beyond_fifteen_witness :
    exampleFollower.mv.m_follow_target ≠ [] ∧ exampleFollower.mv.m_follow_distance = 10 ∧
    CalculateDistance2D exampleMoveCtx exampleFollower.eq.m_x exampleFollower.eq.m_y
      exampleEntity.x exampleEntity.y = 20 ∧
    (followBlock exampleMoveCtx exampleFollower).2 = false ∧
    (followBlock exampleMoveCtx exampleFollower).1.eq.m_is_moving = true :=
  ⟨by decide, rfl, exampleFollower_distance,
    ((C32_follow_recomputes_beyond_fifteen exampleMoveCtx exampleFollower exampleEntity 20
      (by decide) (followedEntity_rat _ rfl) rfl exampleFollower_distance (by norm_num)).2.2
      (by norm_num) (Or.inr rfl)).1,
    ((C32_follow_recomputes_beyond_fifteen exampleMoveCtx exampleFollower exampleEntity 20
      (by decide) (followedEntity_rat _ rfl) rfl exampleFollower_distance (by norm_num)).2.2
      (by norm_num) (Or.inr rfl)).2.1⟩

/-- With a record less than a second old, or none, and the clock less than a
second on, the stuck detection only writes its own record, which is then less
than a second old. -/
theorem stuckDetection_fresh (ctx : MoveCtx) (c : Client) (d : ℚ) (t0 : Nat)
    (ht : ctx.now < t0 + 1000) (hf : StuckRecordFresh c t0) :
    ∃ r : ℚ × Nat, stuckDetection ctx c d =
        ({ c with mv := { c.mv with stuck_detection := some r } }, false) ∧
      ctx.now < r.2 + 1000 := by
  unfold stuckDetection
  cases hs : c.mv.stuck_detection with
  | none => exact ⟨(d, ctx.now), rfl, by simp⟩
  | some rec =>
    obtain ⟨last_dist, last_time⟩ := rec
    have hfr := hf last_dist last_time hs
    simp only []
    have h3 : ¬ ((ctx.now - last_time) / 1000 ≥ 3 ∧ |d - last_dist| < 1) := by
      intro h
      have := h.1
      omega
    rw [if_neg h3]
    by_cases h1 : (ctx.now - last_time) / 1000 ≥ 1
    · rw [if_pos h1]
      exact ⟨(d, ctx.now), rfl, by simp⟩
    · rw [if_neg h1]
      refine ⟨(last_dist, last_time), ?_, ?_⟩
      · rw [← hs]
      · show ctx.now < last_time + 1000
        omega

theorem MoveTo_mv (ctx : MoveCtx) (c : Client) (x y z : ℚ) :
    (MoveTo ctx c x y z).mv.stuck_detection = c.mv.stuck_detection := rfl

/-- The step, the Z fix and the position update of a tick leave the path, the
waypoint index, the follow name, the immediate target, the stuck record and the
moving flag alone. -/
theorem step_engine (ctx : MoveCtx) (c : Client) (dx dy dz d : ℚ) :
    (throttledUpdate ctx (zFixBlock ctx (advance ctx c dx dy dz d))).mv.m_current_path =
      c.mv.m_current_path ∧
    (throttledUpdate ctx (zFixBlock ctx (advance ctx c dx dy dz d))).mv.m_current_path_index =
      c.mv.m_current_path_index ∧
    (throttledUpdate ctx (zFixBlock ctx (advance ctx c dx dy dz d))).mv.m_follow_target =
      c.mv.m_follow_target ∧
    (throttledUpdate ctx (zFixBlock ctx (advance ctx c dx dy dz d))).mv.m_target_x =
      c.mv.m_target_x ∧
    (throttledUpdate ctx (zFixBlock ctx (advance ctx c dx dy dz d))).mv.m_target_y =
      c.mv.m_target_y ∧
    (throttledUpdate ctx (zFixBlock ctx (advance ctx c dx dy dz d))).mv.m_target_z =
      c.mv.m_target_z ∧
    (throttledUpdate ctx (zFixBlock ctx (advance ctx c dx dy dz d))).mv.stuck_detection =
      c.mv.stuck_detection ∧
    (throttledUpdate ctx (zFixBlock ctx (advance ctx c dx dy dz d))).eq.m_is_moving =
      c.eq.m_is_moving := by
  obtain ⟨⟨t1, h1⟩, -, -, -, m1⟩ :=
    throttledUpdate_frame ctx (zFixBlock ctx (advance ctx c dx dy dz d))
  obtain ⟨⟨t2, h2⟩, -, -, m2⟩ := zFixBlock_frame ctx (advance ctx c dx dy dz d)
  rw [h1, h2, m1, m2]
  exact ⟨rfl, rfl, rfl, rfl, rfl, rfl, rfl, rfl⟩

theorem arriveBlock_stuck (c : Client) :
    (arriveBlock c).mv.stuck_detection = c.mv.stuck_detection := by
  unfold arriveBlock
  simp only []
  split
  · rfl
  · exact (StopMovement_frame _).2.2.2.2.1

theorem stepBlock_stuck (ctx : MoveCtx) (c : Client) :
    (stepBlock ctx c).mv.stuck_detection = c.mv.stuck_detection := by
  unfold stepBlock
  simp only []
  split
  · exact arriveBlock_stuck c
  · exact (step_engine ctx c _ _ _ _).2.2.2.2.2.2.1

theorem pathBlock_stuck (ctx : MoveCtx) (c : Client) (wp : Vec3)
    (hwp : c.mv.m_current_path[c.mv.m_current_path_index]? = some wp) :
    (pathBlock ctx c).1.mv.stuck_detection =
      (stuckDetection ctx c
        (CalculateDistance2D ctx c.eq.m_x c.eq.m_y wp.x wp.y)).1.mv.stuck_detection := by
  unfold pathBlock
  rw [hwp]
  simp only []
  split
  · rfl
  · split
    · split
      · exact (StopMovement_frame _).2.2.2.2.1
      · split
        · rfl
        · rfl
    · rfl

/-- In a tick of a moving client that follows no one and has a current
waypoint, the stuck record after the tick is the one the stuck detection
left. -/
theorem UpdateMovement_stuck (ctx : MoveCtx) (c : Client) (wp : Vec3)
    (hm : c.eq.m_is_moving = true) (hf : c.mv.m_follow_target = [])
    (hwp : c.mv.m_current_path[c.mv.m_current_path_index]? = some wp) :
    (UpdateMovement ctx c).mv.stuck_detection =
      (stuckDetection ctx c
        (CalculateDistance2D ctx c.eq.m_x c.eq.m_y wp.x wp.y)).1.mv.stuck_detection := by
  have h1 : followBlock ctx c = (c, false) := by
    unfold followBlock
    rw [hf]
    rfl
  have h5 : UpdateMovement ctx c =
      if (pathBlock ctx c).2 then (pathBlock ctx c).1 else stepBlock ctx (pathBlock ctx c).1 := by
    unfold UpdateMovement
    simp only [h1, hm]
    rfl
  rw [h5, ← pathBlock_stuck ctx c wp hwp]
  split
  · rfl
  · exact stepBlock_stuck ctx _

/-- C34. Over a run of ticks less than one second apart in each of which the
client is moving along a path (it follows no one and has a current waypoint),
starting with no stuck record or one less than a second old, the stuck
detection never acts, whatever the distances to the waypoint are: at no tick
does it stop the movement or advance the waypoint index, because the record
it compares with is renewed every second and so is never 3 seconds old. -/
theorem C34_stuck_detection_never_fires (passes : List ((EverQuest → EverQuest) × MoveCtx))
    (t0 : Nat) (c : Client) (ht : TicksWithinSecond t0 passes) (hf : StuckRecordFresh c t0)
    (hp : FollowsPath c passes) : NeverStuck c passes := by
  induction passes generalizing t0 c with
  | nil => trivial
  | cons pass rest ih =>
    obtain ⟨-, hnow, hrest⟩ := ht
    obtain ⟨hm, hfol, hwp, hprest⟩ := hp
    have hf0 : StuckRecordFresh { c with eq := pass.1 c.eq } t0 := hf
    refine ⟨fun d => ?_, ?_⟩
    · obtain ⟨r, hr, -⟩ := stuckDetection_fresh pass.2 { c with eq := pass.1 c.eq } d t0 hnow hf0
      rw [hr]
      exact ⟨rfl, rfl, rfl⟩
    · refine ih pass.2.now _ hrest ?_ hprest
      cases hw : c.mv.m_current_path[c.mv.m_current_path_index]? with
      | none => rw [hw] at hwp; cases hwp
      | some wp =>
        obtain ⟨r, hr, hfresh⟩ := stuckDetection_fresh pass.2 { c with eq := pass.1 c.eq }
          (CalculateDistance2D pass.2 (pass.1 c.eq).m_x (pass.1 c.eq).m_y wp.x wp.y) t0 hnow hf0
        have hu := UpdateMovement_stuck pass.2 { c with eq := pass.1 c.eq } wp hm hfol hw
        rw [hr] at hu
        intro d2 last_time hd2
        rw [hu] at hd2
        have : r = (d2, last_time) := Option.some.inj hd2
        rw [this] at hfresh
        exact hfresh

/-- A tick far from the waypoint and from the target, with a fresh stuck
record: the client keeps moving along the same path to the same target. -/
theorem UpdateMovement_far (ctx : MoveCtx) (c : Client) (wp : Vec3) (t0 : Nat)
    (hm : c.eq.m_is_moving = true) (hf : c.mv.m_follow_target = [])
    (hwp : c.mv.m_current_path[c.mv.m_current_path_index]? = some wp)
    (ht : ctx.now < t0 + 1000) (hfr : StuckRecordFresh c t0)
    (hfar : ¬ CalculateDistance2D ctx c.eq.m_x c.eq.m_y wp.x wp.y < 5)
    (hd : ¬ targetDistance ctx c < 2) :
    (UpdateMovement ctx c).eq.m_is_moving = true ∧
    (UpdateMovement ctx c).mv.m_follow_target = [] ∧
    (UpdateMovement ctx c).mv.m_current_path = c.mv.m_current_path ∧
    (UpdateMovement ctx c).mv.m_current_path_index = c.mv.m_current_path_index ∧
    (UpdateMovement ctx c).mv.m_target_x = c.mv.m_target_x ∧
    (UpdateMovement ctx c).mv.m_target_y = c.mv.m_target_y ∧
    (UpdateMovement ctx c).mv.m_target_z = c.mv.m_target_z := by
  obtain ⟨r, hr, -⟩ := stuckDetection_fresh ctx c
    (CalculateDistance2D ctx c.eq.m_x c.eq.m_y wp.x wp.y) t0 ht hfr
  have hpb : pathBlock ctx c =
      ({ c with mv := { c.mv with stuck_detection := some r } }, false) := by
    unfold pathBlock
    rw [hwp]
    simp only [hr]
    rw [if_neg hfar]
    rfl
  have hsteps := UpdateMovement_steps ctx c hm hf (by rw [hpb]) (by rw [hpb]; exact hd)
  rw [hsteps]
  obtain ⟨e1, e2, e3, e4, e5, e6, -, e8⟩ := step_engine ctx (pathBlock ctx c).1
    ((pathBlock ctx c).1.mv.m_target_x - (pathBlock ctx c).1.eq.m_x)
    ((pathBlock ctx c).1.mv.m_target_y - (pathBlock ctx c).1.eq.m_y)
    ((pathBlock ctx c).1.mv.m_target_z - (pathBlock ctx c).1.eq.m_z)
    (targetDistance ctx (pathBlock ctx c).1)
  rw [e1, e2, e3, e4, e5, e6, e8, hpb]
  exact ⟨hm, hf, rfl, rfl, rfl, rfl, rfl⟩

theorem sqrt_10000_of (ctx : MoveCtx) (hs : ctx.sqrt = exampleMoveCtx.sqrt) :
    ctx.sqrt 10000 = 100 := by
  have h : Nat.sqrt 10000000000 = 100000 := by
    rw [show (10000000000 : Nat) = 100000 * 100000 from rfl]
    exact Nat.sqrt_eq 100000
  rw [hs]
  simp only [exampleMoveCtx]
  have h1 : (10000 : ℚ).num = 10000 := rfl
  have h2 : (10000 : ℚ).den = 1 := rfl
  have hn : ((10000 : ℚ).num.toNat * (10000 : ℚ).den * 1000000) = 10000000000 := by
    rw [h1, h2]
    rfl
  rw [hn, h, h2]
  norm_num

/-- One pass of the example run: the player, put back at the origin, is 100
units from its only waypoint and from its target, and the tick leaves it
moving along the same path with a fresh stuck record. -/
theorem putBack_pass (ctx : MoveCtx) (c : Client) (t0 : Nat)
    (hs : ctx.sqrt = exampleMoveCtx.sqrt) (ht : ctx.now < t0 + 1000)
    (hfr : StuckRecordFresh c t0)
    (hm : c.eq.m_is_moving = true) (hf : c.mv.m_follow_target = [])
    (hpath : c.mv.m_current_path = [{ x := 100, y := 0, z := 0 }])
    (hidx : c.mv.m_current_path_index = 0)
    (htx : c.mv.m_target_x = 100) (hty : c.mv.m_target_y = 0) (htz : c.mv.m_target_z = 0) :
    (UpdateMovement ctx { c with eq := examplePutBack c.eq }).eq.m_is_moving = true ∧
    (UpdateMovement ctx { c with eq := examplePutBack c.eq }).mv.m_follow_target = [] ∧
    (UpdateMovement ctx { c with eq := examplePutBack c.eq }).mv.m_current_path =
      [{ x := 100, y := 0, z := 0 }] ∧
    (UpdateMovement ctx { c with eq := examplePutBack c.eq }).mv.m_current_path_index = 0 ∧
    (UpdateMovement ctx { c with eq := examplePutBack c.eq }).mv.m_target_x = 100 ∧
    (UpdateMovement ctx { c with eq := examplePutBack c.eq }).mv.m_target_y = 0 ∧
    (UpdateMovement ctx { c with eq := examplePutBack c.eq }).mv.m_target_z = 0 := by
  have hwp : ({ c with eq := examplePutBack c.eq } : Client).mv.m_current_path[
      ({ c with eq := examplePutBack c.eq } : Client).mv.m_current_path_index]? =
      some { x := 100, y := 0, z := 0 } := by
    show c.mv.m_current_path[c.mv.m_current_path_index]? = _
    rw [hpath, hidx]
    rfl
  have hdist : CalculateDistance2D ctx (examplePutBack c.eq).m_x (examplePutBack c.eq).m_y
      100 0 = 100 := by
    have hx : (examplePutBack c.eq).m_x = 0 := rfl
    have hy : (examplePutBack c.eq).m_y = 0 := rfl
    unfold CalculateDistance2D
    rw [hx, hy]
    norm_num [sqrt_10000_of ctx hs]
  have htd : targetDistance ctx { c with eq := examplePutBack c.eq } = 100 := by
    unfold targetDistance
    have hx : (examplePutBack c.eq).m_x = 0 := rfl
    have hy : (examplePutBack c.eq).m_y = 0 := rfl
    have hz : (examplePutBack c.eq).m_z = 0 := rfl
    show ctx.sqrt ((c.mv.m_target_x - (examplePutBack c.eq).m_x) *
        (c.mv.m_target_x - (examplePutBack c.eq).m_x) +
      (c.mv.m_target_y - (examplePutBack c.eq).m_y) *
        (c.mv.m_target_y - (examplePutBack c.eq).m_y) +
      (c.mv.m_target_z - (examplePutBack c.eq).m_z) *
        (c.mv.m_target_z - (examplePutBack c.eq).m_z)) = 100
    rw [hx, hy, hz, htx, hty, htz]
    norm_num [sqrt_10000_of ctx hs]
  obtain ⟨u1, u2, u3, u4, u5, u6, u7⟩ := UpdateMovement_far ctx { c with eq := examplePutBack c.eq }
    { x := 100, y := 0, z := 0 } t0 hm hf hwp ht hfr
    (by
      show ¬ CalculateDistance2D ctx (examplePutBack c.eq).m_x (examplePutBack c.eq).m_y
        100 0 < 5
      rw [hdist]
      norm_num)
    (by rw [htd]; norm_num)
  exact ⟨u1, u2, u3.trans hpath, u4.trans hidx, u5.trans htx, u6.trans hty, u7.trans htz⟩

/-- A run of such passes: at every tick the client is following its path, and
at the end it is still moving to waypoint 0. -/
theorem putBack_run (passes : List ((EverQuest → EverQuest) × MoveCtx)) (c : Client) (t0 : Nat)
    (hall : ∀ pass ∈ passes, pass.1 = examplePutBack ∧ pass.2.sqrt = exampleMoveCtx.sqrt)
    (ht : TicksWithinSecond t0 passes) (hfr : StuckRecordFresh c t0)
    (hm : c.eq.m_is_moving = true) (hf : c.mv.m_follow_target = [])
    (hpath : c.mv.m_current_path = [{ x := 100, y := 0, z := 0 }])
    (hidx : c.mv.m_current_path_index = 0)
    (htx : c.mv.m_target_x = 100) (hty : c.mv.m_target_y = 0) (htz : c.mv.m_target_z = 0) :
    FollowsPath c passes ∧ (tickRun passes c).eq.m_is_moving = true ∧
    (tickRun passes c).mv.m_current_path_index = 0 := by
  induction passes generalizing t0 c with
  | nil => exact ⟨trivial, hm, hidx⟩
  | cons pass rest ih =>
    obtain ⟨hp1, hp2⟩ := hall pass (List.mem_cons_self _ _)
    obtain ⟨-, hnow, hrest⟩ := ht
    have hpass := putBack_pass pass.2 c t0 hp2 hnow hfr hm hf hpath hidx htx hty htz
    rw [← hp1] at hpass
    obtain ⟨u1, u2, u3, u4, u5, u6, u7⟩ := hpass
    have hwp : c.mv.m_current_path[c.mv.m_current_path_index]? =
        some { x := 100, y := 0, z := 0 } := by
      rw [hpath, hidx]
      rfl
    have hm1 : (pass.1 c.eq).m_is_moving = true := by
      rw [hp1]
      exact hm
    have hfresh : StuckRecordFresh (UpdateMovement pass.2 { c with eq := pass.1 c.eq })
        pass.2.now := by
      obtain ⟨r, hr, hrf⟩ := stuckDetection_fresh pass.2 { c with eq := pass.1 c.eq }
        (CalculateDistance2D pass.2 (pass.1 c.eq).m_x (pass.1 c.eq).m_y 100 0) t0 hnow hfr
      have hu := UpdateMovement_stuck pass.2 { c with eq := pass.1 c.eq }
        { x := 100, y := 0, z := 0 } hm1 hf hwp
      rw [hr] at hu
      intro d2 last_time hd2
      rw [hu] at hd2
      have : r = (d2, last_time) := Option.some.inj hd2
      rw [this] at hrf
      exact hrf
    obtain ⟨i1, i2, i3⟩ := ih (UpdateMovement pass.2 { c with eq := pass.1 c.eq }) pass.2.now
      (fun q hq => hall q (List.mem_cons_of_mem _ hq)) hrest hfresh u1 u2 u3 u4 u5 u6 u7
    refine ⟨⟨hm1, hf, ?_, i1⟩, i2, i3⟩
    rw [hwp]
    rfl

theorem exampleStuckRun_ticks : TicksWithinSecond 0 exampleStuckRun := by
  unfold exampleStuckRun
  simp only [TicksWithinSecond]
  norm_num

theorem exampleStuck_fresh : StuckRecordFresh exampleStuck 0 := by
  intro d last_time h
  have hn : exampleStuck.mv.stuck_detection = none := rfl
  rw [hn] at h
  cases h

theorem exampleStuckRun_putBack :
    ∀ pass ∈ exampleStuckRun, pass.1 = examplePutBack ∧ pass.2.sqrt = exampleMoveCtx.sqrt := by
  intro pass hp
  unfold exampleStuckRun at hp
  simp only [List.mem_cons, List.mem_singleton, List.mem_nil_iff, or_false] at hp
  rcases hp with h | h | h | h | h <;> rw [h] <;> exact ⟨rfl, rfl⟩

theorem C34_stuck_detection_never_fires_witness :
    TicksWithinSecond 0 exampleStuckRun ∧ StuckRecordFresh exampleStuck 0 ∧
    FollowsPath exampleStuck exampleStuckRun ∧
    exampleStuck.mv.m_current_path.length = 1 ∧
    NeverStuck exampleStuck exampleStuckRun ∧
    (tickRun exampleStuckRun exampleStuck).eq.m_is_moving = true ∧
    (tickRun exampleStuckRun exampleStuck).mv.m_current_path_index = 0 :=
  ⟨exampleStuckRun_ticks, exampleStuck_fresh,
    (putBack_run exampleStuckRun exampleStuck 0 exampleStuckRun_putBack exampleStuckRun_ticks
      exampleStuck_fresh rfl rfl rfl rfl rfl rfl rfl).1,
    rfl,
    C34_stuck_detection_never_fires exampleStuckRun 0 exampleStuck exampleStuckRun_ticks
      exampleStuck_fresh
      (putBack_run exampleStuckRun exampleStuck 0 exampleStuckRun_putBack exampleStuckRun_ticks
        exampleStuck_fresh rfl rfl rfl rfl rfl rfl rfl).1,
    (putBack_run exampleStuckRun exampleStuck 0 exampleStuckRun_putBack exampleStuckRun_ticks
      exampleStuck_fresh rfl rfl rfl rfl rfl rfl rfl).2⟩

/-- A client stands at `(x, y)` on a map that reports the ground height 10
there, whatever height the search starts from. -/
theorem FixZ_ground_ten (c : Client) (map : HCMap) (hmap : c.mv.m_zone_map = some map)
    (hb : ∀ z, map.FindBestZ { x := c.eq.m_x, y := c.eq.m_y, z := z } = 10) :
    FixZ c =
      if 1 < |f32Round (10 - c.eq.m_z)| ∧ |f32Round (10 - c.eq.m_z)| < 20 then
        { c with eq := { c.eq with
            m_z := f32Round (c.eq.m_z +
              f32Round (f32Round (10 - c.eq.m_z) * f32Round (3 / 10))) } }
      else c :=
  FixZ_valid c map 10 hmap (hb _) (by unfold BEST_Z_INVALID; norm_num)

theorem FixZ_ground_ten_frame (c : Client) (map : HCMap) (hmap : c.mv.m_zone_map = some map)
    (hb : ∀ z, map.FindBestZ { x := c.eq.m_x, y := c.eq.m_y, z := z } = 10) :
    (FixZ c).mv.m_zone_map = some map ∧
    (∀ z, map.FindBestZ { x := (FixZ c).eq.m_x, y := (FixZ c).eq.m_y, z := z } = 10) := by
  rw [FixZ_ground_ten c map hmap hb]
  split_ifs
  · exact ⟨hmap, hb⟩
  · exact ⟨hmap, hb⟩

/-- The difference `10 - 8.60000038` is exact in binary32. -/
theorem f32_sub_second : f32Round (10 - 4508877 / 524288) = 734003 / 524288 := by
  rw [f32Round_eq (10 - 4508877 / 524288) 0 11744048 (by norm_num)
    (by norm_num [abs_of_pos]) (by norm_num [abs_of_pos])
    (roundHalfEven_near _ _ (by norm_num) (by norm_num))]
  norm_num

/-- The step of `FixZ` from height 8.60000038 toward 10 in binary32:
9.02000046. -/
theorem f32_fix_second :
    f32Round (4508877 / 524288 +
      f32Round (f32Round (10 - 4508877 / 524288) * f32Round (3 / 10))) =
      2364539 / 262144 := by
  rw [f32_sub_second, f32_0_3]
  have h1 : f32Round (734003 / 524288 * (5033165 / 16777216)) = 7046429 / 16777216 := by
    rw [f32Round_eq (734003 / 524288 * (5033165 / 16777216)) (-2) 14092858 (by norm_num)
      (by norm_num [abs_of_pos]) (by norm_num [abs_of_pos])
      (roundHalfEven_near _ _ (by norm_num) (by norm_num))]
    norm_num
  rw [h1, f32Round_eq (4508877 / 524288 + 7046429 / 16777216) 3 9458156 (by norm_num)
    (by norm_num [abs_of_pos]) (by norm_num [abs_of_pos])
    (roundHalfEven_near _ _ (by norm_num) (by norm_num))]
  norm_num

/-- The difference `10 - 9.02000046` is exact in binary32 and below 1. -/
theorem f32_sub_third : f32Round (10 - 2364539 / 262144) = 256901 / 262144 := by
  rw [f32Round_eq (10 - 2364539 / 262144) (-1) 16441664 (by norm_num)
    (by norm_num [abs_of_pos]) (by norm_num [abs_of_pos])
    (roundHalfEven_near _ _ (by norm_num) (by norm_num))]
  norm_num

theorem FixZ_ground_ten_iterate (c : Client) (map : HCMap)
    (hmap : c.mv.m_zone_map = some map)
    (hb : ∀ z, map.FindBestZ { x := c.eq.m_x, y := c.eq.m_y, z := z } = 10)
    (hz : c.eq.m_z = 8) :
    (FixZ c).eq.m_z = 4508877 / 524288 ∧
    ∀ n, (FixZ^[n + 2] c).eq.m_z = 2364539 / 262144 := by
  have h1 : (FixZ c).eq.m_z = 4508877 / 524288 := by
    rw [FixZ_ground_ten c map hmap hb, hz,
      if_pos (by rw [f32_sub_10_8]; norm_num [abs_of_pos])]
    exact f32_fix_8_10
  have hf1 := FixZ_ground_ten_frame c map hmap hb
  have h2 : (FixZ (FixZ c)).eq.m_z = 2364539 / 262144 := by
    rw [FixZ_ground_ten (FixZ c) map hf1.1 hf1.2, h1,
      if_pos (by rw [f32_sub_second]; norm_num [abs_of_pos])]
    exact f32_fix_second
  have hf2 := FixZ_ground_ten_frame (FixZ c) map hf1.1 hf1.2
  refine ⟨h1, ?_⟩
  have key : ∀ n, (FixZ^[n + 2] c).eq.m_z = 2364539 / 262144 ∧
      (FixZ^[n + 2] c).mv.m_zone_map = some map ∧
      (∀ z, map.FindBestZ
        { x := (FixZ^[n + 2] c).eq.m_x, y := (FixZ^[n + 2] c).eq.m_y, z := z } = 10) := by
    intro n
    induction n with
    | zero => exact ⟨h2, hf2⟩
    | succ k ih =>
      rw [Function.iterate_succ_apply']
      refine ⟨?_, FixZ_ground_ten_frame _ map ih.2.1 ih.2.2⟩
      rw [FixZ_ground_ten _ map ih.2.1 ih.2.2, ih.1,
        if_neg (by rw [f32_sub_third]; norm_num [abs_of_pos])]
      exact ih.1
  exact fun n => (key n).1

theorem exampleFlat_best (x y z : ℚ) :
    exampleFlat.FindBestZ { x := x, y := y, z := z } = 10 := rfl

/-- C35, the case that refutes it. On the flat example map, which reports the
ground height 10 everywhere, the example client starts at z = 8, and no number
of applications of `FixZ` brings z within 1/2 of 10: z is 8, then
4508877 / 524288 (8.60000038), then 2364539 / 262144 (9.02000046) for good,
since `FixZ` leaves a difference of at most 1 alone. -/
theorem C35_z_fix_stops_short :
    exampleOnFlat.eq.m_z = 8 ∧
    (∀ z, exampleFlat.FindBestZ
      { x := exampleOnFlat.eq.m_x, y := exampleOnFlat.eq.m_y, z := z } = 10) ∧
    ¬ ∃ n, |(FixZ^[n] exampleOnFlat).eq.m_z - 10| < 1 / 2 := by
  refine ⟨rfl, fun z => exampleFlat_best _ _ z, ?_⟩
  have h := FixZ_ground_ten_iterate exampleOnFlat exampleFlat rfl
    (fun z => exampleFlat_best _ _ z) rfl
  rintro ⟨n, hn⟩
  rcases n with _ | _ | n
  · have h0 : (FixZ^[0] exampleOnFlat).eq.m_z = 8 := rfl
    rw [h0] at hn
    norm_num [abs_lt] at hn
  · have h1 : (FixZ^[0 + 1] exampleOnFlat).eq.m_z = 4508877 / 524288 := h.1
    rw [h1] at hn
    norm_num [abs_lt] at hn
  · rw [h.2 n] at hn
    norm_num [abs_lt] at hn

/-- C35, amended. With a terrain map that reports the ground height 10 at the
player's position and the player starting at z = 8, the first application of
`FixZ` gives the binary32 number 4508877 / 524288 (8.60000038), the second
2364539 / 262144 (9.02000046), and every further one leaves z there: the
distance to 10 stays 256901 / 262144 (0.97999954). -/
theorem C35_z_fix_converges_to_within_one (c : Client) (map : HCMap)
    (hmap : c.mv.m_zone_map = some map)
    (hb : ∀ z, map.FindBestZ { x := c.eq.m_x, y := c.eq.m_y, z := z } = 10)
    (hz : c.eq.m_z = 8) :
    (FixZ c).eq.m_z = 4508877 / 524288 ∧
    ∀ n, (FixZ^[n + 2] c).eq.m_z = 2364539 / 262144 ∧
      |(FixZ^[n + 2] c).eq.m_z - 10| = 256901 / 262144 := by
  have h := FixZ_ground_ten_iterate c map hmap hb hz
  refine ⟨h.1, fun n => ⟨h.2 n, ?_⟩⟩
  rw [h.2 n]
  norm_num [abs_of_neg]

theorem C35_z_fix_converges_to_within_one_witness :
    exampleOnFlat.mv.m_zone_map = some exampleFlat ∧ exampleOnFlat.eq.m_z = 8 ∧
    (FixZ exampleOnFlat).eq.m_z = 4508877 / 524288 ∧
    (FixZ^[7] exampleOnFlat).eq.m_z = 2364539 / 262144 :=
  ⟨rfl, rfl,
    (C35_z_fix_converges_to_within_one exampleOnFlat exampleFlat rfl
      (fun z => exampleFlat_best _ _ z) rfl).1,
    ((C35_z_fix_converges_to_within_one exampleOnFlat exampleFlat rfl
      (fun z => exampleFlat_best _ _ z) rfl).2 5).1⟩

/-- A spawn descriptor that lies inside the packet is read in full. -/
theorem readSpawnFields_some (p : Packet) (off : Nat) (h : off + 344 ≤ Length p) :
    ∃ r, readSpawnFields p off = some r ∧ GetUInt32 p (off + 340) = some r.spawn_id ∧
      GetUInt32 p (off + 94) = some r.field1 ∧ GetUInt32 p (off + 98) = some r.field2 ∧
      GetUInt32 p (off + 102) = some r.field3 := by
  obtain ⟨a1, h1⟩ := GetUInt32_of_le p (off + 340) (by omega)
  obtain ⟨a2, h2⟩ := GetUInt8_of_lt p (off + 151) (by omega)
  obtain ⟨a3, h3⟩ := GetUInt32_of_le p (off + 94) (by omega)
  obtain ⟨a4, h4⟩ := GetUInt32_of_le p (off + 98) (by omega)
  obtain ⟨a5, h5⟩ := GetUInt32_of_le p (off + 102) (by omega)
  obtain ⟨a6, h6⟩ := GetUInt32_of_le p (off + 106) (by omega)
  obtain ⟨a7, h7⟩ := GetUInt32_of_le p (off + 284) (by omega)
  obtain ⟨a8, h8⟩ := GetUInt8_of_lt p (off + 331) (by omega)
  obtain ⟨a9, h9⟩ := GetUInt8_of_lt p (off + 334) (by omega)
  obtain ⟨a10, h10⟩ := GetUInt32_of_le p (off + 238) (by omega)
  obtain ⟨a11, h11⟩ := GetUInt8_of_lt p (off + 86) (by omega)
  refine ⟨{ spawn_id := a1, level := a2, field1 := a3, field2 := a4, field3 := a5,
            field4 := a6, race_id := a7, class_id := a8, gender := a9, guild_id := a10,
            hp_percent := a11 }, ?_, h1, h3, h4, h5⟩
  unfold readSpawnFields
  simp only [h1, h2, h3, h4, h5, h6, h7, h8, h9, h10, h11]

theorem newSpawnEntity_id (ctx : RecvCtx) (name : List Nat) (r : SpawnFields) :
    (newSpawnEntity ctx name r).spawn_id = r.spawn_id % 65536 ∧
    (newSpawnEntity ctx name r).name = name := ⟨rfl, rfl⟩

theorem zoneSpawnsEntity_id (ctx : RecvCtx) (name : List Nat) (r : SpawnFields) :
    (zoneSpawnsEntity ctx name r).spawn_id = r.spawn_id % 65536 ∧
    (zoneSpawnsEntity ctx name r).name = name := ⟨rfl, rfl⟩

/-- What `ZoneProcessNewSpawn` does with a descriptor it has read: it stores
the entity under the low 16 bits of the spawn id when these are not all zero
and the name is not empty, and otherwise leaves the client as it is. -/
theorem NewSpawn_cases (ctx : RecvCtx) (s : EverQuest) (p : Packet) (r : SpawnFields)
    (hl : 387 ≤ Length p) (hr : readSpawnFields p 2 = some r) :
    (r.spawn_id % 65536 ≠ 0 → GetCString p 9 ≠ [] →
      (ZoneProcessNewSpawn ctx s p).m_entities =
        mapInsert s.m_entities (r.spawn_id % 65536) (newSpawnEntity ctx (GetCString p 9) r)) ∧
    (r.spawn_id % 65536 = 0 ∨ GetCString p 9 = [] → ZoneProcessNewSpawn ctx s p = s) := by
  have hlt : r.spawn_id % 65536 < 100000 := lt_trans (Nat.mod_lt _ (by norm_num)) (by norm_num)
  unfold ZoneProcessNewSpawn
  rw [if_neg (by omega)]
  simp only [hr, newSpawnEntity_id]
  constructor
  · intro hid hn
    rw [if_pos ⟨Nat.pos_of_ne_zero hid, hlt, hn⟩]
    split <;> rfl
  · intro h
    rw [if_neg]
    rintro ⟨h1, -, h3⟩
    rcases h with h | h
    · omega
    · exact h3 h

/-- What `ZoneProcessZoneSpawns` does with a packet that holds exactly one
descriptor. -/
theorem ZoneSpawns_cases (ctx : RecvCtx) (s : EverQuest) (p : Packet) (r : SpawnFields)
    (hl : Length p = 387) (hr : readSpawnFields p 2 = some r) :
    (r.spawn_id % 65536 ≠ 0 → GetCString p 9 ≠ [] →
      (ZoneProcessZoneSpawns ctx s p).m_entities =
        mapInsert s.m_entities (r.spawn_id % 65536)
          (zoneSpawnsEntity ctx (GetCString p 9) r)) ∧
    (r.spawn_id % 65536 = 0 ∨ GetCString p 9 = [] → ZoneProcessZoneSpawns ctx s p = s) := by
  have hlt : r.spawn_id % 65536 < 100000 := lt_trans (Nat.mod_lt _ (by norm_num)) (by norm_num)
  have hstop : ∀ (n : Nat) (t : EverQuest), ZoneSpawnsLoop ctx p n (2 + 385) t = t := by
    intro n t
    cases n with
    | zero => rfl
    | succ n =>
      unfold ZoneSpawnsLoop
      rw [if_neg (by omega)]
  unfold ZoneProcessZoneSpawns
  rw [hl]
  unfold ZoneSpawnsLoop
  rw [if_pos (by omega)]
  simp only [hr, zoneSpawnsEntity_id, hstop]
  have h9 : GetCString p (2 + 7) = GetCString p 9 := rfl
  rw [h9]
  constructor
  · intro hid hn
    rw [if_neg hn, if_pos ⟨Nat.pos_of_ne_zero hid, hlt, hn⟩]
    split <;> rfl
  · intro h
    by_cases hn : GetCString p 9 = []
    · rw [if_pos hn]
    · rw [if_neg hn, if_neg]
      rintro ⟨h1, -, -⟩
      rcases h with h | h
      · omega
      · exact hn h

/-- The entity of `ZoneProcessNewSpawn` is the entity of
`ZoneProcessZoneSpawns` with x, y and z multiplied by 8. -/
theorem newSpawnEntity_eq (ctx : RecvCtx) (name : List Nat) (r : SpawnFields) :
    newSpawnEntity ctx name r =
      { zoneSpawnsEntity ctx name r with
        x := 8 * (zoneSpawnsEntity ctx name r).x,
        y := 8 * (zoneSpawnsEntity ctx name r).y,
        z := 8 * (zoneSpawnsEntity ctx name r).z } := by
  unfold newSpawnEntity zoneSpawnsEntity
  simp only [Entity.mk.injEq, true_and, and_true]
  refine ⟨?_, ?_, ?_⟩ <;> ring

theorem exampleDescriptor_length (id : List Nat) (h : id.length = 4) (op : Nat) :
    Length (u16le op ++ exampleDescriptor id) = 387 := by
  simp only [Length, u16le, exampleDescriptor, List.length_append, List.length_replicate,
    List.length_cons, List.length_nil, h]

set_option maxRecDepth 20000 in
theorem exampleNewSpawn_reads :
    GetUInt32 exampleNewSpawn (2 + 340) = some 7 ∧
    GetUInt32 exampleNewSpawn (2 + 94) = some 8192 ∧
    GetCString exampleNewSpawn 9 = [97, 95, 114, 97, 116] := by decide

set_option maxRecDepth 20000 in
theorem exampleZoneSpawnsOne_reads :
    GetUInt32 exampleZoneSpawnsOne (2 + 340) = some 7 ∧
    GetUInt32 exampleZoneSpawnsOne (2 + 94) = some 8192 ∧
    GetCString exampleZoneSpawnsOne 9 = [97, 95, 114, 97, 116] := by decide

theorem signExtend19_8 : signExtend19 ((8192 >>> 10) &&& 0x7FFFF) = 8 := by decide

/-- What the two handlers store for the example descriptor with spawn id 7. -/
theorem exampleDescriptor_stored (ctx : RecvCtx) (s : EverQuest) :
    (∃ e, (ZoneProcessNewSpawn ctx s exampleNewSpawn).m_entities 7 = some e ∧ e.x = 8 ∧
      e.name = [97, 95, 114, 97, 116]) ∧
    (∃ e, (ZoneProcessZoneSpawns ctx s exampleZoneSpawnsOne).m_entities 7 = some e ∧
      e.x = 1 ∧ e.name = [97, 95, 114, 97, 116]) := by
  have hl1 : Length exampleNewSpawn = 387 := exampleDescriptor_length [7, 0, 0, 0] rfl _
  have hl2 : Length exampleZoneSpawnsOne = 387 := exampleDescriptor_length [7, 0, 0, 0] rfl _
  obtain ⟨r1, hr1, hid1, hf1, -, -⟩ := readSpawnFields_some exampleNewSpawn 2
    (by rw [hl1]; norm_num)
  obtain ⟨r2, hr2, hid2, hf2, -, -⟩ := readSpawnFields_some exampleZoneSpawnsOne 2
    (by rw [hl2]; norm_num)
  obtain ⟨g1, g2, n1⟩ := exampleNewSpawn_reads
  obtain ⟨g3, g4, n2⟩ := exampleZoneSpawnsOne_reads
  have i1 : r1.spawn_id = 7 := Option.some.inj (hid1.symm.trans g1)
  have i2 : r2.spawn_id = 7 := Option.some.inj (hid2.symm.trans g3)
  have f1 : r1.field1 = 8192 := Option.some.inj (hf1.symm.trans g2)
  have f2 : r2.field1 = 8192 := Option.some.inj (hf2.symm.trans g4)
  have a1 := (NewSpawn_cases ctx s exampleNewSpawn r1 (by rw [hl1]) hr1).1
    (by rw [i1]; decide) (by rw [n1]; decide)
  have a2 := (ZoneSpawns_cases ctx s exampleZoneSpawnsOne r2 hl2 hr2).1
    (by rw [i2]; decide) (by rw [n2]; decide)
  rw [i1] at a1
  rw [i2] at a2
  constructor
  · refine ⟨newSpawnEntity ctx (GetCString exampleNewSpawn 9) r1, ?_, ?_, n1⟩
    · rw [a1]
      simp [mapInsert]
    · show ((signExtend19 ((r1.field1 >>> 10) &&& 0x7FFFF) : ℤ) : ℚ) = 8
      rw [f1, signExtend19_8]
      norm_num
  · refine ⟨zoneSpawnsEntity ctx (GetCString exampleZoneSpawnsOne 9) r2, ?_, ?_, n2⟩
    · rw [a2]
      simp [mapInsert]
    · show ((signExtend19 ((r2.field1 >>> 10) &&& 0x7FFFF) : ℤ) : ℚ) / 8 = 1
      rw [f2, signExtend19_8]
      norm_num

/-- C36. The entity `ZoneProcessNewSpawn` builds from a descriptor is the one
`ZoneProcessZoneSpawns` builds from it except for the position: it stores the
signed 19-bit position fields as they are, eight times the x, y and z that
`ZoneProcessZoneSpawns` stores. For the example descriptor (a_rat, spawn id 7,
x field 8) NewSpawn stores x = 8 and ZoneSpawns stores x = 1. -/
theorem C36_new_spawn_stores_raw_position :
    (∀ ctx name r, newSpawnEntity ctx name r =
      { zoneSpawnsEntity ctx name r with
        x := 8 * (zoneSpawnsEntity ctx name r).x,
        y := 8 * (zoneSpawnsEntity ctx name r).y,
        z := 8 * (zoneSpawnsEntity ctx name r).z }) ∧
    exampleNewSpawn.drop 2 = exampleZoneSpawnsOne.drop 2 ∧
    Length exampleNewSpawn = 387 ∧
    (∃ e, (ZoneProcessNewSpawn exampleCtx (EverQuest.init [72, 99])
        exampleNewSpawn).m_entities 7 = some e ∧ e.x = 8 ∧ e.name = [97, 95, 114, 97, 116]) ∧
    (∃ e, (ZoneProcessZoneSpawns exampleCtx (EverQuest.init [72, 99])
        exampleZoneSpawnsOne).m_entities 7 = some e ∧ e.x = 1 ∧
      e.name = [97, 95, 114, 97, 116]) :=
  ⟨newSpawnEntity_eq, rfl, exampleDescriptor_length [7, 0, 0, 0] rfl _,
    (exampleDescriptor_stored exampleCtx (EverQuest.init [72, 99])).1,
    (exampleDescriptor_stored exampleCtx (EverQuest.init [72, 99])).2⟩

theorem readsUntilFail_inside (p : Packet) (reads : List (Nat × Nat))
    (h : ∀ r ∈ reads, r.1 + r.2 ≤ Length p) : readsUntilFail p reads = reads := by
  induction reads with
  | nil => rfl
  | cons r rs ih =>
    unfold readsUntilFail
    rw [if_pos (h r (List.mem_cons_self _ _)),
      ih (fun r2 hr2 => h r2 (List.mem_cons_of_mem _ hr2))]

theorem performedReads_inside (h : CheckedHandler) (p : Packet)
    (hin : ∀ r ∈ h.reads p, r.1 + r.2 ≤ Length p) :
    ReadsInside p (performedReads h p) := by
  unfold performedReads
  split
  · intro r hr
    cases hr
  · rw [readsUntilFail_inside p _ hin]
    exact hin

theorem performedReads_stamina (p : Packet) (hl : Length p = 10) :
    performedReads checkedStamina p = [(2, 2), (4, 4), (8, 4)] := by
  unfold performedReads
  have h1 : checkedStamina.min_length = 10 := rfl
  have h2 : checkedStamina.reads p = [(2, 2), (4, 4), (8, 4)] := rfl
  rw [h1, h2, if_neg (by omega)]
  unfold readsUntilFail
  rw [if_pos (by rw [hl]; norm_num)]
  unfold readsUntilFail
  rw [if_pos (by rw [hl]; norm_num)]
  unfold readsUntilFail
  rw [if_neg (by rw [hl]; norm_num)]

/-- C37. Of the zone handlers that start with a minimum-length check, all but
one read only inside a packet of exactly the minimum length: ClientUpdate
(24), DeleteSpawn (4), MobHealth (5), HPUpdate (12), ManaChange (8), Death
(10), BeginCast (10) and NewSpawn (387). `ZoneProcessStamina` accepts a
packet of 10 bytes and then reads the u32 at offset 8, which ends at byte 12:
on every 10-byte packet that read is performed and lies outside the packet,
and the getter fails. -/
theorem C37_stamina_reads_past_minimum_length :
    (∀ h ∈ checkedHandlers, h.opcode ≠ HC_OP_Stamina →
      ∀ p, Length p = h.min_length → ReadsInside p (performedReads h p)) ∧
    checkedStamina ∈ checkedHandlers ∧ checkedStamina.min_length = 10 ∧
    (∀ p, Length p = 10 →
      (8, 4) ∈ performedReads checkedStamina p ∧
      ¬ ReadsInside p (performedReads checkedStamina p) ∧
      GetUInt32 p 8 = none) ∧
    Length exampleStamina = 10 ∧ GetUInt16 exampleStamina 0 = some HC_OP_Stamina ∧
    GetUInt32 exampleStamina 8 = none := by
  refine ⟨?_, by simp [checkedHandlers], rfl, ?_, rfl, by decide, by decide⟩
  · intro h hh hne p hl
    apply performedReads_inside
    simp only [checkedHandlers, List.mem_cons, List.mem_singleton, List.not_mem_nil,
      or_false] at hh
    rcases hh with rfl | rfl | rfl | rfl | rfl | rfl | rfl | rfl | rfl
    · intro r hr
      simp only [checkedClientUpdate, List.mem_cons, List.mem_singleton, List.not_mem_nil,
        or_false] at hr hl
      rcases hr with rfl | rfl | rfl | rfl | rfl | rfl <;> simp only <;> omega
    · intro r hr
      simp only [checkedDeleteSpawn, List.mem_cons, List.mem_singleton, List.not_mem_nil,
        or_false] at hr hl
      rcases hr with rfl
      simp only
      omega
    · intro r hr
      simp only [checkedMobHealth, List.mem_cons, List.mem_singleton, List.not_mem_nil,
        or_false] at hr hl
      rcases hr with rfl | rfl <;> simp only <;> omega
    · intro r hr
      simp only [checkedHPUpdate, List.mem_cons, List.mem_singleton, List.not_mem_nil,
        or_false] at hr hl
      rcases hr with rfl | rfl | rfl <;> simp only <;> omega
    · intro r hr
      simp only [checkedManaChange, List.mem_cons, List.mem_singleton, List.not_mem_nil,
        or_false] at hr hl
      rcases hr with rfl | rfl | rfl <;> simp only <;> omega
    · intro r hr
      have hl2 : Length p = 10 := hl
      have hnot : ¬ Length p ≥ 12 := by omega
      simp only [checkedDeath, hnot, if_false, List.append_nil, List.mem_cons,
        List.mem_singleton, List.not_mem_nil, or_false] at hr
      rcases hr with rfl | rfl | rfl <;> simp only <;> omega
    · intro r hr
      simp only [checkedBeginCast, List.mem_cons, List.mem_singleton, List.not_mem_nil,
        or_false] at hr hl
      rcases hr with rfl | rfl | rfl <;> simp only <;> omega
    · exact absurd rfl hne
    · intro r hr
      simp only [checkedNewSpawn, List.mem_cons, List.mem_singleton, List.not_mem_nil,
        or_false] at hr hl
      rcases hr with rfl | rfl | rfl | rfl | rfl | rfl | rfl | rfl | rfl | rfl | rfl <;>
        simp only <;> omega
  · intro p hl
    rw [performedReads_stamina p hl]
    refine ⟨by simp, ?_, GetUInt32_none_of_lt p 8 (by omega)⟩
    intro hin
    have := hin (8, 4) (by simp)
    simp only at this
    omega

theorem wrap512_of_range (h : ℚ) (h0 : 0 ≤ h) (h1 : h < 512) : wrap512 h = h := by
  unfold wrap512
  have hf : ⌊h / 512⌋ = 0 := by
    rw [Int.floor_eq_iff]
    constructor
    · simp only [Int.cast_zero]
      positivity
    · simp only [Int.cast_zero, zero_add]
      rw [div_lt_one (by norm_num)]
      exact h1
  rw [hf]
  simp

/-- The heading that `turn d` leaves, for `d` in `[0, 360)`. -/
theorem turn_heading (s : EverQuest) (d : ℚ) (h0 : 0 ≤ d) (h1 : d < 360) :
    (ProcessCommand_turn s d).m_heading = d * 512 / 360 := by
  unfold ProcessCommand_turn
  simp only []
  rw [(SendPositionUpdate_position _).2.2.2.1]
  show wrap512 (d * 512 / 360) = _
  apply wrap512_of_range
  · positivity
  · rw [div_lt_iff₀ (by norm_num)]
    linarith

theorem exampleIdle_faces_east :
    (Face exampleMoveCtx exampleIdle (-1224.5) 2345.25 (-8)).eq.m_heading = 90 := by
  unfold Face
  simp only []
  rw [(SendPositionUpdate_position _).2.2.2.1]
  show CalculateHeading exampleMoveCtx (-1234.5) 2345.25 (-1224.5) 2345.25 = 90
  unfold CalculateHeading exampleMoveCtx
  norm_num

theorem headingScaled_128 : headingScaled 128 = 728 := by
  norm_num [headingScaled, truncToInt]
  decide

theorem headingScaled_90 : headingScaled 90 = 512 := by
  norm_num [headingScaled, truncToInt]
  decide

/-- C38. The command `turn d`, for `d` in `[0, 360)`, leaves the heading
`d * 512 / 360`, not `d`: `turn 90` leaves 128 where facing a point due East
leaves 90, and the heading field of the position update that `turn 90` sends
(u16 at packet offset 34) is 728 where the one sent after facing East is
512. -/
theorem C38_turn_uses_another_scale :
    (∀ s d, 0 ≤ d → d < 360 → (ProcessCommand_turn s d).m_heading = d * 512 / 360) ∧
    (ProcessCommand_turn exampleZonedIn 90).m_heading = 128 ∧
    (Face exampleMoveCtx exampleIdle (-1224.5) 2345.25 (-8)).eq.m_heading = 90 ∧
    ((ProcessCommand_turn exampleZonedIn 90).zone_queue.drop
      exampleZonedIn.zone_queue.length).map (fun q => GetUInt16 q.data 34) = [some 728] ∧
    ((Face exampleMoveCtx exampleIdle (-1224.5) 2345.25 (-8)).eq.zone_queue.drop
      exampleIdle.eq.zone_queue.length).map (fun q => GetUInt16 q.data 34) = [some 512] := by
  have ht : (ProcessCommand_turn exampleZonedIn 90).m_heading = 128 := by
    rw [turn_heading exampleZonedIn 90 (by norm_num) (by norm_num)]
    norm_num
  have hw : wrap512 ((90 : ℚ) * 512 / 360) = 128 := by
    rw [wrap512_of_range _ (by norm_num) (by norm_num)]
    norm_num
  refine ⟨turn_heading, ht, exampleIdle_faces_east, ?_, ?_⟩
  · obtain ⟨q, hq, -, h34⟩ := SendPositionUpdate_field
      { exampleZonedIn with m_heading := wrap512 ((90 : ℚ) * 512 / 360) } rfl (by decide)
    have hq2 : (ProcessCommand_turn exampleZonedIn 90).zone_queue =
        exampleZonedIn.zone_queue ++ [q] := hq
    rw [hq2, List.drop_left]
    have h34b : GetUInt16 q.data 34 = some (headingScaled (wrap512 ((90 : ℚ) * 512 / 360))) :=
      h34
    rw [hw, headingScaled_128] at h34b
    simp [h34b]
  · obtain ⟨q, hq, -, h34⟩ := SendPositionUpdate_field
      { exampleIdle.eq with
        m_heading := CalculateHeading exampleMoveCtx exampleIdle.eq.m_x exampleIdle.eq.m_y
          (-1224.5) 2345.25 } rfl (by decide)
    have hq2 : (Face exampleMoveCtx exampleIdle (-1224.5) 2345.25 (-8)).eq.zone_queue =
        exampleIdle.eq.zone_queue ++ [q] := hq
    rw [hq2, List.drop_left]
    have hh : CalculateHeading exampleMoveCtx exampleIdle.eq.m_x exampleIdle.eq.m_y
        (-1224.5) 2345.25 = 90 := by
      show CalculateHeading exampleMoveCtx (-1234.5) 2345.25 (-1224.5) 2345.25 = 90
      unfold CalculateHeading exampleMoveCtx
      norm_num
    have h34b : GetUInt16 q.data 34 = some (headingScaled
        (CalculateHeading exampleMoveCtx exampleIdle.eq.m_x exampleIdle.eq.m_y
          (-1224.5) 2345.25)) := h34
    rw [hh, headingScaled_90] at h34b
    simp [h34b]

theorem animAndDeltaHeading_bits (m : Bool) :
    animAndDeltaHeading m % 1024 = (if m then 27 else 0) ∧
    animAndDeltaHeading m / 1024 % 1024 = 0 ∧
    animAndDeltaHeading m / 2 ^ 20 % 2 = 1 := by
  rw [animAndDeltaHeading_eq]
  cases m <;> decide

theorem advance_is_moving (ctx : MoveCtx) (c : Client) (dx dy dz distance : ℚ) :
    (advance ctx c dx dy dz distance).eq.m_is_moving = c.eq.m_is_moving := rfl

/-- C40. In every position update that `SendPositionUpdate` queues, the word
at packet offset 22 has 27 (run) in its animation bits 0 to 9 when
`m_is_moving` is set and 0 (stand) otherwise, zero in its delta-heading bits
10 to 19, and bit 20 set; the packet does not depend on `m_animation`, the
walk or run animation that the tick computes from the speed. -/
theorem C40_animation_word (s : EverQuest) (a : Nat) (hz : IsFullyZonedIn s = true)
    (hid : s.m_my_character_id ≠ 0) :
    ∃ q w, (SendPositionUpdate s).zone_queue = s.zone_queue ++ [q] ∧
      GetUInt32 q.data 22 = some w ∧
      w % 1024 = (if s.m_is_moving then 27 else 0) ∧
      w / 1024 % 1024 = 0 ∧ w / 2 ^ 20 % 2 = 1 ∧
      (SendPositionUpdate { s with m_animation := a }).zone_queue =
        (SendPositionUpdate s).zone_queue := by
  obtain ⟨b1, b2, b3⟩ := animAndDeltaHeading_bits s.m_is_moving
  have hanim : animAndDeltaHeading s.m_is_moving < 2 ^ 32 := by
    rw [animAndDeltaHeading_eq]; split_ifs <;> norm_num
  have hf := positionUpdate_fields s.m_my_character_id ((s.m_movement_sequence + 1) % 2 ^ 32)
    s.m_x s.m_y s.m_z _ _ hanim (headingScaled_lt s.m_heading)
  have hq := congrArg EverQuest.zone_queue (SendPositionUpdate_queues s hz hid)
  refine ⟨_, _, hq, hf.2.2.2.2.2.2.2.1, b1, b2, b3, ?_⟩
  rw [SendPositionUpdate_queues s hz hid,
    SendPositionUpdate_queues { s with m_animation := a } hz hid]

theorem exampleStroller_walks :
    (advance exampleMoveCtx exampleStroller 100 0 0 100).eq.m_animation = ANIM_WALK := by
  have hdt : deltaTime exampleMoveCtx exampleStroller = 1 / 20 := by
    unfold deltaTime
    have h1 : exampleStroller.mv.last_move_times = some 4950 := rfl
    have h2 : exampleMoveCtx.now = 5000 := rfl
    simp only [h1, h2]
    norm_num
  have hsp : currentSpeed exampleStroller 100 = 30 := rfl
  have hst : moveStep exampleMoveCtx exampleStroller 100 = 3 / 2 := by
    unfold moveStep
    rw [hsp, hdt]
    norm_num
  show (if deltaTime exampleMoveCtx exampleStroller ≠ 0 ∧
      moveStep exampleMoveCtx exampleStroller 100 / deltaTime exampleMoveCtx exampleStroller <
        WALK_SPEED_THRESHOLD then ANIM_WALK else ANIM_RUN) = ANIM_WALK
  rw [hdt, hst]
  unfold WALK_SPEED_THRESHOLD
  norm_num

theorem C40_animation_word_witness :
    IsFullyZonedIn (advance exampleMoveCtx exampleStroller 100 0 0 100).eq = true ∧
    (advance exampleMoveCtx exampleStroller 100 0 0 100).eq.m_my_character_id ≠ 0 ∧
    exampleStroller.mv.m_move_speed = 30 ∧
    (advance exampleMoveCtx exampleStroller 100 0 0 100).eq.m_animation = ANIM_WALK ∧
    (advance exampleMoveCtx exampleStroller 100 0 0 100).eq.m_is_moving = true ∧
    ∃ q w, (SendPositionUpdate (advance exampleMoveCtx exampleStroller 100 0 0 100).eq).zone_queue =
        (advance exampleMoveCtx exampleStroller 100 0 0 100).eq.zone_queue ++ [q] ∧
      GetUInt32 q.data 22 = some w ∧
      w % 1024 = (if (advance exampleMoveCtx exampleStroller 100 0 0 100).eq.m_is_moving
        then 27 else 0) ∧
      w / 1024 % 1024 = 0 ∧ w / 2 ^ 20 % 2 = 1 ∧
      (SendPositionUpdate { (advance exampleMoveCtx exampleStroller 100 0 0 100).eq with
          m_animation := ANIM_RUN }).zone_queue =
        (SendPositionUpdate (advance exampleMoveCtx exampleStroller 100 0 0 100).eq).zone_queue :=
  ⟨rfl, by show (42 : Nat) ≠ 0; decide, rfl, exampleStroller_walks, rfl,
    C40_animation_word (advance exampleMoveCtx exampleStroller 100 0 0 100).eq ANIM_RUN rfl
      (by show (42 : Nat) ≠ 0; decide)⟩

end HC
